import Mathlib

/-!
# TDX host-side control plane: `target/i386/kvm/tdx.c` and `migration/cgs.c`

A shallow embedding of the two C files.

Machine integers are natural numbers or integers; where the C code can
overflow, truncates or complements a word, the width is made explicit
(`add64`, `% 2 ^ 32`, `not32`).  Globals of the C files (`tdx_cpuid_lookup`,
`tdx_caps`, `tdx_guest`, `cgs_mig`, ...) are passed explicitly, and a C function
that updates them returns the new value.  Function pointers are named by
numbers, the code behind them being a parameter, or are functions themselves.

Tables, constants and type layouts that are declared outside these files
(`feature_word_info`, the `R_*` register codes, the `CPUID_*` bit names, the
layout of `TdxVmServiceDataHead`) are parameters of the definitions that use
them.  The functions of other subsystems that the code calls (guest memory
access, the socket channel, the KVM calls, the migration stream) are modelled
next to their callers or are parameters as well.

The definitions come first, component by component; the theorems follow.
-/

namespace Tdx

/-! ## 32-bit words -/

/-- Bitwise complement of a `uint32_t` (the C operator `~` on a 32-bit word). -/
def not32 (x : Nat) : Nat := 0xFFFFFFFF ^^^ (x &&& 0xFFFFFFFF)

/-! ## FeatureReconciler: `tdx_get_supported_cpuid` -/

/-- The `type` tag of a `FeatureWordInfo`. -/
inductive FeatureWordType where
  | CPUID_FEATURE_WORD
  | MSR_FEATURE_WORD
deriving DecidableEq, Repr

/-- The `cpuid` member of a `FeatureWordInfo`: leaf, optional sub-leaf, register. -/
structure FeatureWordCpuid where
  eax : Nat
  needs_ecx : Bool
  ecx : Nat
  reg : Int
deriving DecidableEq, Repr

/-- One entry of `feature_word_info[]` (only the fields `tdx.c` reads). -/
structure FeatureWordInfo where
  type : FeatureWordType
  cpuid : FeatureWordCpuid
deriving DecidableEq, Repr

/-- A `FeatureWord` is an index into `feature_word_info[]`. -/
abbrev FeatureWord := Nat

/-- The C struct `KvmTdxCpuidLookup`. -/
structure KvmTdxCpuidLookup where
  tdx_fixed0 : Nat := 0
  tdx_fixed1 : Nat := 0
  vmm_fixup : Nat := 0
  inducing_ve : Bool := false
  supported_on_ve : Nat := 0
deriving DecidableEq, Repr

/-- The C struct `kvm_tdx_cpuid_config`. -/
structure KvmTdxCpuidConfig where
  leaf : Nat
  sub_leaf : Nat
  eax : Nat
  ebx : Nat
  ecx : Nat
  edx : Nat
deriving DecidableEq, Repr

/-- The C struct `kvm_tdx_capabilities`; `nr_cpuid_configs` is the length of
`cpuid_configs`. -/
structure KvmTdxCapabilities where
  attrs_fixed0 : Nat
  attrs_fixed1 : Nat
  xfam_fixed0 : Nat
  xfam_fixed1 : Nat
  cpuid_configs : List KvmTdxCpuidConfig
deriving DecidableEq, Repr

/-- Constants of `cpu.h` that `tdx_get_supported_cpuid` and its helpers name:
the register codes and the feature bits of the hard-coded corrections; and the
feature bit that `setup_td_guest_attributes` tests. -/
structure CpuDefs where
  R_EAX : Int
  R_EBX : Int
  R_ECX : Int
  R_EDX : Int
  CPUID_7_0_EBX_RTM : Nat
  CPUID_7_0_EBX_HLE : Nat
  CPUID_EXT_MONITOR : Nat
  CPUID_HT : Nat
  CPUID_7_0_ECX_PKS : Nat
deriving DecidableEq, Repr

/-- The values the constants have in QEMU (`target/i386/cpu.h`). -/
def qemuCpuDefs : CpuDefs where
  R_EAX := 0
  R_ECX := 1
  R_EDX := 2
  R_EBX := 3
  CPUID_7_0_EBX_HLE := 2 ^ 4
  CPUID_7_0_EBX_RTM := 2 ^ 11
  CPUID_EXT_MONITOR := 2 ^ 3
  CPUID_HT := 2 ^ 28
  CPUID_7_0_ECX_PKS := 2 ^ 31

/-- The four registers `host_cpuid` fills in. -/
structure CpuidRegs where
  eax : Nat
  ebx : Nat
  ecx : Nat
  edx : Nat
deriving DecidableEq, Repr

/-- Everything `tdx_get_supported_cpuid` reads besides its arguments: the
feature-word table, the lookup table, the cached capabilities, the host CPUID
instruction and the two host switches. -/
structure CpuidEnv where
  feature_word_info : List FeatureWordInfo
  tdx_cpuid_lookup : FeatureWord → KvmTdxCpuidLookup
  tdx_caps : KvmTdxCapabilities
  host_cpuid : Nat → Nat → CpuidRegs
  host_tsx_broken : Bool
  enable_cpu_pm : Bool

/-- The enumerator `FEATURE_WORDS`: the number of feature words. -/
def CpuidEnv.FEATURE_WORDS (E : CpuidEnv) : Nat := E.feature_word_info.length

/-- The C function `host_cpuid_reg`. -/
def host_cpuid_reg (K : CpuDefs) (host_cpuid : Nat → Nat → CpuidRegs)
    (function index : Nat) (reg : Int) : Nat :=
  let r := host_cpuid function index
  let ret := 0
  if reg = K.R_EAX then ret ||| r.eax
  else if reg = K.R_EBX then ret ||| r.ebx
  else if reg = K.R_ECX then ret ||| r.ecx
  else if reg = K.R_EDX then ret ||| r.edx
  else ret

/-- The loop of `tdx_cap_cpuid_config` over the remaining configs, `ret` being
the value found so far. -/
def tdx_cap_cpuid_config_loop (K : CpuDefs) (function index : Nat) (reg : Int) :
    List KvmTdxCpuidConfig → Nat → Nat
  | [], ret => ret
  | c :: cs, ret =>
    if c.leaf = function ∧ (c.sub_leaf = 0xffffffff ∨ c.sub_leaf = index) then
      if reg = K.R_EAX then tdx_cap_cpuid_config_loop K function index reg cs c.eax
      else if reg = K.R_EBX then tdx_cap_cpuid_config_loop K function index reg cs c.ebx
      else if reg = K.R_ECX then tdx_cap_cpuid_config_loop K function index reg cs c.ecx
      else if reg = K.R_EDX then tdx_cap_cpuid_config_loop K function index reg cs c.edx
      else 0
    else tdx_cap_cpuid_config_loop K function index reg cs ret

/-- The C function `tdx_cap_cpuid_config`. -/
def tdx_cap_cpuid_config (K : CpuDefs) (tdx_caps : KvmTdxCapabilities)
    (function index : Nat) (reg : Int) : Nat :=
  if tdx_caps.cpuid_configs.length ≤ 0 then 0
  else tdx_cap_cpuid_config_loop K function index reg tdx_caps.cpuid_configs 0

/-- The loop of `get_cpuid_featureword_index` from word `w` on, over the rest
of `feature_word_info[]`. -/
def get_cpuid_featureword_index_loop (function index : Nat) (reg : Int) :
    List FeatureWordInfo → FeatureWord → FeatureWord
  | [], w => w
  | f :: fs, w =>
    if f.type = FeatureWordType.MSR_FEATURE_WORD ∨ f.cpuid.eax ≠ function ∨
        f.cpuid.reg ≠ reg ∨ (f.cpuid.needs_ecx = true ∧ f.cpuid.ecx ≠ index) then
      get_cpuid_featureword_index_loop function index reg fs (w + 1)
    else w

/-- The C function `get_cpuid_featureword_index`: the first matching word, or
`FEATURE_WORDS`. -/
def get_cpuid_featureword_index (feature_word_info : List FeatureWordInfo)
    (function index : Nat) (reg : Int) : FeatureWord :=
  get_cpuid_featureword_index_loop function index reg feature_word_info 0

/-- The macro `KVM_TSX_CPUID`. -/
def KVM_TSX_CPUID (K : CpuDefs) : Nat := K.CPUID_7_0_EBX_RTM ||| K.CPUID_7_0_EBX_HLE

/-- The value of `*ret` in `tdx_get_supported_cpuid` after the fixed0/fixed1,
configurable and vmm-fixup adjustments, before the hard-coded corrections. -/
def tdx_get_supported_cpuid_adjusted (K : CpuDefs) (E : CpuidEnv)
    (function index : Nat) (reg : Int) (w : FeatureWord) (vmm_cap : Nat) : Nat :=
  let ret := vmm_cap
  let ret := ret ||| host_cpuid_reg K E.host_cpuid function index reg
  let ret := ret ||| (E.tdx_cpuid_lookup w).tdx_fixed1
  let ret := ret &&& not32 (E.tdx_cpuid_lookup w).tdx_fixed0
  let ret := ret ||| tdx_cap_cpuid_config K E.tdx_caps function index reg
  ret &&& not32 (not32 vmm_cap &&& (E.tdx_cpuid_lookup w).vmm_fixup)

/-- The three hard-coded corrections that end `tdx_get_supported_cpuid`. -/
def tdx_get_supported_cpuid_corrections (K : CpuDefs) (E : CpuidEnv)
    (function index : Nat) (reg : Int) (ret : Nat) : Nat :=
  let ret := if function = 7 ∧ index = 0 ∧ reg = K.R_EBX ∧ E.host_tsx_broken = true
    then ret &&& not32 (KVM_TSX_CPUID K) else ret
  let ret := if function = 1 ∧ reg = K.R_ECX ∧ E.enable_cpu_pm = false
    then ret &&& not32 K.CPUID_EXT_MONITOR else ret
  if function = 1 ∧ reg = K.R_EDX then ret &&& not32 K.CPUID_HT else ret

/-- The C function `tdx_get_supported_cpuid`; the argument `ret` is the value
`*ret` holds on entry and the result is the value it holds on return. -/
def tdx_get_supported_cpuid (K : CpuDefs) (E : CpuidEnv)
    (function index : Nat) (reg : Int) (ret : Nat) : Nat :=
  let vmm_cap := ret
  let w := get_cpuid_featureword_index E.feature_word_info function index reg
  if w = E.FEATURE_WORDS then ret
  else if (E.tdx_cpuid_lookup w).inducing_ve = true then
    ret &&& (E.tdx_cpuid_lookup w).supported_on_ve
  else
    tdx_get_supported_cpuid_corrections K E function index reg
      (tdx_get_supported_cpuid_adjusted K E function index reg w vmm_cap)

/-- The bits the hard-coded corrections of `tdx_get_supported_cpuid` clear for
the leaf `(function, index, reg)`: `KVM_TSX_CPUID` for leaf 7.0 EBX on a host
with broken TSX, `CPUID_EXT_MONITOR` for leaf 1 ECX without `enable_cpu_pm`,
`CPUID_HT` for leaf 1 EDX. -/
def corrections_mask (K : CpuDefs) (E : CpuidEnv) (function index : Nat) (reg : Int) : Nat :=
  (if function = 7 ∧ index = 0 ∧ reg = K.R_EBX ∧ E.host_tsx_broken = true
    then KVM_TSX_CPUID K else 0) |||
  (if function = 1 ∧ reg = K.R_ECX ∧ E.enable_cpu_pm = false
    then K.CPUID_EXT_MONITOR else 0) |||
  (if function = 1 ∧ reg = K.R_EDX then K.CPUID_HT else 0)

/-! ### A concrete environment

Four feature words with the leaves QEMU gives them, and the entries that the
initialiser of `tdx_cpuid_lookup` gives `FEAT_7_0_EBX` and `FEAT_KVM`, the bit
names replaced by their values. -/

/-- Four entries of a feature-word table: leaf 1 EDX, leaf 1 ECX, leaf 7.0 EBX
and the KVM feature leaf (EAX). -/
def sample_feature_word_info : List FeatureWordInfo :=
  [ ⟨FeatureWordType.CPUID_FEATURE_WORD, ⟨1, false, 0, 2⟩⟩,
    ⟨FeatureWordType.CPUID_FEATURE_WORD, ⟨1, false, 0, 1⟩⟩,
    ⟨FeatureWordType.CPUID_FEATURE_WORD, ⟨7, true, 0, 3⟩⟩,
    ⟨FeatureWordType.CPUID_FEATURE_WORD, ⟨0x40000001, false, 0, 0⟩⟩ ]

/-- The initialiser of `tdx_cpuid_lookup[FEAT_7_0_EBX]`: fixed0 is
TSC_ADJUST, SGX, MPX; fixed1 is FSGSBASE, HLE, RTM, RDSEED, SMAP, CLFLUSHOPT,
CLWB, SHA_NI; vmm_fixup is PQM, RDT_A. -/
def lookup_7_0_EBX : KvmTdxCpuidLookup where
  tdx_fixed0 := 2 ^ 1 ||| 2 ^ 2 ||| 2 ^ 14
  tdx_fixed1 := 2 ^ 0 ||| 2 ^ 4 ||| 2 ^ 11 ||| 2 ^ 18 ||| 2 ^ 20 ||| 2 ^ 23 ||| 2 ^ 24 ||| 2 ^ 29
  vmm_fixup := 2 ^ 12 ||| 2 ^ 15

/-- The initialiser of `tdx_cpuid_lookup[FEAT_KVM]`, with the value of
`TDX_SUPPORTED_KVM_FEATURES` (bits 1, 7, 9, 11, 12, 13, 15). -/
def lookup_KVM : KvmTdxCpuidLookup where
  inducing_ve := true
  supported_on_ve := 2 ^ 1 ||| 2 ^ 7 ||| 2 ^ 9 ||| 2 ^ 11 ||| 2 ^ 12 ||| 2 ^ 13 ||| 2 ^ 15

/-- A lookup table over `sample_feature_word_info`. -/
def sample_lookup : FeatureWord → KvmTdxCpuidLookup
  | 2 => lookup_7_0_EBX
  | 3 => lookup_KVM
  | _ => {}

/-- A host whose CPUID reports no feature bit at all. -/
def host_cpuid_zero : Nat → Nat → CpuidRegs := fun _ _ => ⟨0, 0, 0, 0⟩

/-- The sample tables on a host with working TSX, no configurable CPUID bits. -/
def sample_env : CpuidEnv where
  feature_word_info := sample_feature_word_info
  tdx_cpuid_lookup := sample_lookup
  tdx_caps := ⟨0, 0, 0, 0, []⟩
  host_cpuid := host_cpuid_zero
  host_tsx_broken := false
  enable_cpu_pm := true

/-- The sample tables with a capability descriptor that reports MPX (bit 14 of
leaf 7.0 EBX, a fixed0 bit of the lookup entry) as configurable. -/
def sample_env_config_mpx : CpuidEnv where
  feature_word_info := sample_feature_word_info
  tdx_cpuid_lookup := sample_lookup
  tdx_caps := ⟨0, 0, 0, 0, [⟨7, 0, 0, 2 ^ 14, 0, 0⟩]⟩
  host_cpuid := host_cpuid_zero
  host_tsx_broken := false
  enable_cpu_pm := true

/-- The sample tables on a host whose TSX is broken. -/
def sample_env_tsx_broken : CpuidEnv where
  feature_word_info := sample_feature_word_info
  tdx_cpuid_lookup := sample_lookup
  tdx_caps := ⟨0, 0, 0, 0, []⟩
  host_cpuid := host_cpuid_zero
  host_tsx_broken := true
  enable_cpu_pm := true

/-! ## RAM regions: `tdx_find_ram_range`, `tdx_accept_ram_range` -/

/-- Sum of two `uint64_t` values as C computes it. -/
def add64 (a b : Nat) : Nat := (a + b) % 2 ^ 64

/-- Difference of two `uint64_t` values as C computes it. -/
def sub64 (a b : Nat) : Nat := (a + (2 ^ 64 - b % 2 ^ 64)) % 2 ^ 64

/-- The errno value `EINVAL`. -/
def EINVAL : Int := 22

/-- The state of a RAM entry: `TDX_RAM_UNACCEPTED` or `TDX_RAM_ADDED`. -/
inductive TdxRamType where
  | TDX_RAM_UNACCEPTED
  | TDX_RAM_ADDED
deriving DecidableEq, Repr

/-- The C struct `TdxRamEntry`. -/
structure TdxRamEntry where
  address : Nat
  length : Nat
  type : TdxRamType
deriving DecidableEq, Repr

/-- The C function `tdx_add_ram_entry` on the array `tdx_guest->ram_entries`
(of `nr_ram_entries` entries): the new entry goes to the end. -/
def tdx_add_ram_entry (ram_entries : List TdxRamEntry) (address length : Nat)
    (type : TdxRamType) : List TdxRamEntry :=
  ram_entries ++ [⟨address, length, type⟩]

/-- The loop of `tdx_find_ram_range` from index `i` on, over the rest of the
array: `none` is the `NULL` result, `some (i, e)` the pointer to the entry `e`
at index `i`. -/
def tdx_find_ram_range_loop (address length : Nat) :
    List TdxRamEntry → Nat → Option (Nat × TdxRamEntry)
  | [], _ => none
  | e :: es, i =>
    if add64 address length ≤ e.address ∨ add64 e.address e.length ≤ address then
      tdx_find_ram_range_loop address length es (i + 1)
    else if e.address > address ∨ add64 e.address e.length < add64 address length then
      none
    else if e.type = TdxRamType.TDX_RAM_ADDED then
      none
    else
      some (i, e)

/-- The C function `tdx_find_ram_range`: the entry it returns, with its index
in `tdx_guest->ram_entries`. -/
def tdx_find_ram_range (ram_entries : List TdxRamEntry) (address length : Nat) :
    Option (Nat × TdxRamEntry) :=
  tdx_find_ram_range_loop address length ram_entries 0

/-- The C function `tdx_accept_ram_range`: the return value and the array
`tdx_guest->ram_entries` afterwards. -/
def tdx_accept_ram_range (ram_entries : List TdxRamEntry) (address length : Nat) :
    Int × List TdxRamEntry :=
  match tdx_find_ram_range ram_entries address length with
  | none => (-EINVAL, ram_entries)
  | some (i, e) =>
    let tmp_address := e.address
    let tmp_length := e.length
    let ram_entries := ram_entries.set i ⟨address, length, TdxRamType.TDX_RAM_ADDED⟩
    let head_length := sub64 address tmp_address
    let ram_entries :=
      if head_length > 0 then
        tdx_add_ram_entry ram_entries tmp_address head_length TdxRamType.TDX_RAM_UNACCEPTED
      else ram_entries
    let tail_start := add64 address length
    let ram_entries :=
      if tail_start < add64 tmp_address tmp_length then
        tdx_add_ram_entry ram_entries tail_start
          (sub64 (add64 tmp_address tmp_length) tail_start) TdxRamType.TDX_RAM_UNACCEPTED
      else ram_entries
    (0, ram_entries)

/-- The address `x` lies in the range `[e.address, e.address + e.length)` of a
RAM entry. -/
def TdxRamEntry.covers (e : TdxRamEntry) (x : Nat) : Prop :=
  e.address ≤ x ∧ x < e.address + e.length

/-- The range `[address, address + length)` overlaps the range of the entry:
neither range ends at or before the start of the other, the two ends being the
64-bit sums `address + length` and `e.address + e.length` of the code. -/
def TdxRamEntry.overlaps (e : TdxRamEntry) (address length : Nat) : Prop :=
  ¬ (add64 address length ≤ e.address ∨ add64 e.address e.length ≤ address)

/-- The range `[address, address + length)` lies inside the range of the entry. -/
def TdxRamEntry.contains (e : TdxRamEntry) (address length : Nat) : Prop :=
  e.address ≤ address ∧ address + length ≤ e.address + e.length

instance (e : TdxRamEntry) (x : Nat) : Decidable (e.covers x) := by
  unfold TdxRamEntry.covers; infer_instance

instance (e : TdxRamEntry) (a l : Nat) : Decidable (e.overlaps a l) := by
  unfold TdxRamEntry.overlaps; infer_instance

instance (e : TdxRamEntry) (a l : Nat) : Decidable (e.contains a l) := by
  unfold TdxRamEntry.contains; infer_instance

/-! ## Guest memory

`address_space_read` and `address_space_write` on `address_space_memory`
belong to the memory subsystem, outside this file.  They are modelled on a byte
map: an access succeeds (`MEMTX_OK`) when every byte of the range is mapped
(and, for a write, writable); a write stores the bytes that can be stored. -/

/-- Guest-physical memory: the byte mapped at an address, if any, and whether
the address refuses writes. -/
structure AddressSpace where
  byte : Nat → Option Nat
  readonly : Nat → Bool

/-- The address is mapped and takes writes. -/
def AddressSpace.writable (as : AddressSpace) (addr : Nat) : Bool :=
  (as.byte addr).isSome && !as.readonly addr

/-- Modelled from the spec: the region-address read of the memory subsystem
(`address_space_read`, outside the sources).  The `len` bytes at `addr`, or
`none` when the result is not `MEMTX_OK`. -/
def address_space_read (as : AddressSpace) (addr : Nat) : Nat → Option (List Nat)
  | 0 => some []
  | len + 1 =>
    match as.byte addr, address_space_read as (addr + 1) len with
    | some b, some bs => some (b :: bs)
    | _, _ => none

/-- Modelled from the spec: the region-address write of the memory subsystem
(`address_space_write`, outside the sources).  Whether the result is
`MEMTX_OK`, and the memory afterwards. -/
def address_space_write (as : AddressSpace) (addr : Nat) (buf : List Nat) :
    Bool × AddressSpace :=
  ((List.range buf.length).all (fun i => as.writable (addr + i)),
   { as with
     byte := fun a =>
       if addr ≤ a ∧ a < addr + buf.length ∧ as.writable a = true
       then some (buf.getD (a - addr) 0) else as.byte a })

/-- The `n` little-endian bytes of a value. -/
def le_bytes : Nat → Nat → List Nat
  | 0, _ => []
  | n + 1, v => v % 256 :: le_bytes n (v / 256)

/-- The value of a little-endian byte string. -/
def le_value : List Nat → Nat
  | [] => 0
  | b :: bs => b + 256 * le_value bs

/-! ## QuoteRelay -/

/-- The status `TDG_VP_VMCALL_SUCCESS`. -/
def TDG_VP_VMCALL_SUCCESS : Nat := 0x0000000000000000

/-- The status `TDG_VP_VMCALL_RETRY`. -/
def TDG_VP_VMCALL_RETRY : Nat := 0x0000000000000001

/-- The status `TDG_VP_VMCALL_INVALID_OPERAND`. -/
def TDG_VP_VMCALL_INVALID_OPERAND : Nat := 0x8000000000000000

/-- The status `TDG_VP_VMCALL_ALIGN_ERROR`. -/
def TDG_VP_VMCALL_ALIGN_ERROR : Nat := 0x8000000000000002

/-- The constant `TDX_GET_QUOTE_STRUCTURE_VERSION`. -/
def TDX_GET_QUOTE_STRUCTURE_VERSION : Nat := 1

/-- The code `TDX_VP_GET_QUOTE_SUCCESS`. -/
def TDX_VP_GET_QUOTE_SUCCESS : Nat := 0

/-- The code `TDX_VP_GET_QUOTE_IN_FLIGHT`, `-1ULL`. -/
def TDX_VP_GET_QUOTE_IN_FLIGHT : Nat := 2 ^ 64 - 1

/-- The code `TDX_VP_GET_QUOTE_ERROR`. -/
def TDX_VP_GET_QUOTE_ERROR : Nat := 0x8000000000000000

/-- The code `TDX_VP_GET_QUOTE_QGS_UNAVAILABLE`. -/
def TDX_VP_GET_QUOTE_QGS_UNAVAILABLE : Nat := 0x8000000000000001

/-- The limit `TDX_GET_QUOTE_MAX_BUF_LEN`. -/
def TDX_GET_QUOTE_MAX_BUF_LEN : Nat := 128 * 1024

/-- The limit `TDX_MAX_GET_QUOTE_REQUEST`. -/
def TDX_MAX_GET_QUOTE_REQUEST : Int := 16

/-- The constant `UNASSIGNED_INTERRUPT_VECTOR`. -/
def UNASSIGNED_INTERRUPT_VECTOR : Nat := 0

/-- The C struct `tdx_get_quote_header`; the fields hold the values that the
guest page stores in little endian. -/
structure tdx_get_quote_header where
  structure_version : Nat
  error_code : Nat
  in_len : Nat
  out_len : Nat
deriving DecidableEq, Repr

/-- The size of `struct tdx_get_quote_header`: 8 + 8 + 4 + 4 bytes. -/
def sizeof_tdx_get_quote_header : Nat := 24

/-- The bytes of a header as it lies in guest memory. -/
def tdx_get_quote_header.bytes (h : tdx_get_quote_header) : List Nat :=
  le_bytes 8 h.structure_version ++ le_bytes 8 h.error_code ++
    le_bytes 4 h.in_len ++ le_bytes 4 h.out_len

/-- The header that a 24-byte string read from guest memory holds. -/
def tdx_get_quote_header.ofBytes (bs : List Nat) : tdx_get_quote_header where
  structure_version := le_value (bs.take 8)
  error_code := le_value ((bs.drop 8).take 8)
  in_len := le_value ((bs.drop 16).take 4)
  out_len := le_value ((bs.drop 20).take 4)

/-- The C struct `tdx_get_quote_task`.  `ioc` names the channel object the task
owns, which also tells tasks apart; `out_data` is the receive buffer of
`buf_len` bytes; the `QEMUTimer` is represented by `timer_armed`. -/
structure tdx_get_quote_task where
  gpa : Nat
  buf_len : Nat
  apic_id : Nat
  event_notify_interrupt : Nat
  out_data : List Nat
  out_len : Nat
  hdr : tdx_get_quote_header
  ioc : Nat
  timer_armed : Bool
deriving DecidableEq, Repr

/-- A `QemuUUID`: its 16 bytes. -/
abbrev QemuUUID := List Nat

/-- The C function `qemu_uuid_is_equal`. -/
def qemu_uuid_is_equal (a b : QemuUUID) : Bool := a == b

/-- The C struct `TdxVmcallServiceType`, an entry of the dispatch table: the
GUID served (`from`), the callback by name (`to`, `none` for `NULL`), its
context pointer and the size of the items it needs. -/
structure TdxVmcallServiceType where
  from_ : QemuUUID
  to_ : Option Nat
  opaque_ : Nat := 0
  vsi_size : Int := 0
deriving DecidableEq, Repr

/-- The C struct `TdxVmcallService`; `dispatch_table_count` is the length of
`dispatch_table`. -/
structure TdxVmcallService where
  dispatch_table : List TdxVmcallServiceType := []
deriving DecidableEq, Repr

/-- The C struct `TdxGetQuoteState` (`struct tdx_get_quote_state`): what the
migration stream carries of a quote task in flight. -/
structure TdxGetQuoteState where
  gpa : Nat := 0
  buf_len : Nat := 0
  apic_id : Nat := 0
  event_notify_interrupt : Nat := 0
deriving DecidableEq, Repr

/-- The fields of `TdxGuest` that the initialisation, quote, notification,
service and save paths use.  `quote_generation` is the parsed endpoint (`none`
for `NULL`), `migtd_hash` the hash as the 64-bit words that
`tdx_guest_need_prebinding` looks at, and `get_quote_state` the array that the
pointer of that name owns (`[]` for `NULL`). -/
structure TdxGuest where
  initialized : Bool := false
  attributes : Nat := 0
  mrconfigid : List Nat := []
  mrowner : List Nat := []
  mrownerconfig : List Nat := []
  migtd_hash : List Nat := []
  migtd_pid : Nat := 0
  apic_id : Nat := 0
  event_notify_interrupt : Nat := 0
  quote_generation : Option String := none
  quote_generation_num : Int := 0
  get_quote_task_list : List tdx_get_quote_task := []
  vmcall_service : TdxVmcallService := {}
  get_quote_state : List TdxGetQuoteState := []
deriving DecidableEq, Repr

/-- What the guest-call handlers act on: guest memory, the `TdxGuest` object,
and the interrupts injected so far by `KVM_SIGNAL_MSI` as (apic id, vector),
newest first. -/
structure TdxWorld where
  mem : AddressSpace
  tdx : TdxGuest
  msi : List (Nat × Nat)

/-- The C function `tdx_td_notify`: the interrupt is injected only for a vector
in `[32, 255]`. -/
def tdx_td_notify (msi : List (Nat × Nat)) (apic_id : Nat) (vector : Int) : List (Nat × Nat) :=
  if ¬ (32 ≤ vector ∧ vector ≤ 255) then msi
  else (apic_id, vector.toNat) :: msi

/-- The C function `tdx_getquote_task_cleanup`. -/
def tdx_getquote_task_cleanup (w : TdxWorld) (t : tdx_get_quote_task)
    (outlen_overflow : Bool) : TdxWorld :=
  let hdr :=
    if t.hdr.error_code ≠ TDX_VP_GET_QUOTE_SUCCESS ∧ outlen_overflow = false
    then { t.hdr with out_len := 0 } else t.hdr
  let mem := (address_space_write w.mem t.gpa hdr.bytes).2
  let msi := tdx_td_notify w.msi t.apic_id t.event_notify_interrupt
  let tdx := { w.tdx with
    get_quote_task_list := w.tdx.get_quote_task_list.filter (fun x => x.ioc ≠ t.ioc)
    quote_generation_num := w.tdx.quote_generation_num - 1 }
  { mem := mem, tdx := tdx, msi := msi }

/-- One result of `qio_channel_read`: bytes stored into the buffer (none of
them at end of stream), `QIO_CHANNEL_ERR_BLOCK`, or another error. -/
inductive ChannelRead where
  | data (bytes : List Nat)
  | block
  | error
deriving DecidableEq, Repr

/-- How a call of `tdx_get_quote_read` ends: it returns with the task still in
flight, or it completes the task through `tdx_getquote_task_cleanup`. -/
inductive QuoteReadExit where
  | returned (t : tdx_get_quote_task)
  | completed (w : TdxWorld)

/-- The bytes `bs` stored into the buffer `buf` at offset `off`. -/
def store_at (buf : List Nat) (off : Nat) (bs : List Nat) : List Nat :=
  (buf.take off ++ bs ++ buf.drop (off + bs.length)).take buf.length

/-- The part of `tdx_get_quote_read` after the read loop; `size_negative` tells
whether the loop ended on an error. -/
def tdx_get_quote_read_finish (w : TdxWorld) (t : tdx_get_quote_task)
    (size_negative : Bool) : TdxWorld :=
  if size_negative = true then
    tdx_getquote_task_cleanup w
      { t with hdr := { t.hdr with error_code := TDX_VP_GET_QUOTE_QGS_UNAVAILABLE } } false
  else if t.out_len > 0 ∧ t.out_len > t.buf_len then
    tdx_getquote_task_cleanup w
      { t with hdr := { t.hdr with error_code := TDX_VP_GET_QUOTE_ERROR,
                                   out_len := t.out_len % 2 ^ 32 } } true
  else
    let wr := address_space_write w.mem (t.gpa + sizeof_tdx_get_quote_header)
      (t.out_data.take t.out_len)
    if wr.1 = false then
      tdx_getquote_task_cleanup { w with mem := wr.2 } t false
    else
      tdx_getquote_task_cleanup { w with mem := wr.2 }
        { t with hdr := { t.hdr with out_len := t.out_len % 2 ^ 32,
                                     error_code := TDX_VP_GET_QUOTE_SUCCESS } } false

/-- One turn of the read loop of `tdx_get_quote_read` in which
`qio_channel_read` stored `bytes`: into the free part of the buffer, or over
its start once the buffer is full; `out_len` counts them in either case. -/
def tdx_get_quote_task.receive (t : tdx_get_quote_task) (bytes : List Nat) :
    tdx_get_quote_task :=
  let off := if t.out_len < t.buf_len then t.out_len else 0
  { t with out_data := store_at t.out_data off bytes,
           out_len := add64 t.out_len bytes.length }

/-- The C function `tdx_get_quote_read`, the fd handler of a task.  `reads`
gives the results of the successive `qio_channel_read` calls; when it runs out
the next read would block. -/
def tdx_get_quote_read (w : TdxWorld) (t : tdx_get_quote_task) :
    List ChannelRead → QuoteReadExit
  | [] => QuoteReadExit.returned t
  | ChannelRead.data bytes :: reads =>
    if bytes.length = 0 then
      QuoteReadExit.completed (tdx_get_quote_read_finish w t false)
    else
      tdx_get_quote_read w (t.receive bytes) reads
  | ChannelRead.block :: _ => QuoteReadExit.returned t
  | ChannelRead.error :: _ =>
    QuoteReadExit.completed (tdx_get_quote_read_finish w t true)

/-- The world a completed call leaves, `none` for a call that returned with the
task in flight. -/
def QuoteReadExit.world? : QuoteReadExit → Option TdxWorld
  | QuoteReadExit.returned _ => none
  | QuoteReadExit.completed w => some w

/-- The quote header that guest memory holds at `gpa`, when it can be read. -/
def read_quote_header (mem : AddressSpace) (gpa : Nat) : Option tdx_get_quote_header :=
  (address_space_read mem gpa sizeof_tdx_get_quote_header).map tdx_get_quote_header.ofBytes

/-- A request passes the header validation of `__tdx_handle_get_quote`: the
version is the supported one, the error code is success or in-flight, a
non-zero `out_len` of the old format fits the buffer with the header, and the
buffer and `in_len` respect the 128 KiB bound and `in_len` the buffer. -/
def quote_header_valid (hdr : tdx_get_quote_header) (buf_len : Nat) : Prop :=
  hdr.structure_version = TDX_GET_QUOTE_STRUCTURE_VERSION ∧
  (hdr.error_code = TDX_VP_GET_QUOTE_SUCCESS ∨ hdr.error_code = TDX_VP_GET_QUOTE_IN_FLIGHT) ∧
  (hdr.out_len = 0 ∨ hdr.out_len + sizeof_tdx_get_quote_header ≤ buf_len) ∧
  buf_len ≤ TDX_GET_QUOTE_MAX_BUF_LEN ∧
  hdr.in_len ≤ TDX_GET_QUOTE_MAX_BUF_LEN ∧
  hdr.in_len ≤ buf_len

instance (hdr : tdx_get_quote_header) (buf_len : Nat) :
    Decidable (quote_header_valid hdr buf_len) := by
  unfold quote_header_valid; infer_instance

/-- What `__tdx_handle_get_quote` leaves behind: the world, the status code of
the vmcall (`none` when `vmcall` is `NULL`), and the task for which
`qio_channel_socket_connect_async` was started, if any. -/
structure GetQuoteExit where
  world : TdxWorld
  status_code : Option Nat
  connect_async : Option tdx_get_quote_task

/-- The C function `__tdx_handle_get_quote`.  `UNASSIGNED_APIC_ID` is the
constant of that name, `ioc` the object `qio_channel_socket_new` returns, and
`vmcall` the status code of the vmcall on entry (`none` for a `NULL` vmcall). -/
def __tdx_handle_get_quote (UNASSIGNED_APIC_ID : Nat) (ioc : Nat) (w : TdxWorld)
    (gpa buf_len apic_id event_notify_interrupt : Nat) (vmcall : Option Nat) : GetQuoteExit :=
  match address_space_read w.mem gpa sizeof_tdx_get_quote_header with
  | none => ⟨w, vmcall, none⟩
  | some bs =>
    let hdr := tdx_get_quote_header.ofBytes bs
    if hdr.structure_version ≠ TDX_GET_QUOTE_STRUCTURE_VERSION then ⟨w, vmcall, none⟩
    else if hdr.error_code ≠ TDX_VP_GET_QUOTE_SUCCESS ∧
        hdr.error_code ≠ TDX_VP_GET_QUOTE_IN_FLIGHT then ⟨w, vmcall, none⟩
    else if hdr.out_len > 0 ∧ hdr.out_len + sizeof_tdx_get_quote_header > buf_len then
      ⟨w, vmcall, none⟩
    else
      let hdr := if hdr.out_len > 0 then { hdr with out_len := 0 } else hdr
      if buf_len > TDX_GET_QUOTE_MAX_BUF_LEN ∨ hdr.in_len > TDX_GET_QUOTE_MAX_BUF_LEN ∨
          hdr.in_len > buf_len then ⟨w, vmcall, none⟩
      else
        let hdr := { hdr with error_code := TDX_VP_GET_QUOTE_IN_FLIGHT }
        let wr := address_space_write w.mem gpa hdr.bytes
        if wr.1 = false then ⟨{ w with mem := wr.2 }, vmcall, none⟩
        else
          let w := { w with mem := wr.2 }
          let t : tdx_get_quote_task :=
            { gpa := gpa, buf_len := buf_len, apic_id := 0, event_notify_interrupt := 0,
              out_data := List.replicate buf_len 0, out_len := 0, hdr := hdr, ioc := ioc,
              timer_armed := false }
          if w.tdx.quote_generation = none ∨
              w.tdx.quote_generation_num ≥ TDX_MAX_GET_QUOTE_REQUEST then
            ⟨w, vmcall.map (fun _ => TDG_VP_VMCALL_RETRY), none⟩
          else
            let t := { t with
              apic_id := if apic_id = UNASSIGNED_APIC_ID then w.tdx.apic_id else apic_id }
            let t := { t with
              event_notify_interrupt :=
                if event_notify_interrupt = UNASSIGNED_INTERRUPT_VECTOR
                then w.tdx.event_notify_interrupt else event_notify_interrupt }
            let tdx := { w.tdx with
              get_quote_task_list := t :: w.tdx.get_quote_task_list
              quote_generation_num := w.tdx.quote_generation_num + 1 }
            ⟨{ w with tdx := tdx }, vmcall.map (fun _ => TDG_VP_VMCALL_SUCCESS), some t⟩

/-! ### Concrete quote requests -/

/-- Two pages of guest RAM at 0x1000 holding a quote header of version 1 with
all other fields zero; nothing else is mapped. -/
def sample_mem : AddressSpace where
  byte := fun a => if 0x1000 ≤ a ∧ a < 0x3000 then some (if a = 0x1000 then 1 else 0) else none
  readonly := fun _ => false

/-- A TrustDomain with a quote endpoint and 16 quote requests in flight. -/
def sample_world_full : TdxWorld where
  mem := sample_mem
  tdx := { quote_generation := some "unix:/var/run/qgs.socket", quote_generation_num := 16 }
  msi := []

/-- The memory of `sample_mem` mapped read-only: the header can be read, no
byte takes a write. -/
def sample_mem_readonly : AddressSpace where
  byte := fun a => if 0x1000 ≤ a ∧ a < 0x3000 then some (if a = 0x1000 then 1 else 0) else none
  readonly := fun _ => true

/-- A TrustDomain with a quote endpoint and 16 quote requests in flight, over
read-only guest memory. -/
def sample_world_full_readonly : TdxWorld where
  mem := sample_mem_readonly
  tdx := { quote_generation := some "unix:/var/run/qgs.socket", quote_generation_num := 16 }
  msi := []

/-- A task with a 256-byte buffer at 0x1000 that has received nothing yet. -/
def sample_task : tdx_get_quote_task where
  gpa := 0x1000
  buf_len := 256
  apic_id := 0
  event_notify_interrupt := 33
  out_data := List.replicate 256 0
  out_len := 0
  hdr := ⟨1, TDX_VP_GET_QUOTE_ERROR, 0, 0⟩
  ioc := 1
  timer_armed := true

/-- A TrustDomain whose only quote request in flight is `sample_task`. -/
def sample_world_one : TdxWorld where
  mem := sample_mem
  tdx := { quote_generation := some "unix:/var/run/qgs.socket", quote_generation_num := 1,
           get_quote_task_list := [sample_task] }
  msi := []

/-- A task with a 4096-byte buffer at 0x1000 that has received nothing yet. -/
def sample_task_page : tdx_get_quote_task where
  gpa := 0x1000
  buf_len := 4096
  apic_id := 0
  event_notify_interrupt := 33
  out_data := List.replicate 4096 0
  out_len := 0
  hdr := ⟨1, TDX_VP_GET_QUOTE_ERROR, 0, 0⟩
  ioc := 1
  timer_armed := true

/-! ## VmcallServiceDispatcher: service items -/

/-- The status `TDG_VP_VMCALL_SERVICE_TIME_OUT`. -/
def TDG_VP_VMCALL_SERVICE_TIME_OUT : Nat := 2

/-- The status `TDG_VP_VMCALL_SERVICE_RSP_BUF_TOO_SMALL`. -/
def TDG_VP_VMCALL_SERVICE_RSP_BUF_TOO_SMALL : Nat := 3

/-- The status `TDG_VP_VMCALL_SERVICE_BUSY`. -/
def TDG_VP_VMCALL_SERVICE_BUSY : Nat := 6

/-- The status `TDG_VP_VMCALL_SERVICE_OUT_OF_RESOURCE`. -/
def TDG_VP_VMCALL_SERVICE_OUT_OF_RESOURCE : Nat := 8

/-- The status `TDG_VP_VMCALL_SERVICE_NOT_SUPPORT`. -/
def TDG_VP_VMCALL_SERVICE_NOT_SUPPORT : Nat := 0xFFFFFFFE

/-- The limit `INT_MAX`. -/
def INT_MAX : Nat := 2 ^ 31 - 1

/-- The header `TdxVmServiceDataHead` of a service buffer: the length of the
buffer (header included), the service GUID and the status word `u.status`. -/
structure TdxVmServiceDataHead where
  length : Nat
  guid : QemuUUID
  status : Nat
deriving DecidableEq, Repr

/-- The C struct `TdxVmcallSerivceDataCache`: the address of a guest buffer, the
cached header and the cached body (`data_buf` is `none` for `NULL`). -/
structure TdxVmcallSerivceDataCache where
  addr : Nat := 0
  head : TdxVmServiceDataHead := ⟨0, List.replicate 16 0, 0⟩
  data_buf : Option (List Nat) := none
  data_buf_len : Nat := 0
  data_len : Nat := 0
deriving DecidableEq, Repr

/-- The C struct `TdxVmcallServiceItem`.  `wait` is the count of the semaphore,
`timer_cb` names the timeout callback (`none` for `NULL`), `timer` is the
expiry time of the `QEMUTimer` while it is pending, and `freed` records that
the last reference was dropped and the item released. -/
structure TdxVmcallServiceItem where
  ref_count : Nat := 0
  command : TdxVmcallSerivceDataCache := {}
  response : TdxVmcallSerivceDataCache := {}
  notify_vector : Nat := 0
  apic_id : Nat := 0
  timeout : Nat := 0
  wait : Nat := 0
  timer_enable : Bool := false
  timer_cb : Option Nat := none
  timer_opaque_ : Nat := 0
  timer : Option Nat := none
  freed : Bool := false
deriving DecidableEq, Repr

/-- The C function `tdx_vmcall_service_item_ref`; `none` when an assertion
fails. -/
def tdx_vmcall_service_item_ref (item : TdxVmcallServiceItem) : Option TdxVmcallServiceItem :=
  let ref := item.ref_count
  if ref < INT_MAX then some { item with ref_count := (item.ref_count + 1) % 2 ^ 32 }
  else none

/-- The C function `tdx_vmcall_service_item_unref`; `none` when the assertion
fails.  Dropping the last reference frees the item. -/
def tdx_vmcall_service_item_unref (item : TdxVmcallServiceItem) : Option TdxVmcallServiceItem :=
  if item.ref_count > 0 then
    if item.ref_count = 1 then
      some { item with ref_count := item.ref_count - 1, freed := true }
    else
      some { item with ref_count := item.ref_count - 1 }
  else none

/-- The C function `tdx_vmcall_service_create_service_item`: a zeroed item that
holds one reference.  `none` is the `NULL` result of a failed allocation
(`alloc_ok` false). -/
def tdx_vmcall_service_create_service_item (alloc_ok : Bool) : Option TdxVmcallServiceItem :=
  if alloc_ok = false then none
  else tdx_vmcall_service_item_ref {}

/-- The C function `tdx_vmcall_service_set_response_state`. -/
def tdx_vmcall_service_set_response_state (vsi : TdxVmcallServiceItem) (state : Nat) :
    TdxVmcallServiceItem :=
  { vsi with response := { vsi.response with head := { vsi.response.head with status := state } } }

/-- The C function `tdx_vmcall_service_is_block`. -/
def tdx_vmcall_service_is_block (vsi : TdxVmcallServiceItem) : Bool :=
  vsi.notify_vector == 0

/-- The C function `tdx_vmcall_service_wake`. -/
def tdx_vmcall_service_wake (vsi : TdxVmcallServiceItem) : TdxVmcallServiceItem :=
  { vsi with wait := vsi.wait + 1 }

/-- The C function `tdx_vmcall_service_set_timeout_handler`; `cb` is the
callback (`none` for `NULL`), `now` the value of
`qemu_clock_get_ms(QEMU_CLOCK_VIRTUAL)`.  `none` when an assertion of the
reference counting fails. -/
def tdx_vmcall_service_set_timeout_handler (now : Nat) (vsi : TdxVmcallServiceItem)
    (cb : Option Nat) (opaque_ : Nat) : Option TdxVmcallServiceItem :=
  if vsi.timeout = 0 then some vsi
  else
    let vsi := { vsi with timer_cb := cb, timer_opaque_ := opaque_ }
    if cb.isSome then
      let armed :=
        if vsi.timer_enable = false then
          (tdx_vmcall_service_item_ref vsi).map (fun v => { v with timer_enable := true })
        else some { vsi with timer := none }
      armed.map (fun v => { v with timer := some (now + v.timeout) })
    else
      if vsi.timer_enable = true then
        tdx_vmcall_service_item_unref { vsi with timer_enable := false, timer := none }
      else some vsi

/-- The loop of `tdx_vmcall_service_find_handler` from index `i` on, over the
rest of the dispatch table. -/
def tdx_vmcall_service_find_handler_loop (guid : QemuUUID) :
    List TdxVmcallServiceType → Nat → Option (Nat × TdxVmcallServiceType)
  | [], _ => none
  | e :: es, i =>
    if qemu_uuid_is_equal guid e.from_ = false then
      tdx_vmcall_service_find_handler_loop guid es (i + 1)
    else if e.to_.isNone then
      tdx_vmcall_service_find_handler_loop guid es (i + 1)
    else some (i, e)

/-- The C function `tdx_vmcall_service_find_handler`: the entry it returns with
its index, `none` for `NULL`. -/
def tdx_vmcall_service_find_handler (guid : QemuUUID) (vmc : TdxVmcallService) :
    Option (Nat × TdxVmcallServiceType) :=
  tdx_vmcall_service_find_handler_loop guid vmc.dispatch_table 0

/-- The layout of `TdxVmServiceDataHead` in guest memory, which its declaration
(outside this file) fixes: the size of the struct and the reading and writing
of its fields. -/
structure DataHeadLayout where
  size : Nat
  ofBytes : List Nat → TdxVmServiceDataHead
  bytes : TdxVmServiceDataHead → List Nat

/-- The value an `int` parameter takes from a 64-bit argument. -/
def int_of_u64 (v : Nat) : Int :=
  if v % 2 ^ 32 < 2 ^ 31 then ((v % 2 ^ 32 : Nat) : Int) else ((v % 2 ^ 32 : Nat) : Int) - 2 ^ 32

/-- The C function `tdx_vmcall_service_do_cache_data_head`: the header read at
`addr`, `none` for the result -1. -/
def tdx_vmcall_service_do_cache_data_head (L : DataHeadLayout) (mem : AddressSpace)
    (addr : Nat) : Option TdxVmServiceDataHead :=
  (address_space_read mem addr L.size).map L.ofBytes

/-- The C function `tdx_vmcall_service_prepare_response`: guest memory and the
cache afterwards. -/
def tdx_vmcall_service_prepare_response (L : DataHeadLayout) (mem : AddressSpace)
    (data_cache : TdxVmcallSerivceDataCache) (prepare_rsp_head prepare_rsp_data : Bool) :
    AddressSpace × TdxVmcallSerivceDataCache :=
  let data_cache :=
    if prepare_rsp_head = true then
      { data_cache with
        head := { data_cache.head with length := (L.size + data_cache.data_len) % 2 ^ 32 } }
    else data_cache
  let wr :=
    if prepare_rsp_head = true then address_space_write mem data_cache.addr
      (L.bytes data_cache.head)
    else (true, mem)
  if wr.1 = false then (wr.2, data_cache)
  else if prepare_rsp_data = false then (wr.2, data_cache)
  else
    ((address_space_write wr.2 (data_cache.addr + L.size)
        ((data_cache.data_buf.getD []).take data_cache.data_len)).2, data_cache)

/-- The C function `__tdx_vmcall_service_notify_guest`. -/
def __tdx_vmcall_service_notify_guest (msi : List (Nat × Nat)) (apic_id : Nat) (vector : Nat) :
    List (Nat × Nat) :=
  if vector = 0 then msi
  else tdx_td_notify msi apic_id (int_of_u64 vector)

/-- The C function `__tdx_vmcall_service_complete_request`. -/
def __tdx_vmcall_service_complete_request (L : DataHeadLayout) (w : TdxWorld)
    (data_cache : TdxVmcallSerivceDataCache) (prepare_rsp_head prepare_rsp_data : Bool)
    (apic_id : Nat) (notify_vector : Nat) : TdxWorld × TdxVmcallSerivceDataCache :=
  let r := tdx_vmcall_service_prepare_response L w.mem data_cache prepare_rsp_head
    prepare_rsp_data
  ({ w with mem := r.1, msi := __tdx_vmcall_service_notify_guest w.msi apic_id notify_vector },
   r.2)

/-- The C function `tdx_vmcall_service_complete_request`; `none` when an
assertion of the reference counting fails. -/
def tdx_vmcall_service_complete_request (L : DataHeadLayout) (now : Nat) (w : TdxWorld)
    (vsi : TdxVmcallServiceItem) : Option (TdxWorld × TdxVmcallServiceItem) :=
  let prepare_data :=
    decide (vsi.response.head.status ≠ TDG_VP_VMCALL_SERVICE_RSP_BUF_TOO_SMALL)
  let r := __tdx_vmcall_service_complete_request L w vsi.response true prepare_data
    vsi.apic_id vsi.notify_vector
  let vsi := { vsi with response := r.2 }
  let vsi := if tdx_vmcall_service_is_block vsi = true then tdx_vmcall_service_wake vsi else vsi
  (tdx_vmcall_service_set_timeout_handler now vsi none 0).map (fun v => (r.1, v))

/-- The C function `tdx_vmcall_service_timeout_handler`.  `timer_cbs` gives the
code of the timeout callbacks by name. -/
def tdx_vmcall_service_timeout_handler (L : DataHeadLayout) (now : Nat)
    (timer_cbs : Nat → TdxWorld → TdxVmcallServiceItem → TdxWorld × TdxVmcallServiceItem)
    (w : TdxWorld) (vsi : TdxVmcallServiceItem) : Option (TdxWorld × TdxVmcallServiceItem) :=
  let vsi := { vsi with timer := none }
  let r :=
    match vsi.timer_cb with
    | some cb => timer_cbs cb w vsi
    | none => (w, vsi)
  let vsi := tdx_vmcall_service_set_response_state r.2 TDG_VP_VMCALL_SERVICE_TIME_OUT
  tdx_vmcall_service_complete_request L now r.1 vsi

/-- The timeout callbacks leave the reference count, the timer registration,
the timeout and the liveness of an item alone. -/
def callbacks_keep_refs
    (timer_cbs : Nat → TdxWorld → TdxVmcallServiceItem → TdxWorld × TdxVmcallServiceItem) :
    Prop :=
  ∀ cb w v, (timer_cbs cb w v).2.ref_count = v.ref_count ∧
    (timer_cbs cb w v).2.timer_enable = v.timer_enable ∧
    (timer_cbs cb w v).2.timeout = v.timeout ∧
    (timer_cbs cb w v).2.freed = v.freed

/-- The states of a service item reachable from its creation: `ItemReachable w
v held` says that the item has reached the state `v` in the world `w`, and
`held` tells whether the dispatcher still holds the reference it took at
creation.  The steps are `tdx_vmcall_service_set_timeout_handler` with a
callback, `tdx_vmcall_service_complete_request`, the timeout handler, and the
one release by the dispatcher; a freed item takes no further step. -/
inductive ItemReachable (L : DataHeadLayout)
    (timer_cbs : Nat → TdxWorld → TdxVmcallServiceItem → TdxWorld × TdxVmcallServiceItem) :
    TdxWorld → TdxVmcallServiceItem → Bool → Prop where
  | create (w : TdxWorld) (v : TdxVmcallServiceItem) :
      v.ref_count = 1 → v.timer_enable = false → v.freed = false →
      ItemReachable L timer_cbs w v true
  | set_timeout_handler (w : TdxWorld) (v v1 : TdxVmcallServiceItem) (held : Bool)
      (now cb ctx : Nat) :
      ItemReachable L timer_cbs w v held → v.freed = false →
      tdx_vmcall_service_set_timeout_handler now v (some cb) ctx = some v1 →
      ItemReachable L timer_cbs w v1 held
  | complete_request (w w1 : TdxWorld) (v v1 : TdxVmcallServiceItem) (held : Bool) (now : Nat) :
      ItemReachable L timer_cbs w v held → v.freed = false →
      tdx_vmcall_service_complete_request L now w v = some (w1, v1) →
      ItemReachable L timer_cbs w1 v1 held
  | timeout_handler (w w1 : TdxWorld) (v v1 : TdxVmcallServiceItem) (held : Bool) (now : Nat) :
      ItemReachable L timer_cbs w v held → v.freed = false →
      tdx_vmcall_service_timeout_handler L now timer_cbs w v = some (w1, v1) →
      ItemReachable L timer_cbs w1 v1 held
  | release (w : TdxWorld) (v v1 : TdxVmcallServiceItem) :
      ItemReachable L timer_cbs w v true → v.freed = false →
      tdx_vmcall_service_item_unref v = some v1 →
      ItemReachable L timer_cbs w v1 false

/-! ## VmcallServiceDispatcher: the service call -/

/-- Bitwise complement of a `uint64_t`. -/
def not64 (x : Nat) : Nat := (2 ^ 64 - 1) ^^^ (x % 2 ^ 64)

/-- The C function `tdx_shared_bit`, from `cpu->phys_bits`. -/
def tdx_shared_bit (phys_bits : Nat) : Nat :=
  if phys_bits > 48 then 2 ^ 51 else 2 ^ 47

/-- The fields of `struct kvm_tdx_vmcall` that the handlers use. -/
structure kvm_tdx_vmcall where
  type : Nat := 0
  subfunction : Nat := 0
  in_r12 : Nat := 0
  in_r13 : Nat := 0
  in_r14 : Nat := 0
  in_r15 : Nat := 0
  status_code : Nat := 0
deriving DecidableEq, Repr

/-- The checks that the loop of `tdx_vmcall_service_sanity_check` makes on one
buffer address: the header it read, or `none` where the loop returns -1. -/
def tdx_vmcall_service_sanity_check_addr (L : DataHeadLayout) (mem : AddressSpace)
    (phys_bits : Nat) (addr : Nat) : Option TdxVmServiceDataHead :=
  if addr &&& tdx_shared_bit phys_bits = 0 then none
  else if addr % 4096 ≠ 0 then none
  else
    match tdx_vmcall_service_do_cache_data_head L mem (addr &&& not64 (tdx_shared_bit phys_bits))
    with
    | none => none
    | some head => if head.length < L.size then none else some head

/-- The C function `tdx_vmcall_service_sanity_check`. -/
def tdx_vmcall_service_sanity_check (L : DataHeadLayout) (mem : AddressSpace)
    (phys_bits : Nat) (vmcall : kvm_tdx_vmcall) : Int :=
  match tdx_vmcall_service_sanity_check_addr L mem phys_bits vmcall.in_r12 with
  | none => -1
  | some head0 =>
    match tdx_vmcall_service_sanity_check_addr L mem phys_bits vmcall.in_r13 with
    | none => -1
    | some head1 =>
      if qemu_uuid_is_equal head0.guid head1.guid = false then -1
      else
        let vector := vmcall.in_r14
        if vector ≠ 0 ∧ (vector < 32 ∨ vector > 255) then -1
        else 0

/-- The C function `tdx_vmcall_service_cache_data_head`: a header that cannot be
read is only reported. -/
def tdx_vmcall_service_cache_data_head (L : DataHeadLayout) (mem : AddressSpace)
    (vsi : TdxVmcallServiceItem) : TdxVmcallServiceItem :=
  let cache := fun (c : TdxVmcallSerivceDataCache) =>
    match tdx_vmcall_service_do_cache_data_head L mem c.addr with
    | some head => { c with head := head }
    | none => c
  { vsi with command := cache vsi.command, response := cache vsi.response }

/-- One turn of the loop of `tdx_vmcall_service_cache_data`: the cache with the
body read, or the error code.  `alloc_ok` tells whether `g_try_malloc0`
succeeds. -/
def tdx_vmcall_service_cache_data_one (L : DataHeadLayout) (mem : AddressSpace)
    (alloc_ok : Bool) (c : TdxVmcallSerivceDataCache) : Except Int TdxVmcallSerivceDataCache :=
  let data_size : Int := (c.head.length : Int) - (L.size : Int)
  if data_size = 0 then Except.ok { c with data_len := 0 }
  else
    let c :=
      if (c.data_buf_len : Int) < data_size then
        if alloc_ok = true then
          { c with data_buf := some (List.replicate data_size.toNat 0),
                   data_buf_len := data_size.toNat }
        else { c with data_buf := none }
      else c
    match c.data_buf with
    | none => Except.error (-1)
    | some _ =>
      match address_space_read mem (c.addr + L.size) (data_size.toNat % 2 ^ 32) with
      | none => Except.error (-2)
      | some bytes => Except.ok { c with data_buf := some bytes, data_len := data_size.toNat }

/-- The C function `tdx_vmcall_service_cache_data`: the item with both bodies
cached, or `none` for a non-zero return value. -/
def tdx_vmcall_service_cache_data (L : DataHeadLayout) (mem : AddressSpace) (alloc_ok : Bool)
    (vsi : TdxVmcallServiceItem) : TdxVmcallServiceItem × Int :=
  match tdx_vmcall_service_cache_data_one L mem alloc_ok vsi.command with
  | Except.error e => (vsi, e)
  | Except.ok command =>
    match tdx_vmcall_service_cache_data_one L mem alloc_ok vsi.response with
    | Except.error e => ({ vsi with command := command }, e)
    | Except.ok response => ({ vsi with command := command, response := response }, 0)

/-- The C function `tdx_vmcall_service_init_service_item`: the item and the
return value. -/
def tdx_vmcall_service_init_service_item (L : DataHeadLayout) (mem : AddressSpace)
    (alloc_ok : Bool) (phys_bits : Nat) (vmcall : kvm_tdx_vmcall)
    (vsi : TdxVmcallServiceItem) : TdxVmcallServiceItem × Int :=
  let gpa_mask := not64 (tdx_shared_bit phys_bits)
  let vsi := { vsi with wait := 0 }
  let vsi := { vsi with
    command := { vsi.command with addr := vmcall.in_r12 &&& gpa_mask }
    response := { vsi.response with addr := vmcall.in_r13 &&& gpa_mask }
    notify_vector := vmcall.in_r14
    timeout := vmcall.in_r15 }
  let vsi := tdx_vmcall_service_cache_data_head L mem vsi
  let r := tdx_vmcall_service_cache_data L mem alloc_ok vsi
  if r.2 ≠ 0 then (r.1, -1) else (r.1, 0)

/-- The loop in which `tdx_handle_vmcall_service` waits for a blocking handler.
`running` gives the successive results of `runstate_is_running`; a wait succeeds
when the semaphore has been posted.  `none` when an assertion fails or the loop
is still waiting at the end of `running`. -/
def tdx_vmcall_service_wait_loop (L : DataHeadLayout) (now : Nat) (w : TdxWorld)
    (vsi : TdxVmcallServiceItem) : List Bool → Option (TdxWorld × TdxVmcallServiceItem)
  | [] => none
  | true :: running =>
    if vsi.wait > 0 then some (w, { vsi with wait := vsi.wait - 1 })
    else tdx_vmcall_service_wait_loop L now w vsi running
  | false :: _ =>
    tdx_vmcall_service_complete_request L now w
      (tdx_vmcall_service_set_response_state vsi TDG_VP_VMCALL_SERVICE_BUSY)

/-- What a service call leaves behind: the world, the status code of the
vmcall, the service item that was created (in its last state) and the handler
that was called, if any. -/
structure ServiceExit where
  world : TdxWorld
  status_code : Nat
  item : Option TdxVmcallServiceItem
  handler : Option Nat

/-- What the environment decides during a service call: whether the allocation
of the item and of the body buffers succeeds, and the successive results of
`runstate_is_running`. -/
structure ServiceOracle where
  item_alloc_ok : Bool
  data_alloc_ok : Bool
  running : List Bool

/-- The `fail` exit of `tdx_handle_vmcall_service`: the response header with the
status goes to the guest, which is notified. -/
def tdx_handle_vmcall_service_fail (L : DataHeadLayout) (w : TdxWorld)
    (response : TdxVmcallSerivceDataCache) (status : Nat) (vmcall : kvm_tdx_vmcall)
    (item : Option TdxVmcallServiceItem) (handler : Option Nat) : ServiceExit :=
  let response := { response with head := { response.head with status := status } }
  let r := __tdx_vmcall_service_complete_request L w response true false w.tdx.apic_id
    vmcall.in_r14
  ⟨r.1, TDG_VP_VMCALL_SUCCESS, item, handler⟩

/-- The C function `tdx_handle_vmcall_service`.  `handlers` gives the code of
the registered callbacks by name; `none` when an assertion fails or the wait
loop does not end within the oracle. -/
def tdx_handle_vmcall_service (L : DataHeadLayout) (now : Nat)
    (handlers : Nat → TdxWorld → TdxVmcallServiceItem → TdxWorld × TdxVmcallServiceItem)
    (O : ServiceOracle) (phys_bits : Nat) (w : TdxWorld) (vmcall : kvm_tdx_vmcall) :
    Option ServiceExit :=
  let gpa_mask := not64 (tdx_shared_bit phys_bits)
  if tdx_vmcall_service_sanity_check L w.mem phys_bits vmcall ≠ 0 then
    some ⟨w, TDG_VP_VMCALL_INVALID_OPERAND, none, none⟩
  else
    let cache := fun (addr : Nat) =>
      let c : TdxVmcallSerivceDataCache := { addr := addr }
      match tdx_vmcall_service_do_cache_data_head L w.mem addr with
      | some head => { c with head := head }
      | none => c
    let command := cache (vmcall.in_r12 &&& gpa_mask)
    let response := cache (vmcall.in_r13 &&& gpa_mask)
    match tdx_vmcall_service_find_handler command.head.guid w.tdx.vmcall_service with
    | none =>
      some (tdx_handle_vmcall_service_fail L w response TDG_VP_VMCALL_SERVICE_NOT_SUPPORT
        vmcall none none)
    | some (_, handler) =>
      match tdx_vmcall_service_create_service_item O.item_alloc_ok with
      | none =>
        some (tdx_handle_vmcall_service_fail L w response
          TDG_VP_VMCALL_SERVICE_OUT_OF_RESOURCE vmcall none none)
      | some vsi =>
        let vsi := { vsi with apic_id := w.tdx.apic_id }
        let r := tdx_vmcall_service_init_service_item L w.mem O.data_alloc_ok phys_bits vmcall vsi
        if r.2 ≠ 0 then
          (tdx_vmcall_service_item_unref r.1).map (fun vsi =>
            tdx_handle_vmcall_service_fail L w response TDG_VP_VMCALL_SERVICE_OUT_OF_RESOURCE
              vmcall (some vsi) none)
        else
          let d := handlers (handler.to_.getD 0) w r.1
          let waited :=
            if tdx_vmcall_service_is_block d.2 = true then
              tdx_vmcall_service_wait_loop L now d.1 d.2 O.running
            else some d
          waited.bind (fun x =>
            (tdx_vmcall_service_item_unref x.2).map (fun vsi =>
              ⟨x.1, TDG_VP_VMCALL_SUCCESS, some vsi, handler.to_⟩))

/-- A service call breaks a rule of the sanity check: an address lacks the
shared bit or is not 4096-aligned, a header declares a length smaller than the
header, the GUIDs of the two headers differ, or the notify vector is non-zero
and outside `[32, 255]`. -/
def service_call_violation (L : DataHeadLayout) (mem : AddressSpace) (phys_bits : Nat)
    (vmcall : kvm_tdx_vmcall) : Prop :=
  vmcall.in_r12 &&& tdx_shared_bit phys_bits = 0 ∨
  vmcall.in_r13 &&& tdx_shared_bit phys_bits = 0 ∨
  vmcall.in_r12 % 4096 ≠ 0 ∨
  vmcall.in_r13 % 4096 ≠ 0 ∨
  (∃ head, tdx_vmcall_service_do_cache_data_head L mem
      (vmcall.in_r12 &&& not64 (tdx_shared_bit phys_bits)) = some head ∧ head.length < L.size) ∨
  (∃ head, tdx_vmcall_service_do_cache_data_head L mem
      (vmcall.in_r13 &&& not64 (tdx_shared_bit phys_bits)) = some head ∧ head.length < L.size) ∨
  (∃ head0 head1,
    tdx_vmcall_service_do_cache_data_head L mem
      (vmcall.in_r12 &&& not64 (tdx_shared_bit phys_bits)) = some head0 ∧
    tdx_vmcall_service_do_cache_data_head L mem
      (vmcall.in_r13 &&& not64 (tdx_shared_bit phys_bits)) = some head1 ∧
    head0.guid ≠ head1.guid) ∨
  (vmcall.in_r14 ≠ 0 ∧ (vmcall.in_r14 < 32 ∨ vmcall.in_r14 > 255))

/-- Modelled from the spec: the layout `{length:u32 (includes header),
guid:128-bit, status:u32}` that the spec gives for the header of a service
buffer; the declaration of `TdxVmServiceDataHead` is not among the sources. -/
def spec_data_head_layout : DataHeadLayout where
  size := 24
  ofBytes := fun bs =>
    ⟨le_value (bs.take 4), (bs.drop 4).take 16, le_value ((bs.drop 20).take 4)⟩
  bytes := fun h =>
    le_bytes 4 h.length ++ (h.guid ++ List.replicate 16 0).take 16 ++ le_bytes 4 h.status

/-! ### Concrete service calls -/

/-- Two pages of guest RAM at 0x1000 and 0x2000, each starting with a service
header of length 24 and a GUID whose bytes are all 7. -/
def sample_service_mem : AddressSpace where
  byte := fun a =>
    if 0x1000 ≤ a ∧ a < 0x3000 then
      some (if a % 0x1000 = 0 then 24 else if 4 ≤ a % 0x1000 ∧ a % 0x1000 < 20 then 7 else 0)
    else none
  readonly := fun _ => false

/-- The same two pages, the GUID bytes of the second header being 8 instead
of 7. -/
def sample_service_mem_guids : AddressSpace where
  byte := fun a =>
    if 0x1000 ≤ a ∧ a < 0x3000 then
      some (if a % 0x1000 = 0 then 24
            else if 4 ≤ a % 0x1000 ∧ a % 0x1000 < 20 then (if a < 0x2000 then 7 else 8) else 0)
    else none
  readonly := fun _ => false

/-- A TrustDomain whose dispatch table serves the GUID of `sample_service_mem`
with the callback 1. -/
def sample_service_world : TdxWorld where
  mem := sample_service_mem
  tdx := { vmcall_service := ⟨[{ from_ := List.replicate 16 7, to_ := some 1 }]⟩ }
  msi := []

/-- A handler that answers at once: it completes the request. -/
def sample_handlers : Nat → TdxWorld → TdxVmcallServiceItem → TdxWorld × TdxVmcallServiceItem :=
  fun _ w vsi => (tdx_vmcall_service_complete_request spec_data_head_layout 0 w vsi).getD (w, vsi)

/-- Timeout callbacks that do nothing. -/
def sample_timer_cbs : Nat → TdxWorld → TdxVmcallServiceItem → TdxWorld × TdxVmcallServiceItem :=
  fun _ w vsi => (w, vsi)

/-- A service call on the two sample buffers (shared bit 47) with the notify
vector `r14`. -/
def sample_service_call (r14 : Nat) : kvm_tdx_vmcall :=
  { in_r12 := 2 ^ 47 + 0x1000, in_r13 := 2 ^ 47 + 0x2000, in_r14 := r14, in_r15 := 0 }

/-- The item of the sample world after a handler registered the timeout
callback 5 at time 0: timeout 1000 ms, timer armed, two references. -/
def sample_item_armed : TdxVmcallServiceItem :=
  { ref_count := 2, notify_vector := 40, timeout := 1000, timer_enable := true,
    timer_cb := some 5, timer := some 1000 }

/-! ## CgsMigrationBridge: `migration/cgs.c`

The migration stream (`QEMUFile`) and the functions of the migration framework
that act on it are declared outside `cgs.c`: the state of the stream is a type
parameter `F` and the functions are the fields of `CgsEnv`.  A C function that
takes the stream returns its return value together with the stream afterwards.
The vendor hooks are code behind function pointers: each is a function from its
arguments to its return value (and to the stream or the channel parameters
afterwards when it is given them). -/

/-- The functions, switches and constants of the migration framework that
`cgs.c` uses.  `ram_save_cgs_ram_header` returns the number of header bytes,
`multifd_send_sync_main` its status. -/
structure CgsEnv (F : Type) where
  qemu_file_set_error : F → Int → F
  qemu_put_byte : F → Nat → F
  qemu_fflush : F → F
  ram_save_cgs_epoch_header : F → F
  ram_save_cgs_ram_header : F → Nat → Nat → Bool → Int × F
  multifd_send_sync_main : F → Int × F
  migrate_use_multifd : Bool
  migrate_multifd_channels : Nat
  migrate_postcopy_preempt : Bool
  migration_in_postcopy : Bool
  MULTIFD_PACKET_SIZE : Nat
  TARGET_PAGE_SIZE : Nat
  RAM_CHANNEL_MAX : Nat
  QEMU_VM_SECTION_CGS_START : Nat
  QEMU_VM_SECTION_CGS_END : Nat

/-- The table `CgsMig` of vendor hooks, `none` being a null pointer.  `S` and
`R` are the states of `MultiFDSendParams` and `MultiFDRecvParams`. -/
structure CgsMig (F S R : Type) where
  is_ready : Option (Unit → Bool) := none
  savevm_state_setup : Option (Nat → Nat → Int) := none
  savevm_state_start : Option (F → Int × F) := none
  savevm_state_ram_start_epoch : Option (F → Int × F) := none
  savevm_state_ram : Option (F → Nat → Nat → Int × F) := none
  savevm_state_pause : Option (Unit → Int) := none
  savevm_state_end : Option (F → Int × F) := none
  savevm_state_ram_abort : Option (Nat → Int) := none
  savevm_state_ram_cancel : Option (F → Nat → Int × F) := none
  savevm_state_cleanup : Option (Unit → Unit) := none
  loadvm_state_setup : Option (Nat → Nat → Int) := none
  loadvm_state : Option (F → Nat → Int × F) := none
  loadvm_state_cleanup : Option (Unit → Unit) := none
  multifd_send_prepare : Option (S → Int × S) := none
  multifd_recv_pages : Option (R → Int × R) := none
  iov_num : Option (Nat → Nat) := none

/-- The macro `cgs_check_error(f, ret)`, followed by the rest of the function:
a negative `ret` is handed to `qemu_file_set_error`, as the call writes it, and
returned at once. -/
def cgs_check_error {F : Type} (E : CgsEnv F) (f : F) (ret : Int) (rest : Int × F) : Int × F :=
  if ret < 0 then (ret, E.qemu_file_set_error f ret)
  else rest

/-- The value of `nr_channels` that `cgs_mig_savevm_state_setup` and
`cgs_mig_loadvm_state_setup` compute before they call the hook. -/
def cgs_nr_channels {F : Type} (E : CgsEnv F) : Nat :=
  if E.migrate_use_multifd = true then E.migrate_multifd_channels
  else if E.migrate_postcopy_preempt = true then E.RAM_CHANNEL_MAX
  else 1

/-- The value of `nr_pages` that the two setup functions compute. -/
def cgs_nr_pages {F : Type} (E : CgsEnv F) : Nat :=
  if E.migrate_use_multifd = true then E.MULTIFD_PACKET_SIZE / E.TARGET_PAGE_SIZE
  else 1

/-- The C function `cgs_mig_is_ready`. -/
def cgs_mig_is_ready {F S R : Type} (cgs_mig : CgsMig F S R) : Bool :=
  match cgs_mig.is_ready with
  | none => true
  | some hook => hook ()

/-- The C function `cgs_mig_savevm_state_setup`. -/
def cgs_mig_savevm_state_setup {F S R : Type} (E : CgsEnv F) (cgs_mig : CgsMig F S R)
    (f : F) : Int × F :=
  match cgs_mig.savevm_state_setup with
  | none => (0, f)
  | some hook =>
    let ret := hook (cgs_nr_channels E) (cgs_nr_pages E)
    cgs_check_error E f ret (ret, f)

/-- The C function `cgs_mig_savevm_state_start`. -/
def cgs_mig_savevm_state_start {F S R : Type} (E : CgsEnv F) (cgs_mig : CgsMig F S R)
    (f : F) : Int × F :=
  match cgs_mig.savevm_state_start with
  | none => (0, f)
  | some hook =>
    let f := E.qemu_put_byte f E.QEMU_VM_SECTION_CGS_START
    let r := hook f
    cgs_check_error E r.2 r.1 (r.1, if r.1 = 0 then E.qemu_fflush r.2 else r.2)

/-- The C function `cgs_ram_save_start_epoch`. -/
def cgs_ram_save_start_epoch {F S R : Type} (E : CgsEnv F) (cgs_mig : CgsMig F S R)
    (f : F) : Int × F :=
  match cgs_mig.savevm_state_ram_start_epoch with
  | none => (0, f)
  | some hook =>
    let rest := fun (f : F) =>
      let f := E.ram_save_cgs_epoch_header f
      let r := hook f
      cgs_check_error E r.2 r.1 (r.1 + 8, r.2)
    if E.migrate_use_multifd = true ∧ E.migration_in_postcopy = false then
      let s := E.multifd_send_sync_main f
      if s.1 < 0 then (s.1, s.2) else rest s.2
    else rest f

/-- The C function `cgs_mig_savevm_state_ram`; `none` when `assert(ret)`
fails. -/
def cgs_mig_savevm_state_ram {F S R : Type} (E : CgsEnv F) (cgs_mig : CgsMig F S R)
    (f : F) (channel_id block offset gpa : Nat) : Option (Int × F) :=
  match cgs_mig.savevm_state_ram with
  | none => some (0, f)
  | some hook =>
    let h := E.ram_save_cgs_ram_header f block offset false
    let r := hook h.2 channel_id gpa
    if r.1 = 0 then none
    else some (cgs_check_error E r.2 r.1 (h.1 + r.1, r.2))

/-- The C function `cgs_mig_savevm_state_pause`. -/
def cgs_mig_savevm_state_pause {F S R : Type} (E : CgsEnv F) (cgs_mig : CgsMig F S R)
    (f : F) : Int × F :=
  match cgs_mig.savevm_state_pause with
  | none => (0, f)
  | some hook =>
    let ret := hook ()
    cgs_check_error E f ret (ret, f)

/-- The C function `cgs_mig_savevm_state_end`. -/
def cgs_mig_savevm_state_end {F S R : Type} (E : CgsEnv F) (cgs_mig : CgsMig F S R)
    (f : F) : Int × F :=
  match cgs_mig.savevm_state_end with
  | none => (0, f)
  | some hook =>
    let f := E.qemu_put_byte f E.QEMU_VM_SECTION_CGS_END
    let r := hook f
    cgs_check_error E r.2 r.1 (r.1, r.2)

/-- The C function `cgs_mig_savevm_state_ram_abort`. -/
def cgs_mig_savevm_state_ram_abort {F S R : Type} (E : CgsEnv F) (cgs_mig : CgsMig F S R)
    (f : F) (gfn_end : Nat) : Int × F :=
  match cgs_mig.savevm_state_ram_abort with
  | none => (0, f)
  | some hook =>
    let ret := hook gfn_end
    cgs_check_error E f ret (ret, f)

/-- The C function `cgs_mig_savevm_state_need_ram_cancel`. -/
def cgs_mig_savevm_state_need_ram_cancel {F S R : Type} (cgs_mig : CgsMig F S R) : Bool :=
  cgs_mig.savevm_state_ram_cancel.isSome

/-- The C function `cgs_mig_savevm_state_ram_cancel`. -/
def cgs_mig_savevm_state_ram_cancel {F S R : Type} (E : CgsEnv F) (cgs_mig : CgsMig F S R)
    (f : F) (block offset gpa : Nat) : Int × F :=
  match cgs_mig.savevm_state_ram_cancel with
  | none => (0, f)
  | some hook =>
    let h := E.ram_save_cgs_ram_header f block offset true
    let r := hook h.2 gpa
    cgs_check_error E r.2 r.1 (h.1 + r.1, r.2)

/-- The C function `cgs_mig_savevm_state_cleanup`. -/
def cgs_mig_savevm_state_cleanup {F S R : Type} (cgs_mig : CgsMig F S R) : Unit :=
  match cgs_mig.savevm_state_cleanup with
  | some hook => hook ()
  | none => ()

/-- The C function `cgs_mig_loadvm_state_setup`. -/
def cgs_mig_loadvm_state_setup {F S R : Type} (E : CgsEnv F) (cgs_mig : CgsMig F S R)
    (f : F) : Int × F :=
  match cgs_mig.loadvm_state_setup with
  | none => (0, f)
  | some hook =>
    let ret := hook (cgs_nr_channels E) (cgs_nr_pages E)
    cgs_check_error E f ret (ret, f)

/-- The C function `cgs_mig_loadvm_state`. -/
def cgs_mig_loadvm_state {F S R : Type} (E : CgsEnv F) (cgs_mig : CgsMig F S R)
    (f : F) (channel_id : Nat) : Int × F :=
  match cgs_mig.loadvm_state with
  | none => (0, f)
  | some hook =>
    let r := hook f channel_id
    cgs_check_error E r.2 r.1 (r.1, r.2)

/-- The C function `cgs_mig_loadvm_state_cleanup`. -/
def cgs_mig_loadvm_state_cleanup {F S R : Type} (cgs_mig : CgsMig F S R) : Unit :=
  match cgs_mig.loadvm_state_cleanup with
  | some hook => hook ()
  | none => ()

/-- The C function `cgs_mig_multifd_send_prepare`.  The stream is not among its
arguments: `f` is the stream of the migration in progress, which the function
has no way to change. -/
def cgs_mig_multifd_send_prepare {F S R : Type} (cgs_mig : CgsMig F S R)
    (f : F) (p : S) : Int × F × S :=
  match cgs_mig.multifd_send_prepare with
  | none => (0, f, p)
  | some hook => ((hook p).1, f, (hook p).2)

/-- The C function `cgs_mig_multifd_recv_pages`; `f` as for
`cgs_mig_multifd_send_prepare`. -/
def cgs_mig_multifd_recv_pages {F S R : Type} (cgs_mig : CgsMig F S R)
    (f : F) (p : R) : Int × F × R :=
  match cgs_mig.multifd_recv_pages with
  | none => (0, f, p)
  | some hook => ((hook p).1, f, (hook p).2)

/-- The C function `cgs_mig_iov_num`. -/
def cgs_mig_iov_num {F S R : Type} (cgs_mig : CgsMig F S R) (page_batch_num : Nat) : Nat :=
  match cgs_mig.iov_num with
  | none => page_batch_num
  | some hook => hook page_batch_num

/-- The C function `cgs_mig_init`; `tdx_mig_init` fills the table in for a TDX
VM and is defined outside the sources. -/
def cgs_mig_init {F S R : Type} (KVM_X86_TDX_VM kvm_vm_type : Nat)
    (tdx_mig_init : CgsMig F S R → CgsMig F S R) (cgs_mig : CgsMig F S R) : CgsMig F S R :=
  if kvm_vm_type = KVM_X86_TDX_VM then tdx_mig_init cgs_mig
  else cgs_mig

/-- The table `cgs_mig` before a vendor is registered: a static object, every
field of which is a null pointer. -/
def CgsMig.null {F S R : Type} : CgsMig F S R := {}

/-- A stream for the examples: the bytes put so far and the error state, which
`qemu_file_set_error` overwrites. -/
structure SampleStream where
  bytes : List Nat
  last_error : Int
deriving DecidableEq, Repr

/-- A migration framework over `SampleStream` without multifd: both headers
are eight zero bytes, a flush changes nothing, and the section markers are 0x40
and 0x41. -/
def sample_cgs_env : CgsEnv SampleStream where
  qemu_file_set_error := fun f ret => { f with last_error := ret }
  qemu_put_byte := fun f b => { f with bytes := f.bytes ++ [b] }
  qemu_fflush := fun f => f
  ram_save_cgs_epoch_header := fun f => { f with bytes := f.bytes ++ List.replicate 8 0 }
  ram_save_cgs_ram_header := fun f _ _ _ => (8, { f with bytes := f.bytes ++ List.replicate 8 0 })
  multifd_send_sync_main := fun f => (0, f)
  migrate_use_multifd := false
  migrate_multifd_channels := 2
  migrate_postcopy_preempt := false
  migration_in_postcopy := false
  MULTIFD_PACKET_SIZE := 512 * 1024
  TARGET_PAGE_SIZE := 4096
  RAM_CHANNEL_MAX := 2
  QEMU_VM_SECTION_CGS_START := 0x40
  QEMU_VM_SECTION_CGS_END := 0x41

/-- A vendor whose hooks all fail with the value `r` (and report not ready),
leaving the stream and the channel parameters as they are. -/
def sample_cgs_mig_failing (r : Int) : CgsMig SampleStream Nat Nat where
  is_ready := some (fun _ => false)
  savevm_state_setup := some (fun _ _ => r)
  savevm_state_start := some (fun f => (r, f))
  savevm_state_ram_start_epoch := some (fun f => (r, f))
  savevm_state_ram := some (fun f _ _ => (r, f))
  savevm_state_pause := some (fun _ => r)
  savevm_state_end := some (fun f => (r, f))
  savevm_state_ram_abort := some (fun _ => r)
  savevm_state_ram_cancel := some (fun f _ => (r, f))
  savevm_state_cleanup := some (fun _ => ())
  loadvm_state_setup := some (fun _ _ => r)
  loadvm_state := some (fun f _ => (r, f))
  loadvm_state_cleanup := some (fun _ => ())
  multifd_send_prepare := some (fun p => (r, p))
  multifd_recv_pages := some (fun p => (r, p))
  iov_num := some (fun n => n)

/-! ## TdGuestLifecycle: `tdx_validate_attributes`, `tdx_pre_create_vcpu`

The privileged calls go to KVM, outside the sources: the status each one
returns is given by `KvmEnv`, and the calls a function issues are listed in
order in its result. -/

/-- The bound `TDX_MIN_TSC_FREQUENCY_KHZ`. -/
def TDX_MIN_TSC_FREQUENCY_KHZ : Int := 100 * 1000

/-- The bound `TDX_MAX_TSC_FREQUENCY_KHZ`. -/
def TDX_MAX_TSC_FREQUENCY_KHZ : Int := 10 * 1000 * 1000

/-- The attribute `TDX_TD_ATTRIBUTES_DEBUG`. -/
def TDX_TD_ATTRIBUTES_DEBUG : Nat := 2 ^ 0

/-- The attribute `TDX_TD_ATTRIBUTES_SEPT_VE_DISABLE`. -/
def TDX_TD_ATTRIBUTES_SEPT_VE_DISABLE : Nat := 2 ^ 28

/-- The attribute `TDX_TD_ATTRIBUTES_MIG`. -/
def TDX_TD_ATTRIBUTES_MIG : Nat := 2 ^ 29

/-- The attribute `TDX_TD_ATTRIBUTES_PKS`. -/
def TDX_TD_ATTRIBUTES_PKS : Nat := 2 ^ 30

/-- The attribute `TDX_TD_ATTRIBUTES_PERFMON`. -/
def TDX_TD_ATTRIBUTES_PERFMON : Nat := 2 ^ 63

/-- The C function `tdx_validate_attributes`. -/
def tdx_validate_attributes (tdx_caps : KvmTdxCapabilities) (tdx : TdxGuest) : Int :=
  if ((tdx.attributes &&& tdx_caps.attrs_fixed0) ||| tdx_caps.attrs_fixed1) ≠ tdx.attributes then
    -EINVAL
  else 0

/-- The C function `tdx_guest_need_prebinding`: some word of `migtd_hash` is
not zero. -/
def tdx_guest_need_prebinding (tdx : TdxGuest) : Bool :=
  tdx.migtd_hash.any (fun qword => qword != 0)

/-- The C function `tdx_guest_need_binding`. -/
def tdx_guest_need_binding (tdx : TdxGuest) : Bool :=
  tdx.migtd_pid != 0

/-- The fields of `X86CPU` and of its `CPUX86State` that `tdx_pre_create_vcpu`
reads: `env->tsc_khz` (a signed 64-bit number), `env->features[FEAT_7_0_ECX]`
and `enable_pmu`. -/
structure X86CPU where
  tsc_khz : Int
  features_7_0_ECX : Nat := 0
  enable_pmu : Bool := false
deriving DecidableEq, Repr

/-- The C function `setup_td_guest_attributes`: the return value, the
TrustDomain and the global `kvm_ram_default_shared` afterwards. -/
def setup_td_guest_attributes (K : CpuDefs) (tdx_caps : KvmTdxCapabilities) (x86cpu : X86CPU)
    (tdx : TdxGuest) (kvm_ram_default_shared : Bool) : Int × TdxGuest × Bool :=
  let tdx := { tdx with attributes := tdx.attributes |||
    (if x86cpu.features_7_0_ECX &&& K.CPUID_7_0_ECX_PKS ≠ 0 then TDX_TD_ATTRIBUTES_PKS else 0) }
  let tdx := { tdx with attributes := tdx.attributes |||
    (if x86cpu.enable_pmu = true then TDX_TD_ATTRIBUTES_PERFMON else 0) }
  if tdx_guest_need_prebinding tdx = true ∨ tdx_guest_need_binding tdx = true then
    let tdx := { tdx with attributes := tdx.attributes ||| TDX_TD_ATTRIBUTES_MIG }
    (tdx_validate_attributes tdx_caps tdx, tdx, true)
  else
    (tdx_validate_attributes tdx_caps tdx, tdx, kvm_ram_default_shared)

/-- The fields of `struct kvm_tdx_init_vm` that `tdx_pre_create_vcpu` fills in;
`cpuid` stands for the entries that `kvm_x86_arch_cpuid` produces. -/
structure kvm_tdx_init_vm where
  attributes : Nat
  mrconfigid : List Nat
  mrowner : List Nat
  mrownerconfig : List Nat
  cpuid : List Nat
deriving DecidableEq, Repr

/-- The privileged calls of `tdx_pre_create_vcpu`:
`kvm_vm_enable_cap(kvm_state, KVM_CAP_MAX_VCPUS, 0, cpus)`,
`kvm_vm_ioctl(kvm_state, KVM_SET_TSC_KHZ, tsc_khz)` and
`tdx_vm_ioctl(KVM_TDX_INIT_VM, flags, &init_vm)`. -/
inductive PrivilegedCall where
  | enable_cap_max_vcpus (cpus : Nat)
  | set_tsc_khz (tsc_khz : Int)
  | init_vm (flags : Nat) (init_vm : kvm_tdx_init_vm)
deriving DecidableEq, Repr

/-- What `tdx_pre_create_vcpu` takes from its surroundings: `ms->smp.cpus`,
the status of each privileged call, the entries `kvm_x86_arch_cpuid` produces,
whether the run state is `RUN_STATE_INMIGRATE`, and the flag
`KVM_TDX_INIT_VM_F_POST_INIT` of the KVM headers. -/
structure KvmEnv where
  smp_cpus : Nat
  enable_cap_status : Int
  set_tsc_khz_status : Int
  init_vm_status : Int
  kvm_x86_arch_cpuid : List Nat
  inmigrate : Bool
  KVM_TDX_INIT_VM_F_POST_INIT : Nat
deriving DecidableEq, Repr

/-- What a call of `tdx_pre_create_vcpu` leaves: the return value, the
TrustDomain, the global `kvm_ram_default_shared`, and the privileged calls it
issued, in order. -/
structure PreCreateExit where
  r : Int
  tdx : TdxGuest
  kvm_ram_default_shared : Bool
  calls : List PrivilegedCall
deriving DecidableEq, Repr

/-- The C function `tdx_pre_create_vcpu`. -/
def tdx_pre_create_vcpu (K : CpuDefs) (tdx_caps : KvmTdxCapabilities) (O : KvmEnv)
    (x86cpu : X86CPU) (tdx : TdxGuest) (kvm_ram_default_shared : Bool) : PreCreateExit :=
  if tdx.initialized = true then ⟨0, tdx, kvm_ram_default_shared, []⟩
  else
    let calls := [PrivilegedCall.enable_cap_max_vcpus O.smp_cpus]
    let r := O.enable_cap_status
    if r < 0 then ⟨r, tdx, kvm_ram_default_shared, calls⟩
    else
      let r := -EINVAL
      if x86cpu.tsc_khz ≠ 0 ∧ (x86cpu.tsc_khz < TDX_MIN_TSC_FREQUENCY_KHZ ∨
          x86cpu.tsc_khz > TDX_MAX_TSC_FREQUENCY_KHZ) then
        ⟨r, tdx, kvm_ram_default_shared, calls⟩
      else if x86cpu.tsc_khz.tmod (25 * 1000) ≠ 0 then
        ⟨r, tdx, kvm_ram_default_shared, calls⟩
      else
        let calls := calls ++ [PrivilegedCall.set_tsc_khz x86cpu.tsc_khz]
        let r := O.set_tsc_khz_status
        if r < 0 then ⟨r, tdx, kvm_ram_default_shared, calls⟩
        else
          let s := setup_td_guest_attributes K tdx_caps x86cpu tdx kvm_ram_default_shared
          if s.1 ≠ 0 then ⟨s.1, s.2.1, s.2.2, calls⟩
          else
            let init_vm : kvm_tdx_init_vm :=
              { attributes := s.2.1.attributes, mrconfigid := s.2.1.mrconfigid,
                mrowner := s.2.1.mrowner, mrownerconfig := s.2.1.mrownerconfig,
                cpuid := O.kvm_x86_arch_cpuid }
            let flags := if O.inmigrate = true then O.KVM_TDX_INIT_VM_F_POST_INIT else 0
            let calls := calls ++ [PrivilegedCall.init_vm flags init_vm]
            let r := O.init_vm_status
            if r < 0 then ⟨r, s.2.1, s.2.2, calls⟩
            else ⟨r, { s.2.1 with initialized := true }, s.2.2, calls⟩

/-- The call is `KVM_SET_TSC_KHZ` or `KVM_TDX_INIT_VM`. -/
def PrivilegedCall.is_tsc_or_init : PrivilegedCall → Bool
  | PrivilegedCall.enable_cap_max_vcpus _ => false
  | PrivilegedCall.set_tsc_khz _ => true
  | PrivilegedCall.init_vm _ _ => true

/-- A KVM that accepts every call, for a VM with 4 CPUs that is not an incoming
migration. -/
def sample_kvm_env : KvmEnv where
  smp_cpus := 4
  enable_cap_status := 0
  set_tsc_khz_status := 0
  init_vm_status := 0
  kvm_x86_arch_cpuid := []
  inmigrate := false
  KVM_TDX_INIT_VM_F_POST_INIT := 1

/-- Capabilities whose attribute masks allow the bits 28 to 30 and 63 and
require none. -/
def sample_attr_caps : KvmTdxCapabilities :=
  ⟨2 ^ 28 ||| 2 ^ 29 ||| 2 ^ 30 ||| 2 ^ 63, 0, 0, 0, []⟩

/-- A TrustDomain as `tdx_guest_init` leaves it: not initialised, the
attribute `SEPT_VE_DISABLE` set. -/
def sample_tdx_guest : TdxGuest :=
  { attributes := TDX_TD_ATTRIBUTES_SEPT_VE_DISABLE }

/-- The C function `tdx_vmcall_service_register_type`: the entry `*type` is
copied to the end of the dispatch table; a null `tdx` or `type` changes
nothing. -/
def tdx_vmcall_service_register_type (tdx : Option TdxGuest)
    (type : Option TdxVmcallServiceType) : Option TdxGuest :=
  match tdx, type with
  | some tdx, some type =>
    some { tdx with
      vmcall_service := { dispatch_table := tdx.vmcall_service.dispatch_table ++ [type] } }
  | tdx, _ => tdx

/-- The entry serves the GUID: its `from` equals the GUID and its callback is
not null. -/
def TdxVmcallServiceType.serves (e : TdxVmcallServiceType) (guid : QemuUUID) : Prop :=
  e.from_ = guid ∧ e.to_ ≠ none

instance (e : TdxVmcallServiceType) (guid : QemuUUID) : Decidable (e.serves guid) := by
  unfold TdxVmcallServiceType.serves; infer_instance

/-- A dispatch table in which the GUID of sevens is served by callback 1 at
index 0 and again by callback 2 at index 2, index 1 being a disabled entry for
the GUID of nines. -/
def sample_dispatch_table : TdxVmcallService :=
  ⟨[{ from_ := List.replicate 16 7, to_ := some 1 },
    { from_ := List.replicate 16 9, to_ := none },
    { from_ := List.replicate 16 7, to_ := some 2 }]⟩

/-- The macro `GHCI_GET_QUOTE_BUFSIZE_OLD`. -/
def GHCI_GET_QUOTE_BUFSIZE_OLD : Nat := 8 * 1024

/-- The C function `tdx_handle_get_quote`; `phys_bits` is `cpu->phys_bits`. -/
def tdx_handle_get_quote (UNASSIGNED_APIC_ID : Nat) (ioc : Nat) (phys_bits : Nat) (w : TdxWorld)
    (vmcall : kvm_tdx_vmcall) : GetQuoteExit :=
  let gpa := vmcall.in_r12
  let buf_len := vmcall.in_r13
  if gpa &&& tdx_shared_bit phys_bits = 0 then ⟨w, some TDG_VP_VMCALL_INVALID_OPERAND, none⟩
  else
    let gpa := gpa &&& not64 (tdx_shared_bit phys_bits)
    if gpa % 4096 ≠ 0 ∨ buf_len % 4096 ≠ 0 then ⟨w, some TDG_VP_VMCALL_ALIGN_ERROR, none⟩
    else
      let buf_len := if buf_len = 0 then GHCI_GET_QUOTE_BUFSIZE_OLD else buf_len
      __tdx_handle_get_quote UNASSIGNED_APIC_ID ioc w gpa buf_len UNASSIGNED_APIC_ID
        UNASSIGNED_INTERRUPT_VECTOR (some TDG_VP_VMCALL_INVALID_OPERAND)

/-- Two pages of guest RAM at 0x1000 holding a quote header of version 2 with
all other fields zero. -/
def sample_mem_version2 : AddressSpace where
  byte := fun a => if 0x1000 ≤ a ∧ a < 0x3000 then some (if a = 0x1000 then 2 else 0) else none
  readonly := fun _ => false

/-- The C function `tdx_transaction_start`: the fd handler and the 30 s timer of
the task are set up. -/
def tdx_transaction_start (t : tdx_get_quote_task) : tdx_get_quote_task :=
  { t with timer_armed := true }

/-- The C function `getquote_timer_expired`, the timer callback of a task. -/
def getquote_timer_expired (w : TdxWorld) (t : tdx_get_quote_task) : TdxWorld :=
  tdx_getquote_task_cleanup w t false

/-- The C function `tdx_handle_get_quote_connected`, the completion callback of
the connection attempt.  `task_error` tells whether `qio_task_propagate_error`
reports a failure, `alloc_ok` whether `g_malloc` returns a buffer (for a size
of 0 it returns `NULL`), and `write_ok` whether `qio_channel_write_all`
succeeds. -/
def tdx_handle_get_quote_connected (w : TdxWorld) (t : tdx_get_quote_task)
    (task_error alloc_ok write_ok : Bool) : QuoteReadExit :=
  let t := { t with hdr := { t.hdr with error_code := TDX_VP_GET_QUOTE_ERROR } }
  if task_error = true then
    QuoteReadExit.completed (tdx_getquote_task_cleanup w
      { t with hdr := { t.hdr with error_code := TDX_VP_GET_QUOTE_QGS_UNAVAILABLE } } false)
  else if alloc_ok = false then
    QuoteReadExit.completed (tdx_getquote_task_cleanup w t false)
  else
    match address_space_read w.mem (t.gpa + sizeof_tdx_get_quote_header) t.hdr.in_len with
    | none => QuoteReadExit.completed (tdx_getquote_task_cleanup w t false)
    | some _ =>
      if write_ok = false then
        QuoteReadExit.completed (tdx_getquote_task_cleanup w
          { t with hdr := { t.hdr with error_code := TDX_VP_GET_QUOTE_QGS_UNAVAILABLE } } false)
      else QuoteReadExit.returned (tdx_transaction_start t)

/-- The task `t` is in flight: the in-flight list holds the task that owns the
channel of `t`. -/
def task_in_flight (w : TdxWorld) (t : tdx_get_quote_task) : Prop :=
  ∃ x ∈ w.tdx.get_quote_task_list, x.ioc = t.ioc

/-- The states of the TrustDomain reachable from the initial one (no task in
flight, counter 0) through get-quote requests, each with a channel object that
no task in flight owns, through the completions of tasks in flight (by the
connection callback, the fd handler or the timer), and through steps that
leave the in-flight list and the counter alone. -/
inductive QuoteReachable (UNASSIGNED_APIC_ID : Nat) : TdxWorld → Prop where
  | init (w : TdxWorld) :
      w.tdx.get_quote_task_list = [] → w.tdx.quote_generation_num = 0 →
      QuoteReachable UNASSIGNED_APIC_ID w
  | request (w : TdxWorld) (ioc gpa buf_len apic_id event_notify_interrupt : Nat)
      (vmcall : Option Nat) :
      QuoteReachable UNASSIGNED_APIC_ID w →
      (∀ t ∈ w.tdx.get_quote_task_list, t.ioc ≠ ioc) →
      QuoteReachable UNASSIGNED_APIC_ID
        (__tdx_handle_get_quote UNASSIGNED_APIC_ID ioc w gpa buf_len apic_id
          event_notify_interrupt vmcall).world
  | connected (w w1 : TdxWorld) (t : tdx_get_quote_task) (task_error alloc_ok write_ok : Bool) :
      QuoteReachable UNASSIGNED_APIC_ID w → task_in_flight w t →
      tdx_handle_get_quote_connected w t task_error alloc_ok write_ok
        = QuoteReadExit.completed w1 →
      QuoteReachable UNASSIGNED_APIC_ID w1
  | read (w w1 : TdxWorld) (t : tdx_get_quote_task) (reads : List ChannelRead) :
      QuoteReachable UNASSIGNED_APIC_ID w → task_in_flight w t →
      tdx_get_quote_read w t reads = QuoteReadExit.completed w1 →
      QuoteReachable UNASSIGNED_APIC_ID w1
  | timer (w : TdxWorld) (t : tdx_get_quote_task) :
      QuoteReachable UNASSIGNED_APIC_ID w → task_in_flight w t →
      QuoteReachable UNASSIGNED_APIC_ID (getquote_timer_expired w t)
  | other (w w1 : TdxWorld) :
      QuoteReachable UNASSIGNED_APIC_ID w →
      w1.tdx.get_quote_task_list = w.tdx.get_quote_task_list →
      w1.tdx.quote_generation_num = w.tdx.quote_generation_num →
      QuoteReachable UNASSIGNED_APIC_ID w1

/-- The invariant of the in-flight bookkeeping: the counter is the length of
the list and at most 16, and no two tasks of the list own the same channel. -/
def quote_bookkeeping (tdx : TdxGuest) : Prop :=
  tdx.quote_generation_num = tdx.get_quote_task_list.length ∧
  tdx.quote_generation_num ≤ 16 ∧
  (tdx.get_quote_task_list.map (fun x => x.ioc)).Nodup

/-- A TrustDomain with a quote endpoint and no request in flight, over the
sample memory. -/
def sample_world_idle : TdxWorld where
  mem := sample_mem
  tdx := { quote_generation := some "unix:/var/run/qgs.socket" }
  msi := []

/-- The entries of a region list are pairwise non-overlapping: no address is
covered by two of them. -/
def non_overlapping (ram_entries : List TdxRamEntry) : Prop :=
  ram_entries.Pairwise (fun e1 e2 => ∀ x, ¬ (e1.covers x ∧ e2.covers x))

/-- The address `x` is covered by an entry of the region list. -/
def covered (ram_entries : List TdxRamEntry) (x : Nat) : Prop :=
  ∃ e ∈ ram_entries, e.covers x

/-! ## Saving the quote tasks in flight: `tdx_guest_pre_save`, `tdx_guest_post_save` -/

/-- The loop of `tdx_guest_pre_save` over the remaining tasks of the in-flight
list, `i` being the index and `state` the array `get_quote_state`: the entry
`i` is written, then `assert(i < quote_generation_num)` is checked; `none` is
the failed assertion. -/
def tdx_guest_pre_save_loop (quote_generation_num : Int) :
    List tdx_get_quote_task → Nat → List TdxGetQuoteState → Option (List TdxGetQuoteState)
  | [], _, state => some state
  | task :: tasks, i, state =>
    let state := state.set i
      { gpa := task.gpa, buf_len := task.buf_len, apic_id := task.apic_id,
        event_notify_interrupt := task.event_notify_interrupt }
    if ¬ ((i : Int) < quote_generation_num) then none
    else tdx_guest_pre_save_loop quote_generation_num tasks (i + 1) state

/-- The C function `tdx_guest_pre_save`: the TrustDomain afterwards when it
returns (it returns 0), `none` when the process aborts, in the allocation of a
negative number of entries or in the assertion.  The entries that `g_malloc_n`
leaves uninitialised are zero here. -/
def tdx_guest_pre_save (tdx : TdxGuest) : Option TdxGuest :=
  if tdx.quote_generation_num < 0 then none
  else
    let get_quote_state := List.replicate tdx.quote_generation_num.toNat ({} : TdxGetQuoteState)
    (tdx_guest_pre_save_loop tdx.quote_generation_num tdx.get_quote_task_list 0
      get_quote_state).map (fun state => { tdx with get_quote_state := state })

/-- The C function `tdx_guest_post_save` (it returns 0): the array is freed and
the pointer reset to `NULL`. -/
def tdx_guest_post_save (tdx : TdxGuest) : TdxGuest :=
  { tdx with get_quote_state := [] }

/-- A TrustDomain with two quote requests in flight, for the buffers at 0x1000
and 0x5000. -/
def sample_tdx_two_tasks : TdxGuest :=
  { quote_generation := some "unix:/var/run/qgs.socket", quote_generation_num := 2,
    get_quote_task_list :=
      [{ sample_task with gpa := 0x5000, ioc := 2, apic_id := 3, event_notify_interrupt := 40 },
       sample_task] }

/-! ## The guest calls: `tdx_handle_vmcall`, `tdx_handle_setup_event_notify_interrupt` -/

/-- The subfunction `TDG_VP_VMCALL_MAP_GPA`. -/
def TDG_VP_VMCALL_MAP_GPA : Nat := 0x10001

/-- The subfunction `TDG_VP_VMCALL_GET_QUOTE`. -/
def TDG_VP_VMCALL_GET_QUOTE : Nat := 0x10002

/-- The subfunction `TDG_VP_VMCALL_SETUP_EVENT_NOTIFY_INTERRUPT`. -/
def TDG_VP_VMCALL_SETUP_EVENT_NOTIFY_INTERRUPT : Nat := 0x10004

/-- The subfunction `TDG_VP_VMCALL_SERVICE`. -/
def TDG_VP_VMCALL_SERVICE : Nat := 0x10005

/-- The C function `tdx_handle_setup_event_notify_interrupt`; `apic_id` is
`cpu->apic_id`.  The local `int event_notify_interrupt` takes its value from the
64-bit `in_r12`, and the `uint8_t` field of the TrustDomain takes it from the
local. -/
def tdx_handle_setup_event_notify_interrupt (apic_id : Nat) (tdx : TdxGuest)
    (vmcall : kvm_tdx_vmcall) : TdxGuest × kvm_tdx_vmcall :=
  let event_notify_interrupt : Int := int_of_u64 vmcall.in_r12
  if 32 ≤ event_notify_interrupt ∧ event_notify_interrupt ≤ 255 then
    ({ tdx with event_notify_interrupt := (event_notify_interrupt % 256).toNat,
                apic_id := apic_id },
     { vmcall with status_code := TDG_VP_VMCALL_SUCCESS })
  else (tdx, vmcall)

/-- The C function `tdx_handle_vmcall`.  The four handlers it dispatches to are
parameters; each turns the state `s` that the handlers act on and the vmcall
into the state and the vmcall afterwards. -/
def tdx_handle_vmcall {σ : Type}
    (map_gpa get_quote setup_event_notify_interrupt service :
      σ → kvm_tdx_vmcall → σ × kvm_tdx_vmcall)
    (s : σ) (vmcall : kvm_tdx_vmcall) : σ × kvm_tdx_vmcall :=
  let vmcall := { vmcall with status_code := TDG_VP_VMCALL_INVALID_OPERAND }
  if vmcall.type ≠ 0 then (s, vmcall)
  else if vmcall.subfunction = TDG_VP_VMCALL_MAP_GPA then map_gpa s vmcall
  else if vmcall.subfunction = TDG_VP_VMCALL_GET_QUOTE then get_quote s vmcall
  else if vmcall.subfunction = TDG_VP_VMCALL_SETUP_EVENT_NOTIFY_INTERRUPT then
    setup_event_notify_interrupt s vmcall
  else if vmcall.subfunction = TDG_VP_VMCALL_SERVICE then service s vmcall
  else (s, vmcall)

/-! ### Quote requests that fill the buffer -/

/-- One page of guest RAM at 0x1000, the 4096-byte quote buffer, holding a quote
header of version 1 with `in_len = 4096`; nothing else is mapped. -/
def sample_mem_one_page : AddressSpace where
  byte := fun a =>
    if 0x1000 ≤ a ∧ a < 0x2000 then some (if a = 0x1000 then 1 else if a = 0x1011 then 0x10 else 0)
    else none
  readonly := fun _ => false

/-- An idle TrustDomain with a quote endpoint over `sample_mem_one_page`. -/
def sample_world_one_page : TdxWorld where
  mem := sample_mem_one_page
  tdx := { quote_generation := some "unix:/var/run/qgs.socket" }
  msi := []

/-- The request of a guest for a quote with the 4096-byte buffer at 0x1000 of
`sample_world_one_page`, whose header declares a command of 4096 bytes: the
shared bit 47 is set in `r12`, and `r13` is the buffer length. -/
def sample_page_request : GetQuoteExit :=
  tdx_handle_get_quote 0xFFFFFFFF 17 46 sample_world_one_page
    { in_r12 := 2 ^ 47 + 0x1000, in_r13 := 0x1000 }

/-- A TrustDomain over the two pages of `sample_mem` whose only quote request in
flight is `sample_task_page`, with the 4096-byte buffer at 0x1000. -/
def sample_world_page : TdxWorld where
  mem := sample_mem
  tdx := { quote_generation := some "unix:/var/run/qgs.socket", quote_generation_num := 1,
           get_quote_task_list := [sample_task_page] }
  msi := []

/-! ## Capability discovery: `get_tdx_capabilities`

The query `KVM_TDX_CAPABILITIES` goes to KVM, outside the sources: the results
of the successive queries of a level are given by a sequence, and the queries
the function issues are listed in its result with their entry counts. -/

/-- The errno value `E2BIG`. -/
def E2BIG : Int := 7

/-- How a query loop of `get_tdx_capabilities` ends: it is left with a
non-negative result and the entry count of the last query, it is left through
`break` on `-EINVAL`, or the process terminates in `exit(1)`. -/
inductive CapsLoopExit where
  | done (nr_cpuid_configs : Int)
  | einval
  | exit
deriving DecidableEq, Repr

/-- The first loop of `get_tdx_capabilities`, on the platform level.
`results k` is the result of the `k`-th query, `nr_cpuid_configs` the entry
count of the next query and `queries` the entry counts of the queries issued so
far; `fuel` bounds the number of turns (`none` when it runs out). -/
def get_tdx_capabilities_platform_loop (KVM_MAX_CPUID_ENTRIES : Int) (results : Nat → Int) :
    Nat → Int → Nat → List Int → Option (CapsLoopExit × List Int)
  | 0, _, _, _ => none
  | fuel + 1, nr_cpuid_configs, k, queries =>
    let queries := queries ++ [nr_cpuid_configs]
    let r := results k
    if r = -EINVAL then some (CapsLoopExit.einval, queries)
    else if r = -E2BIG then
      let nr_cpuid_configs := nr_cpuid_configs * 2
      if nr_cpuid_configs > KVM_MAX_CPUID_ENTRIES then some (CapsLoopExit.exit, queries)
      else
        get_tdx_capabilities_platform_loop KVM_MAX_CPUID_ENTRIES results fuel nr_cpuid_configs
          (k + 1) queries
    else if r < 0 then some (CapsLoopExit.exit, queries)
    else some (CapsLoopExit.done nr_cpuid_configs, queries)

/-- The second loop of `get_tdx_capabilities`, on the VM level, with the same
conventions. -/
def get_tdx_capabilities_vm_loop (KVM_MAX_CPUID_ENTRIES : Int) (results : Nat → Int) :
    Nat → Int → Nat → List Int → Option (CapsLoopExit × List Int)
  | 0, _, _, _ => none
  | fuel + 1, nr_cpuid_configs, k, queries =>
    let queries := queries ++ [nr_cpuid_configs]
    let r := results k
    if r = -E2BIG then
      if nr_cpuid_configs > KVM_MAX_CPUID_ENTRIES then some (CapsLoopExit.exit, queries)
      else
        get_tdx_capabilities_vm_loop KVM_MAX_CPUID_ENTRIES results fuel (nr_cpuid_configs * 2)
          (k + 1) queries
    else if r < 0 then some (CapsLoopExit.exit, queries)
    else some (CapsLoopExit.done nr_cpuid_configs, queries)

/-- What `get_tdx_capabilities` leaves: whether the process terminated in
`exit(1)`, the entry count of the descriptor stored in `tdx_caps` otherwise,
and the entry counts of the queries issued on the platform level and on the VM
level, in order. -/
structure CapabilitiesExit where
  exited : Bool
  nr_cpuid_configs : Option Int
  platform_queries : List Int
  vm_queries : List Int
deriving DecidableEq, Repr

/-- The C function `get_tdx_capabilities`.  `KVM_MAX_CPUID_ENTRIES` is the
constant of the KVM headers, `platform k` and `vm k` the result of the `k`-th
query of each level; `none` when `fuel` turns do not finish a loop. -/
def get_tdx_capabilities (KVM_MAX_CPUID_ENTRIES : Int) (platform vm : Nat → Int) (fuel : Nat) :
    Option CapabilitiesExit :=
  match get_tdx_capabilities_platform_loop KVM_MAX_CPUID_ENTRIES platform fuel 6 0 [] with
  | none => none
  | some (CapsLoopExit.exit, queries) => some ⟨true, none, queries, []⟩
  | some (CapsLoopExit.done nr_cpuid_configs, queries) =>
    some ⟨false, some nr_cpuid_configs, queries, []⟩
  | some (CapsLoopExit.einval, queries) =>
    match get_tdx_capabilities_vm_loop KVM_MAX_CPUID_ENTRIES vm fuel 6 0 [] with
    | none => none
    | some (CapsLoopExit.done nr_cpuid_configs, vm_queries) =>
      some ⟨false, some nr_cpuid_configs, queries, vm_queries⟩
    | some (_, vm_queries) => some ⟨true, none, queries, vm_queries⟩

/-! ## Finalisation of the TrustDomain: `tdx_finalize_vm`

The privileged calls of the path go to KVM, outside the sources: the status
each call returns is given by a function of the call, and the calls issued are
listed in order in the result.  `exit` ends the path with its status.  The
steps of the path that issue no privileged call and cannot end it (`qsort`,
`tdvf_hob_create`, `ram_block_discard_range`, the initialisation of the service
query and of the vTPM service) are left out. -/

/-- The section types `TDVF_SECTION_TYPE_*` of a firmware entry; `other` stands
for any value that is none of the six. -/
inductive TdvfSectionType where
  | BFV
  | CFV
  | TD_HOB
  | TEMP_MEM
  | PERM_MEM
  | PAYLOAD
  | other (type : Nat)
deriving DecidableEq, Repr

/-- The fields of `TdxFirmwareEntry` that `tdx_finalize_vm` reads. -/
structure TdxFirmwareEntry where
  address : Nat
  size : Nat
  type : TdvfSectionType
  attributes : Nat := 0
deriving DecidableEq, Repr

/-- The privileged calls of `tdx_finalize_vm`:
`tdx_vcpu_ioctl(cpu, KVM_TDX_INIT_VCPU, 0, hob_addr)`,
`tdx_vm_ioctl(KVM_TDX_SERVTD_BIND, 0, &servtd)` with the pid,
`tdx_vm_ioctl(KVM_TDX_SERVTD_PREBIND, 0, &servtd)` with the hash,
`kvm_encrypt_reg_region(address, size, true)`,
`tdx_vm_ioctl(KVM_TDX_INIT_MEM_REGION, flags, &mem_region)` and
`tdx_vm_ioctl(KVM_TDX_FINALIZE_VM, 0, NULL)`. -/
inductive FinalizeCall where
  | init_vcpu (cpu : Nat) (hob_addr : Nat)
  | servtd_bind (pid : Nat)
  | servtd_prebind (hash : List Nat)
  | encrypt_reg_region (address size : Nat)
  | init_mem_region (flags gpa nr_pages : Nat)
  | finalize_vm
deriving DecidableEq, Repr

/-- A stretch of the path: the status of `exit` when the process terminated in
it (`none` when the stretch ran to its end), and the privileged calls it
issued, in order. -/
structure FinalizeRun where
  exit_status : Option Int
  calls : List FinalizeCall
deriving DecidableEq, Repr

/-- The stretch `r` preceded by the call `c`. -/
def FinalizeRun.after (c : FinalizeCall) (r : FinalizeRun) : FinalizeRun :=
  ⟨r.exit_status, c :: r.calls⟩

/-- The stretch `r` followed by the stretch `k`, which is not run when the
process terminated in `r`. -/
def FinalizeRun.andThen (r k : FinalizeRun) : FinalizeRun :=
  match r.exit_status with
  | some _ => r
  | none => ⟨k.exit_status, r.calls ++ k.calls⟩

/-- What `tdx_finalize_vm` takes from its surroundings: the RAM entries that
`tdx_init_ram_entries` builds from the e820 table, the vCPUs of `CPU_FOREACH`,
the status of each privileged call, whether the run state is
`RUN_STATE_INMIGRATE`, and the flags `TDVF_SECTION_ATTRIBUTES_MR_EXTEND` and
`KVM_TDX_MEASURE_MEMORY_REGION` of the headers. -/
structure FinalizeEnv where
  ram_entries : List TdxRamEntry
  cpus : List Nat
  status : FinalizeCall → Int
  inmigrate : Bool
  TDVF_SECTION_ATTRIBUTES_MR_EXTEND : Nat
  KVM_TDX_MEASURE_MEMORY_REGION : Nat

/-- The C function `tdx_get_hob_entry`. -/
def tdx_get_hob_entry (tdvf : List TdxFirmwareEntry) : Option TdxFirmwareEntry :=
  tdvf.find? (fun entry => entry.type = TdvfSectionType.TD_HOB)

/-- The first loop of `tdx_finalize_vm` over the firmware entries: the RAM
entries afterwards, `none` where the loop ends in `exit(1)`. -/
def tdx_finalize_vm_sections : List TdxFirmwareEntry → List TdxRamEntry →
    Option (List TdxRamEntry)
  | [], ram_entries => some ram_entries
  | entry :: entries, ram_entries =>
    match entry.type with
    | TdvfSectionType.BFV => tdx_finalize_vm_sections entries ram_entries
    | TdvfSectionType.CFV => tdx_finalize_vm_sections entries ram_entries
    | TdvfSectionType.PAYLOAD => tdx_finalize_vm_sections entries ram_entries
    | TdvfSectionType.TD_HOB =>
      tdx_finalize_vm_sections entries (tdx_accept_ram_range ram_entries entry.address entry.size).2
    | TdvfSectionType.TEMP_MEM =>
      tdx_finalize_vm_sections entries (tdx_accept_ram_range ram_entries entry.address entry.size).2
    | TdvfSectionType.PERM_MEM =>
      if (tdx_find_ram_range ram_entries entry.address entry.size).isNone then none
      else tdx_finalize_vm_sections entries ram_entries
    | TdvfSectionType.other _ => none

/-- The loop of `tdx_post_init_vcpus` over the vCPUs; `hob_addr` is the address
of the HOB entry, or `NULL`. -/
def tdx_post_init_vcpus_loop (status : FinalizeCall → Int) (hob_addr : Nat) :
    List Nat → FinalizeRun
  | [] => ⟨none, []⟩
  | cpu :: cpus =>
    let r := status (FinalizeCall.init_vcpu cpu hob_addr)
    if r < 0 then ⟨some 1, [FinalizeCall.init_vcpu cpu hob_addr]⟩
    else (tdx_post_init_vcpus_loop status hob_addr cpus).after (FinalizeCall.init_vcpu cpu hob_addr)

/-- The C function `tdx_post_init_vcpus`. -/
def tdx_post_init_vcpus (E : FinalizeEnv) (tdvf : List TdxFirmwareEntry) : FinalizeRun :=
  let hob_addr :=
    match tdx_get_hob_entry tdvf with
    | some hob => hob.address
    | none => 0
  tdx_post_init_vcpus_loop E.status hob_addr E.cpus

/-- The C function `tdx_binding_with_migtd_pid`: a status other than 0 is
reported with `error_report`, and the function returns. -/
def tdx_binding_with_migtd_pid (E : FinalizeEnv) (tdx : TdxGuest) : FinalizeRun :=
  let r := E.status (FinalizeCall.servtd_bind tdx.migtd_pid)
  if r ≠ 0 then ⟨none, [FinalizeCall.servtd_bind tdx.migtd_pid]⟩
  else ⟨none, [FinalizeCall.servtd_bind tdx.migtd_pid]⟩

/-- The C function `tdx_binding_with_migtd_hash`: a status other than 0 is
reported with `error_report`, and the function returns. -/
def tdx_binding_with_migtd_hash (E : FinalizeEnv) (tdx : TdxGuest) : FinalizeRun :=
  let r := E.status (FinalizeCall.servtd_prebind tdx.migtd_hash)
  if r ≠ 0 then ⟨none, [FinalizeCall.servtd_prebind tdx.migtd_hash]⟩
  else ⟨none, [FinalizeCall.servtd_prebind tdx.migtd_hash]⟩

/-- The second loop of `tdx_finalize_vm` over the firmware entries: the region
is registered as private and, unless it is `PERM_MEM`, added to the
TrustDomain. -/
def tdx_finalize_vm_regions (E : FinalizeEnv) : List TdxFirmwareEntry → FinalizeRun
  | [] => ⟨none, []⟩
  | entry :: entries =>
    let r := E.status (FinalizeCall.encrypt_reg_region entry.address entry.size)
    if r < 0 then ⟨some 1, [FinalizeCall.encrypt_reg_region entry.address entry.size]⟩
    else if entry.type = TdvfSectionType.PERM_MEM then
      (tdx_finalize_vm_regions E entries).after
        (FinalizeCall.encrypt_reg_region entry.address entry.size)
    else
      let flags :=
        if entry.attributes &&& E.TDVF_SECTION_ATTRIBUTES_MR_EXTEND ≠ 0
        then E.KVM_TDX_MEASURE_MEMORY_REGION else 0
      let r := E.status (FinalizeCall.init_mem_region flags entry.address (entry.size / 4096))
      if r < 0 then
        ⟨some 1, [FinalizeCall.encrypt_reg_region entry.address entry.size,
                  FinalizeCall.init_mem_region flags entry.address (entry.size / 4096)]⟩
      else
        ((tdx_finalize_vm_regions E entries).after
          (FinalizeCall.init_mem_region flags entry.address (entry.size / 4096))).after
          (FinalizeCall.encrypt_reg_region entry.address entry.size)

/-- The end of `tdx_finalize_vm`: the call `KVM_TDX_FINALIZE_VM`, whose failure
ends the process in `exit(0)`. -/
def tdx_finalize_vm_finalize (E : FinalizeEnv) : FinalizeRun :=
  let r := E.status FinalizeCall.finalize_vm
  if r < 0 then ⟨some 0, [FinalizeCall.finalize_vm]⟩
  else ⟨none, [FinalizeCall.finalize_vm]⟩

/-- The C function `tdx_finalize_vm`, for the TrustDomain `tdx` and the firmware
entries `tdvf`: how the path ends and the privileged calls it issued. -/
def tdx_finalize_vm (E : FinalizeEnv) (tdx : TdxGuest) (tdvf : List TdxFirmwareEntry) :
    FinalizeRun :=
  match tdx_finalize_vm_sections tdvf E.ram_entries with
  | none => ⟨some 1, []⟩
  | some _ =>
    (tdx_post_init_vcpus E tdvf).andThen
      ((if tdx_guest_need_binding tdx = true then tdx_binding_with_migtd_pid E tdx
        else if tdx_guest_need_prebinding tdx = true then tdx_binding_with_migtd_hash E tdx
        else ⟨none, []⟩).andThen
        (if E.inmigrate = true then ⟨none, []⟩
         else (tdx_finalize_vm_regions E tdvf).andThen (tdx_finalize_vm_finalize E)))

/-- The flag `parent_obj.ready` after `tdx_finalize_vm`: it is set when the path
runs to its end, which it does not on the destination of a migration. -/
def tdx_finalize_vm_ready (E : FinalizeEnv) (tdx : TdxGuest) (tdvf : List TdxFirmwareEntry) :
    Bool :=
  (tdx_finalize_vm E tdx tdvf).exit_status.isNone && !E.inmigrate

/-- The C struct `FeatureMask`: a feature word and a 64-bit mask of its bits. -/
structure FeatureMask where
  index : FeatureWord := 0
  mask : Nat := 0
deriving DecidableEq, Repr

/-- The C struct `FeatureDep`: the bits `to` depend on the bits `from`. -/
structure FeatureDep where
  from_ : FeatureMask
  to_ : FeatureMask
deriving DecidableEq, Repr

/-- The constants of `cpu.h` that `xfam_dependencies`,
`tdx_xfam_representative`, `tdx_attrs_ctrl_fields` and
`update_tdx_cpuid_lookup_by_tdx_caps` name: enumerators of `FeatureWord`, XSAVE
state component numbers and masks, and CPUID feature bits. -/
structure XfamDefs where
  FEAT_1_ECX : FeatureWord
  FEAT_7_0_EBX : FeatureWord
  FEAT_7_0_ECX : FeatureWord
  FEAT_7_0_EDX : FeatureWord
  FEAT_7_1_EAX : FeatureWord
  FEAT_14_0_ECX : FeatureWord
  FEAT_XSAVE_XCR0_LO : FeatureWord
  FEAT_XSAVE_XCR0_HI : FeatureWord
  FEAT_XSAVE_XSS_LO : FeatureWord
  FEAT_XSAVE_XSS_HI : FeatureWord
  XSTATE_YMM_BIT : Nat
  XSTATE_OPMASK_BIT : Nat
  XSTATE_ZMM_Hi256_BIT : Nat
  XSTATE_Hi16_ZMM_BIT : Nat
  XSTATE_RTIT_BIT : Nat
  XSTATE_PKRU_BIT : Nat
  XSTATE_CET_U_BIT : Nat
  XSTATE_CET_S_BIT : Nat
  XSTATE_ARCH_LBR_BIT : Nat
  XSTATE_XTILE_CFG_BIT : Nat
  XSTATE_XTILE_DATA_BIT : Nat
  XSTATE_YMM_MASK : Nat
  XSTATE_AVX_512_MASK : Nat
  XSTATE_PKRU_MASK : Nat
  XSTATE_AMX_MASK : Nat
  XSTATE_RTIT_MASK : Nat
  XSTATE_CET_MASK : Nat
  XSTATE_UINTR_MASK : Nat
  XSTATE_ARCH_LBR_MASK : Nat
  CPUID_XSTATE_XCR0_MASK : Nat
  CPUID_XSTATE_XSS_MASK : Nat
  CPUID_EXT_FMA : Nat
  CPUID_EXT_AVX : Nat
  CPUID_EXT_F16C : Nat
  CPUID_7_0_EBX_AVX2 : Nat
  CPUID_7_0_EBX_AVX512F : Nat
  CPUID_7_0_EBX_AVX512DQ : Nat
  CPUID_7_0_EBX_AVX512IFMA : Nat
  CPUID_7_0_EBX_AVX512PF : Nat
  CPUID_7_0_EBX_AVX512ER : Nat
  CPUID_7_0_EBX_AVX512CD : Nat
  CPUID_7_0_EBX_AVX512BW : Nat
  CPUID_7_0_EBX_AVX512VL : Nat
  CPUID_7_0_EBX_INTEL_PT : Nat
  CPUID_7_0_ECX_VAES : Nat
  CPUID_7_0_ECX_VPCLMULQDQ : Nat
  CPUID_7_0_ECX_AVX512_VBMI : Nat
  CPUID_7_0_ECX_AVX512_VBMI2 : Nat
  CPUID_7_0_ECX_AVX512VNNI : Nat
  CPUID_7_0_ECX_AVX512BITALG : Nat
  CPUID_7_0_ECX_AVX512_VPOPCNTDQ : Nat
  CPUID_7_0_ECX_PKU : Nat
  CPUID_7_0_ECX_CET_SHSTK : Nat
  CPUID_7_0_ECX_KeyLocker : Nat
  CPUID_7_0_EDX_AVX512_4VNNIW : Nat
  CPUID_7_0_EDX_AVX512_4FMAPS : Nat
  CPUID_7_0_EDX_AVX512_VP2INTERSECT : Nat
  CPUID_7_0_EDX_AVX512_FP16 : Nat
  CPUID_7_0_EDX_AMX_BF16 : Nat
  CPUID_7_0_EDX_AMX_TILE : Nat
  CPUID_7_0_EDX_AMX_INT8 : Nat
  CPUID_7_0_EDX_CET_IBT : Nat
  CPUID_7_0_EDX_UNIT : Nat
  CPUID_7_0_EDX_ARCH_LBR : Nat
  CPUID_7_1_EAX_AVX512_BF16 : Nat
  CPUID_7_1_EAX_AVX_VNNI : Nat
deriving DecidableEq, Repr

/-- An array of `n` entries initialised with designators, `[i] = fm`, in the
order of the list; the entries without a designator are zero. -/
def designated_array (n : Nat) (inits : List (Nat × FeatureMask)) : List FeatureMask :=
  inits.foldl (fun arr p => arr.set p.1 p.2) (List.replicate n {})

/-- The macro `TDX_ATTRIBUTES_MAX_BITS`. -/
def TDX_ATTRIBUTES_MAX_BITS : Nat := 64

/-- The table `tdx_attrs_ctrl_fields`: the CPUID bit that attribute bit `i`
controls, for bit 30 (PKS) and bit 31 (KeyLocker). -/
def tdx_attrs_ctrl_fields (K : CpuDefs) (X : XfamDefs) : List FeatureMask :=
  designated_array TDX_ATTRIBUTES_MAX_BITS
    [(30, { index := X.FEAT_7_0_ECX, mask := K.CPUID_7_0_ECX_PKS }),
     (31, { index := X.FEAT_7_0_ECX, mask := X.CPUID_7_0_ECX_KeyLocker })]

/-- The table `xfam_dependencies`. -/
def xfam_dependencies (X : XfamDefs) : List FeatureDep :=
  [ { from_ := ⟨X.FEAT_XSAVE_XCR0_LO, X.XSTATE_YMM_MASK⟩,
      to_ := ⟨X.FEAT_XSAVE_XCR0_LO, X.XSTATE_AVX_512_MASK⟩ },
    { from_ := ⟨X.FEAT_XSAVE_XCR0_LO, X.XSTATE_YMM_MASK⟩,
      to_ := ⟨X.FEAT_1_ECX, X.CPUID_EXT_FMA ||| X.CPUID_EXT_AVX ||| X.CPUID_EXT_F16C⟩ },
    { from_ := ⟨X.FEAT_XSAVE_XCR0_LO, X.XSTATE_YMM_MASK⟩,
      to_ := ⟨X.FEAT_7_0_EBX, X.CPUID_7_0_EBX_AVX2⟩ },
    { from_ := ⟨X.FEAT_XSAVE_XCR0_LO, X.XSTATE_YMM_MASK⟩,
      to_ := ⟨X.FEAT_7_0_ECX, X.CPUID_7_0_ECX_VAES ||| X.CPUID_7_0_ECX_VPCLMULQDQ⟩ },
    { from_ := ⟨X.FEAT_XSAVE_XCR0_LO, X.XSTATE_AVX_512_MASK⟩,
      to_ := ⟨X.FEAT_7_0_EBX,
        X.CPUID_7_0_EBX_AVX512F ||| X.CPUID_7_0_EBX_AVX512DQ |||
        X.CPUID_7_0_EBX_AVX512IFMA ||| X.CPUID_7_0_EBX_AVX512PF |||
        X.CPUID_7_0_EBX_AVX512ER ||| X.CPUID_7_0_EBX_AVX512CD |||
        X.CPUID_7_0_EBX_AVX512BW ||| X.CPUID_7_0_EBX_AVX512VL⟩ },
    { from_ := ⟨X.FEAT_XSAVE_XCR0_LO, X.XSTATE_AVX_512_MASK⟩,
      to_ := ⟨X.FEAT_7_0_ECX,
        X.CPUID_7_0_ECX_AVX512_VBMI ||| X.CPUID_7_0_ECX_AVX512_VBMI2 |||
        X.CPUID_7_0_ECX_AVX512VNNI ||| X.CPUID_7_0_ECX_AVX512BITALG |||
        X.CPUID_7_0_ECX_AVX512_VPOPCNTDQ⟩ },
    { from_ := ⟨X.FEAT_XSAVE_XCR0_LO, X.XSTATE_AVX_512_MASK⟩,
      to_ := ⟨X.FEAT_7_0_EDX,
        X.CPUID_7_0_EDX_AVX512_4VNNIW ||| X.CPUID_7_0_EDX_AVX512_4FMAPS |||
        X.CPUID_7_0_EDX_AVX512_VP2INTERSECT ||| X.CPUID_7_0_EDX_AVX512_FP16⟩ },
    { from_ := ⟨X.FEAT_XSAVE_XCR0_LO, X.XSTATE_AVX_512_MASK⟩,
      to_ := ⟨X.FEAT_7_1_EAX, X.CPUID_7_1_EAX_AVX512_BF16 ||| X.CPUID_7_1_EAX_AVX_VNNI⟩ },
    { from_ := ⟨X.FEAT_XSAVE_XCR0_LO, X.XSTATE_PKRU_MASK⟩,
      to_ := ⟨X.FEAT_7_0_ECX, X.CPUID_7_0_ECX_PKU⟩ },
    { from_ := ⟨X.FEAT_XSAVE_XCR0_LO, X.XSTATE_AMX_MASK⟩,
      to_ := ⟨X.FEAT_7_0_EDX,
        X.CPUID_7_0_EDX_AMX_BF16 ||| X.CPUID_7_0_EDX_AMX_TILE ||| X.CPUID_7_0_EDX_AMX_INT8⟩ },
    { from_ := ⟨X.FEAT_XSAVE_XSS_LO, X.XSTATE_RTIT_MASK⟩,
      to_ := ⟨X.FEAT_7_0_EBX, X.CPUID_7_0_EBX_INTEL_PT⟩ },
    { from_ := ⟨X.FEAT_XSAVE_XSS_LO, X.XSTATE_RTIT_MASK⟩,
      to_ := ⟨X.FEAT_14_0_ECX, 2 ^ 64 - 1⟩ },
    { from_ := ⟨X.FEAT_XSAVE_XSS_LO, X.XSTATE_CET_MASK⟩,
      to_ := ⟨X.FEAT_7_0_ECX, X.CPUID_7_0_ECX_CET_SHSTK⟩ },
    { from_ := ⟨X.FEAT_XSAVE_XSS_LO, X.XSTATE_CET_MASK⟩,
      to_ := ⟨X.FEAT_7_0_EDX, X.CPUID_7_0_EDX_CET_IBT⟩ },
    { from_ := ⟨X.FEAT_XSAVE_XSS_LO, X.XSTATE_UINTR_MASK⟩,
      to_ := ⟨X.FEAT_7_0_EDX, X.CPUID_7_0_EDX_UNIT⟩ },
    { from_ := ⟨X.FEAT_XSAVE_XSS_LO, X.XSTATE_ARCH_LBR_MASK⟩,
      to_ := ⟨X.FEAT_7_0_EDX, X.CPUID_7_0_EDX_ARCH_LBR⟩ } ]

/-- The designators of `tdx_xfam_representative`, in the order of the
initialiser. -/
def tdx_xfam_representative_inits (X : XfamDefs) : List (Nat × FeatureMask) :=
  [ (X.XSTATE_YMM_BIT, ⟨X.FEAT_1_ECX, X.CPUID_EXT_AVX⟩),
    (X.XSTATE_OPMASK_BIT, ⟨X.FEAT_7_0_EBX, X.CPUID_7_0_EBX_AVX512F⟩),
    (X.XSTATE_ZMM_Hi256_BIT, ⟨X.FEAT_7_0_EBX, X.CPUID_7_0_EBX_AVX512F⟩),
    (X.XSTATE_Hi16_ZMM_BIT, ⟨X.FEAT_7_0_EBX, X.CPUID_7_0_EBX_AVX512F⟩),
    (X.XSTATE_RTIT_BIT, ⟨X.FEAT_7_0_EBX, X.CPUID_7_0_EBX_INTEL_PT⟩),
    (X.XSTATE_PKRU_BIT, ⟨X.FEAT_7_0_ECX, X.CPUID_7_0_ECX_PKU⟩),
    (X.XSTATE_CET_U_BIT, ⟨X.FEAT_7_0_ECX, X.CPUID_7_0_ECX_CET_SHSTK⟩),
    (X.XSTATE_CET_S_BIT, ⟨X.FEAT_7_0_ECX, X.CPUID_7_0_ECX_CET_SHSTK⟩),
    (X.XSTATE_ARCH_LBR_BIT, ⟨X.FEAT_7_0_EDX, X.CPUID_7_0_EDX_ARCH_LBR⟩),
    (X.XSTATE_XTILE_CFG_BIT, ⟨X.FEAT_7_0_EDX, X.CPUID_7_0_EDX_AMX_TILE⟩),
    (X.XSTATE_XTILE_DATA_BIT, ⟨X.FEAT_7_0_EDX, X.CPUID_7_0_EDX_AMX_TILE⟩) ]

/-- The table `tdx_xfam_representative`, indexed by XSAVE state component: its
size is one more than the largest designator. -/
def tdx_xfam_representative (X : XfamDefs) : List FeatureMask :=
  designated_array (((tdx_xfam_representative_inits X).map Prod.fst).foldl max 0 + 1)
    (tdx_xfam_representative_inits X)

/-- The fields of `X86CPU` and of its `CPUX86State` that
`tdx_apply_xfam_dependencies` uses: the feature-word arrays `env->features`,
`env->user_plus_features` and `filtered_features`, and `force_features`. -/
structure CpuFeatures where
  features : FeatureWord → Nat
  user_plus_features : FeatureWord → Nat
  filtered_features : FeatureWord → Nat
  force_features : Bool

/-- The feature-word array `a` with word `w` set to `v`. -/
def set_word (a : FeatureWord → Nat) (w : FeatureWord) (v : Nat) : FeatureWord → Nat :=
  fun x => if x = w then v else a x

/-- Modelled from the spec: the reporting routine `mark_unavailable_features` of
the CPU model (outside the sources).  It records the bits of `mask` as
filtered, warns about them and, unless the features are forced, clears them
from the word. -/
def mark_unavailable_features (cpu : CpuFeatures) (w : FeatureWord) (mask : Nat) : CpuFeatures :=
  let cpu :=
    if cpu.force_features = false
    then { cpu with features := set_word cpu.features w (cpu.features w &&& not64 mask) }
    else cpu
  let filtered := (cpu.filtered_features w ||| mask) % 2 ^ 64
  { cpu with filtered_features := set_word cpu.filtered_features w filtered }

/-- The body of the loop of `tdx_apply_xfam_dependencies` for the entry `d`: when
none of the controlling bits is set, the dependent bits that are set are
reported, as far as the user asked for them, and cleared. -/
def tdx_apply_xfam_dependency (d : FeatureDep) (cpu : CpuFeatures) : CpuFeatures :=
  if cpu.features d.from_.index &&& d.from_.mask = 0 then
    let unavailable_features := cpu.features d.to_.index &&& d.to_.mask
    let cpu := mark_unavailable_features cpu d.to_.index
      (unavailable_features &&& cpu.user_plus_features d.to_.index)
    let word := cpu.features d.to_.index &&& not64 unavailable_features
    { cpu with features := set_word cpu.features d.to_.index word }
  else cpu

/-- The loop of `tdx_apply_xfam_dependencies` over the remaining entries of the
dependency table. -/
def tdx_apply_xfam_dependencies_loop : List FeatureDep → CpuFeatures → CpuFeatures
  | [], cpu => cpu
  | d :: ds, cpu => tdx_apply_xfam_dependencies_loop ds (tdx_apply_xfam_dependency d cpu)

/-- The C function `tdx_apply_xfam_dependencies`. -/
def tdx_apply_xfam_dependencies (X : XfamDefs) (cpu : CpuFeatures) : CpuFeatures :=
  tdx_apply_xfam_dependencies_loop (xfam_dependencies X) cpu

/-- The first loop of `tdx_disallow_minus_bits`, over the remaining entries of
the dependency table. -/
def tdx_disallow_minus_bits_deps (w : FeatureWord) : List FeatureDep → Nat → Nat
  | [], ret => ret
  | d :: ds, ret =>
    if w = d.to_.index then tdx_disallow_minus_bits_deps w ds (ret ||| d.to_.mask)
    else tdx_disallow_minus_bits_deps w ds ret

/-- The second loop of `tdx_disallow_minus_bits`, over the remaining entries of
the table of representatives. -/
def tdx_disallow_minus_bits_repr (w : FeatureWord) : List FeatureMask → Nat → Nat
  | [], ret => ret
  | fm :: fms, ret =>
    if w = fm.index then tdx_disallow_minus_bits_repr w fms (ret &&& not64 fm.mask)
    else tdx_disallow_minus_bits_repr w fms ret

/-- The C function `tdx_disallow_minus_bits`; a word outside
`feature_word_info[]` counts as a CPUID word. -/
def tdx_disallow_minus_bits (X : XfamDefs) (E : CpuidEnv) (w : FeatureWord) : Nat :=
  if (E.feature_word_info[w]?).map (fun wi => wi.type) = some FeatureWordType.MSR_FEATURE_WORD then
    2 ^ 64 - 1
  else if (E.tdx_cpuid_lookup w).inducing_ve = true then 0
  else
    let ret := (E.tdx_cpuid_lookup w).tdx_fixed1
    let ret := tdx_disallow_minus_bits_deps w (xfam_dependencies X) ret
    tdx_disallow_minus_bits_repr w (tdx_xfam_representative X) ret

/-- The lookup table with the entry of word `w` replaced. -/
def set_lookup (lookup : FeatureWord → KvmTdxCpuidLookup) (w : FeatureWord)
    (entry : KvmTdxCpuidLookup) : FeatureWord → KvmTdxCpuidLookup :=
  fun x => if x = w then entry else lookup x

/-- The first loop of `update_tdx_cpuid_lookup_by_tdx_caps`, from word `w` on
over the rest of `feature_word_info[]`: what the capabilities report
configurable is not fixed. -/
def update_tdx_cpuid_lookup_configs (K : CpuDefs) (tdx_caps : KvmTdxCapabilities) :
    List FeatureWordInfo → FeatureWord → (FeatureWord → KvmTdxCpuidLookup) →
      (FeatureWord → KvmTdxCpuidLookup)
  | [], _, lookup => lookup
  | fi :: fis, w, lookup =>
    if fi.type ≠ FeatureWordType.CPUID_FEATURE_WORD then
      update_tdx_cpuid_lookup_configs K tdx_caps fis (w + 1) lookup
    else
      let config := tdx_cap_cpuid_config K tdx_caps fi.cpuid.eax
        (if fi.cpuid.needs_ecx = true then fi.cpuid.ecx else 0xffffffff) fi.cpuid.reg
      let entry := lookup w
      let entry := { entry with tdx_fixed0 := entry.tdx_fixed0 &&& not32 config }
      let entry := { entry with tdx_fixed1 := entry.tdx_fixed1 &&& not32 config }
      update_tdx_cpuid_lookup_configs K tdx_caps fis (w + 1) (set_lookup lookup w entry)

/-- The second loop of `update_tdx_cpuid_lookup_by_tdx_caps`, from attribute bit
`i` on over the rest of `tdx_attrs_ctrl_fields`. -/
def update_tdx_cpuid_lookup_attrs (tdx_caps : KvmTdxCapabilities) :
    List FeatureMask → Nat → (FeatureWord → KvmTdxCpuidLookup) →
      (FeatureWord → KvmTdxCpuidLookup)
  | [], _, lookup => lookup
  | fm :: fms, i, lookup =>
    let lookup :=
      if tdx_caps.attrs_fixed0 &&& 2 ^ i ≠ 0 then
        set_lookup lookup fm.index
          { lookup fm.index with
            tdx_fixed0 := ((lookup fm.index).tdx_fixed0 ||| fm.mask) % 2 ^ 32 }
      else lookup
    let lookup :=
      if tdx_caps.attrs_fixed1 &&& 2 ^ i ≠ 0 then
        set_lookup lookup fm.index
          { lookup fm.index with
            tdx_fixed1 := ((lookup fm.index).tdx_fixed1 ||| fm.mask) % 2 ^ 32 }
      else lookup
    update_tdx_cpuid_lookup_attrs tdx_caps fms (i + 1) lookup

/-- The end of `update_tdx_cpuid_lookup_by_tdx_caps`: the XFAM masks of the
capabilities become the fixed masks of the four XSAVE words. -/
def update_tdx_cpuid_lookup_xfam (X : XfamDefs) (tdx_caps : KvmTdxCapabilities)
    (lookup : FeatureWord → KvmTdxCpuidLookup) : FeatureWord → KvmTdxCpuidLookup :=
  let lookup := set_lookup lookup X.FEAT_XSAVE_XCR0_LO
    { lookup X.FEAT_XSAVE_XCR0_LO with
      tdx_fixed0 := (not64 tdx_caps.xfam_fixed0 % 2 ^ 32 &&& X.CPUID_XSTATE_XCR0_MASK) % 2 ^ 32 }
  let lookup := set_lookup lookup X.FEAT_XSAVE_XCR0_LO
    { lookup X.FEAT_XSAVE_XCR0_LO with
      tdx_fixed1 := (tdx_caps.xfam_fixed1 % 2 ^ 32 &&& X.CPUID_XSTATE_XCR0_MASK) % 2 ^ 32 }
  let lookup := set_lookup lookup X.FEAT_XSAVE_XCR0_HI
    { lookup X.FEAT_XSAVE_XCR0_HI with
      tdx_fixed0 := ((not64 tdx_caps.xfam_fixed0 &&& X.CPUID_XSTATE_XCR0_MASK) >>> 32) % 2 ^ 32 }
  let lookup := set_lookup lookup X.FEAT_XSAVE_XCR0_HI
    { lookup X.FEAT_XSAVE_XCR0_HI with
      tdx_fixed1 := ((tdx_caps.xfam_fixed1 % 2 ^ 64 &&& X.CPUID_XSTATE_XCR0_MASK) >>> 32)
        % 2 ^ 32 }
  let lookup := set_lookup lookup X.FEAT_XSAVE_XSS_LO
    { lookup X.FEAT_XSAVE_XSS_LO with
      tdx_fixed0 := (not64 tdx_caps.xfam_fixed0 % 2 ^ 32 &&& X.CPUID_XSTATE_XSS_MASK) % 2 ^ 32 }
  let lookup := set_lookup lookup X.FEAT_XSAVE_XSS_LO
    { lookup X.FEAT_XSAVE_XSS_LO with
      tdx_fixed1 := (tdx_caps.xfam_fixed1 % 2 ^ 32 &&& X.CPUID_XSTATE_XSS_MASK) % 2 ^ 32 }
  let lookup := set_lookup lookup X.FEAT_XSAVE_XSS_HI
    { lookup X.FEAT_XSAVE_XSS_HI with
      tdx_fixed0 := ((not64 tdx_caps.xfam_fixed0 &&& X.CPUID_XSTATE_XSS_MASK) >>> 32) % 2 ^ 32 }
  set_lookup lookup X.FEAT_XSAVE_XSS_HI
    { lookup X.FEAT_XSAVE_XSS_HI with
      tdx_fixed1 := ((tdx_caps.xfam_fixed1 % 2 ^ 64 &&& X.CPUID_XSTATE_XSS_MASK) >>> 32)
        % 2 ^ 32 }

/-- The C function `update_tdx_cpuid_lookup_by_tdx_caps`: the table
`tdx_cpuid_lookup` afterwards. -/
def update_tdx_cpuid_lookup_by_tdx_caps (K : CpuDefs) (X : XfamDefs)
    (feature_word_info : List FeatureWordInfo) (tdx_caps : KvmTdxCapabilities)
    (lookup : FeatureWord → KvmTdxCpuidLookup) : FeatureWord → KvmTdxCpuidLookup :=
  let lookup := update_tdx_cpuid_lookup_configs K tdx_caps feature_word_info 0 lookup
  let lookup := update_tdx_cpuid_lookup_attrs tdx_caps (tdx_attrs_ctrl_fields K X) 0 lookup
  update_tdx_cpuid_lookup_xfam X tdx_caps lookup

/-- Bit `j` of word `w` is the target of an XFAM dependency: an entry of
`xfam_dependencies` has it among its dependent bits. -/
def xfam_dependency_target (X : XfamDefs) (w : FeatureWord) (j : Nat) : Prop :=
  ∃ d ∈ xfam_dependencies X, d.to_.index = w ∧ d.to_.mask.testBit j = true

/-- Bit `j` of word `w` is an XFAM representative bit: an entry of
`tdx_xfam_representative` names it. -/
def xfam_representative_bit (X : XfamDefs) (w : FeatureWord) (j : Nat) : Prop :=
  ∃ fm ∈ tdx_xfam_representative X, fm.index = w ∧ fm.mask.testBit j = true

instance (X : XfamDefs) (w : FeatureWord) (j : Nat) : Decidable (xfam_dependency_target X w j) := by
  unfold xfam_dependency_target; infer_instance

instance (X : XfamDefs) (w : FeatureWord) (j : Nat) :
    Decidable (xfam_representative_bit X w j) := by
  unfold xfam_representative_bit; infer_instance

/-- The dependent bits of `d2` include a controlling bit of `d1`. -/
def FeatureDep.clears_control (d2 d1 : FeatureDep) : Prop :=
  d2.to_.index = d1.from_.index ∧ d2.to_.mask &&& d1.from_.mask ≠ 0

instance (d2 d1 : FeatureDep) : Decidable (d2.clears_control d1) := by
  unfold FeatureDep.clears_control; infer_instance

/-- The enumerators of `FeatureWord` that `xfam_dependencies` names are
pairwise different. -/
def XfamDefs.words_distinct (X : XfamDefs) : Prop :=
  [X.FEAT_XSAVE_XCR0_LO, X.FEAT_XSAVE_XSS_LO, X.FEAT_1_ECX, X.FEAT_7_0_EBX, X.FEAT_7_0_ECX,
    X.FEAT_7_0_EDX, X.FEAT_7_1_EAX, X.FEAT_14_0_ECX].Nodup

instance (X : XfamDefs) : Decidable X.words_distinct := by
  unfold XfamDefs.words_distinct; infer_instance

/-- Values for the constants: the XSAVE state components and the CPUID bits at
their architectural positions, and the feature words numbered from 1 (0 being
`FEAT_1_EDX`). -/
def sample_xfam_defs : XfamDefs where
  FEAT_1_ECX := 1
  FEAT_7_0_EBX := 2
  FEAT_7_0_ECX := 3
  FEAT_7_0_EDX := 4
  FEAT_7_1_EAX := 5
  FEAT_XSAVE_XCR0_LO := 6
  FEAT_XSAVE_XCR0_HI := 7
  FEAT_14_0_ECX := 8
  FEAT_XSAVE_XSS_LO := 9
  FEAT_XSAVE_XSS_HI := 10
  XSTATE_YMM_BIT := 2
  XSTATE_OPMASK_BIT := 5
  XSTATE_ZMM_Hi256_BIT := 6
  XSTATE_Hi16_ZMM_BIT := 7
  XSTATE_RTIT_BIT := 8
  XSTATE_PKRU_BIT := 9
  XSTATE_CET_U_BIT := 11
  XSTATE_CET_S_BIT := 12
  XSTATE_ARCH_LBR_BIT := 15
  XSTATE_XTILE_CFG_BIT := 17
  XSTATE_XTILE_DATA_BIT := 18
  XSTATE_YMM_MASK := 2 ^ 2
  XSTATE_AVX_512_MASK := 2 ^ 5 ||| 2 ^ 6 ||| 2 ^ 7
  XSTATE_PKRU_MASK := 2 ^ 9
  XSTATE_AMX_MASK := 2 ^ 17 ||| 2 ^ 18
  XSTATE_RTIT_MASK := 2 ^ 8
  XSTATE_CET_MASK := 2 ^ 11 ||| 2 ^ 12
  XSTATE_UINTR_MASK := 2 ^ 14
  XSTATE_ARCH_LBR_MASK := 2 ^ 15
  CPUID_XSTATE_XCR0_MASK :=
    2 ^ 0 ||| 2 ^ 1 ||| 2 ^ 2 ||| 2 ^ 3 ||| 2 ^ 4 ||| 2 ^ 5 ||| 2 ^ 6 ||| 2 ^ 7 ||| 2 ^ 9 |||
      2 ^ 17 ||| 2 ^ 18
  CPUID_XSTATE_XSS_MASK := 2 ^ 8 ||| 2 ^ 11 ||| 2 ^ 12 ||| 2 ^ 14 ||| 2 ^ 15
  CPUID_EXT_FMA := 2 ^ 12
  CPUID_EXT_AVX := 2 ^ 28
  CPUID_EXT_F16C := 2 ^ 29
  CPUID_7_0_EBX_AVX2 := 2 ^ 5
  CPUID_7_0_EBX_AVX512F := 2 ^ 16
  CPUID_7_0_EBX_AVX512DQ := 2 ^ 17
  CPUID_7_0_EBX_AVX512IFMA := 2 ^ 21
  CPUID_7_0_EBX_AVX512PF := 2 ^ 26
  CPUID_7_0_EBX_AVX512ER := 2 ^ 27
  CPUID_7_0_EBX_AVX512CD := 2 ^ 28
  CPUID_7_0_EBX_AVX512BW := 2 ^ 30
  CPUID_7_0_EBX_AVX512VL := 2 ^ 31
  CPUID_7_0_EBX_INTEL_PT := 2 ^ 25
  CPUID_7_0_ECX_VAES := 2 ^ 9
  CPUID_7_0_ECX_VPCLMULQDQ := 2 ^ 10
  CPUID_7_0_ECX_AVX512_VBMI := 2 ^ 1
  CPUID_7_0_ECX_AVX512_VBMI2 := 2 ^ 6
  CPUID_7_0_ECX_AVX512VNNI := 2 ^ 11
  CPUID_7_0_ECX_AVX512BITALG := 2 ^ 12
  CPUID_7_0_ECX_AVX512_VPOPCNTDQ := 2 ^ 14
  CPUID_7_0_ECX_PKU := 2 ^ 3
  CPUID_7_0_ECX_CET_SHSTK := 2 ^ 7
  CPUID_7_0_ECX_KeyLocker := 2 ^ 23
  CPUID_7_0_EDX_AVX512_4VNNIW := 2 ^ 2
  CPUID_7_0_EDX_AVX512_4FMAPS := 2 ^ 3
  CPUID_7_0_EDX_AVX512_VP2INTERSECT := 2 ^ 8
  CPUID_7_0_EDX_AVX512_FP16 := 2 ^ 23
  CPUID_7_0_EDX_AMX_BF16 := 2 ^ 22
  CPUID_7_0_EDX_AMX_TILE := 2 ^ 24
  CPUID_7_0_EDX_AMX_INT8 := 2 ^ 25
  CPUID_7_0_EDX_CET_IBT := 2 ^ 20
  CPUID_7_0_EDX_UNIT := 2 ^ 5
  CPUID_7_0_EDX_ARCH_LBR := 2 ^ 19
  CPUID_7_1_EAX_AVX512_BF16 := 2 ^ 5
  CPUID_7_1_EAX_AVX_VNNI := 2 ^ 4

/-- A feature-word table for the eleven words of `sample_xfam_defs`, each with
its CPUID leaf, sub-leaf and register. -/
def sample_xfam_feature_word_info : List FeatureWordInfo :=
  [ ⟨FeatureWordType.CPUID_FEATURE_WORD, ⟨1, false, 0, 2⟩⟩,
    ⟨FeatureWordType.CPUID_FEATURE_WORD, ⟨1, false, 0, 1⟩⟩,
    ⟨FeatureWordType.CPUID_FEATURE_WORD, ⟨7, true, 0, 3⟩⟩,
    ⟨FeatureWordType.CPUID_FEATURE_WORD, ⟨7, true, 0, 1⟩⟩,
    ⟨FeatureWordType.CPUID_FEATURE_WORD, ⟨7, true, 0, 2⟩⟩,
    ⟨FeatureWordType.CPUID_FEATURE_WORD, ⟨7, true, 1, 0⟩⟩,
    ⟨FeatureWordType.CPUID_FEATURE_WORD, ⟨0xD, true, 0, 0⟩⟩,
    ⟨FeatureWordType.CPUID_FEATURE_WORD, ⟨0xD, true, 0, 2⟩⟩,
    ⟨FeatureWordType.CPUID_FEATURE_WORD, ⟨0x14, true, 0, 1⟩⟩,
    ⟨FeatureWordType.CPUID_FEATURE_WORD, ⟨0xD, true, 1, 1⟩⟩,
    ⟨FeatureWordType.CPUID_FEATURE_WORD, ⟨0xD, true, 1, 2⟩⟩ ]

/-- The initialiser of `tdx_cpuid_lookup[FEAT_1_ECX]`: fixed0 is VMX, SMX and
bit 16; fixed1 is DTES64, DSCPL, CX16, PDCM, X2APIC, AES, XSAVE, RDRAND,
HYPERVISOR, MONITOR; vmm_fixup is EST, TM2, XTPR, DCA. -/
def lookup_1_ECX : KvmTdxCpuidLookup where
  tdx_fixed0 := 2 ^ 5 ||| 2 ^ 6 ||| 2 ^ 16
  tdx_fixed1 := 2 ^ 2 ||| 2 ^ 4 ||| 2 ^ 13 ||| 2 ^ 15 ||| 2 ^ 21 ||| 2 ^ 25 ||| 2 ^ 26 |||
    2 ^ 30 ||| 2 ^ 31 ||| 2 ^ 3
  vmm_fixup := 2 ^ 7 ||| 2 ^ 8 ||| 2 ^ 14 ||| 2 ^ 18

/-- The initialiser of `tdx_cpuid_lookup[FEAT_7_0_ECX]`: fixed0 is FZM, MAWAU,
ENQCMD, SGX_LC; fixed1 is MOVDIR64B, BUS_LOCK_DETECT; vmm_fixup is TME. -/
def lookup_7_0_ECX : KvmTdxCpuidLookup where
  tdx_fixed0 := 2 ^ 15 ||| 0x1f * 2 ^ 17 ||| 2 ^ 29 ||| 2 ^ 30
  tdx_fixed1 := 2 ^ 28 ||| 2 ^ 24
  vmm_fixup := 2 ^ 13

/-- The initialiser of `tdx_cpuid_lookup[FEAT_7_0_EDX]`: fixed0 is SGX_KEYS;
fixed1 is SPEC_CTRL, L1D_FLUSH, ARCH_CAPABILITIES, CORE_CAPABILITY,
SPEC_CTRL_SSBD; vmm_fixup is PCONFIG. -/
def lookup_7_0_EDX : KvmTdxCpuidLookup where
  tdx_fixed0 := 2 ^ 1
  tdx_fixed1 := 2 ^ 26 ||| 2 ^ 28 ||| 2 ^ 29 ||| 2 ^ 30 ||| 2 ^ 31
  vmm_fixup := 2 ^ 18

/-- The lookup table over `sample_xfam_feature_word_info` as the initialiser of
`tdx_cpuid_lookup` gives it for the words that the XFAM tables name. -/
def sample_xfam_lookup : FeatureWord → KvmTdxCpuidLookup
  | 1 => lookup_1_ECX
  | 2 => lookup_7_0_EBX
  | 3 => lookup_7_0_ECX
  | 4 => lookup_7_0_EDX
  | _ => {}

/-- The sample tables for the XFAM words on a host that reports every feature
bit, with no configurable CPUID bits. -/
def sample_xfam_env : CpuidEnv where
  feature_word_info := sample_xfam_feature_word_info
  tdx_cpuid_lookup := sample_xfam_lookup
  tdx_caps := ⟨0, 0, 0, 0, []⟩
  host_cpuid := fun _ _ => ⟨0xFFFFFFFF, 0xFFFFFFFF, 0xFFFFFFFF, 0xFFFFFFFF⟩
  host_tsx_broken := false
  enable_cpu_pm := true

/-- A vCPU model with AVX-512 state (bits 5 to 7) but without YMM state (bit 2)
in XCR0, with AVX, FMA and AVX512F among its features, and without user
requests. -/
def sample_cpu_features : CpuFeatures where
  features := fun w =>
    if w = 6 then 2 ^ 0 ||| 2 ^ 1 ||| 2 ^ 5 ||| 2 ^ 6 ||| 2 ^ 7
    else if w = 1 then 2 ^ 0 ||| 2 ^ 12 ||| 2 ^ 28
    else if w = 2 then 2 ^ 3 ||| 2 ^ 16
    else 0
  user_plus_features := fun _ => 0
  filtered_features := fun _ => 0
  force_features := false

/-- The CPUID bits of word `w` that the entries of a table of attribute fields
control, taken together. -/
def attrs_ctrl_mask (w : FeatureWord) (fms : List FeatureMask) : Nat :=
  (fms.filter (fun fm => fm.index = w)).foldr (fun fm acc => fm.mask ||| acc) 0

/-! ## Theorems -/

/-! ### 32-bit words -/

theorem testBit_not32 (x i : Nat) :
    (not32 x).testBit i = (decide (i < 32) && !x.testBit i) := by
  unfold not32
  have h : (0xFFFFFFFF : Nat) = 2 ^ 32 - 1 := by norm_num
  rw [h, Nat.testBit_xor, Nat.testBit_and, Nat.testBit_two_pow_sub_one]
  cases x.testBit i <;> cases decide (i < 32) <;> rfl

/-! ### FeatureReconciler -/

theorem testBit_corrections (K : CpuDefs) (E : CpuidEnv) (function index : Nat) (reg : Int)
    (x j : Nat) (hj : j < 32) :
    (tdx_get_supported_cpuid_corrections K E function index reg x).testBit j
      = (x.testBit j && !(corrections_mask K E function index reg).testBit j) := by
  have hd : decide (j < 32) = true := by simpa using hj
  unfold tdx_get_supported_cpuid_corrections corrections_mask
  split_ifs <;>
    simp only [Nat.testBit_and, Nat.testBit_or, testBit_not32, Nat.zero_testBit, hd] <;>
    cases x.testBit j <;>
    cases (KVM_TSX_CPUID K).testBit j <;> cases K.CPUID_EXT_MONITOR.testBit j <;>
    cases K.CPUID_HT.testBit j <;> rfl

theorem testBit_adjusted (K : CpuDefs) (E : CpuidEnv) (function index : Nat) (reg : Int)
    (w : FeatureWord) (v j : Nat) :
    (tdx_get_supported_cpuid_adjusted K E function index reg w v).testBit j
      = ((((v.testBit j || (host_cpuid_reg K E.host_cpuid function index reg).testBit j
              || (E.tdx_cpuid_lookup w).tdx_fixed1.testBit j)
            && (decide (j < 32) && !(E.tdx_cpuid_lookup w).tdx_fixed0.testBit j))
          || (tdx_cap_cpuid_config K E.tdx_caps function index reg).testBit j)
        && (decide (j < 32) &&
            !((decide (j < 32) && !v.testBit j) && (E.tdx_cpuid_lookup w).vmm_fixup.testBit j))) := by
  unfold tdx_get_supported_cpuid_adjusted
  simp only [Nat.testBit_and, Nat.testBit_or, testBit_not32]

theorem tdx_get_supported_cpuid_non_ve (K : CpuDefs) (E : CpuidEnv)
    (function index : Nat) (reg : Int) (v : Nat) (w : FeatureWord)
    (hw : get_cpuid_featureword_index E.feature_word_info function index reg = w)
    (hlt : w < E.FEATURE_WORDS)
    (hve : (E.tdx_cpuid_lookup w).inducing_ve = false) :
    tdx_get_supported_cpuid K E function index reg v
      = tdx_get_supported_cpuid_corrections K E function index reg
          (tdx_get_supported_cpuid_adjusted K E function index reg w v) := by
  unfold tdx_get_supported_cpuid
  simp only [hw]
  rw [if_neg (Nat.ne_of_lt hlt), if_neg (by simp [hve])]

/-- C1: when `(function, index, reg)` resolves to a feature word `w` that
`tdx_cpuid_lookup` marks `inducing_ve`, `tdx_get_supported_cpuid` turns the
input value `v` into `v & supported_on_ve` of that word, whatever the host
CPUID, the capability configs and `v` are; so the output is a subset of
`supported_on_ve`. -/
theorem tdx_get_supported_cpuid_inducing_ve (K : CpuDefs) (E : CpuidEnv)
    (function index : Nat) (reg : Int) (v : Nat) (w : FeatureWord)
    (hw : get_cpuid_featureword_index E.feature_word_info function index reg = w)
    (hlt : w < E.FEATURE_WORDS)
    (hve : (E.tdx_cpuid_lookup w).inducing_ve = true) :
    tdx_get_supported_cpuid K E function index reg v
        = v &&& (E.tdx_cpuid_lookup w).supported_on_ve ∧
      tdx_get_supported_cpuid K E function index reg v
          &&& (E.tdx_cpuid_lookup w).supported_on_ve
        = tdx_get_supported_cpuid K E function index reg v := by
  have h : tdx_get_supported_cpuid K E function index reg v
      = v &&& (E.tdx_cpuid_lookup w).supported_on_ve := by
    unfold tdx_get_supported_cpuid
    simp only [hw]
    rw [if_neg (Nat.ne_of_lt hlt), if_pos hve]
  refine ⟨h, ?_⟩
  rw [h]
  apply Nat.eq_of_testBit_eq
  intro i
  simp only [Nat.testBit_and]
  cases v.testBit i <;> cases (E.tdx_cpuid_lookup w).supported_on_ve.testBit i <;> rfl

/-- Witness of C1: the KVM feature leaf (EAX of leaf 0x40000001) of the sample
table, queried with every input bit set, yields exactly
`TDX_SUPPORTED_KVM_FEATURES`. -/
theorem tdx_get_supported_cpuid_inducing_ve_witness :
    get_cpuid_featureword_index sample_env.feature_word_info 0x40000001 0 0 = 3 ∧
      (sample_env.tdx_cpuid_lookup 3).inducing_ve = true ∧
      (tdx_get_supported_cpuid qemuCpuDefs sample_env 0x40000001 0 0 0xFFFFFFFF
          = 0xFFFFFFFF &&& (sample_env.tdx_cpuid_lookup 3).supported_on_ve ∧
        tdx_get_supported_cpuid qemuCpuDefs sample_env 0x40000001 0 0 0xFFFFFFFF
            &&& (sample_env.tdx_cpuid_lookup 3).supported_on_ve
          = tdx_get_supported_cpuid qemuCpuDefs sample_env 0x40000001 0 0 0xFFFFFFFF) :=
  ⟨by decide, by decide,
    tdx_get_supported_cpuid_inducing_ve qemuCpuDefs sample_env 0x40000001 0 0 0xFFFFFFFF 3
      (by decide) (by decide) (by decide)⟩

/-- Counterexample to C2 as stated: leaf 7.0 EBX resolves to a recognised,
non-induced word whose `tdx_fixed0` holds MPX (bit 14); a capability config
that reports MPX configurable puts the bit into the output, so
`output & tdx_fixed0` is not zero. -/
theorem tdx_get_supported_cpuid_fixed0_counterexample :
    get_cpuid_featureword_index sample_env_config_mpx.feature_word_info 7 0 3 = 2 ∧
      2 < sample_env_config_mpx.FEATURE_WORDS ∧
      (sample_env_config_mpx.tdx_cpuid_lookup 2).inducing_ve = false ∧
      ¬ (tdx_get_supported_cpuid qemuCpuDefs sample_env_config_mpx 7 0 3 0
          &&& (sample_env_config_mpx.tdx_cpuid_lookup 2).tdx_fixed0 = 0) := by
  decide

/-- C2 (amended): for a recognised, non-induced feature word and every
host-native value, input value and capability config, the output of
`tdx_get_supported_cpuid` has no `tdx_fixed0` bit set other than bits that the
capability configs report configurable for the leaf:
`output & tdx_fixed0 & ~config == 0`. -/
theorem tdx_get_supported_cpuid_fixed0_outside_config (K : CpuDefs) (E : CpuidEnv)
    (function index : Nat) (reg : Int) (v : Nat) (w : FeatureWord)
    (hw : get_cpuid_featureword_index E.feature_word_info function index reg = w)
    (hlt : w < E.FEATURE_WORDS)
    (hve : (E.tdx_cpuid_lookup w).inducing_ve = false) :
    tdx_get_supported_cpuid K E function index reg v &&& (E.tdx_cpuid_lookup w).tdx_fixed0
        &&& not32 (tdx_cap_cpuid_config K E.tdx_caps function index reg) = 0 := by
  rw [tdx_get_supported_cpuid_non_ve K E function index reg v w hw hlt hve]
  apply Nat.eq_of_testBit_eq
  intro j
  by_cases hj : j < 32
  · simp only [Nat.testBit_and, testBit_not32, testBit_corrections K E function index reg _ j hj,
      testBit_adjusted, Nat.zero_testBit]
    cases (E.tdx_cpuid_lookup w).tdx_fixed0.testBit j <;>
      cases (tdx_cap_cpuid_config K E.tdx_caps function index reg).testBit j <;>
      simp
  · simp [Nat.testBit_and, testBit_not32, hj]

/-- Witness of C2 (amended): leaf 7.0 EBX of the sample table, with MPX reported
configurable and every input bit set. -/
theorem tdx_get_supported_cpuid_fixed0_outside_config_witness :
    get_cpuid_featureword_index sample_env_config_mpx.feature_word_info 7 0 3 = 2 ∧
      (sample_env_config_mpx.tdx_cpuid_lookup 2).inducing_ve = false ∧
      tdx_get_supported_cpuid qemuCpuDefs sample_env_config_mpx 7 0 3 0xFFFFFFFF
          &&& (sample_env_config_mpx.tdx_cpuid_lookup 2).tdx_fixed0
          &&& not32 (tdx_cap_cpuid_config qemuCpuDefs sample_env_config_mpx.tdx_caps 7 0 3)
        = 0 :=
  ⟨by decide, by decide,
    tdx_get_supported_cpuid_fixed0_outside_config qemuCpuDefs sample_env_config_mpx 7 0 3
      0xFFFFFFFF 2 (by decide) (by decide) (by decide)⟩

/-- Counterexample to C3 as stated: on a host with broken TSX, leaf 7.0 EBX
resolves to a recognised, non-induced word whose `tdx_fixed1` holds RTM and HLE,
and the output lacks both, so `output & tdx_fixed1` differs from `tdx_fixed1`. -/
theorem tdx_get_supported_cpuid_fixed1_counterexample :
    get_cpuid_featureword_index sample_env_tsx_broken.feature_word_info 7 0 3 = 2 ∧
      2 < sample_env_tsx_broken.FEATURE_WORDS ∧
      (sample_env_tsx_broken.tdx_cpuid_lookup 2).inducing_ve = false ∧
      ¬ (tdx_get_supported_cpuid qemuCpuDefs sample_env_tsx_broken 7 0 3 0
            &&& (sample_env_tsx_broken.tdx_cpuid_lookup 2).tdx_fixed1
          = (sample_env_tsx_broken.tdx_cpuid_lookup 2).tdx_fixed1) := by
  decide

/-- C3 (amended): for a recognised, non-induced feature word and every
host-native value, input value, capability config and setting of
`host_tsx_broken` and `enable_cpu_pm`, the output of `tdx_get_supported_cpuid`
has every `tdx_fixed1` bit set that is neither a `tdx_fixed0` bit nor a
`vmm_fixup` bit of the entry nor a bit the hard-coded corrections clear for the
leaf (`corrections_mask`). -/
theorem tdx_get_supported_cpuid_fixed1_kept (K : CpuDefs) (E : CpuidEnv)
    (function index : Nat) (reg : Int) (v : Nat) (w : FeatureWord)
    (hw : get_cpuid_featureword_index E.feature_word_info function index reg = w)
    (hlt : w < E.FEATURE_WORDS)
    (hve : (E.tdx_cpuid_lookup w).inducing_ve = false) :
    tdx_get_supported_cpuid K E function index reg v &&&
        ((E.tdx_cpuid_lookup w).tdx_fixed1 &&& not32 (E.tdx_cpuid_lookup w).tdx_fixed0
          &&& not32 (E.tdx_cpuid_lookup w).vmm_fixup
          &&& not32 (corrections_mask K E function index reg))
      = (E.tdx_cpuid_lookup w).tdx_fixed1 &&& not32 (E.tdx_cpuid_lookup w).tdx_fixed0
          &&& not32 (E.tdx_cpuid_lookup w).vmm_fixup
          &&& not32 (corrections_mask K E function index reg) := by
  rw [tdx_get_supported_cpuid_non_ve K E function index reg v w hw hlt hve]
  apply Nat.eq_of_testBit_eq
  intro j
  by_cases hj : j < 32
  · simp only [Nat.testBit_and, testBit_not32, testBit_corrections K E function index reg _ j hj,
      testBit_adjusted]
    cases (E.tdx_cpuid_lookup w).tdx_fixed0.testBit j <;>
      cases (E.tdx_cpuid_lookup w).tdx_fixed1.testBit j <;>
      cases (E.tdx_cpuid_lookup w).vmm_fixup.testBit j <;>
      cases (corrections_mask K E function index reg).testBit j <;>
      simp [hj]
  · simp [Nat.testBit_and, testBit_not32, hj]

/-- Witness of C3 (amended): leaf 7.0 EBX of the sample table on a host with
broken TSX; the kept bits are the `tdx_fixed1` bits other than RTM and HLE. -/
theorem tdx_get_supported_cpuid_fixed1_kept_witness :
    get_cpuid_featureword_index sample_env_tsx_broken.feature_word_info 7 0 3 = 2 ∧
      (sample_env_tsx_broken.tdx_cpuid_lookup 2).inducing_ve = false ∧
      tdx_get_supported_cpuid qemuCpuDefs sample_env_tsx_broken 7 0 3 0 &&&
          ((sample_env_tsx_broken.tdx_cpuid_lookup 2).tdx_fixed1
            &&& not32 (sample_env_tsx_broken.tdx_cpuid_lookup 2).tdx_fixed0
            &&& not32 (sample_env_tsx_broken.tdx_cpuid_lookup 2).vmm_fixup
            &&& not32 (corrections_mask qemuCpuDefs sample_env_tsx_broken 7 0 3))
        = (sample_env_tsx_broken.tdx_cpuid_lookup 2).tdx_fixed1
            &&& not32 (sample_env_tsx_broken.tdx_cpuid_lookup 2).tdx_fixed0
            &&& not32 (sample_env_tsx_broken.tdx_cpuid_lookup 2).vmm_fixup
            &&& not32 (corrections_mask qemuCpuDefs sample_env_tsx_broken 7 0 3) :=
  ⟨by decide, by decide,
    tdx_get_supported_cpuid_fixed1_kept qemuCpuDefs sample_env_tsx_broken 7 0 3 0 2
      (by decide) (by decide) (by decide)⟩

/-! ### RAM regions -/

theorem add64_eq (a b : Nat) (h : a + b < 2 ^ 64) : add64 a b = a + b := by
  unfold add64; exact Nat.mod_eq_of_lt h

theorem add64_lt (a b : Nat) : add64 a b < 2 ^ 64 := by
  unfold add64; exact Nat.mod_lt _ (by norm_num)

theorem add64_le (a b : Nat) : add64 a b ≤ a + b := by
  unfold add64; exact Nat.mod_le _ _

theorem sub64_eq (a b : Nat) (h1 : b ≤ a) (h2 : a < 2 ^ 64) : sub64 a b = a - b := by
  unfold sub64
  have hb : b % 2 ^ 64 = b := Nat.mod_eq_of_lt (by omega)
  rw [hb]
  have : a + (2 ^ 64 - b) = (a - b) + 2 ^ 64 := by omega
  rw [this, Nat.add_mod_right]
  exact Nat.mod_eq_of_lt (by omega)

/-- The entry at index `i` is returned by the search when every earlier entry is
skipped by the overlap test and the entry itself passes the three tests. -/
theorem tdx_find_ram_range_loop_first (a l : Nat) :
    ∀ (es : List TdxRamEntry) (k i : Nat) (e : TdxRamEntry),
      es[i]? = some e →
      (∀ j e', j < i → es[j]? = some e' →
        add64 a l ≤ e'.address ∨ add64 e'.address e'.length ≤ a) →
      ¬ (add64 a l ≤ e.address ∨ add64 e.address e.length ≤ a) →
      ¬ (e.address > a ∨ add64 e.address e.length < add64 a l) →
      e.type = TdxRamType.TDX_RAM_UNACCEPTED →
      tdx_find_ram_range_loop a l es k = some (k + i, e) := by
  intro es
  induction es with
  | nil => intro k i e he; simp at he
  | cons e0 es ih =>
    intro k i e he hfirst hov hsub hty
    cases i with
    | zero =>
      simp at he
      subst he
      unfold tdx_find_ram_range_loop
      rw [if_neg hov, if_neg hsub, if_neg (by rw [hty]; decide)]
      simp
    | succ i =>
      simp at he
      unfold tdx_find_ram_range_loop
      rw [if_pos (hfirst 0 e0 (by omega) (by simp))]
      rw [ih (k + 1) i e he (fun j e' hj hje => hfirst (j + 1) e' (by omega) (by simpa using hje))
        hov hsub hty]
      congr 2
      omega

/-- What `tdx_accept_ram_range` does once the search has returned the entry `e`
at index `i`, in the 64-bit arithmetic of the code. -/
theorem tdx_accept_ram_range_found (ram : List TdxRamEntry) (a l i : Nat) (e : TdxRamEntry)
    (h : tdx_find_ram_range ram a l = some (i, e)) :
    tdx_accept_ram_range ram a l =
      (0, (ram.set i ⟨a, l, TdxRamType.TDX_RAM_ADDED⟩
          ++ (if sub64 a e.address > 0
                then [⟨e.address, sub64 a e.address, TdxRamType.TDX_RAM_UNACCEPTED⟩] else []))
          ++ (if add64 a l < add64 e.address e.length
                then [⟨add64 a l, sub64 (add64 e.address e.length) (add64 a l),
                        TdxRamType.TDX_RAM_UNACCEPTED⟩] else [])) := by
  unfold tdx_accept_ram_range
  rw [h]
  simp only [tdx_add_ram_entry]
  split_ifs <;> simp

/-- Failure of `tdx_accept_ram_range` is the `NULL` result of the search; the
array is then left as it was. -/
theorem tdx_accept_ram_range_none (ram : List TdxRamEntry) (a l : Nat)
    (h : tdx_find_ram_range ram a l = none) :
    tdx_accept_ram_range ram a l = (-EINVAL, ram) := by
  unfold tdx_accept_ram_range
  rw [h]

/-- For an entry and a range whose ends do not wrap around, the overlap test of
the code is the overlap of the two ranges of natural numbers: each starts
before the other ends. -/
theorem TdxRamEntry.overlaps_iff (e : TdxRamEntry) (a l : Nat)
    (he : e.address + e.length < 2 ^ 64) (hal : a + l < 2 ^ 64) :
    e.overlaps a l ↔ e.address < a + l ∧ a < e.address + e.length := by
  unfold TdxRamEntry.overlaps
  rw [add64_eq a l hal, add64_eq e.address e.length he]
  omega

/-- Counterexample to C4 as stated: the single Unaccepted entry
`[2^64 - 100, 2^64)` is the first entry overlapping the range
`[2^64 - 50, 2^64 - 40)`, and `s <= a`, `a+l <= s+L` hold, yet
`tdx_accept_ram_range` returns `-EINVAL` and leaves the list as it was: the
64-bit sum `s + L` of the entry is 0, so the overlap test of
`tdx_find_ram_range` skips the entry. -/
theorem tdx_accept_ram_range_splits_counterexample :
    ([⟨2 ^ 64 - 100, 100, TdxRamType.TDX_RAM_UNACCEPTED⟩] : List TdxRamEntry)[0]?
        = some ⟨2 ^ 64 - 100, 100, TdxRamType.TDX_RAM_UNACCEPTED⟩ ∧
      (2 ^ 64 - 100 < (2 ^ 64 - 50) + 10 ∧ 2 ^ 64 - 50 < (2 ^ 64 - 100) + 100) ∧
      2 ^ 64 - 100 ≤ 2 ^ 64 - 50 ∧ (2 ^ 64 - 50) + 10 ≤ (2 ^ 64 - 100) + 100 ∧
      tdx_accept_ram_range [⟨2 ^ 64 - 100, 100, TdxRamType.TDX_RAM_UNACCEPTED⟩] (2 ^ 64 - 50) 10
        = (-EINVAL, [⟨2 ^ 64 - 100, 100, TdxRamType.TDX_RAM_UNACCEPTED⟩]) ∧
      tdx_accept_ram_range [⟨2 ^ 64 - 100, 100, TdxRamType.TDX_RAM_UNACCEPTED⟩] (2 ^ 64 - 50) 10
        ≠ (0, [⟨2 ^ 64 - 50, 10, TdxRamType.TDX_RAM_ADDED⟩,
               ⟨2 ^ 64 - 100, 50, TdxRamType.TDX_RAM_UNACCEPTED⟩,
               ⟨2 ^ 64 - 40, 40, TdxRamType.TDX_RAM_UNACCEPTED⟩]) := by
  decide

/-- C4 (amended): when the Unaccepted entry `[s, s+L)` at index `i` ends below
`2^64` (`s + L < 2^64`) and is the first entry that overlaps the range (every
earlier entry ends at or before `a` or starts at or after `a+l`, and the entry
itself starts before `a+l` and ends after `a`), and `s <= a`, `a+l <= s+L`,
all sums being those of the natural numbers, `tdx_accept_ram_range(a, l)`
returns 0 and the array is the old one with entry `i` replaced by Added
`[a, a+l)`, followed by an Unaccepted head `[s, a)` exactly when `a > s` and by
an Unaccepted tail `[a+l, s+L)` exactly when `a+l < s+L`; no other entry
changes. -/
theorem tdx_accept_ram_range_splits (ram : List TdxRamEntry) (i s L a l : Nat)
    (he : ram[i]? = some ⟨s, L, TdxRamType.TDX_RAM_UNACCEPTED⟩)
    (hfit : s + L < 2 ^ 64)
    (hfirst : ∀ j e, j < i → ram[j]? = some e → a + l ≤ e.address ∨ e.address + e.length ≤ a)
    (hov : s < a + l ∧ a < s + L)
    (hs : s ≤ a) (hl : a + l ≤ s + L) :
    tdx_accept_ram_range ram a l =
      (0, (ram.set i ⟨a, l, TdxRamType.TDX_RAM_ADDED⟩
          ++ (if s < a then [⟨s, a - s, TdxRamType.TDX_RAM_UNACCEPTED⟩] else []))
          ++ (if a + l < s + L
                then [⟨a + l, s + L - (a + l), TdxRamType.TDX_RAM_UNACCEPTED⟩]
                else [])) := by
  have hsL : add64 s L = s + L := add64_eq s L hfit
  have hal : add64 a l = a + l := add64_eq a l (by omega)
  have hfind : tdx_find_ram_range ram a l
      = some (i, ⟨s, L, TdxRamType.TDX_RAM_UNACCEPTED⟩) := by
    have := tdx_find_ram_range_loop_first a l ram 0 i ⟨s, L, TdxRamType.TDX_RAM_UNACCEPTED⟩ he
      (fun j e hj hje => by
        have hle := add64_le e.address e.length
        rw [hal]
        rcases hfirst j e hj hje with h | h
        · exact Or.inl h
        · exact Or.inr (by omega))
      (by simp only [hal, hsL]; omega) (by simp only [hal, hsL]; omega) rfl
    simpa [tdx_find_ram_range] using this
  rw [tdx_accept_ram_range_found ram a l i _ hfind]
  simp only
  rw [hal, hsL, sub64_eq a s hs (by omega), sub64_eq (s + L) (a + l) hl hfit]
  have h1 : (a - s > 0) = (s < a) := by
    apply propext; constructor <;> intro h <;> omega
  simp only [h1]

/-- Witness of C4 (amended): accepting `[100, 200)` from Unaccepted `[0, 1000)`
leaves Added `[100, 200)`, Unaccepted `[0, 100)` and Unaccepted `[200, 1000)`. -/
theorem tdx_accept_ram_range_splits_witness :
    tdx_accept_ram_range [⟨0, 1000, TdxRamType.TDX_RAM_UNACCEPTED⟩] 100 100 =
      (0, [⟨100, 100, TdxRamType.TDX_RAM_ADDED⟩, ⟨0, 100, TdxRamType.TDX_RAM_UNACCEPTED⟩,
           ⟨200, 800, TdxRamType.TDX_RAM_UNACCEPTED⟩]) :=
  tdx_accept_ram_range_splits [⟨0, 1000, TdxRamType.TDX_RAM_UNACCEPTED⟩] 0 0 1000 100 100
    rfl (by norm_num) (fun j e hj _ => absurd hj (Nat.not_lt_zero j))
    (by decide) (by decide) (by decide)

/-- An entry whose end `s + L` reaches `2^64` or lies beyond it is skipped by
the overlap test of `tdx_find_ram_range` for every range that starts inside it
or after it: the 64-bit sum `s + L` is below `s`. -/
theorem tdx_find_ram_range_skips_wrapped_entry (e : TdxRamEntry) (a l : Nat)
    (es : List TdxRamEntry) (k : Nat)
    (hL : e.length < 2 ^ 64) (hwrap : 2 ^ 64 ≤ e.address + e.length) (hs : e.address ≤ a) :
    tdx_find_ram_range_loop a l (e :: es) k = tdx_find_ram_range_loop a l es (k + 1) := by
  have h : add64 e.address e.length ≤ a := by
    have hlt := add64_lt e.address e.length
    by_cases hA : 2 ^ 64 ≤ e.address
    · omega
    · unfold add64
      rw [Nat.mod_eq_sub_mod hwrap, Nat.mod_eq_of_lt (by omega)]
      omega
  rw [tdx_find_ram_range_loop, if_pos (Or.inr h)]

/-- A successful search splits the array: the entries before the returned one
are all skipped by the overlap test, and the returned entry passes the three
tests of the loop body. -/
theorem tdx_find_ram_range_loop_some (a l : Nat) :
    ∀ (es : List TdxRamEntry) (k j : Nat) (e : TdxRamEntry),
      tdx_find_ram_range_loop a l es k = some (j, e) →
      ∃ pre post, es = pre ++ e :: post ∧ j = k + pre.length ∧
        (∀ e' ∈ pre, add64 a l ≤ e'.address ∨ add64 e'.address e'.length ≤ a) ∧
        ¬ (add64 a l ≤ e.address ∨ add64 e.address e.length ≤ a) ∧
        ¬ (e.address > a ∨ add64 e.address e.length < add64 a l) ∧
        e.type = TdxRamType.TDX_RAM_UNACCEPTED := by
  intro es
  induction es with
  | nil => intro k j e h; simp [tdx_find_ram_range_loop] at h
  | cons e0 es ih =>
    intro k j e h
    unfold tdx_find_ram_range_loop at h
    by_cases hskip : add64 a l ≤ e0.address ∨ add64 e0.address e0.length ≤ a
    · rw [if_pos hskip] at h
      obtain ⟨pre, post, hes, hj, hpre, h1, h2, h3⟩ := ih (k + 1) j e h
      refine ⟨e0 :: pre, post, by simp [hes], by simp only [List.length_cons]; omega, ?_, h1, h2, h3⟩
      intro e' he'
      rcases List.mem_cons.mp he' with rfl | hmem
      · exact hskip
      · exact hpre e' hmem
    · rw [if_neg hskip] at h
      by_cases hout : e0.address > a ∨ add64 e0.address e0.length < add64 a l
      · rw [if_pos hout] at h; simp at h
      · rw [if_neg hout] at h
        by_cases hty : e0.type = TdxRamType.TDX_RAM_ADDED
        · rw [if_pos hty] at h; simp at h
        · rw [if_neg hty] at h
          simp only [Option.some.injEq, Prod.mk.injEq] at h
          obtain ⟨hk, rfl⟩ := h
          refine ⟨[], es, by simp, by simp [hk], by simp, hskip, hout, ?_⟩
          cases hT : e0.type
          · rfl
          · exact absurd hT hty

/-- Accepting the empty range at 100 from Unaccepted `[0, 1000)` twice: the
first call succeeds, the second one fails with `-EINVAL` and changes nothing. -/
theorem tdx_accept_ram_range_empty_range_again :
    tdx_accept_ram_range [⟨0, 1000, TdxRamType.TDX_RAM_UNACCEPTED⟩] 100 0 =
        (0, [⟨100, 0, TdxRamType.TDX_RAM_ADDED⟩, ⟨0, 100, TdxRamType.TDX_RAM_UNACCEPTED⟩,
             ⟨100, 900, TdxRamType.TDX_RAM_UNACCEPTED⟩]) ∧
      tdx_accept_ram_range
          [⟨100, 0, TdxRamType.TDX_RAM_ADDED⟩, ⟨0, 100, TdxRamType.TDX_RAM_UNACCEPTED⟩,
           ⟨100, 900, TdxRamType.TDX_RAM_UNACCEPTED⟩] 100 0 =
        (-EINVAL, [⟨100, 0, TdxRamType.TDX_RAM_ADDED⟩, ⟨0, 100, TdxRamType.TDX_RAM_UNACCEPTED⟩,
             ⟨100, 900, TdxRamType.TDX_RAM_UNACCEPTED⟩]) := by
  decide

/-- Accepting the range at 500 of length `2^64 - 400`, whose end wraps around to
100, from Unaccepted `[0, 1000)` twice: the first call succeeds, the second one
fails with `-EINVAL` and changes nothing. -/
theorem tdx_accept_ram_range_wrapping_range_again :
    tdx_accept_ram_range [⟨0, 1000, TdxRamType.TDX_RAM_UNACCEPTED⟩] 500 (2 ^ 64 - 400) =
        (0, [⟨500, 2 ^ 64 - 400, TdxRamType.TDX_RAM_ADDED⟩,
             ⟨0, 500, TdxRamType.TDX_RAM_UNACCEPTED⟩,
             ⟨100, 900, TdxRamType.TDX_RAM_UNACCEPTED⟩]) ∧
      tdx_accept_ram_range
          [⟨500, 2 ^ 64 - 400, TdxRamType.TDX_RAM_ADDED⟩,
           ⟨0, 500, TdxRamType.TDX_RAM_UNACCEPTED⟩,
           ⟨100, 900, TdxRamType.TDX_RAM_UNACCEPTED⟩] 500 (2 ^ 64 - 400) =
        (-EINVAL, [⟨500, 2 ^ 64 - 400, TdxRamType.TDX_RAM_ADDED⟩,
             ⟨0, 500, TdxRamType.TDX_RAM_UNACCEPTED⟩,
             ⟨100, 900, TdxRamType.TDX_RAM_UNACCEPTED⟩]) := by
  decide

/-- In a list of pairwise non-overlapping entries of positive length, an
Unaccepted entry that contains the non-empty range is found by the search. -/
theorem tdx_find_ram_range_loop_complete (a l : Nat) (hl : 0 < l) (hal : a + l < 2 ^ 64) :
    ∀ (es : List TdxRamEntry) (k : Nat),
      (∀ e ∈ es, 0 < e.length) →
      (∀ e ∈ es, e.address + e.length < 2 ^ 64) →
      es.Pairwise (fun e1 e2 => ∀ x, ¬ (e1.covers x ∧ e2.covers x)) →
      (∃ e ∈ es, e.type = TdxRamType.TDX_RAM_UNACCEPTED ∧ e.contains a l) →
      tdx_find_ram_range_loop a l es k ≠ none := by
  have hadd : add64 a l = a + l := add64_eq a l hal
  intro es
  induction es with
  | nil => intro k _ _ _ h; simp at h
  | cons e0 es ih =>
    intro k hpos hfit hdisj hex
    have hfit0 : add64 e0.address e0.length = e0.address + e0.length :=
      add64_eq _ _ (hfit e0 (by simp))
    have hpos0 := hpos e0 (by simp)
    rw [List.pairwise_cons] at hdisj
    obtain ⟨e, he, hty, hc⟩ := hex
    unfold TdxRamEntry.contains at hc
    rw [tdx_find_ram_range_loop]
    by_cases hskip : add64 a l ≤ e0.address ∨ add64 e0.address e0.length ≤ a
    · rw [if_pos hskip]
      apply ih (k + 1) (fun e he => hpos e (by simp [he])) (fun e he => hfit e (by simp [he]))
        hdisj.2
      rcases List.mem_cons.mp he with rfl | hmem
      · exfalso
        rw [hadd, hfit0] at hskip
        omega
      · exact ⟨e, hmem, hty, hc⟩
    · rw [if_neg hskip]
      rw [hadd, hfit0] at hskip
      rcases List.mem_cons.mp he with rfl | hmem
      · rw [if_neg (by rw [hadd, hfit0]; omega), if_neg (by rw [hty]; decide)]
        simp
      · exfalso
        apply hdisj.1 e hmem (max a e0.address)
        unfold TdxRamEntry.covers
        have h1 := le_max_left a e0.address
        have h2 := le_max_right a e0.address
        have h3 : max a e0.address = a ∨ max a e0.address = e0.address := by
          rcases le_total a e0.address with h | h
          · right; exact max_eq_right h
          · left; exact max_eq_left h
        omega

/-- Counterexample to C6 as stated: the list of the single Unaccepted entry
`[2^64 - 100, 2^64)` has entries of positive length that are pairwise
non-overlapping, the range `[2^64 - 50, 2^64 - 40)` is non-empty and does not
wrap around, and the entry fully contains the range; `tdx_accept_ram_range`
fails with `-EINVAL` all the same, because the 64-bit end of the entry is 0. -/
theorem tdx_accept_ram_range_fails_iff_counterexample :
    (∀ e ∈ [(⟨2 ^ 64 - 100, 100, TdxRamType.TDX_RAM_UNACCEPTED⟩ : TdxRamEntry)], 0 < e.length) ∧
      [(⟨2 ^ 64 - 100, 100, TdxRamType.TDX_RAM_UNACCEPTED⟩ : TdxRamEntry)].Pairwise
        (fun e1 e2 => ∀ x, ¬ (e1.covers x ∧ e2.covers x)) ∧
      0 < 10 ∧ (2 ^ 64 - 50) + 10 < 2 ^ 64 ∧
      (∃ e ∈ [(⟨2 ^ 64 - 100, 100, TdxRamType.TDX_RAM_UNACCEPTED⟩ : TdxRamEntry)],
        e.type = TdxRamType.TDX_RAM_UNACCEPTED ∧ e.contains (2 ^ 64 - 50) 10) ∧
      tdx_accept_ram_range [⟨2 ^ 64 - 100, 100, TdxRamType.TDX_RAM_UNACCEPTED⟩] (2 ^ 64 - 50) 10
        = (-EINVAL, [⟨2 ^ 64 - 100, 100, TdxRamType.TDX_RAM_UNACCEPTED⟩]) := by
  refine ⟨by decide, by simp, by decide, by norm_num, ?_, by decide⟩
  exact ⟨_, List.mem_singleton.mpr rfl, rfl, by unfold TdxRamEntry.contains; decide⟩

/-- C6 (amended): for a region list whose entries have positive length, end
below `2^64` (`address + length < 2^64`) and are pairwise non-overlapping, and
for a non-empty range without address wrap-around, `tdx_accept_ram_range` fails
with `-EINVAL` exactly when no Unaccepted entry fully contains the range, and a
failing call leaves the region list unchanged. -/
theorem tdx_accept_ram_range_fails_iff (ram : List TdxRamEntry) (a l : Nat)
    (hpos : ∀ e ∈ ram, 0 < e.length)
    (hfit : ∀ e ∈ ram, e.address + e.length < 2 ^ 64)
    (hdisj : ram.Pairwise (fun e1 e2 => ∀ x, ¬ (e1.covers x ∧ e2.covers x)))
    (hl : 0 < l) (hal : a + l < 2 ^ 64) :
    ((tdx_accept_ram_range ram a l).1 = -EINVAL ↔
        ¬ ∃ e ∈ ram, e.type = TdxRamType.TDX_RAM_UNACCEPTED ∧ e.contains a l) ∧
      ((tdx_accept_ram_range ram a l).1 = -EINVAL → (tdx_accept_ram_range ram a l).2 = ram) := by
  have hadd : add64 a l = a + l := add64_eq a l hal
  cases hfind : tdx_find_ram_range ram a l with
  | none =>
    rw [tdx_accept_ram_range_none ram a l hfind]
    refine ⟨⟨fun _ hex => ?_, fun _ => rfl⟩, fun _ => rfl⟩
    exact tdx_find_ram_range_loop_complete a l hl hal ram 0 hpos hfit hdisj hex hfind
  | some r =>
    obtain ⟨i, e⟩ := r
    rw [tdx_accept_ram_range_found ram a l i e hfind]
    obtain ⟨pre, post, hes, -, -, h1, h2, h3⟩ :=
      tdx_find_ram_range_loop_some a l ram 0 i e hfind
    refine ⟨⟨fun h0 => ?_, fun hno => ?_⟩, fun h0 => ?_⟩
    · simp [EINVAL] at h0
    · exfalso
      apply hno
      refine ⟨e, by simp [hes], h3, ?_⟩
      unfold TdxRamEntry.contains
      have := add64_le e.address e.length
      rw [hadd] at h2
      omega
    · simp [EINVAL] at h0

/-- Witness of C6 (amended): the list Added `[100, 200)`, Unaccepted `[0, 100)`,
Unaccepted `[200, 1000)` and the range `[150, 250)`, which straddles two
entries. -/
theorem tdx_accept_ram_range_fails_iff_witness :
    ((tdx_accept_ram_range
          [⟨100, 100, TdxRamType.TDX_RAM_ADDED⟩, ⟨0, 100, TdxRamType.TDX_RAM_UNACCEPTED⟩,
           ⟨200, 800, TdxRamType.TDX_RAM_UNACCEPTED⟩] 150 100).1 = -EINVAL ↔
        ¬ ∃ e ∈ [(⟨100, 100, TdxRamType.TDX_RAM_ADDED⟩ : TdxRamEntry),
                  ⟨0, 100, TdxRamType.TDX_RAM_UNACCEPTED⟩,
                  ⟨200, 800, TdxRamType.TDX_RAM_UNACCEPTED⟩],
            e.type = TdxRamType.TDX_RAM_UNACCEPTED ∧ e.contains 150 100) ∧
      ((tdx_accept_ram_range
          [⟨100, 100, TdxRamType.TDX_RAM_ADDED⟩, ⟨0, 100, TdxRamType.TDX_RAM_UNACCEPTED⟩,
           ⟨200, 800, TdxRamType.TDX_RAM_UNACCEPTED⟩] 150 100).1 = -EINVAL →
        (tdx_accept_ram_range
          [⟨100, 100, TdxRamType.TDX_RAM_ADDED⟩, ⟨0, 100, TdxRamType.TDX_RAM_UNACCEPTED⟩,
           ⟨200, 800, TdxRamType.TDX_RAM_UNACCEPTED⟩] 150 100).2 =
          [⟨100, 100, TdxRamType.TDX_RAM_ADDED⟩, ⟨0, 100, TdxRamType.TDX_RAM_UNACCEPTED⟩,
           ⟨200, 800, TdxRamType.TDX_RAM_UNACCEPTED⟩]) :=
  tdx_accept_ram_range_fails_iff
    [⟨100, 100, TdxRamType.TDX_RAM_ADDED⟩, ⟨0, 100, TdxRamType.TDX_RAM_UNACCEPTED⟩,
     ⟨200, 800, TdxRamType.TDX_RAM_UNACCEPTED⟩] 150 100
    (by decide) (by simp)
    (by simp [TdxRamEntry.covers]; refine ⟨⟨?_, ?_⟩, ?_⟩ <;> intros <;> omega)
    (by decide) (by norm_num)

/-! ### QuoteRelay -/

theorem length_le_bytes (n v : Nat) : (le_bytes n v).length = n := by
  induction n generalizing v with
  | zero => rfl
  | succ n ih => simp [le_bytes, ih]

theorem length_header_bytes (h : tdx_get_quote_header) :
    h.bytes.length = sizeof_tdx_get_quote_header := by
  simp [tdx_get_quote_header.bytes, length_le_bytes, sizeof_tdx_get_quote_header]

/-- Counterexample to C7 as stated: with 16 quote tasks in flight, a request
whose header at 0x1000 is read and passes the validation, in guest memory that
takes no writes, is not answered with `TDG_VP_VMCALL_RETRY`: the write of the
in-flight mark fails and `__tdx_handle_get_quote` returns before the admission
test, the vmcall status being the one it had on entry. -/
theorem __tdx_handle_get_quote_retry_counterexample :
    read_quote_header sample_world_full_readonly.mem 0x1000 = some ⟨1, 0, 0, 0⟩ ∧
      quote_header_valid ⟨1, 0, 0, 0⟩ 0x2000 ∧
      sample_world_full_readonly.tdx.quote_generation_num ≥ 16 ∧
      (__tdx_handle_get_quote 0xFFFFFFFF 17 sample_world_full_readonly 0x1000 0x2000 0xFFFFFFFF 0
        (some TDG_VP_VMCALL_INVALID_OPERAND)).status_code = some TDG_VP_VMCALL_INVALID_OPERAND ∧
      (__tdx_handle_get_quote 0xFFFFFFFF 17 sample_world_full_readonly 0x1000 0x2000 0xFFFFFFFF 0
        (some TDG_VP_VMCALL_INVALID_OPERAND)).status_code ≠ some TDG_VP_VMCALL_RETRY := by
  decide

/-- C7 (amended): with 16 quote tasks in flight (`quote_generation_num >= 16`),
a get-quote request that passes header validation (the header is read and is
valid) and whose 24 header bytes in guest memory take the write of the
in-flight mark is rejected: `__tdx_handle_get_quote` sets the vmcall status to
`TDG_VP_VMCALL_RETRY`, starts no connection, adds no task to the in-flight list
and leaves `quote_generation_num` unchanged. -/
theorem __tdx_handle_get_quote_retry (UNASSIGNED_APIC_ID ioc : Nat) (w : TdxWorld)
    (gpa buf_len apic_id event_notify_interrupt status : Nat) (hdr : tdx_get_quote_header)
    (hread : read_quote_header w.mem gpa = some hdr)
    (hvalid : quote_header_valid hdr buf_len)
    (hwrite : ∀ i, i < sizeof_tdx_get_quote_header → w.mem.writable (gpa + i) = true)
    (hnum : w.tdx.quote_generation_num ≥ 16) :
    (__tdx_handle_get_quote UNASSIGNED_APIC_ID ioc w gpa buf_len apic_id
        event_notify_interrupt (some status)).status_code = some TDG_VP_VMCALL_RETRY ∧
      (__tdx_handle_get_quote UNASSIGNED_APIC_ID ioc w gpa buf_len apic_id
        event_notify_interrupt (some status)).connect_async = none ∧
      (__tdx_handle_get_quote UNASSIGNED_APIC_ID ioc w gpa buf_len apic_id
        event_notify_interrupt (some status)).world.tdx.get_quote_task_list
          = w.tdx.get_quote_task_list ∧
      (__tdx_handle_get_quote UNASSIGNED_APIC_ID ioc w gpa buf_len apic_id
        event_notify_interrupt (some status)).world.tdx.quote_generation_num
          = w.tdx.quote_generation_num := by
  unfold read_quote_header at hread
  obtain ⟨bs, hbs, rfl⟩ := Option.map_eq_some'.mp hread
  obtain ⟨hver, herr, hout, hbuf, hin, hin2⟩ := hvalid
  have hw : ∀ h : tdx_get_quote_header, (address_space_write w.mem gpa h.bytes).1 = true := by
    intro h
    simp only [address_space_write, length_header_bytes, List.all_eq_true, List.mem_range]
    exact fun i hi => hwrite i hi
  unfold __tdx_handle_get_quote
  simp only [hbs]
  rw [if_neg (by simp [hver]), if_neg (by rcases herr with h | h <;> simp [h]),
    if_neg (by rcases hout with h | h <;> omega)]
  have hin' : (if (tdx_get_quote_header.ofBytes bs).out_len > 0
      then { tdx_get_quote_header.ofBytes bs with out_len := 0 }
      else tdx_get_quote_header.ofBytes bs).in_len = (tdx_get_quote_header.ofBytes bs).in_len := by
    split_ifs <;> rfl
  simp only [hin']
  rw [if_neg (by omega)]
  simp only [hw, Bool.true_eq_false, if_false]
  have hnum' : w.tdx.quote_generation_num ≥ TDX_MAX_GET_QUOTE_REQUEST := hnum
  rw [if_pos (Or.inr hnum')]
  simp

/-- Witness of C7 (amended): a valid request for the buffer at 0x1000 while 16
requests are in flight. -/
theorem __tdx_handle_get_quote_retry_witness :
    (__tdx_handle_get_quote 0xFFFFFFFF 17 sample_world_full 0x1000 0x2000 0xFFFFFFFF 0
        (some TDG_VP_VMCALL_INVALID_OPERAND)).status_code = some TDG_VP_VMCALL_RETRY ∧
      (__tdx_handle_get_quote 0xFFFFFFFF 17 sample_world_full 0x1000 0x2000 0xFFFFFFFF 0
        (some TDG_VP_VMCALL_INVALID_OPERAND)).connect_async = none ∧
      (__tdx_handle_get_quote 0xFFFFFFFF 17 sample_world_full 0x1000 0x2000 0xFFFFFFFF 0
        (some TDG_VP_VMCALL_INVALID_OPERAND)).world.tdx.get_quote_task_list
          = sample_world_full.tdx.get_quote_task_list ∧
      (__tdx_handle_get_quote 0xFFFFFFFF 17 sample_world_full 0x1000 0x2000 0xFFFFFFFF 0
        (some TDG_VP_VMCALL_INVALID_OPERAND)).world.tdx.quote_generation_num
          = sample_world_full.tdx.quote_generation_num :=
  __tdx_handle_get_quote_retry 0xFFFFFFFF 17 sample_world_full 0x1000 0x2000 0xFFFFFFFF 0
    TDG_VP_VMCALL_INVALID_OPERAND ⟨1, 0, 0, 0⟩ (by decide) (by decide) (by decide) (by decide)

/-- The read loop of `tdx_get_quote_read` over non-empty chunks followed by end
of stream ends in `tdx_get_quote_read_finish` on the task that received them. -/
theorem tdx_get_quote_read_chunks (w : TdxWorld) (rest : List ChannelRead) :
    ∀ (chunks : List (List Nat)) (t : tdx_get_quote_task),
      (∀ c ∈ chunks, c ≠ []) →
      tdx_get_quote_read w t (chunks.map ChannelRead.data ++ ChannelRead.data [] :: rest)
        = QuoteReadExit.completed
            (tdx_get_quote_read_finish w (chunks.foldl tdx_get_quote_task.receive t) false) := by
  intro chunks
  induction chunks with
  | nil => intro t _; simp [tdx_get_quote_read]
  | cons c cs ih =>
    intro t hne
    have hc : c.length ≠ 0 := by
      have := hne c (by simp)
      simpa [List.length_eq_zero] using this
    simp only [List.map_cons, List.cons_append, tdx_get_quote_read, if_neg hc, List.foldl_cons]
    exact ih (t.receive c) (fun c' hc' => hne c' (by simp [hc']))

/-- Receiving chunks changes only the buffer and the byte count of a task, and
counts every byte. -/
theorem receive_chunks (chunks : List (List Nat)) :
    ∀ (t : tdx_get_quote_task),
      t.out_len + (chunks.map List.length).sum < 2 ^ 64 →
      (chunks.foldl tdx_get_quote_task.receive t).out_len
          = t.out_len + (chunks.map List.length).sum ∧
        (chunks.foldl tdx_get_quote_task.receive t).gpa = t.gpa ∧
        (chunks.foldl tdx_get_quote_task.receive t).buf_len = t.buf_len ∧
        (chunks.foldl tdx_get_quote_task.receive t).hdr = t.hdr ∧
        (chunks.foldl tdx_get_quote_task.receive t).ioc = t.ioc ∧
        (chunks.foldl tdx_get_quote_task.receive t).apic_id = t.apic_id ∧
        (chunks.foldl tdx_get_quote_task.receive t).event_notify_interrupt
          = t.event_notify_interrupt := by
  induction chunks with
  | nil => intro t _; simp
  | cons c cs ih =>
    intro t h
    simp only [List.map_cons, List.sum_cons] at h
    have hlen : (t.receive c).out_len = t.out_len + c.length := by
      simp only [tdx_get_quote_task.receive]
      exact add64_eq _ _ (by omega)
    obtain ⟨h1, h2, h3, h4, h5, h6, h7⟩ := ih (t.receive c) (by rw [hlen]; omega)
    simp only [List.foldl_cons, List.map_cons, List.sum_cons]
    refine ⟨by rw [h1, hlen]; omega, ?_, ?_, ?_, ?_, ?_, ?_⟩
    · rw [h2]; rfl
    · rw [h3]; rfl
    · rw [h4]; rfl
    · rw [h5]; rfl
    · rw [h6]; rfl
    · rw [h7]; rfl

/-- When the bytes counted so far and the chunks that arrive before the end of
the stream exceed the buffer, `tdx_get_quote_read` ends in the overflow branch:
the task is cleaned up with the error code and the 32-bit byte count in its
header and with `outlen_overflow` set. -/
theorem tdx_get_quote_read_overflow_exit (w : TdxWorld) (t : tdx_get_quote_task)
    (chunks : List (List Nat)) (rest : List ChannelRead) (n : Nat)
    (hne : ∀ c ∈ chunks, c ≠ [])
    (hn : n = t.out_len + (chunks.map List.length).sum)
    (hfit : n < 2 ^ 64)
    (hover : n > t.buf_len) :
    tdx_get_quote_read w t (chunks.map ChannelRead.data ++ ChannelRead.data [] :: rest)
      = QuoteReadExit.completed
          (tdx_getquote_task_cleanup w
            { chunks.foldl tdx_get_quote_task.receive t with
              hdr := { t.hdr with error_code := TDX_VP_GET_QUOTE_ERROR,
                                  out_len := n % 2 ^ 32 } } true) := by
  obtain ⟨h1, -, h3, h4, -, -, -⟩ := receive_chunks chunks t (by omega)
  rw [tdx_get_quote_read_chunks w rest chunks t hne]
  unfold tdx_get_quote_read_finish
  rw [if_neg (by simp), if_pos (by rw [h1, h3]; omega)]
  simp only [h1, h4, ← hn]

/-- In the overflow branch guest memory is the memory before with only the
header written at `gpa`. -/
theorem tdx_get_quote_read_overflow_mem (w : TdxWorld) (t : tdx_get_quote_task)
    (chunks : List (List Nat)) (rest : List ChannelRead) (n : Nat)
    (hne : ∀ c ∈ chunks, c ≠ [])
    (hn : n = t.out_len + (chunks.map List.length).sum)
    (hfit : n < 2 ^ 64)
    (hover : n > t.buf_len) :
    (tdx_get_quote_read w t
        (chunks.map ChannelRead.data ++ ChannelRead.data [] :: rest)).world?.map TdxWorld.mem
      = some (address_space_write w.mem t.gpa
          ({ t.hdr with error_code := TDX_VP_GET_QUOTE_ERROR,
                        out_len := n % 2 ^ 32 }).bytes).2 := by
  obtain ⟨-, h2, -, -, -, -, -⟩ := receive_chunks chunks t (by omega)
  rw [tdx_get_quote_read_overflow_exit w t chunks rest n hne hn hfit hover]
  simp only [QuoteReadExit.world?, Option.map_some', tdx_getquote_task_cleanup, h2]
  simp

/-- C8 (amended): for every quote task with buffer capacity `buf_len`, if the
quote service sends `n > buf_len` bytes in total (the task has counted
`t.out_len` of them in earlier calls, the rest arrive in `chunks`) and then
closes the connection, `tdx_get_quote_read` completes the task: guest memory
is the memory before with only the header written at `gpa`, holding
`error_code = TDX_VP_GET_QUOTE_ERROR` and `out_len = n mod 2^32` (which is `n`
when `n < 2^32`); no response payload is written, and the task leaves the
in-flight list with the counter decremented. -/
theorem tdx_get_quote_read_overflow (w : TdxWorld) (t : tdx_get_quote_task)
    (chunks : List (List Nat)) (rest : List ChannelRead) (n : Nat)
    (hne : ∀ c ∈ chunks, c ≠ [])
    (hn : n = t.out_len + (chunks.map List.length).sum)
    (hfit : n < 2 ^ 64)
    (hover : n > t.buf_len) :
    (tdx_get_quote_read w t
        (chunks.map ChannelRead.data ++ ChannelRead.data [] :: rest)).world?.map TdxWorld.mem
      = some (address_space_write w.mem t.gpa
          ({ t.hdr with error_code := TDX_VP_GET_QUOTE_ERROR, out_len := n % 2 ^ 32 }).bytes).2 ∧
    (tdx_get_quote_read w t
        (chunks.map ChannelRead.data ++ ChannelRead.data [] :: rest)).world?.map TdxWorld.tdx
      = some { w.tdx with
          get_quote_task_list := w.tdx.get_quote_task_list.filter (fun x => x.ioc ≠ t.ioc)
          quote_generation_num := w.tdx.quote_generation_num - 1 } := by
  refine ⟨tdx_get_quote_read_overflow_mem w t chunks rest n hne hn hfit hover, ?_⟩
  obtain ⟨-, -, -, -, h5, -, -⟩ := receive_chunks chunks t (by omega)
  rw [tdx_get_quote_read_overflow_exit w t chunks rest n hne hn hfit hover]
  simp only [QuoteReadExit.world?, Option.map_some', tdx_getquote_task_cleanup, h5]

/-- Reading guest memory after a completed call, given the memory it leaves. -/
theorem world_bind_of_map_mem {α : Type} (x : QuoteReadExit) (M : AddressSpace)
    (f : AddressSpace → Option α) (h : x.world?.map TdxWorld.mem = some M) :
    x.world?.bind (fun w => f w.mem) = f M := by
  cases x with
  | returned t => simp [QuoteReadExit.world?] at h
  | completed w' =>
    simp only [QuoteReadExit.world?, Option.map_some', Option.some.injEq] at h
    simp [QuoteReadExit.world?, h]

/-- Witness of C8 (amended): 300 bytes, read as 256 and 44, into the 256-byte
buffer of `sample_task`; the header read back from guest memory reports the
error with `out_len = 300`. -/
theorem tdx_get_quote_read_overflow_witness :
    (tdx_get_quote_read sample_world_one sample_task
          ([List.replicate 256 1, List.replicate 44 2].map ChannelRead.data
            ++ ChannelRead.data [] :: [])).world?.bind
          (fun w => read_quote_header w.mem 0x1000)
        = some ⟨1, TDX_VP_GET_QUOTE_ERROR, 0, 300⟩ ∧
      (tdx_get_quote_read sample_world_one sample_task
          ([List.replicate 256 1, List.replicate 44 2].map ChannelRead.data
            ++ ChannelRead.data [] :: [])).world?.map TdxWorld.tdx
        = some { quote_generation := some "unix:/var/run/qgs.socket",
                 quote_generation_num := 0, get_quote_task_list := [] } := by
  have h := tdx_get_quote_read_overflow sample_world_one sample_task
      [List.replicate 256 1, List.replicate 44 2] [] 300
      (fun c hc => by
        simp only [List.mem_cons, List.mem_singleton, List.not_mem_nil, or_false] at hc
        rcases hc with rfl | rfl <;> exact List.ne_nil_of_length_pos (by rw [List.length_replicate]; norm_num))
      (by simp only [List.map_cons, List.map_nil, List.length_replicate, List.sum_cons,
            List.sum_nil]; rfl)
      (by norm_num) (by decide)
  refine ⟨?_, ?_⟩
  · rw [world_bind_of_map_mem _ _ (fun m => read_quote_header m 0x1000) h.1]
    decide
  · rw [h.2]
    decide

/-- Counterexample to C8 as stated: the service sends `2^32` bytes, in `2^20`
reads of 4096 bytes, to a task with a 4096-byte buffer and closes; the header
written to the guest reports the error with `out_len = 0`, not `2^32`. -/
theorem tdx_get_quote_read_overflow_counterexample :
    ((List.replicate (2 ^ 20) (List.replicate 4096 0)).map List.length).sum = 2 ^ 32 ∧
      sample_task_page.buf_len < 2 ^ 32 ∧
      (tdx_get_quote_read sample_world_one sample_task_page
          ((List.replicate (2 ^ 20) (List.replicate 4096 0)).map ChannelRead.data
            ++ ChannelRead.data [] :: [])).world?.bind
          (fun w => read_quote_header w.mem 0x1000)
        = some ⟨1, TDX_VP_GET_QUOTE_ERROR, 0, 0⟩ := by
  have hsum : ((List.replicate (2 ^ 20) (List.replicate 4096 0)).map List.length).sum
      = 2 ^ 32 := by
    simp only [List.map_replicate, List.length_replicate, List.sum_replicate, smul_eq_mul]
    norm_num
  have h := tdx_get_quote_read_overflow_mem sample_world_one sample_task_page
    (List.replicate (2 ^ 20) (List.replicate 4096 0)) [] (2 ^ 32)
    (fun c hc => by rw [List.eq_of_mem_replicate hc]; decide)
    (by rw [hsum]; rfl) (by norm_num) (by decide)
  refine ⟨hsum, by decide, ?_⟩
  rw [world_bind_of_map_mem _ _ (fun m => read_quote_header m 0x1000) h]
  decide

/-! ### Service items -/

/-- Registering a timeout callback keeps the count equal to the number of
holders: the dispatcher (if it still holds the item) and the timer. -/
theorem set_timeout_handler_some_count (now : Nat) (v v1 : TdxVmcallServiceItem)
    (cb ctx : Nat) (held : Bool)
    (h : tdx_vmcall_service_set_timeout_handler now v (some cb) ctx = some v1)
    (hI : v.ref_count = held.toNat + v.timer_enable.toNat) :
    v1.ref_count = held.toNat + v1.timer_enable.toNat := by
  unfold tdx_vmcall_service_set_timeout_handler at h
  by_cases ht : v.timeout = 0
  · rw [if_pos ht] at h
    cases h
    exact hI
  · rw [if_neg ht] at h
    simp only [Option.isSome_some, if_true] at h
    by_cases hte : v.timer_enable = false
    · simp only [hte, if_true, tdx_vmcall_service_item_ref] at h
      by_cases hmax : v.ref_count < INT_MAX
      · simp only [hmax, if_true, Option.map_some', Option.some.injEq] at h
        subst h
        simp only [hte, Bool.toNat_false, Bool.toNat_true] at hI ⊢
        have : v.ref_count + 1 < 2 ^ 32 := by unfold INT_MAX at hmax; omega
        rw [Nat.mod_eq_of_lt this]
        omega
      · simp [hmax] at h
    · have hte' : v.timer_enable = true := by simpa using hte
      simp only [hte', Bool.true_eq_false, if_false, Option.map_some', Option.some.injEq] at h
      subst h
      simpa [hte'] using hI

/-- Clearing the timeout callback keeps the count equal to the number of
holders. -/
theorem set_timeout_handler_none_count (now : Nat) (v v1 : TdxVmcallServiceItem)
    (ctx : Nat) (held : Bool)
    (h : tdx_vmcall_service_set_timeout_handler now v none ctx = some v1)
    (hI : v.ref_count = held.toNat + v.timer_enable.toNat) :
    v1.ref_count = held.toNat + v1.timer_enable.toNat := by
  unfold tdx_vmcall_service_set_timeout_handler at h
  by_cases ht : v.timeout = 0
  · rw [if_pos ht] at h
    cases h
    exact hI
  · rw [if_neg ht] at h
    simp only [Option.isSome_none, Bool.false_eq_true, if_false] at h
    by_cases hte : v.timer_enable = true
    · simp only [hte, if_true, tdx_vmcall_service_item_unref] at h
      simp only [hte, Bool.toNat_true] at hI
      have hpos : v.ref_count > 0 := by omega
      simp only [hpos, if_true] at h
      split_ifs at h <;>
      · simp only [Option.some.injEq] at h
        subst h
        simp only [Bool.toNat_false]
        omega
    · have hte' : v.timer_enable = false := by simpa using hte
      simp only [hte', Bool.false_eq_true, if_false, Option.some.injEq] at h
      subst h
      simpa [hte'] using hI

/-- Completing a request keeps the count equal to the number of holders. -/
theorem complete_request_count (L : DataHeadLayout) (now : Nat) (w w1 : TdxWorld)
    (v v1 : TdxVmcallServiceItem) (held : Bool)
    (h : tdx_vmcall_service_complete_request L now w v = some (w1, v1))
    (hI : v.ref_count = held.toNat + v.timer_enable.toNat) :
    v1.ref_count = held.toNat + v1.timer_enable.toNat := by
  unfold tdx_vmcall_service_complete_request at h
  simp only [Option.map_eq_some', Prod.mk.injEq] at h
  obtain ⟨v2, hset, -, rfl⟩ := h
  refine set_timeout_handler_none_count now _ v2 0 held hset ?_
  unfold tdx_vmcall_service_wake
  split_ifs <;> exact hI

/-- The invariant of reachable service items: the reference count is the number
of holders, one for the dispatcher while it holds the item and one for the
timer while it is enabled. -/
theorem item_reachable_count (L : DataHeadLayout)
    (timer_cbs : Nat → TdxWorld → TdxVmcallServiceItem → TdxWorld × TdxVmcallServiceItem)
    (hcb : callbacks_keep_refs timer_cbs)
    (w : TdxWorld) (v : TdxVmcallServiceItem) (held : Bool)
    (h : ItemReachable L timer_cbs w v held) :
    v.ref_count = held.toNat + v.timer_enable.toNat := by
  induction h with
  | create w v h1 h2 _ => simp [h1, h2]
  | set_timeout_handler w v v1 held now cb ctx _ _ hstep ih =>
    exact set_timeout_handler_some_count now v v1 cb ctx held hstep ih
  | complete_request w w1 v v1 held now _ _ hstep ih =>
    exact complete_request_count L now w w1 v v1 held hstep ih
  | timeout_handler w w1 v v1 held now _ _ hstep ih =>
    unfold tdx_vmcall_service_timeout_handler at hstep
    refine complete_request_count L now _ w1 _ v1 held hstep ?_
    simp only [tdx_vmcall_service_set_response_state]
    cases hcbv : v.timer_cb with
    | none => simpa using ih
    | some cb =>
      rw [(hcb cb w _).1, (hcb cb w _).2.1]
      exact ih
  | release w v v1 _ _ hstep ih =>
    unfold tdx_vmcall_service_item_unref at hstep
    simp only [Bool.toNat_true] at ih
    have hpos : v.ref_count > 0 := by omega
    simp only [hpos, if_true] at hstep
    split_ifs at hstep <;>
    · simp only [Option.some.injEq] at hstep
      subst hstep
      simp only [Bool.toNat_false]
      omega

/-- C10: in every state of a service item reachable from creation (reference
count 1, no timer) through `tdx_vmcall_service_set_timeout_handler` with a
callback, `tdx_vmcall_service_complete_request`, the timeout handler and the
one release by the dispatcher, the reference count is at least 1 whenever
`timer_enable` is true; the timeout callbacks are taken to leave the count and
the timer registration alone. -/
theorem item_ref_count_positive_while_timer (L : DataHeadLayout)
    (timer_cbs : Nat → TdxWorld → TdxVmcallServiceItem → TdxWorld × TdxVmcallServiceItem)
    (hcb : callbacks_keep_refs timer_cbs)
    (w : TdxWorld) (v : TdxVmcallServiceItem) (held : Bool)
    (h : ItemReachable L timer_cbs w v held)
    (hte : v.timer_enable = true) :
    v.ref_count ≥ 1 := by
  have := item_reachable_count L timer_cbs hcb w v held h
  rw [hte] at this
  simp only [Bool.toNat_true] at this
  omega

/-! ### The service call -/

/-- The per-address checks of the sanity check pass only for a shared,
4096-aligned address whose header can be read and covers itself. -/
theorem sanity_check_addr_some (L : DataHeadLayout) (mem : AddressSpace) (phys_bits addr : Nat)
    (head : TdxVmServiceDataHead)
    (h : tdx_vmcall_service_sanity_check_addr L mem phys_bits addr = some head) :
    addr &&& tdx_shared_bit phys_bits ≠ 0 ∧ addr % 4096 = 0 ∧
      tdx_vmcall_service_do_cache_data_head L mem (addr &&& not64 (tdx_shared_bit phys_bits))
        = some head ∧
      ¬ head.length < L.size := by
  unfold tdx_vmcall_service_sanity_check_addr at h
  by_cases h1 : addr &&& tdx_shared_bit phys_bits = 0
  · rw [if_pos h1] at h; cases h
  · rw [if_neg h1] at h
    by_cases h2 : addr % 4096 ≠ 0
    · rw [if_pos h2] at h; cases h
    · rw [if_neg h2] at h
      cases hrd : tdx_vmcall_service_do_cache_data_head L mem
          (addr &&& not64 (tdx_shared_bit phys_bits)) with
      | none => rw [hrd] at h; cases h
      | some hd =>
        rw [hrd] at h
        by_cases h3 : hd.length < L.size
        · simp [h3] at h
        · simp only [h3, if_false, Option.some.injEq] at h
          subst h
          exact ⟨h1, not_not.mp h2, rfl, h3⟩

/-- The sanity check returns 0 or -1, and 0 only for a call that breaks no
rule. -/
theorem sanity_check_zero (L : DataHeadLayout) (mem : AddressSpace) (phys_bits : Nat)
    (vmcall : kvm_tdx_vmcall)
    (h : tdx_vmcall_service_sanity_check L mem phys_bits vmcall = 0) :
    ¬ service_call_violation L mem phys_bits vmcall := by
  unfold tdx_vmcall_service_sanity_check at h
  cases h0 : tdx_vmcall_service_sanity_check_addr L mem phys_bits vmcall.in_r12 with
  | none => rw [h0] at h; simp at h
  | some head0 =>
    rw [h0] at h
    cases h1 : tdx_vmcall_service_sanity_check_addr L mem phys_bits vmcall.in_r13 with
    | none => rw [h1] at h; simp at h
    | some head1 =>
      rw [h1] at h
      simp only at h
      obtain ⟨a1, a2, a3, a4⟩ := sanity_check_addr_some L mem phys_bits _ head0 h0
      obtain ⟨b1, b2, b3, b4⟩ := sanity_check_addr_some L mem phys_bits _ head1 h1
      by_cases hg : qemu_uuid_is_equal head0.guid head1.guid = false
      · rw [if_pos hg] at h; simp at h
      · rw [if_neg hg] at h
        by_cases hv : vmcall.in_r14 ≠ 0 ∧ (vmcall.in_r14 < 32 ∨ vmcall.in_r14 > 255)
        · rw [if_pos hv] at h; simp at h
        · have hguid : head0.guid = head1.guid := by
            simpa [qemu_uuid_is_equal] using hg
          unfold service_call_violation
          rintro (c | c | c | c | ⟨hd, c1, c2⟩ | ⟨hd, c1, c2⟩ | ⟨x0, x1, c1, c2, c3⟩ | c)
          · exact a1 c
          · exact b1 c
          · exact c a2
          · exact c b2
          · rw [a3] at c1; cases c1; exact a4 c2
          · rw [b3] at c1; cases c1; exact b4 c2
          · rw [a3] at c1; rw [b3] at c2; cases c1; cases c2; exact c3 hguid
          · exact hv c

/-- C9: a service call that breaks a rule of the sanity check (an address
without the shared bit or not 4096-aligned, a header whose declared length is
smaller than the header, differing GUIDs, or a non-zero notify vector outside
`[32, 255]`) makes `tdx_vmcall_service_sanity_check` fail, and
`tdx_handle_vmcall_service` sets the status to `TDG_VP_VMCALL_INVALID_OPERAND`
and leaves guest memory, the TrustDomain and the injected interrupts as they
were: no service item is created and no handler is called. -/
theorem tdx_handle_vmcall_service_rejects (L : DataHeadLayout) (now : Nat)
    (handlers : Nat → TdxWorld → TdxVmcallServiceItem → TdxWorld × TdxVmcallServiceItem)
    (O : ServiceOracle) (phys_bits : Nat) (w : TdxWorld) (vmcall : kvm_tdx_vmcall)
    (h : service_call_violation L w.mem phys_bits vmcall) :
    tdx_vmcall_service_sanity_check L w.mem phys_bits vmcall ≠ 0 ∧
      tdx_handle_vmcall_service L now handlers O phys_bits w vmcall
        = some ⟨w, TDG_VP_VMCALL_INVALID_OPERAND, none, none⟩ := by
  have hne : tdx_vmcall_service_sanity_check L w.mem phys_bits vmcall ≠ 0 :=
    fun h0 => sanity_check_zero L w.mem phys_bits vmcall h0 h
  refine ⟨hne, ?_⟩
  unfold tdx_handle_vmcall_service
  simp only [if_pos hne]

/-- Witness of C9: the service call on the two sample buffers with the notify
vector 10, with a command address that is not 4096-aligned, and with two
headers whose GUIDs differ. -/
theorem tdx_handle_vmcall_service_rejects_witness :
    (tdx_vmcall_service_sanity_check spec_data_head_layout sample_service_world.mem 46
        (sample_service_call 10) ≠ 0 ∧
      tdx_handle_vmcall_service spec_data_head_layout 0 sample_handlers ⟨true, true, [true]⟩ 46
          sample_service_world (sample_service_call 10)
        = some ⟨sample_service_world, TDG_VP_VMCALL_INVALID_OPERAND, none, none⟩) ∧
    (tdx_vmcall_service_sanity_check spec_data_head_layout sample_service_world.mem 46
        { sample_service_call 40 with in_r12 := 2 ^ 47 + 0x1008 } ≠ 0 ∧
      tdx_handle_vmcall_service spec_data_head_layout 0 sample_handlers ⟨true, true, [true]⟩ 46
          sample_service_world { sample_service_call 40 with in_r12 := 2 ^ 47 + 0x1008 }
        = some ⟨sample_service_world, TDG_VP_VMCALL_INVALID_OPERAND, none, none⟩) ∧
    (tdx_vmcall_service_sanity_check spec_data_head_layout
        ({ sample_service_world with mem := sample_service_mem_guids } : TdxWorld).mem 46
        (sample_service_call 40) ≠ 0 ∧
      tdx_handle_vmcall_service spec_data_head_layout 0 sample_handlers ⟨true, true, [true]⟩ 46
          { sample_service_world with mem := sample_service_mem_guids } (sample_service_call 40)
        = some ⟨{ sample_service_world with mem := sample_service_mem_guids },
            TDG_VP_VMCALL_INVALID_OPERAND, none, none⟩) :=
  ⟨tdx_handle_vmcall_service_rejects spec_data_head_layout 0 sample_handlers
      ⟨true, true, [true]⟩ 46 sample_service_world (sample_service_call 10)
      (Or.inr (Or.inr (Or.inr (Or.inr (Or.inr (Or.inr (Or.inr (by decide)))))))),
    tdx_handle_vmcall_service_rejects spec_data_head_layout 0 sample_handlers
      ⟨true, true, [true]⟩ 46 sample_service_world
      { sample_service_call 40 with in_r12 := 2 ^ 47 + 0x1008 }
      (Or.inr (Or.inr (Or.inl (by decide)))),
    tdx_handle_vmcall_service_rejects spec_data_head_layout 0 sample_handlers
      ⟨true, true, [true]⟩ 46 { sample_service_world with mem := sample_service_mem_guids }
      (sample_service_call 40)
      (Or.inr (Or.inr (Or.inr (Or.inr (Or.inr (Or.inr (Or.inl
        ⟨⟨24, List.replicate 16 7, 0⟩, ⟨24, List.replicate 16 8, 0⟩,
          by decide, by decide, by decide⟩)))))))⟩

/-- Witness of C10: an item created with a timeout of 1000 ms, on which a
handler registers the timeout callback 5 at time 0 and which the dispatcher
then releases, is left with the timer enabled and one reference. -/
theorem item_ref_count_positive_while_timer_witness :
    ItemReachable spec_data_head_layout sample_timer_cbs sample_service_world
        { ref_count := 1, notify_vector := 40, timeout := 1000, timer_enable := true,
          timer_cb := some 5, timer := some 1000 } false ∧
      ({ ref_count := 1, notify_vector := 40, timeout := 1000, timer_enable := true,
         timer_cb := some 5, timer := some 1000 } : TdxVmcallServiceItem).ref_count ≥ 1 :=
  have hreach : ItemReachable spec_data_head_layout sample_timer_cbs sample_service_world
      { ref_count := 1, notify_vector := 40, timeout := 1000, timer_enable := true,
        timer_cb := some 5, timer := some 1000 } false :=
    ItemReachable.release sample_service_world
      { ref_count := 2, notify_vector := 40, timeout := 1000, timer_enable := true,
        timer_cb := some 5, timer := some 1000 } _
      (ItemReachable.set_timeout_handler sample_service_world
        { ref_count := 1, notify_vector := 40, timeout := 1000 } _ true 0 5 0
        (ItemReachable.create sample_service_world _ rfl rfl rfl) rfl (by decide))
      rfl (by decide)
  ⟨hreach,
    item_ref_count_positive_while_timer spec_data_head_layout sample_timer_cbs
      (fun _ _ _ => ⟨rfl, rfl, rfl, rfl⟩) sample_service_world _ false hreach rfl⟩

/-- A valid service call on the sample buffers with notify vector 40 is
dispatched: the status is success, the handler 1 is called, and its completion
injects vector 40 and drops the last reference of the item. -/
theorem tdx_handle_vmcall_service_sample_dispatch :
    (tdx_handle_vmcall_service spec_data_head_layout 0 sample_handlers ⟨true, true, [true]⟩ 46
        sample_service_world (sample_service_call 40)).map
        (fun x => (x.status_code, x.handler, x.world.msi, x.item.map (fun v => v.freed)))
      = some (TDG_VP_VMCALL_SUCCESS, some 1, [(0, 40)], some true) := by
  decide

/-- A valid quote request while 15 are in flight is admitted: the status is
success, the task joins the list and the counter becomes 16. -/
theorem __tdx_handle_get_quote_sample_admit :
    (__tdx_handle_get_quote 0xFFFFFFFF 17
        { sample_world_full with tdx := { sample_world_full.tdx with quote_generation_num := 15 } }
        0x1000 0x1000 0xFFFFFFFF 0 (some TDG_VP_VMCALL_INVALID_OPERAND)).status_code
        = some TDG_VP_VMCALL_SUCCESS ∧
      (__tdx_handle_get_quote 0xFFFFFFFF 17
        { sample_world_full with tdx := { sample_world_full.tdx with quote_generation_num := 15 } }
        0x1000 0x1000 0xFFFFFFFF 0
        (some TDG_VP_VMCALL_INVALID_OPERAND)).world.tdx.quote_generation_num = 16 ∧
      ((__tdx_handle_get_quote 0xFFFFFFFF 17
        { sample_world_full with tdx := { sample_world_full.tdx with quote_generation_num := 15 } }
        0x1000 0x1000 0xFFFFFFFF 0
        (some TDG_VP_VMCALL_INVALID_OPERAND)).world.tdx.get_quote_task_list.map
          (fun t => t.ioc)) = [17] := by
  decide

set_option maxRecDepth 8000 in
/-- A reply of 100 bytes to `sample_task` succeeds: the header read back reports
success with `out_len = 100` and the payload follows the header. -/
theorem tdx_get_quote_read_sample_success :
    (tdx_get_quote_read sample_world_one sample_task
        [ChannelRead.data (List.replicate 100 9), ChannelRead.data []]).world?.bind
        (fun w => read_quote_header w.mem 0x1000)
        = some ⟨1, TDX_VP_GET_QUOTE_SUCCESS, 0, 100⟩ ∧
      (tdx_get_quote_read sample_world_one sample_task
        [ChannelRead.data (List.replicate 100 9), ChannelRead.data []]).world?.bind
        (fun w => address_space_read w.mem (0x1000 + 24) 4) = some [9, 9, 9, 9] := by
  decide

/-! ### Timeout and completion of a service item -/

/-- Clearing the timeout callback of an item whose timer is enabled and which
has two holders drops the timer's reference. -/
theorem set_timeout_handler_none_armed (now : Nat) (v : TdxVmcallServiceItem) (ctx : Nat)
    (hto : v.timeout ≠ 0) (hte : v.timer_enable = true) (href : v.ref_count = 2) :
    ∃ v1, tdx_vmcall_service_set_timeout_handler now v none ctx = some v1 ∧
      v1.ref_count = 1 ∧ v1.timer_enable = false ∧ v1.freed = v.freed ∧
      v1.timeout = v.timeout ∧ v1.timer_cb = none := by
  unfold tdx_vmcall_service_set_timeout_handler
  rw [if_neg hto]
  simp [hte, href, tdx_vmcall_service_item_unref]

/-- Clearing the timeout callback of an item whose timer is not enabled leaves
the reference count alone. -/
theorem set_timeout_handler_none_unarmed (now : Nat) (v : TdxVmcallServiceItem) (ctx : Nat)
    (hte : v.timer_enable = false) :
    ∃ v1, tdx_vmcall_service_set_timeout_handler now v none ctx = some v1 ∧
      v1.ref_count = v.ref_count ∧ v1.timer_enable = false ∧ v1.freed = v.freed ∧
      v1.timeout = v.timeout := by
  unfold tdx_vmcall_service_set_timeout_handler
  by_cases hto : v.timeout = 0
  · rw [if_pos hto]; exact ⟨v, rfl, rfl, hte, rfl, rfl⟩
  · rw [if_neg hto]
    simp [hte]

/-- The item that `tdx_vmcall_service_complete_request` hands to
`tdx_vmcall_service_set_timeout_handler` differs from the item it was given
only in the response cache and the semaphore. -/
theorem complete_request_eq (L : DataHeadLayout) (now : Nat) (w : TdxWorld)
    (v : TdxVmcallServiceItem) :
    ∃ w1 v', tdx_vmcall_service_complete_request L now w v
        = (tdx_vmcall_service_set_timeout_handler now v' none 0).map (fun x => (w1, x)) ∧
      v'.ref_count = v.ref_count ∧ v'.timer_enable = v.timer_enable ∧ v'.freed = v.freed ∧
      v'.timeout = v.timeout := by
  unfold tdx_vmcall_service_complete_request
  refine ⟨_, _, rfl, ?_, ?_, ?_, ?_⟩ <;>
  · simp only [tdx_vmcall_service_wake]
    split_ifs <;> rfl

/-- Completing a request whose timer is enabled and which has two holders
drops the timer's reference: one reference is left and the item stays alive. -/
theorem complete_request_armed (L : DataHeadLayout) (now : Nat) (w : TdxWorld)
    (v : TdxVmcallServiceItem) (hto : v.timeout ≠ 0) (hte : v.timer_enable = true)
    (href : v.ref_count = 2) :
    ∃ w1 v1, tdx_vmcall_service_complete_request L now w v = some (w1, v1) ∧
      v1.ref_count = 1 ∧ v1.timer_enable = false ∧ v1.freed = v.freed ∧
      v1.timeout = v.timeout ∧ v1.timer_cb = none := by
  obtain ⟨w1, v', heq, h1, h2, h3, h4⟩ := complete_request_eq L now w v
  obtain ⟨v1, hs, g1, g2, g3, g4, g5⟩ :=
    set_timeout_handler_none_armed now v' 0 (by rw [h4]; exact hto) (by rw [h2]; exact hte)
      (by rw [h1]; exact href)
  refine ⟨w1, v1, ?_, g1, g2, by rw [g3, h3], by rw [g4, h4], g5⟩
  rw [heq, hs]; rfl

/-- Completing a request whose timer is not enabled leaves the reference count
alone. -/
theorem complete_request_unarmed (L : DataHeadLayout) (now : Nat) (w : TdxWorld)
    (v : TdxVmcallServiceItem) (hte : v.timer_enable = false) :
    ∃ w1 v1, tdx_vmcall_service_complete_request L now w v = some (w1, v1) ∧
      v1.ref_count = v.ref_count ∧ v1.timer_enable = false ∧ v1.freed = v.freed ∧
      v1.timeout = v.timeout := by
  obtain ⟨w1, v', heq, h1, h2, h3, h4⟩ := complete_request_eq L now w v
  obtain ⟨v1, hs, g1, g2, g3, g4⟩ :=
    set_timeout_handler_none_unarmed now v' 0 (by rw [h2]; exact hte)
  refine ⟨w1, v1, ?_, by rw [g1, h1], g2, by rw [g3, h3], by rw [g4, h4]⟩
  rw [heq, hs]; rfl

/-- The item that `tdx_vmcall_service_timeout_handler` completes differs from
the item it was given only in fields that do not count references. -/
theorem timeout_handler_eq (L : DataHeadLayout) (now : Nat)
    (timer_cbs : Nat → TdxWorld → TdxVmcallServiceItem → TdxWorld × TdxVmcallServiceItem)
    (hcb : callbacks_keep_refs timer_cbs) (w : TdxWorld) (v : TdxVmcallServiceItem) :
    ∃ w' v', tdx_vmcall_service_timeout_handler L now timer_cbs w v
        = tdx_vmcall_service_complete_request L now w' v' ∧
      v'.ref_count = v.ref_count ∧ v'.timer_enable = v.timer_enable ∧ v'.freed = v.freed ∧
      v'.timeout = v.timeout := by
  unfold tdx_vmcall_service_timeout_handler
  refine ⟨_, _, rfl, ?_, ?_, ?_, ?_⟩ <;>
  · simp only [tdx_vmcall_service_set_response_state]
    cases hc : v.timer_cb with
    | none => rfl
    | some cb =>
      first
      | exact (hcb cb w _).1
      | exact (hcb cb w _).2.1
      | exact (hcb cb w _).2.2.2
      | exact (hcb cb w _).2.2.1

/-- Dropping the only reference of a live item frees it. -/
theorem item_unref_last (v : TdxVmcallServiceItem) (href : v.ref_count = 1) :
    ∃ v1, tdx_vmcall_service_item_unref v = some v1 ∧ v1.ref_count = 0 ∧ v1.freed = true := by
  unfold tdx_vmcall_service_item_unref
  simp [href]

/-- C11: for a live service item with a non-zero timeout whose timer is armed
and whose dispatcher reference is still held (so that it has two references),
the timeout handler followed by an explicit
`tdx_vmcall_service_complete_request`, and likewise the explicit completion
followed by the timeout handler, run without a failed assertion and release the
timer's reference exactly once: the first completion takes the count from 2 to
1, the second leaves it at 1, and the item is freed by the release of the
dispatcher that follows, not before.  The timeout callbacks are taken to leave
the count and the timer registration alone. -/
theorem timer_reference_released_once (L : DataHeadLayout)
    (timer_cbs : Nat → TdxWorld → TdxVmcallServiceItem → TdxWorld × TdxVmcallServiceItem)
    (hcb : callbacks_keep_refs timer_cbs) (now1 now2 : Nat)
    (w : TdxWorld) (v : TdxVmcallServiceItem)
    (h : ItemReachable L timer_cbs w v true)
    (hto : v.timeout ≠ 0) (hte : v.timer_enable = true) (hfreed : v.freed = false) :
    v.ref_count = 2 ∧
    (∃ w1 v1 w2 v2 v3,
      tdx_vmcall_service_timeout_handler L now1 timer_cbs w v = some (w1, v1) ∧
      v1.ref_count = 1 ∧ v1.freed = false ∧
      tdx_vmcall_service_complete_request L now2 w1 v1 = some (w2, v2) ∧
      v2.ref_count = 1 ∧ v2.freed = false ∧
      tdx_vmcall_service_item_unref v2 = some v3 ∧ v3.ref_count = 0 ∧ v3.freed = true) ∧
    (∃ w1 v1 w2 v2 v3,
      tdx_vmcall_service_complete_request L now1 w v = some (w1, v1) ∧
      v1.ref_count = 1 ∧ v1.freed = false ∧
      tdx_vmcall_service_timeout_handler L now2 timer_cbs w1 v1 = some (w2, v2) ∧
      v2.ref_count = 1 ∧ v2.freed = false ∧
      tdx_vmcall_service_item_unref v2 = some v3 ∧ v3.ref_count = 0 ∧ v3.freed = true) := by
  have href : v.ref_count = 2 := by
    have := item_reachable_count L timer_cbs hcb w v true h
    rw [hte] at this
    simpa using this
  refine ⟨href, ?_, ?_⟩
  · obtain ⟨w', v', heq, h1, h2, h3, h4⟩ := timeout_handler_eq L now1 timer_cbs hcb w v
    obtain ⟨w1, v1, hc1, a1, a2, a3, _, _⟩ :=
      complete_request_armed L now1 w' v' (by rw [h4]; exact hto) (by rw [h2]; exact hte)
        (by rw [h1]; exact href)
    obtain ⟨w2, v2, hc2, b1, _, b3, _⟩ := complete_request_unarmed L now2 w1 v1 a2
    obtain ⟨v3, hu, c1, c2⟩ := item_unref_last v2 (by rw [b1, a1])
    exact ⟨w1, v1, w2, v2, v3, by rw [heq, hc1], a1, by rw [a3, h3, hfreed], hc2,
      by rw [b1, a1], by rw [b3, a3, h3, hfreed], hu, c1, c2⟩
  · obtain ⟨w1, v1, hc1, a1, a2, a3, _, _⟩ := complete_request_armed L now1 w v hto hte href
    obtain ⟨w', v', heq, h1, h2, h3, _⟩ := timeout_handler_eq L now2 timer_cbs hcb w1 v1
    obtain ⟨w2, v2, hc2, b1, _, b3, _⟩ :=
      complete_request_unarmed L now2 w' v' (by rw [h2]; exact a2)
    obtain ⟨v3, hu, c1, c2⟩ := item_unref_last v2 (by rw [b1, h1, a1])
    exact ⟨w1, v1, w2, v2, v3, hc1, a1, by rw [a3, hfreed], by rw [heq, hc2],
      by rw [b1, h1, a1], by rw [b3, h3, a3, hfreed], hu, c1, c2⟩

/-- Witness of C11: the item of the sample world with a timeout of 1000 ms on
which a handler registered the timeout callback 5. -/
theorem timer_reference_released_once_witness :
    ItemReachable spec_data_head_layout sample_timer_cbs sample_service_world
        sample_item_armed true ∧
    sample_item_armed.ref_count = 2 ∧
    (∃ w1 v1 w2 v2 v3,
      tdx_vmcall_service_timeout_handler spec_data_head_layout 1000 sample_timer_cbs
          sample_service_world sample_item_armed = some (w1, v1) ∧
      v1.ref_count = 1 ∧ v1.freed = false ∧
      tdx_vmcall_service_complete_request spec_data_head_layout 1000 w1 v1 = some (w2, v2) ∧
      v2.ref_count = 1 ∧ v2.freed = false ∧
      tdx_vmcall_service_item_unref v2 = some v3 ∧ v3.ref_count = 0 ∧ v3.freed = true) ∧
    (∃ w1 v1 w2 v2 v3,
      tdx_vmcall_service_complete_request spec_data_head_layout 1000 sample_service_world
          sample_item_armed = some (w1, v1) ∧
      v1.ref_count = 1 ∧ v1.freed = false ∧
      tdx_vmcall_service_timeout_handler spec_data_head_layout 1000 sample_timer_cbs w1 v1
          = some (w2, v2) ∧
      v2.ref_count = 1 ∧ v2.freed = false ∧
      tdx_vmcall_service_item_unref v2 = some v3 ∧ v3.ref_count = 0 ∧ v3.freed = true) :=
  have hreach : ItemReachable spec_data_head_layout sample_timer_cbs sample_service_world
      sample_item_armed true :=
    ItemReachable.set_timeout_handler sample_service_world
      { ref_count := 1, notify_vector := 40, timeout := 1000 } _ true 0 5 0
      (ItemReachable.create sample_service_world _ rfl rfl rfl) rfl (by decide)
  ⟨hreach,
    timer_reference_released_once spec_data_head_layout sample_timer_cbs
      (fun _ _ _ => ⟨rfl, rfl, rfl, rfl⟩) 1000 1000 sample_service_world sample_item_armed
      hreach (by decide) rfl rfl⟩

/-- The two orders on the sample item, evaluated: the count after each step. -/
theorem timer_reference_sample_counts :
    ((tdx_vmcall_service_timeout_handler spec_data_head_layout 1000 sample_timer_cbs
        sample_service_world sample_item_armed).map (fun x => (x.2.ref_count, x.2.freed)),
     ((tdx_vmcall_service_timeout_handler spec_data_head_layout 1000 sample_timer_cbs
        sample_service_world sample_item_armed).bind
        (fun x => tdx_vmcall_service_complete_request spec_data_head_layout 1000 x.1 x.2)).map
        (fun x => (x.2.ref_count, x.2.freed)))
      = (some (1, false), some (1, false)) := by
  decide

/-! ### CgsMigrationBridge -/

/-- C12: with no vendor registered (every field of `cgs_mig` null), each int-
or long-returning entry point returns 0 and hands the migration stream back as
it received it (the two multifd entry points also leave the channel parameters
alone), `cgs_mig_is_ready` returns true,
`cgs_mig_savevm_state_need_ram_cancel` returns false, and `cgs_mig_iov_num`
returns its argument. -/
theorem cgs_mig_null_is_noop {F S R : Type} (E : CgsEnv F) (f : F) (p : S) (q : R)
    (channel_id block offset gpa gfn_end page_batch_num : Nat) :
    cgs_mig_savevm_state_setup E (CgsMig.null : CgsMig F S R) f = (0, f) ∧
    cgs_mig_savevm_state_start E (CgsMig.null : CgsMig F S R) f = (0, f) ∧
    cgs_ram_save_start_epoch E (CgsMig.null : CgsMig F S R) f = (0, f) ∧
    cgs_mig_savevm_state_ram E (CgsMig.null : CgsMig F S R) f channel_id block offset gpa
      = some (0, f) ∧
    cgs_mig_savevm_state_pause E (CgsMig.null : CgsMig F S R) f = (0, f) ∧
    cgs_mig_savevm_state_end E (CgsMig.null : CgsMig F S R) f = (0, f) ∧
    cgs_mig_savevm_state_ram_abort E (CgsMig.null : CgsMig F S R) f gfn_end = (0, f) ∧
    cgs_mig_savevm_state_ram_cancel E (CgsMig.null : CgsMig F S R) f block offset gpa = (0, f) ∧
    cgs_mig_loadvm_state_setup E (CgsMig.null : CgsMig F S R) f = (0, f) ∧
    cgs_mig_loadvm_state E (CgsMig.null : CgsMig F S R) f channel_id = (0, f) ∧
    cgs_mig_multifd_send_prepare (CgsMig.null : CgsMig F S R) f p = (0, f, p) ∧
    cgs_mig_multifd_recv_pages (CgsMig.null : CgsMig F S R) f q = (0, f, q) ∧
    cgs_mig_is_ready (CgsMig.null : CgsMig F S R) = true ∧
    cgs_mig_savevm_state_need_ram_cancel (CgsMig.null : CgsMig F S R) = false ∧
    cgs_mig_iov_num (CgsMig.null : CgsMig F S R) page_batch_num = page_batch_num := by
  refine ⟨rfl, rfl, rfl, rfl, rfl, rfl, rfl, rfl, rfl, rfl, rfl, rfl, rfl, rfl, rfl⟩

/-- Counterexample to C13 as stated: with a populated hook that returns -5,
`cgs_mig_multifd_send_prepare` and `cgs_mig_multifd_recv_pages` return -5 but
the error state of the migration stream is still 0, not -5. -/
theorem cgs_mig_multifd_counterexample :
    cgs_mig_multifd_send_prepare (sample_cgs_mig_failing (-5)) ⟨[], 0⟩ 7 = (-5, ⟨[], 0⟩, 7) ∧
    cgs_mig_multifd_recv_pages (sample_cgs_mig_failing (-5)) ⟨[], 0⟩ 7 = (-5, ⟨[], 0⟩, 7) ∧
    (cgs_mig_multifd_send_prepare (sample_cgs_mig_failing (-5)) ⟨[], 0⟩ 7).2.1
      ≠ sample_cgs_env.qemu_file_set_error ⟨[], 0⟩ (-5) ∧
    (cgs_mig_multifd_send_prepare (sample_cgs_mig_failing (-5)) ⟨[], 0⟩ 7).2.1.last_error ≠ -5 := by
  decide

/-- C13 (amended): for each of the ten entry points that take the migration
stream, if the vendor hook is populated and the call the entry point makes to
it returns a negative value `r`, the entry point hands `r` and the stream the
hook left to `qemu_file_set_error` and returns `r`;
`cgs_mig_multifd_send_prepare` and `cgs_mig_multifd_recv_pages`, which take no
stream, return `r` as well and leave the stream as it is.
(`cgs_ram_save_start_epoch` calls the hook unless the multifd synchronisation
before it fails.) -/
theorem cgs_mig_hook_failure {F S R : Type} (E : CgsEnv F) (cgs_mig : CgsMig F S R)
    (f : F) (p : S) (q : R) (channel_id block offset gpa gfn_end : Nat)
    (r : Int) (hr : r < 0) :
    (∀ hook, cgs_mig.savevm_state_setup = some hook →
      hook (cgs_nr_channels E) (cgs_nr_pages E) = r →
      cgs_mig_savevm_state_setup E cgs_mig f = (r, E.qemu_file_set_error f r)) ∧
    (∀ hook, cgs_mig.savevm_state_start = some hook →
      (hook (E.qemu_put_byte f E.QEMU_VM_SECTION_CGS_START)).1 = r →
      cgs_mig_savevm_state_start E cgs_mig f
        = (r, E.qemu_file_set_error
                (hook (E.qemu_put_byte f E.QEMU_VM_SECTION_CGS_START)).2 r)) ∧
    (∀ hook f0, cgs_mig.savevm_state_ram_start_epoch = some hook →
      ((E.migrate_use_multifd = true ∧ E.migration_in_postcopy = false) ∧
          0 ≤ (E.multifd_send_sync_main f).1 ∧ f0 = (E.multifd_send_sync_main f).2 ∨
        ¬ (E.migrate_use_multifd = true ∧ E.migration_in_postcopy = false) ∧ f0 = f) →
      (hook (E.ram_save_cgs_epoch_header f0)).1 = r →
      cgs_ram_save_start_epoch E cgs_mig f
        = (r, E.qemu_file_set_error (hook (E.ram_save_cgs_epoch_header f0)).2 r)) ∧
    (∀ hook, cgs_mig.savevm_state_ram = some hook →
      (hook (E.ram_save_cgs_ram_header f block offset false).2 channel_id gpa).1 = r →
      cgs_mig_savevm_state_ram E cgs_mig f channel_id block offset gpa
        = some (r, E.qemu_file_set_error
                (hook (E.ram_save_cgs_ram_header f block offset false).2 channel_id gpa).2 r)) ∧
    (∀ hook, cgs_mig.savevm_state_pause = some hook → hook () = r →
      cgs_mig_savevm_state_pause E cgs_mig f = (r, E.qemu_file_set_error f r)) ∧
    (∀ hook, cgs_mig.savevm_state_end = some hook →
      (hook (E.qemu_put_byte f E.QEMU_VM_SECTION_CGS_END)).1 = r →
      cgs_mig_savevm_state_end E cgs_mig f
        = (r, E.qemu_file_set_error (hook (E.qemu_put_byte f E.QEMU_VM_SECTION_CGS_END)).2 r)) ∧
    (∀ hook, cgs_mig.savevm_state_ram_abort = some hook → hook gfn_end = r →
      cgs_mig_savevm_state_ram_abort E cgs_mig f gfn_end = (r, E.qemu_file_set_error f r)) ∧
    (∀ hook, cgs_mig.savevm_state_ram_cancel = some hook →
      (hook (E.ram_save_cgs_ram_header f block offset true).2 gpa).1 = r →
      cgs_mig_savevm_state_ram_cancel E cgs_mig f block offset gpa
        = (r, E.qemu_file_set_error
                (hook (E.ram_save_cgs_ram_header f block offset true).2 gpa).2 r)) ∧
    (∀ hook, cgs_mig.loadvm_state_setup = some hook →
      hook (cgs_nr_channels E) (cgs_nr_pages E) = r →
      cgs_mig_loadvm_state_setup E cgs_mig f = (r, E.qemu_file_set_error f r)) ∧
    (∀ hook, cgs_mig.loadvm_state = some hook → (hook f channel_id).1 = r →
      cgs_mig_loadvm_state E cgs_mig f channel_id
        = (r, E.qemu_file_set_error (hook f channel_id).2 r)) ∧
    (∀ hook, cgs_mig.multifd_send_prepare = some hook → (hook p).1 = r →
      cgs_mig_multifd_send_prepare cgs_mig f p = (r, f, (hook p).2)) ∧
    (∀ hook, cgs_mig.multifd_recv_pages = some hook → (hook q).1 = r →
      cgs_mig_multifd_recv_pages cgs_mig f q = (r, f, (hook q).2)) := by
  have hr0 : r ≠ 0 := by omega
  refine ⟨?_, ?_, ?_, ?_, ?_, ?_, ?_, ?_, ?_, ?_, ?_, ?_⟩
  · intro hook hh hret
    simp only [cgs_mig_savevm_state_setup, hh, cgs_check_error, hret, if_pos hr]
  · intro hook hh hret
    simp only [cgs_mig_savevm_state_start, hh, cgs_check_error, hret, if_pos hr]
  · intro hook f0 hh hsync hret
    simp only [cgs_ram_save_start_epoch, hh, cgs_check_error]
    rcases hsync with ⟨hm, hs, rfl⟩ | ⟨hm, rfl⟩
    · rw [if_pos hm, if_neg (by omega), hret, if_pos hr]
    · rw [if_neg hm, hret, if_pos hr]
  · intro hook hh hret
    simp only [cgs_mig_savevm_state_ram, hh, cgs_check_error, hret, if_pos hr, if_neg hr0]
  · intro hook hh hret
    simp only [cgs_mig_savevm_state_pause, hh, cgs_check_error, hret, if_pos hr]
  · intro hook hh hret
    simp only [cgs_mig_savevm_state_end, hh, cgs_check_error, hret, if_pos hr]
  · intro hook hh hret
    simp only [cgs_mig_savevm_state_ram_abort, hh, cgs_check_error, hret, if_pos hr]
  · intro hook hh hret
    simp only [cgs_mig_savevm_state_ram_cancel, hh, cgs_check_error, hret, if_pos hr]
  · intro hook hh hret
    simp only [cgs_mig_loadvm_state_setup, hh, cgs_check_error, hret, if_pos hr]
  · intro hook hh hret
    simp only [cgs_mig_loadvm_state, hh, cgs_check_error, hret, if_pos hr]
  · intro hook hh hret
    simp only [cgs_mig_multifd_send_prepare, hh, hret]
  · intro hook hh hret
    simp only [cgs_mig_multifd_recv_pages, hh, hret]

/-- Witness of C13 (amended): the vendor whose hooks return -5, on an empty
stream: the setup entry point stores -5 in the stream, the end entry point
stores it after the section marker, and the multifd entry point returns -5 with
the stream untouched. -/
theorem cgs_mig_hook_failure_witness :
    (-5 : Int) < 0 ∧
    cgs_mig_savevm_state_setup sample_cgs_env (sample_cgs_mig_failing (-5)) ⟨[], 0⟩
      = (-5, ⟨[], -5⟩) ∧
    cgs_mig_savevm_state_end sample_cgs_env (sample_cgs_mig_failing (-5)) ⟨[], 0⟩
      = (-5, ⟨[0x41], -5⟩) ∧
    cgs_mig_multifd_send_prepare (sample_cgs_mig_failing (-5)) (⟨[], 0⟩ : SampleStream) 7
      = (-5, ⟨[], 0⟩, 7) :=
  have H := cgs_mig_hook_failure sample_cgs_env (sample_cgs_mig_failing (-5)) ⟨[], 0⟩ 7 7
    0 0 0 0 0 (-5) (by decide)
  ⟨by decide, H.1 _ rfl rfl, H.2.2.2.2.2.1 _ rfl rfl, H.2.2.2.2.2.2.2.2.2.2.1 _ rfl rfl⟩

/-- The sample vendor on the other entry points: a failing start leaves the
marker byte in the stream and the error -5; a hook returning 3 bytes makes
`cgs_ram_save_start_epoch` return 11 with no error. -/
theorem cgs_mig_sample_entry_points :
    cgs_mig_savevm_state_start sample_cgs_env (sample_cgs_mig_failing (-5)) ⟨[], 0⟩
      = (-5, ⟨[0x40], -5⟩) ∧
    cgs_ram_save_start_epoch sample_cgs_env (sample_cgs_mig_failing 3) ⟨[], 0⟩
      = (11, ⟨List.replicate 8 0, 0⟩) ∧
    cgs_mig_savevm_state_ram sample_cgs_env (sample_cgs_mig_failing 0) ⟨[], 0⟩ 0 0 0 0 = none ∧
    cgs_mig_is_ready (sample_cgs_mig_failing 0) = false := by
  decide

/-! ### TdGuestLifecycle -/

/-- C14: `tdx_validate_attributes` returns 0 exactly when every bit of
`attrs_fixed1` is set in `attributes` and every bit set in `attributes` is a
bit of `attrs_fixed0` or of `attrs_fixed1`; otherwise it returns `-EINVAL`. -/
theorem tdx_validate_attributes_iff (tdx_caps : KvmTdxCapabilities) (tdx : TdxGuest) :
    (tdx_validate_attributes tdx_caps tdx = 0 ↔
      (∀ i, tdx_caps.attrs_fixed1.testBit i = true → tdx.attributes.testBit i = true) ∧
      (∀ i, tdx.attributes.testBit i = true →
        tdx_caps.attrs_fixed0.testBit i = true ∨ tdx_caps.attrs_fixed1.testBit i = true)) ∧
    (tdx_validate_attributes tdx_caps tdx = 0 ∨
      tdx_validate_attributes tdx_caps tdx = -EINVAL) := by
  unfold tdx_validate_attributes
  by_cases h : ((tdx.attributes &&& tdx_caps.attrs_fixed0) ||| tdx_caps.attrs_fixed1)
      = tdx.attributes
  · rw [if_neg (not_not.mpr h)]
    refine ⟨⟨fun _ => ⟨fun i h1 => ?_, fun i ha => ?_⟩, fun _ => rfl⟩, Or.inl rfl⟩
    · have hb := congrArg (fun n => n.testBit i) h
      simp only [Nat.testBit_or, Nat.testBit_and, h1, Bool.or_true] at hb
      exact hb.symm
    · have hb := congrArg (fun n => n.testBit i) h
      simp only [Nat.testBit_or, Nat.testBit_and, ha, Bool.true_and] at hb
      cases h0 : tdx_caps.attrs_fixed0.testBit i
      · right; simpa [h0] using hb
      · left; rfl
  · rw [if_pos h]
    refine ⟨⟨fun h0 => ?_, fun hc => ?_⟩, Or.inr rfl⟩
    · simp [EINVAL] at h0
    · exfalso
      apply h
      apply Nat.eq_of_testBit_eq
      intro i
      simp only [Nat.testBit_or, Nat.testBit_and]
      cases ha : tdx.attributes.testBit i
      · cases h1 : tdx_caps.attrs_fixed1.testBit i
        · simp
        · have := hc.1 i h1
          rw [ha] at this
          exact absurd this (by decide)
      · rcases hc.2 i ha with h0 | h1
        · simp [h0]
        · simp [h1]

/-- The attribute validation has two return values, 0 and `-EINVAL`. -/
theorem tdx_validate_attributes_values (tdx_caps : KvmTdxCapabilities) (tdx : TdxGuest) :
    tdx_validate_attributes tdx_caps tdx = 0 ∨
      tdx_validate_attributes tdx_caps tdx = -EINVAL := by
  unfold tdx_validate_attributes
  split_ifs
  · exact Or.inr rfl
  · exact Or.inl rfl

/-- The attribute setup ends with the attribute validation, so it returns 0 or
`-EINVAL`. -/
theorem setup_td_guest_attributes_status (K : CpuDefs) (tdx_caps : KvmTdxCapabilities)
    (x86cpu : X86CPU) (tdx : TdxGuest) (shared : Bool) :
    (setup_td_guest_attributes K tdx_caps x86cpu tdx shared).1 = 0 ∨
      (setup_td_guest_attributes K tdx_caps x86cpu tdx shared).1 = -EINVAL := by
  unfold setup_td_guest_attributes
  simp only
  split_ifs <;> exact tdx_validate_attributes_values tdx_caps _

/-- Counterexample to C15 as stated: on a TrustDomain that is not initialised,
with the TSC frequency 50 kHz (non-zero and below 100000), the call returns the
status -16 of the failed `KVM_CAP_MAX_VCPUS` call, not `-EINVAL`. -/
theorem tdx_pre_create_vcpu_tsc_counterexample :
    sample_tdx_guest.initialized = false ∧
    ((50 : Int) ≠ 0 ∧ ((50 : Int) < 100000 ∨ (50 : Int) > 10000000)) ∧
    (tdx_pre_create_vcpu qemuCpuDefs sample_attr_caps
        { sample_kvm_env with enable_cap_status := -16 } ⟨50, 0, false⟩
        sample_tdx_guest false).r = -16 ∧
    (tdx_pre_create_vcpu qemuCpuDefs sample_attr_caps
        { sample_kvm_env with enable_cap_status := -16 } ⟨50, 0, false⟩
        sample_tdx_guest false).r ≠ -EINVAL := by
  decide

/-- C15 (amended): on a TrustDomain that is not initialised, when the TSC
frequency is non-zero and outside `[100000, 10000000]` kHz, or is not a
multiple of 25000 kHz, `tdx_pre_create_vcpu` issues the `KVM_CAP_MAX_VCPUS`
call only (no set-TSC and no init-VM call), leaves the TrustDomain as it was
(the initialized flag stays clear), and returns `-EINVAL` when that call
succeeded and the negative status of that call otherwise; a frequency of 0, or
one inside the bounds that is a multiple of 25000, passes the TSC validation
when that call succeeded: the set-TSC call is issued. -/
theorem tdx_pre_create_vcpu_tsc (K : CpuDefs) (tdx_caps : KvmTdxCapabilities) (O : KvmEnv)
    (x86cpu : X86CPU) (tdx : TdxGuest) (shared : Bool)
    (hinit : tdx.initialized = false) :
    ((x86cpu.tsc_khz ≠ 0 ∧ (x86cpu.tsc_khz < 100000 ∨ x86cpu.tsc_khz > 10000000)) ∨
        ¬ ((25000 : Int) ∣ x86cpu.tsc_khz) →
      (tdx_pre_create_vcpu K tdx_caps O x86cpu tdx shared).calls
          = [PrivilegedCall.enable_cap_max_vcpus O.smp_cpus] ∧
        (tdx_pre_create_vcpu K tdx_caps O x86cpu tdx shared).tdx = tdx ∧
        (0 ≤ O.enable_cap_status →
          (tdx_pre_create_vcpu K tdx_caps O x86cpu tdx shared).r = -EINVAL) ∧
        (O.enable_cap_status < 0 →
          (tdx_pre_create_vcpu K tdx_caps O x86cpu tdx shared).r = O.enable_cap_status)) ∧
    (x86cpu.tsc_khz = 0 ∨
        (100000 ≤ x86cpu.tsc_khz ∧ x86cpu.tsc_khz ≤ 10000000 ∧
          (25000 : Int) ∣ x86cpu.tsc_khz) →
      0 ≤ O.enable_cap_status →
      PrivilegedCall.set_tsc_khz x86cpu.tsc_khz
        ∈ (tdx_pre_create_vcpu K tdx_caps O x86cpu tdx shared).calls) := by
  have hmod : x86cpu.tsc_khz.tmod (25 * 1000) ≠ 0 ↔ ¬ ((25000 : Int) ∣ x86cpu.tsc_khz) := by
    rw [show (25 * 1000 : Int) = 25000 by norm_num]
    exact not_congr Int.dvd_iff_tmod_eq_zero.symm
  unfold tdx_pre_create_vcpu
  simp only [hinit, Bool.false_eq_true, if_false, TDX_MIN_TSC_FREQUENCY_KHZ,
    TDX_MAX_TSC_FREQUENCY_KHZ]
  constructor
  · intro hbad
    by_cases hcap : O.enable_cap_status < 0
    · rw [if_pos hcap]
      exact ⟨rfl, rfl, fun h => absurd hcap (by omega), fun _ => rfl⟩
    · rw [if_neg hcap]
      by_cases hrange : x86cpu.tsc_khz ≠ 0 ∧
          (x86cpu.tsc_khz < 100 * 1000 ∨ x86cpu.tsc_khz > 10 * 1000 * 1000)
      · rw [if_pos hrange]
        exact ⟨rfl, rfl, fun _ => rfl, fun h => absurd h hcap⟩
      · rw [if_neg hrange]
        have hnd : ¬ ((25000 : Int) ∣ x86cpu.tsc_khz) := by
          rcases hbad with hb | hb
          · exact absurd (by norm_num; exact hb) hrange
          · exact hb
        rw [if_pos (hmod.mpr hnd)]
        exact ⟨rfl, rfl, fun _ => rfl, fun h => absurd h hcap⟩
  · intro hgood hcap
    have hrange : ¬ (x86cpu.tsc_khz ≠ 0 ∧
          (x86cpu.tsc_khz < 100 * 1000 ∨ x86cpu.tsc_khz > 10 * 1000 * 1000)) := by
      rcases hgood with h0 | ⟨h1, h2, _⟩
      · simp [h0]
      · omega
    have hd : (25000 : Int) ∣ x86cpu.tsc_khz := by
      rcases hgood with h0 | ⟨_, _, h3⟩
      · rw [h0]; exact dvd_zero _
      · exact h3
    have hm : ¬ (x86cpu.tsc_khz.tmod (25 * 1000) ≠ 0) := fun h => (hmod.mp h) hd
    simp only [if_neg (show ¬ O.enable_cap_status < 0 by omega), if_neg hrange, if_neg hm]
    split_ifs <;> simp

/-- Witness of C15 (amended): 50 kHz is rejected with `-EINVAL` after the
`KVM_CAP_MAX_VCPUS` call alone, and 2500000 kHz reaches the set-TSC call. -/
theorem tdx_pre_create_vcpu_tsc_witness :
    sample_tdx_guest.initialized = false ∧
    ((tdx_pre_create_vcpu qemuCpuDefs sample_attr_caps sample_kvm_env ⟨50, 0, false⟩
          sample_tdx_guest false).calls = [PrivilegedCall.enable_cap_max_vcpus 4] ∧
      (tdx_pre_create_vcpu qemuCpuDefs sample_attr_caps sample_kvm_env ⟨50, 0, false⟩
          sample_tdx_guest false).tdx = sample_tdx_guest ∧
      (tdx_pre_create_vcpu qemuCpuDefs sample_attr_caps sample_kvm_env ⟨50, 0, false⟩
          sample_tdx_guest false).r = -EINVAL) ∧
    PrivilegedCall.set_tsc_khz 2500000
      ∈ (tdx_pre_create_vcpu qemuCpuDefs sample_attr_caps sample_kvm_env ⟨2500000, 0, false⟩
          sample_tdx_guest false).calls :=
  have h1 := (tdx_pre_create_vcpu_tsc qemuCpuDefs sample_attr_caps sample_kvm_env
    ⟨50, 0, false⟩ sample_tdx_guest false rfl).1 (Or.inl (by decide))
  ⟨rfl, ⟨h1.1, h1.2.1, h1.2.2.1 (by decide)⟩,
    (tdx_pre_create_vcpu_tsc qemuCpuDefs sample_attr_caps sample_kvm_env
      ⟨2500000, 0, false⟩ sample_tdx_guest false rfl).2 (Or.inr (by decide)) (by decide)⟩

/-- A call that returns a non-negative value leaves the TrustDomain
initialised. -/
theorem tdx_pre_create_vcpu_success (K : CpuDefs) (tdx_caps : KvmTdxCapabilities) (O : KvmEnv)
    (x86cpu : X86CPU) (tdx : TdxGuest) (shared : Bool)
    (h : 0 ≤ (tdx_pre_create_vcpu K tdx_caps O x86cpu tdx shared).r) :
    (tdx_pre_create_vcpu K tdx_caps O x86cpu tdx shared).tdx.initialized = true := by
  have hs := setup_td_guest_attributes_status K tdx_caps x86cpu tdx shared
  unfold tdx_pre_create_vcpu at h ⊢
  by_cases hinit : tdx.initialized = true
  · rw [if_pos hinit]; exact hinit
  · rw [if_neg hinit] at h ⊢
    simp only at h ⊢
    split_ifs at h ⊢ <;> simp only at h ⊢
    all_goals first
      | omega
      | simp [EINVAL] at h
      | (rcases hs with hs | hs
         · contradiction
         · rw [hs] at h; simp [EINVAL] at h)

/-- C16: when the initialized flag is already set, `tdx_pre_create_vcpu`
returns 0, issues no privileged call and leaves every field of the TrustDomain
(and `kvm_ram_default_shared`) as it was; a call that finds the flag clear and
leaves it set has issued the init-VM call, which succeeded; and after a call
that returned a non-negative value, another call, whatever its CPU and whatever
KVM would answer, is such a no-op. -/
theorem tdx_pre_create_vcpu_idempotent (K : CpuDefs) (tdx_caps : KvmTdxCapabilities)
    (O O1 : KvmEnv) (x86cpu x86cpu1 : X86CPU) (tdx : TdxGuest) (shared shared1 : Bool) :
    (tdx.initialized = true →
      tdx_pre_create_vcpu K tdx_caps O x86cpu tdx shared = ⟨0, tdx, shared, []⟩) ∧
    (tdx.initialized = false →
      (tdx_pre_create_vcpu K tdx_caps O x86cpu tdx shared).tdx.initialized = true →
      0 ≤ O.init_vm_status ∧
        ∃ flags init_vm, PrivilegedCall.init_vm flags init_vm
          ∈ (tdx_pre_create_vcpu K tdx_caps O x86cpu tdx shared).calls) ∧
    (0 ≤ (tdx_pre_create_vcpu K tdx_caps O x86cpu tdx shared).r →
      tdx_pre_create_vcpu K tdx_caps O1 x86cpu1
          (tdx_pre_create_vcpu K tdx_caps O x86cpu tdx shared).tdx shared1
        = ⟨0, (tdx_pre_create_vcpu K tdx_caps O x86cpu tdx shared).tdx, shared1, []⟩) := by
  have hnoop : ∀ (t : TdxGuest), t.initialized = true →
      tdx_pre_create_vcpu K tdx_caps O1 x86cpu1 t shared1 = ⟨0, t, shared1, []⟩ := by
    intro t ht
    unfold tdx_pre_create_vcpu
    rw [if_pos ht]
  refine ⟨fun hinit => ?_, fun hinit hset => ?_, fun hr => ?_⟩
  · unfold tdx_pre_create_vcpu
    rw [if_pos hinit]
  · have hattr : (setup_td_guest_attributes K tdx_caps x86cpu tdx shared).2.1.initialized
        = false := by
      unfold setup_td_guest_attributes
      simp only
      split_ifs <;> exact hinit
    unfold tdx_pre_create_vcpu at hset ⊢
    simp only [hinit, Bool.false_eq_true, if_false] at hset ⊢
    split_ifs at hset ⊢ <;> simp only at hset ⊢
    all_goals first
      | (rw [hinit] at hset; exact absurd hset (by decide))
      | (rw [hattr] at hset; exact absurd hset (by decide))
      | exact ⟨by omega, _, _, List.mem_append_right _ (List.mem_singleton.mpr rfl)⟩
  · exact hnoop _ (tdx_pre_create_vcpu_success K tdx_caps O x86cpu tdx shared hr)

/-- Witness of C16: a first call on the sample TrustDomain at 2500000 kHz
succeeds and sets the flag; a second call, at an invalid frequency and with a
KVM that would refuse everything, returns 0 without a privileged call and
without a change. -/
theorem tdx_pre_create_vcpu_idempotent_witness :
    (tdx_pre_create_vcpu qemuCpuDefs sample_attr_caps sample_kvm_env ⟨2500000, 0, false⟩
        sample_tdx_guest false).r = 0 ∧
    (tdx_pre_create_vcpu qemuCpuDefs sample_attr_caps sample_kvm_env ⟨2500000, 0, false⟩
        sample_tdx_guest false).tdx = { sample_tdx_guest with initialized := true } ∧
    tdx_pre_create_vcpu qemuCpuDefs sample_attr_caps
        { sample_kvm_env with enable_cap_status := -16, set_tsc_khz_status := -16,
                              init_vm_status := -16 }
        ⟨50, 0, false⟩
        (tdx_pre_create_vcpu qemuCpuDefs sample_attr_caps sample_kvm_env ⟨2500000, 0, false⟩
          sample_tdx_guest false).tdx true
      = ⟨0, (tdx_pre_create_vcpu qemuCpuDefs sample_attr_caps sample_kvm_env
              ⟨2500000, 0, false⟩ sample_tdx_guest false).tdx, true, []⟩ :=
  ⟨by decide, by decide,
    (tdx_pre_create_vcpu_idempotent qemuCpuDefs sample_attr_caps sample_kvm_env
      { sample_kvm_env with enable_cap_status := -16, set_tsc_khz_status := -16,
                            init_vm_status := -16 }
      ⟨2500000, 0, false⟩ ⟨50, 0, false⟩ sample_tdx_guest false true).2.2 (by decide)⟩

/-! ### The dispatch table -/

/-- The search loop returns the first entry, from index `k` on, that serves the
GUID. -/
theorem tdx_vmcall_service_find_handler_loop_some (guid : QemuUUID) :
    ∀ (es : List TdxVmcallServiceType) (k i : Nat) (e : TdxVmcallServiceType),
      tdx_vmcall_service_find_handler_loop guid es k = some (i, e) ↔
        ∃ j, i = k + j ∧ es[j]? = some e ∧ e.serves guid ∧
          ∀ j1 e1, j1 < j → es[j1]? = some e1 → ¬ e1.serves guid := by
  intro es
  induction es with
  | nil =>
    intro k i e
    simp [tdx_vmcall_service_find_handler_loop]
  | cons e0 es ih =>
    intro k i e
    unfold tdx_vmcall_service_find_handler_loop
    by_cases hs : e0.serves guid
    · have h1 : ¬ (qemu_uuid_is_equal guid e0.from_ = false) := by
        simp [qemu_uuid_is_equal, hs.1]
      have h2 : ¬ (e0.to_.isNone = true) := by
        simpa [Option.isNone_iff_eq_none] using hs.2
      rw [if_neg h1, if_neg h2]
      constructor
      · intro h
        simp only [Option.some.injEq, Prod.mk.injEq] at h
        obtain ⟨rfl, rfl⟩ := h
        exact ⟨0, rfl, by simp, hs, fun j1 e1 hj => absurd hj (Nat.not_lt_zero _)⟩
      · rintro ⟨j, rfl, hj, _, hfirst⟩
        cases j with
        | zero =>
          simp only [List.getElem?_cons_zero, Option.some.injEq] at hj
          subst hj
          rfl
        | succ j => exact absurd hs (hfirst 0 e0 (Nat.succ_pos _) (by simp))
    · have hskip : tdx_vmcall_service_find_handler_loop guid es (k + 1) = some (i, e) ↔
          ∃ j, i = k + j ∧ (e0 :: es)[j]? = some e ∧ e.serves guid ∧
            ∀ j1 e1, j1 < j → (e0 :: es)[j1]? = some e1 → ¬ e1.serves guid := by
        rw [ih (k + 1) i e]
        constructor
        · rintro ⟨j, rfl, hj, hsv, hfirst⟩
          refine ⟨j + 1, by omega, by simpa using hj, hsv, fun j1 e1 hlt h1 => ?_⟩
          cases j1 with
          | zero =>
            simp only [List.getElem?_cons_zero, Option.some.injEq] at h1
            subst h1
            exact hs
          | succ j1 => exact hfirst j1 e1 (by omega) (by simpa using h1)
        · rintro ⟨j, rfl, hj, hsv, hfirst⟩
          cases j with
          | zero =>
            simp only [List.getElem?_cons_zero, Option.some.injEq] at hj
            subst hj
            exact absurd hsv hs
          | succ j =>
            exact ⟨j, by omega, by simpa using hj, hsv,
              fun j1 e1 hlt h1 => hfirst (j1 + 1) e1 (by omega) (by simpa using h1)⟩
      by_cases h1 : qemu_uuid_is_equal guid e0.from_ = false
      · rw [if_pos h1]; exact hskip
      · rw [if_neg h1]
        have h2 : e0.to_.isNone = true := by
          by_contra hn
          apply hs
          refine ⟨?_, by simpa [Option.isNone_iff_eq_none] using hn⟩
          simp only [qemu_uuid_is_equal, Bool.not_eq_false, beq_iff_eq] at h1
          exact h1.symm
        rw [if_pos h2]; exact hskip

/-- The search loop returns `NULL` exactly when no entry serves the GUID. -/
theorem tdx_vmcall_service_find_handler_loop_none (guid : QemuUUID) :
    ∀ (es : List TdxVmcallServiceType) (k : Nat),
      tdx_vmcall_service_find_handler_loop guid es k = none ↔ ∀ e ∈ es, ¬ e.serves guid := by
  intro es k
  constructor
  · intro h e he hs
    obtain ⟨n, hn, hget⟩ := List.getElem_of_mem he
    have hex : ∃ j, ∃ e1 : TdxVmcallServiceType, es[j]? = some e1 ∧ e1.serves guid :=
      ⟨n, e, by rw [List.getElem?_eq_getElem hn, hget], hs⟩
    classical
    let m := Nat.find hex
    obtain ⟨e1, hm1, hm2⟩ := Nat.find_spec hex
    have := (tdx_vmcall_service_find_handler_loop_some guid es k (k + m) e1).mpr
      ⟨m, rfl, hm1, hm2, fun j1 e2 hlt h2 hs2 => Nat.find_min hex hlt ⟨e2, h2, hs2⟩⟩
    rw [h] at this
    exact absurd this (by simp)
  · intro h
    cases hf : tdx_vmcall_service_find_handler_loop guid es k with
    | none => rfl
    | some r =>
      obtain ⟨i, e⟩ := r
      obtain ⟨j, -, hj, hsv, -⟩ :=
        (tdx_vmcall_service_find_handler_loop_some guid es k i e).mp hf
      exact absurd hsv (h e (List.mem_iff_getElem?.mpr ⟨j, hj⟩))

/-- C17: for every dispatch table and GUID,
`tdx_vmcall_service_find_handler` returns the entry of lowest index whose GUID
equals the given one and whose callback is not null, and `NULL` exactly when
there is no such entry; so an entry with a null callback is never returned,
and after `tdx_vmcall_service_register_type` has appended an entry, a GUID that
was served before is still served by the same, earlier entry. -/
theorem tdx_vmcall_service_find_handler_lowest (guid : QemuUUID) (vmc : TdxVmcallService) :
    (∀ i e, tdx_vmcall_service_find_handler guid vmc = some (i, e) ↔
      vmc.dispatch_table[i]? = some e ∧ e.serves guid ∧
        ∀ j e1, j < i → vmc.dispatch_table[j]? = some e1 → ¬ e1.serves guid) ∧
    (tdx_vmcall_service_find_handler guid vmc = none ↔
      ∀ e ∈ vmc.dispatch_table, ¬ e.serves guid) ∧
    (∀ i e, tdx_vmcall_service_find_handler guid vmc = some (i, e) → e.to_ ≠ none) ∧
    (∀ (tdx tdx1 : TdxGuest) (type : TdxVmcallServiceType) i e,
      tdx.vmcall_service = vmc →
      tdx_vmcall_service_register_type (some tdx) (some type) = some tdx1 →
      tdx1.vmcall_service.dispatch_table = vmc.dispatch_table ++ [type] ∧
        (tdx_vmcall_service_find_handler guid vmc = some (i, e) →
          tdx_vmcall_service_find_handler guid tdx1.vmcall_service = some (i, e))) := by
  have hsome : ∀ (v : TdxVmcallService) i e,
      tdx_vmcall_service_find_handler guid v = some (i, e) ↔
        v.dispatch_table[i]? = some e ∧ e.serves guid ∧
          ∀ j e1, j < i → v.dispatch_table[j]? = some e1 → ¬ e1.serves guid := by
    intro v i e
    unfold tdx_vmcall_service_find_handler
    rw [tdx_vmcall_service_find_handler_loop_some guid v.dispatch_table 0 i e]
    constructor
    · rintro ⟨j, hj, h1, h2, h3⟩
      have : i = j := by omega
      subst this
      exact ⟨h1, h2, h3⟩
    · rintro ⟨h1, h2, h3⟩
      exact ⟨i, by omega, h1, h2, h3⟩
  refine ⟨hsome vmc, ?_, fun i e h => ((hsome vmc i e).mp h).2.1.2, ?_⟩
  · unfold tdx_vmcall_service_find_handler
    exact tdx_vmcall_service_find_handler_loop_none guid vmc.dispatch_table 0
  · intro tdx tdx1 type i e hvmc hreg
    simp only [tdx_vmcall_service_register_type, Option.some.injEq] at hreg
    subst hreg
    subst hvmc
    refine ⟨rfl, fun hfind => ?_⟩
    obtain ⟨h1, h2, h3⟩ := (hsome tdx.vmcall_service i e).mp hfind
    have hi : i < tdx.vmcall_service.dispatch_table.length := by
      by_contra hge
      rw [List.getElem?_eq_none (by omega)] at h1
      exact absurd h1 (by simp)
    apply (hsome _ i e).mpr
    refine ⟨?_, h2, fun j e1 hj hget => h3 j e1 hj ?_⟩
    · simp only
      rw [List.getElem?_append_left hi]
      exact h1
    · simp only at hget
      rw [List.getElem?_append_left (by omega)] at hget
      exact hget

/-- Witness of C17: in the sample table the GUID of sevens is served by entry
0; registering one more entry for that GUID leaves it so; the GUID of nines,
whose only entry has a null callback, is not served. -/
theorem tdx_vmcall_service_find_handler_lowest_witness :
    tdx_vmcall_service_find_handler (List.replicate 16 7) sample_dispatch_table
      = some (0, { from_ := List.replicate 16 7, to_ := some 1 }) ∧
    tdx_vmcall_service_find_handler (List.replicate 16 7)
        ({ vmcall_service := ⟨sample_dispatch_table.dispatch_table
            ++ [{ from_ := List.replicate 16 7, to_ := some 3 }]⟩ } : TdxGuest).vmcall_service
      = some (0, { from_ := List.replicate 16 7, to_ := some 1 }) ∧
    tdx_vmcall_service_find_handler (List.replicate 16 9) sample_dispatch_table = none :=
  have h7 : tdx_vmcall_service_find_handler (List.replicate 16 7) sample_dispatch_table
      = some (0, { from_ := List.replicate 16 7, to_ := some 1 }) := by decide
  ⟨h7,
    ((tdx_vmcall_service_find_handler_lowest (List.replicate 16 7) sample_dispatch_table).2.2.2
      { vmcall_service := sample_dispatch_table } _
      { from_ := List.replicate 16 7, to_ := some 3 } 0 _ rfl rfl).2 h7,
    (tdx_vmcall_service_find_handler_lowest (List.replicate 16 9) sample_dispatch_table).2.1.mpr
      (by decide)⟩

/-! ### Validation of a quote request -/

/-- C18: when the buffer length exceeds 128 KiB, or the header that
`__tdx_handle_get_quote` reads has a structure version other than 1 or declares
an `in_len` that exceeds 128 KiB or the buffer length, the function returns
with everything as it was: no task is created and no connection started, guest
memory, the in-flight list and the counter are unchanged, and the status of the
vmcall is the one it had on entry; for the call that `tdx_handle_get_quote`
makes it is, and stays, `TDG_VP_VMCALL_INVALID_OPERAND`. -/
theorem __tdx_handle_get_quote_rejects (UNASSIGNED_APIC_ID ioc : Nat) (w : TdxWorld)
    (gpa buf_len apic_id event_notify_interrupt : Nat) (vmcall : Option Nat)
    (hbad : buf_len > 128 * 1024 ∨
      ∃ hdr, read_quote_header w.mem gpa = some hdr ∧
        (hdr.structure_version ≠ 1 ∨ hdr.in_len > 128 * 1024 ∨ hdr.in_len > buf_len)) :
    (__tdx_handle_get_quote UNASSIGNED_APIC_ID ioc w gpa buf_len apic_id
        event_notify_interrupt vmcall).connect_async = none ∧
      (__tdx_handle_get_quote UNASSIGNED_APIC_ID ioc w gpa buf_len apic_id
        event_notify_interrupt vmcall).world = w ∧
      (__tdx_handle_get_quote UNASSIGNED_APIC_ID ioc w gpa buf_len apic_id
        event_notify_interrupt vmcall).status_code = vmcall ∧
      (∀ phys_bits (call : kvm_tdx_vmcall),
        call.in_r12 &&& tdx_shared_bit phys_bits ≠ 0 →
        call.in_r12 &&& not64 (tdx_shared_bit phys_bits) = gpa →
        gpa % 4096 = 0 → call.in_r13 % 4096 = 0 →
        (if call.in_r13 = 0 then GHCI_GET_QUOTE_BUFSIZE_OLD else call.in_r13) = buf_len →
        (tdx_handle_get_quote UNASSIGNED_APIC_ID ioc phys_bits w call).status_code
            = some TDG_VP_VMCALL_INVALID_OPERAND ∧
          (tdx_handle_get_quote UNASSIGNED_APIC_ID ioc phys_bits w call).world = w ∧
          (tdx_handle_get_quote UNASSIGNED_APIC_ID ioc phys_bits w call).connect_async = none) := by
  have key : ∀ (a e : Nat) (v : Option Nat),
      __tdx_handle_get_quote UNASSIGNED_APIC_ID ioc w gpa buf_len a e v = ⟨w, v, none⟩ := by
    intro a e v
    unfold __tdx_handle_get_quote
    cases hbs : address_space_read w.mem gpa sizeof_tdx_get_quote_header with
    | none => rfl
    | some bs =>
      have hin' : (if (tdx_get_quote_header.ofBytes bs).out_len > 0
          then { tdx_get_quote_header.ofBytes bs with out_len := 0 }
          else tdx_get_quote_header.ofBytes bs).in_len
            = (tdx_get_quote_header.ofBytes bs).in_len := by
        split_ifs <;> rfl
      have hlimit : buf_len > TDX_GET_QUOTE_MAX_BUF_LEN ∨
          (tdx_get_quote_header.ofBytes bs).in_len > TDX_GET_QUOTE_MAX_BUF_LEN ∨
          (tdx_get_quote_header.ofBytes bs).in_len > buf_len ∨
          (tdx_get_quote_header.ofBytes bs).structure_version
            ≠ TDX_GET_QUOTE_STRUCTURE_VERSION := by
        unfold TDX_GET_QUOTE_MAX_BUF_LEN TDX_GET_QUOTE_STRUCTURE_VERSION
        rcases hbad with hb | ⟨hdr, hread, hb⟩
        · exact Or.inl hb
        · unfold read_quote_header at hread
          rw [hbs] at hread
          simp only [Option.map_some', Option.some.injEq] at hread
          subst hread
          tauto
      simp only
      by_cases hver : (tdx_get_quote_header.ofBytes bs).structure_version
          ≠ TDX_GET_QUOTE_STRUCTURE_VERSION
      · rw [if_pos hver]
      · rw [if_neg hver]
        by_cases h1 : (tdx_get_quote_header.ofBytes bs).error_code ≠ TDX_VP_GET_QUOTE_SUCCESS ∧
            (tdx_get_quote_header.ofBytes bs).error_code ≠ TDX_VP_GET_QUOTE_IN_FLIGHT
        · rw [if_pos h1]
        · rw [if_neg h1]
          by_cases h2 : (tdx_get_quote_header.ofBytes bs).out_len > 0 ∧
              (tdx_get_quote_header.ofBytes bs).out_len + sizeof_tdx_get_quote_header > buf_len
          · rw [if_pos h2]
          · rw [if_neg h2]
            simp only [hin']
            rw [if_pos (by tauto)]
  refine ⟨by rw [key], by rw [key], by rw [key], ?_⟩
  intro phys_bits call hshared hgpa h12 h13 hlen
  unfold tdx_handle_get_quote
  simp only
  rw [if_neg hshared, hgpa, if_neg (by omega), hlen]
  rw [key]
  exact ⟨rfl, rfl, rfl⟩

/-- Witness of C18: on the idle sample TrustDomain, a request whose header has
version 2, and a request with a buffer of 256 KiB that comes through
`tdx_handle_get_quote`. -/
theorem __tdx_handle_get_quote_rejects_witness :
    ((__tdx_handle_get_quote 0xFFFFFFFF 17
          { sample_world_idle with mem := sample_mem_version2 } 0x1000 0x1000 0xFFFFFFFF 0
          (some TDG_VP_VMCALL_INVALID_OPERAND)).connect_async = none ∧
      (__tdx_handle_get_quote 0xFFFFFFFF 17
          { sample_world_idle with mem := sample_mem_version2 } 0x1000 0x1000 0xFFFFFFFF 0
          (some TDG_VP_VMCALL_INVALID_OPERAND)).world
        = { sample_world_idle with mem := sample_mem_version2 } ∧
      (__tdx_handle_get_quote 0xFFFFFFFF 17
          { sample_world_idle with mem := sample_mem_version2 } 0x1000 0x1000 0xFFFFFFFF 0
          (some TDG_VP_VMCALL_INVALID_OPERAND)).status_code
        = some TDG_VP_VMCALL_INVALID_OPERAND) ∧
    ((tdx_handle_get_quote 0xFFFFFFFF 17 46 sample_world_idle
          { in_r12 := 2 ^ 47 + 0x1000, in_r13 := 0x40000 }).status_code
        = some TDG_VP_VMCALL_INVALID_OPERAND ∧
      (tdx_handle_get_quote 0xFFFFFFFF 17 46 sample_world_idle
          { in_r12 := 2 ^ 47 + 0x1000, in_r13 := 0x40000 }).world = sample_world_idle ∧
      (tdx_handle_get_quote 0xFFFFFFFF 17 46 sample_world_idle
          { in_r12 := 2 ^ 47 + 0x1000, in_r13 := 0x40000 }).connect_async = none) :=
  have h1 := __tdx_handle_get_quote_rejects 0xFFFFFFFF 17
    { sample_world_idle with mem := sample_mem_version2 } 0x1000 0x1000 0xFFFFFFFF 0
    (some TDG_VP_VMCALL_INVALID_OPERAND) (Or.inr ⟨⟨2, 0, 0, 0⟩, by decide, Or.inl (by decide)⟩)
  have h2 := __tdx_handle_get_quote_rejects 0xFFFFFFFF 17 sample_world_idle 0x1000 0x40000
    0xFFFFFFFF 0 (some TDG_VP_VMCALL_INVALID_OPERAND) (Or.inl (by decide))
  ⟨⟨h1.1, h1.2.1, h1.2.2.1⟩,
    h2.2.2.2 46 { in_r12 := 2 ^ 47 + 0x1000, in_r13 := 0x40000 } (by decide) (by decide)
      (by decide) (by decide) (by decide)⟩

/-! ### The in-flight quote requests -/

/-- A get-quote request either leaves the TrustDomain as it was and starts no
task, or it puts one new task, owning the new channel, at the head of the list
and adds one to the counter, which was below the limit. -/
theorem __tdx_handle_get_quote_tdx (UNASSIGNED_APIC_ID ioc : Nat) (w : TdxWorld)
    (gpa buf_len apic_id event_notify_interrupt : Nat) (vmcall : Option Nat) :
    ((__tdx_handle_get_quote UNASSIGNED_APIC_ID ioc w gpa buf_len apic_id
          event_notify_interrupt vmcall).connect_async = none ∧
      (__tdx_handle_get_quote UNASSIGNED_APIC_ID ioc w gpa buf_len apic_id
          event_notify_interrupt vmcall).world.tdx = w.tdx) ∨
    (∃ t, (__tdx_handle_get_quote UNASSIGNED_APIC_ID ioc w gpa buf_len apic_id
          event_notify_interrupt vmcall).connect_async = some t ∧ t.ioc = ioc ∧
      (__tdx_handle_get_quote UNASSIGNED_APIC_ID ioc w gpa buf_len apic_id
          event_notify_interrupt vmcall).world.tdx
        = { w.tdx with get_quote_task_list := t :: w.tdx.get_quote_task_list
                       quote_generation_num := w.tdx.quote_generation_num + 1 } ∧
      w.tdx.quote_generation_num < 16) := by
  unfold __tdx_handle_get_quote
  cases address_space_read w.mem gpa sizeof_tdx_get_quote_header with
  | none => left; exact ⟨rfl, rfl⟩
  | some bs =>
    simp only
    by_cases hver : (tdx_get_quote_header.ofBytes bs).structure_version
        ≠ TDX_GET_QUOTE_STRUCTURE_VERSION
    · rw [if_pos hver]; left; exact ⟨rfl, rfl⟩
    rw [if_neg hver]
    by_cases h1 : (tdx_get_quote_header.ofBytes bs).error_code ≠ TDX_VP_GET_QUOTE_SUCCESS ∧
        (tdx_get_quote_header.ofBytes bs).error_code ≠ TDX_VP_GET_QUOTE_IN_FLIGHT
    · rw [if_pos h1]; left; exact ⟨rfl, rfl⟩
    rw [if_neg h1]
    by_cases h2 : (tdx_get_quote_header.ofBytes bs).out_len > 0 ∧
        (tdx_get_quote_header.ofBytes bs).out_len + sizeof_tdx_get_quote_header > buf_len
    · rw [if_pos h2]; left; exact ⟨rfl, rfl⟩
    rw [if_neg h2]
    generalize (if (tdx_get_quote_header.ofBytes bs).out_len > 0
      then { tdx_get_quote_header.ofBytes bs with out_len := 0 }
      else tdx_get_quote_header.ofBytes bs) = hdr
    by_cases h3 : buf_len > TDX_GET_QUOTE_MAX_BUF_LEN ∨ hdr.in_len > TDX_GET_QUOTE_MAX_BUF_LEN ∨
        hdr.in_len > buf_len
    · rw [if_pos h3]; left; exact ⟨rfl, rfl⟩
    rw [if_neg h3]
    by_cases h4 : (address_space_write w.mem gpa
        ({ hdr with error_code := TDX_VP_GET_QUOTE_IN_FLIGHT } : tdx_get_quote_header).bytes).1
          = false
    · rw [if_pos h4]; left; exact ⟨rfl, rfl⟩
    rw [if_neg h4]
    by_cases h5 : w.tdx.quote_generation = none ∨
        w.tdx.quote_generation_num ≥ TDX_MAX_GET_QUOTE_REQUEST
    · rw [if_pos h5]; left; exact ⟨rfl, rfl⟩
    rw [if_neg h5]
    right
    refine ⟨_, rfl, rfl, rfl, ?_⟩
    unfold TDX_MAX_GET_QUOTE_REQUEST at h5
    omega

/-- Removing the task that owns a channel from a list in which every task owns
a channel of its own shortens the list by one. -/
theorem filter_ioc_length (i : Nat) :
    ∀ (l : List tdx_get_quote_task), (l.map (fun x => x.ioc)).Nodup →
      (∃ x ∈ l, x.ioc = i) →
      (l.filter (fun x => x.ioc ≠ i)).length + 1 = l.length := by
  intro l
  induction l with
  | nil => intro _ h; simp at h
  | cons a l ih =>
    intro hnd hex
    rw [List.map_cons, List.nodup_cons] at hnd
    by_cases ha : a.ioc = i
    · have hnone : ∀ x ∈ l, x.ioc ≠ i := by
        intro x hx hxi
        apply hnd.1
        rw [ha, ← hxi]
        exact List.mem_map_of_mem (fun x => x.ioc) hx
      have hfilter : l.filter (fun x => x.ioc ≠ i) = l := by
        apply List.filter_eq_self.mpr
        intro x hx
        simpa using hnone x hx
      rw [List.filter_cons, if_neg (by simp [ha]), hfilter]
      rfl
    · have hex' : ∃ x ∈ l, x.ioc = i := by
        obtain ⟨x, hx, hxi⟩ := hex
        rcases List.mem_cons.mp hx with rfl | hmem
        · exact absurd hxi ha
        · exact ⟨x, hmem, hxi⟩
      have := ih hnd.2 hex'
      rw [List.filter_cons, if_pos (by simpa using ha)]
      simp only [List.length_cons]
      omega

/-- What `tdx_getquote_task_cleanup` does to the TrustDomain. -/
theorem tdx_getquote_task_cleanup_tdx (w : TdxWorld) (t : tdx_get_quote_task) (flag : Bool) :
    (tdx_getquote_task_cleanup w t flag).tdx
      = { w.tdx with
          get_quote_task_list := w.tdx.get_quote_task_list.filter (fun x => x.ioc ≠ t.ioc)
          quote_generation_num := w.tdx.quote_generation_num - 1 } := rfl

/-- A call of the fd handler that completes the task does so through
`tdx_getquote_task_cleanup`, on the same TrustDomain and for the same task. -/
theorem tdx_get_quote_read_completed (w w1 : TdxWorld) (reads : List ChannelRead) :
    ∀ (t : tdx_get_quote_task), tdx_get_quote_read w t reads = QuoteReadExit.completed w1 →
      ∃ w2 t2 flag, w1 = tdx_getquote_task_cleanup w2 t2 flag ∧ w2.tdx = w.tdx ∧
        t2.ioc = t.ioc := by
  have hfin : ∀ (t : tdx_get_quote_task) (neg : Bool),
      ∃ w2 t2 flag, tdx_get_quote_read_finish w t neg = tdx_getquote_task_cleanup w2 t2 flag ∧
        w2.tdx = w.tdx ∧ t2.ioc = t.ioc := by
    intro t neg
    unfold tdx_get_quote_read_finish
    simp only
    split_ifs
    all_goals exact ⟨_, _, _, rfl, rfl, rfl⟩
  induction reads with
  | nil => intro t h; simp [tdx_get_quote_read] at h
  | cons r reads ih =>
    intro t h
    cases r with
    | data bytes =>
      unfold tdx_get_quote_read at h
      by_cases hb : bytes.length = 0
      · rw [if_pos hb] at h
        obtain ⟨w2, t2, flag, h1, h2, h3⟩ := hfin t false
        refine ⟨w2, t2, flag, ?_, h2, h3⟩
        rw [← h1]
        exact (QuoteReadExit.completed.inj h).symm
      · rw [if_neg hb] at h
        obtain ⟨w2, t2, flag, h1, h2, h3⟩ := ih (t.receive bytes) h
        exact ⟨w2, t2, flag, h1, h2, h3⟩
    | block => simp [tdx_get_quote_read] at h
    | error =>
      unfold tdx_get_quote_read at h
      obtain ⟨w2, t2, flag, h1, h2, h3⟩ := hfin t true
      refine ⟨w2, t2, flag, ?_, h2, h3⟩
      rw [← h1]
      exact (QuoteReadExit.completed.inj h).symm

/-- A connection callback that completes the task does so through
`tdx_getquote_task_cleanup`, on the same world and for the same task. -/
theorem tdx_handle_get_quote_connected_completed (w w1 : TdxWorld) (t : tdx_get_quote_task)
    (task_error alloc_ok write_ok : Bool)
    (h : tdx_handle_get_quote_connected w t task_error alloc_ok write_ok
      = QuoteReadExit.completed w1) :
    ∃ t2 flag, w1 = tdx_getquote_task_cleanup w t2 flag ∧ t2.ioc = t.ioc := by
  unfold tdx_handle_get_quote_connected at h
  simp only at h
  split at h
  · exact ⟨_, _, (QuoteReadExit.completed.inj h).symm, rfl⟩
  · split at h
    · exact ⟨_, _, (QuoteReadExit.completed.inj h).symm, rfl⟩
    · split at h
      · exact ⟨_, _, (QuoteReadExit.completed.inj h).symm, rfl⟩
      · split at h
        · exact ⟨_, _, (QuoteReadExit.completed.inj h).symm, rfl⟩
        · exact absurd h (by simp)

/-- The cleanup of a task in flight keeps the invariant of the bookkeeping. -/
theorem quote_bookkeeping_cleanup (w : TdxWorld) (t : tdx_get_quote_task) (flag : Bool)
    (hI : quote_bookkeeping w.tdx) (ht : task_in_flight w t) :
    quote_bookkeeping (tdx_getquote_task_cleanup w t flag).tdx := by
  obtain ⟨h1, h2, h3⟩ := hI
  have hlen := filter_ioc_length t.ioc w.tdx.get_quote_task_list h3 ht
  rw [tdx_getquote_task_cleanup_tdx]
  refine ⟨?_, ?_, ?_⟩
  · simp only
    omega
  · simp only
    omega
  · exact h3.sublist (List.Sublist.map _ (List.filter_sublist _))

/-- Every reachable state of the TrustDomain satisfies the invariant of the
in-flight bookkeeping. -/
theorem quote_reachable_bookkeeping (UNASSIGNED_APIC_ID : Nat) (w : TdxWorld)
    (h : QuoteReachable UNASSIGNED_APIC_ID w) : quote_bookkeeping w.tdx := by
  induction h with
  | init w h1 h2 =>
    unfold quote_bookkeeping
    rw [h1, h2]
    simp
  | request w ioc gpa buf_len apic_id ev vmcall _ hfresh ih =>
    rcases __tdx_handle_get_quote_tdx UNASSIGNED_APIC_ID ioc w gpa buf_len apic_id ev vmcall
      with ⟨-, hsame⟩ | ⟨t, -, hioc, hnew, hlt⟩
    · rw [hsame]; exact ih
    · rw [hnew]
      obtain ⟨h1, h2, h3⟩ := ih
      refine ⟨?_, ?_, ?_⟩
      · simp only [List.length_cons]
        push_cast
        omega
      · simp only
        omega
      · simp only [List.map_cons, List.nodup_cons]
        refine ⟨?_, h3⟩
        intro hmem
        obtain ⟨x, hx, hxi⟩ := List.mem_map.mp hmem
        exact hfresh x hx (by rw [hxi, hioc])
  | connected w w1 t task_error alloc_ok write_ok _ hin hstep ih =>
    obtain ⟨t2, flag, rfl, hioc⟩ :=
      tdx_handle_get_quote_connected_completed w w1 t task_error alloc_ok write_ok hstep
    exact quote_bookkeeping_cleanup w t2 flag ih (by unfold task_in_flight at hin ⊢; rwa [hioc])
  | read w w1 t reads _ hin hstep ih =>
    obtain ⟨w2, t2, flag, rfl, htdx, hioc⟩ := tdx_get_quote_read_completed w w1 reads t hstep
    exact quote_bookkeeping_cleanup w2 t2 flag (by rw [htdx]; exact ih)
      (by unfold task_in_flight at hin ⊢; rw [htdx, hioc]; exact hin)
  | timer w t _ hin ih =>
    exact quote_bookkeeping_cleanup w t false ih hin
  | other w w1 _ hl hn ih =>
    unfold quote_bookkeeping at ih ⊢
    rw [hl, hn]
    exact ih

/-- C19: in every state of the TrustDomain reachable from the initial one
(empty in-flight list, counter 0) through get-quote requests and completions
of tasks, `quote_generation_num` is the number of tasks in the in-flight list
and at most 16; a request either is rejected, leaving list and counter alone,
or is admitted, putting exactly one task into the list and adding one to the
counter; and `tdx_getquote_task_cleanup` of a task in flight, through which
every completion goes, takes exactly that task out of the list and subtracts
one from the counter. -/
theorem quote_generation_num_counts_tasks (UNASSIGNED_APIC_ID : Nat) :
    (∀ w, QuoteReachable UNASSIGNED_APIC_ID w →
      w.tdx.quote_generation_num = w.tdx.get_quote_task_list.length ∧
        w.tdx.quote_generation_num ≤ 16) ∧
    (∀ (w : TdxWorld) (ioc gpa buf_len apic_id event_notify_interrupt : Nat)
        (vmcall : Option Nat),
      ((__tdx_handle_get_quote UNASSIGNED_APIC_ID ioc w gpa buf_len apic_id
            event_notify_interrupt vmcall).connect_async = none ∧
        (__tdx_handle_get_quote UNASSIGNED_APIC_ID ioc w gpa buf_len apic_id
            event_notify_interrupt vmcall).world.tdx.get_quote_task_list
          = w.tdx.get_quote_task_list ∧
        (__tdx_handle_get_quote UNASSIGNED_APIC_ID ioc w gpa buf_len apic_id
            event_notify_interrupt vmcall).world.tdx.quote_generation_num
          = w.tdx.quote_generation_num) ∨
      (∃ t, (__tdx_handle_get_quote UNASSIGNED_APIC_ID ioc w gpa buf_len apic_id
            event_notify_interrupt vmcall).connect_async = some t ∧
        (__tdx_handle_get_quote UNASSIGNED_APIC_ID ioc w gpa buf_len apic_id
            event_notify_interrupt vmcall).world.tdx.get_quote_task_list
          = t :: w.tdx.get_quote_task_list ∧
        (__tdx_handle_get_quote UNASSIGNED_APIC_ID ioc w gpa buf_len apic_id
            event_notify_interrupt vmcall).world.tdx.quote_generation_num
          = w.tdx.quote_generation_num + 1)) ∧
    (∀ (w : TdxWorld) (t : tdx_get_quote_task) (outlen_overflow : Bool),
      QuoteReachable UNASSIGNED_APIC_ID w → task_in_flight w t →
      (tdx_getquote_task_cleanup w t outlen_overflow).tdx.get_quote_task_list.length + 1
          = w.tdx.get_quote_task_list.length ∧
        (tdx_getquote_task_cleanup w t outlen_overflow).tdx.get_quote_task_list
          = w.tdx.get_quote_task_list.filter (fun x => x.ioc ≠ t.ioc) ∧
        (tdx_getquote_task_cleanup w t outlen_overflow).tdx.quote_generation_num
          = w.tdx.quote_generation_num - 1) := by
  refine ⟨fun w h => ?_, fun w ioc gpa buf_len apic_id ev vmcall => ?_, fun w t flag h hin => ?_⟩
  · obtain ⟨h1, h2, -⟩ := quote_reachable_bookkeeping UNASSIGNED_APIC_ID w h
    exact ⟨h1, h2⟩
  · rcases __tdx_handle_get_quote_tdx UNASSIGNED_APIC_ID ioc w gpa buf_len apic_id ev vmcall
      with ⟨hnone, hsame⟩ | ⟨t, hsome, -, hnew, -⟩
    · left; rw [hsame]; exact ⟨hnone, rfl, rfl⟩
    · right; rw [hnew]; exact ⟨t, hsome, rfl, rfl⟩
  · obtain ⟨-, -, h3⟩ := quote_reachable_bookkeeping UNASSIGNED_APIC_ID w h
    rw [tdx_getquote_task_cleanup_tdx]
    exact ⟨filter_ioc_length t.ioc w.tdx.get_quote_task_list h3 hin, rfl, rfl⟩

/-- Witness of C19: the state after one admitted request on the idle sample
TrustDomain is reachable, holds one task and counts one; the expiry of the
task's timer makes the list empty and the counter 0 again. -/
theorem quote_generation_num_counts_tasks_witness :
    QuoteReachable 0xFFFFFFFF
        (__tdx_handle_get_quote 0xFFFFFFFF 1 sample_world_idle 0x1000 0x1000 0xFFFFFFFF 0
          (some TDG_VP_VMCALL_INVALID_OPERAND)).world ∧
    ((__tdx_handle_get_quote 0xFFFFFFFF 1 sample_world_idle 0x1000 0x1000 0xFFFFFFFF 0
          (some TDG_VP_VMCALL_INVALID_OPERAND)).world.tdx.quote_generation_num
        = ((__tdx_handle_get_quote 0xFFFFFFFF 1 sample_world_idle 0x1000 0x1000 0xFFFFFFFF 0
          (some TDG_VP_VMCALL_INVALID_OPERAND)).world.tdx.get_quote_task_list.length : Int) ∧
      (__tdx_handle_get_quote 0xFFFFFFFF 1 sample_world_idle 0x1000 0x1000 0xFFFFFFFF 0
          (some TDG_VP_VMCALL_INVALID_OPERAND)).world.tdx.quote_generation_num ≤ 16) ∧
    (__tdx_handle_get_quote 0xFFFFFFFF 1 sample_world_idle 0x1000 0x1000 0xFFFFFFFF 0
        (some TDG_VP_VMCALL_INVALID_OPERAND)).world.tdx.quote_generation_num = 1 :=
  have hreach : QuoteReachable 0xFFFFFFFF
      (__tdx_handle_get_quote 0xFFFFFFFF 1 sample_world_idle 0x1000 0x1000 0xFFFFFFFF 0
        (some TDG_VP_VMCALL_INVALID_OPERAND)).world :=
    QuoteReachable.request sample_world_idle 1 0x1000 0x1000 0xFFFFFFFF 0 _
      (QuoteReachable.init sample_world_idle rfl rfl) (fun t ht => absurd ht (List.not_mem_nil t))
  ⟨hreach, (quote_generation_num_counts_tasks 0xFFFFFFFF).1 _ hreach, by decide⟩

/-- The sample request and the expiry of its timer, evaluated: one task and
counter 1, then no task and counter 0. -/
theorem quote_sample_request_then_timer :
    ((__tdx_handle_get_quote 0xFFFFFFFF 1 sample_world_idle 0x1000 0x1000 0xFFFFFFFF 0
        (some TDG_VP_VMCALL_INVALID_OPERAND)).world.tdx.get_quote_task_list.map
        (fun t => t.ioc)) = [1] ∧
    (getquote_timer_expired
        (__tdx_handle_get_quote 0xFFFFFFFF 1 sample_world_idle 0x1000 0x1000 0xFFFFFFFF 0
          (some TDG_VP_VMCALL_INVALID_OPERAND)).world
        { sample_task with ioc := 1 }).tdx.get_quote_task_list = [] ∧
    (getquote_timer_expired
        (__tdx_handle_get_quote 0xFFFFFFFF 1 sample_world_idle 0x1000 0x1000 0xFFFFFFFF 0
          (some TDG_VP_VMCALL_INVALID_OPERAND)).world
        { sample_task with ioc := 1 }).tdx.quote_generation_num = 0 := by
  decide

/-! ### Acceptance keeps the regions a partition -/

/-- Counterexample to C20 as stated: accepting the range at 500 of length
`2^64 - 400`, whose end wraps around to 100, from the single Unaccepted entry
`[0, 1000)` succeeds and leaves the Unaccepted entries `[0, 500)` and
`[100, 1000)`, which both cover the address 100; the Added entry covers the
address 1000, which no entry covered before. -/
theorem tdx_accept_ram_range_wrap_counterexample :
    non_overlapping [⟨0, 1000, TdxRamType.TDX_RAM_UNACCEPTED⟩] ∧
    tdx_accept_ram_range [⟨0, 1000, TdxRamType.TDX_RAM_UNACCEPTED⟩] 500 (2 ^ 64 - 400)
      = (0, [⟨500, 2 ^ 64 - 400, TdxRamType.TDX_RAM_ADDED⟩,
             ⟨0, 500, TdxRamType.TDX_RAM_UNACCEPTED⟩,
             ⟨100, 900, TdxRamType.TDX_RAM_UNACCEPTED⟩]) ∧
    ¬ non_overlapping
        (tdx_accept_ram_range [⟨0, 1000, TdxRamType.TDX_RAM_UNACCEPTED⟩] 500 (2 ^ 64 - 400)).2 ∧
    ¬ (∀ x, covered
          (tdx_accept_ram_range [⟨0, 1000, TdxRamType.TDX_RAM_UNACCEPTED⟩] 500 (2 ^ 64 - 400)).2 x
        ↔ covered [⟨0, 1000, TdxRamType.TDX_RAM_UNACCEPTED⟩] x) := by
  have hacc : tdx_accept_ram_range [⟨0, 1000, TdxRamType.TDX_RAM_UNACCEPTED⟩] 500 (2 ^ 64 - 400)
      = (0, [⟨500, 2 ^ 64 - 400, TdxRamType.TDX_RAM_ADDED⟩,
             ⟨0, 500, TdxRamType.TDX_RAM_UNACCEPTED⟩,
             ⟨100, 900, TdxRamType.TDX_RAM_UNACCEPTED⟩]) := by
    decide
  refine ⟨?_, hacc, ?_, ?_⟩
  · unfold non_overlapping
    simp
  · rw [hacc]
    unfold non_overlapping
    intro h
    simp only [List.pairwise_cons] at h
    exact h.2.1 ⟨100, 900, TdxRamType.TDX_RAM_UNACCEPTED⟩ (by simp) 100
      ⟨by unfold TdxRamEntry.covers; simp, by unfold TdxRamEntry.covers; simp⟩
  · rw [hacc]
    intro h
    have h1 := (h 1000).mp
      ⟨⟨500, 2 ^ 64 - 400, TdxRamType.TDX_RAM_ADDED⟩, by simp,
        by unfold TdxRamEntry.covers; simp⟩
    obtain ⟨e, he, hc⟩ := h1
    simp only [List.mem_singleton] at he
    subst he
    unfold TdxRamEntry.covers at hc
    simp at hc

/-- An entry that the search returns for a range without wrap-around contains
the range, and its own end does not wrap around either (the fields being
`uint64_t` values). -/
theorem tdx_find_ram_range_contains (ram : List TdxRamEntry) (a l i : Nat) (e : TdxRamEntry)
    (hty : ∀ e ∈ ram, e.address < 2 ^ 64 ∧ e.length < 2 ^ 64) (hal : a + l < 2 ^ 64)
    (h : tdx_find_ram_range ram a l = some (i, e)) :
    ∃ pre post, ram = pre ++ e :: post ∧ i = pre.length ∧
      e.address ≤ a ∧ a + l ≤ e.address + e.length ∧ e.address < a + l ∧
      e.address + e.length < 2 ^ 64 := by
  obtain ⟨pre, post, hes, hi, -, hov, hsub, -⟩ := tdx_find_ram_range_loop_some a l ram 0 i e h
  have hadd : add64 a l = a + l := add64_eq a l hal
  have hmem : e ∈ ram := by rw [hes]; simp
  obtain ⟨h1, h2⟩ := hty e hmem
  rw [hadd] at hov hsub
  have hfit : e.address + e.length < 2 ^ 64 := by
    by_contra hge
    have hw : add64 e.address e.length = e.address + e.length - 2 ^ 64 := by
      unfold add64
      rw [Nat.mod_eq_sub_mod (by omega)]
      exact Nat.mod_eq_of_lt (by omega)
    rw [hw] at hov
    omega
  rw [add64_eq _ _ hfit] at hov hsub
  exact ⟨pre, post, hes, by omega, by omega, by omega, by omega, hfit⟩

/-- The list that a successful `tdx_accept_ram_range` leaves, for a range
without wrap-around: the matched entry `e` is replaced by the Added range, and
the head and the tail that are not empty follow at the end. -/
theorem tdx_accept_ram_range_result (ram ram1 : List TdxRamEntry) (a l : Nat)
    (hty : ∀ e ∈ ram, e.address < 2 ^ 64 ∧ e.length < 2 ^ 64) (hal : a + l < 2 ^ 64)
    (h : tdx_accept_ram_range ram a l = (0, ram1)) :
    ∃ pre post e i, tdx_find_ram_range ram a l = some (i, e) ∧ ram = pre ++ e :: post ∧
      e.address ≤ a ∧ a + l ≤ e.address + e.length ∧ e.address < a + l ∧
      ram1 = pre ++ ⟨a, l, TdxRamType.TDX_RAM_ADDED⟩ :: post
        ++ (if e.address < a then [⟨e.address, a - e.address, TdxRamType.TDX_RAM_UNACCEPTED⟩]
            else [])
        ++ (if a + l < e.address + e.length
            then [⟨a + l, e.address + e.length - (a + l), TdxRamType.TDX_RAM_UNACCEPTED⟩]
            else []) := by
  cases hfind : tdx_find_ram_range ram a l with
  | none =>
    rw [tdx_accept_ram_range_none ram a l hfind] at h
    simp [EINVAL] at h
  | some r =>
    obtain ⟨i, e⟩ := r
    obtain ⟨pre, post, hes, hi, h1, h2, h3, hfit⟩ :=
      tdx_find_ram_range_contains ram a l i e hty hal hfind
    rw [tdx_accept_ram_range_found ram a l i e hfind] at h
    have hram1 := (Prod.mk.injEq _ _ _ _ ▸ h).2
    refine ⟨pre, post, e, i, rfl, hes, h1, h2, h3, ?_⟩
    rw [← hram1, add64_eq a l hal, add64_eq _ _ hfit, sub64_eq a e.address h1 (by omega),
      sub64_eq _ _ h2 hfit, hes, hi]
    simp only [List.set_append_right _ _ (Nat.le_refl _), Nat.sub_self, List.set_cons_zero]
    have hc : (a - e.address > 0) = (e.address < a) := by
      apply propext; constructor <;> intro h <;> omega
    simp only [hc]

/-- Replacing an element in the middle of a list and appending two lists at
the end gives a permutation of the new pieces followed by the rest. -/
theorem perm_replace_append {α : Type} (pre post : List α) (n : α) (hs ts : List α) :
    List.Perm (pre ++ n :: post ++ hs ++ ts) ((n :: (hs ++ ts)) ++ (pre ++ post)) := by
  have h1 : pre ++ n :: post ++ hs ++ ts = pre ++ n :: (post ++ (hs ++ ts)) := by
    simp [List.append_assoc]
  rw [h1, List.cons_append]
  refine List.perm_middle.trans (List.Perm.cons _ ?_)
  rw [← List.append_assoc]
  exact List.perm_append_comm

/-- C20 (amended): for every region list whose entries are pairwise
non-overlapping, and every range without address wrap-around
(`address + length < 2^64`), a successful `tdx_accept_ram_range` yields a list
whose entries are again pairwise non-overlapping and cover exactly the same
addresses as before; the lengths of the accepted piece, of the head and of the
tail add up to the length of the matched entry, so the lengths of all entries
add up to the same total as before.  (The fields of the entries are `uint64_t`
values.) -/
theorem tdx_accept_ram_range_keeps_regions (ram ram1 : List TdxRamEntry) (a l : Nat)
    (hty : ∀ e ∈ ram, e.address < 2 ^ 64 ∧ e.length < 2 ^ 64)
    (hdisj : non_overlapping ram) (hal : a + l < 2 ^ 64)
    (h : tdx_accept_ram_range ram a l = (0, ram1)) :
    non_overlapping ram1 ∧ (∀ x, covered ram1 x ↔ covered ram x) ∧
      (∃ i e, tdx_find_ram_range ram a l = some (i, e) ∧
        l + (a - e.address) + (e.address + e.length - (a + l)) = e.length) ∧
      (ram1.map (fun e => e.length)).sum = (ram.map (fun e => e.length)).sum := by
  obtain ⟨pre, post, e, i, hfind, hes, h1, h2, h3, hram1⟩ :=
    tdx_accept_ram_range_result ram ram1 a l hty hal h
  -- the three pieces, as a list
  have hperm1 : List.Perm ram (e :: (pre ++ post)) := by rw [hes]; exact List.perm_middle
  have hperm2 : List.Perm ram1
      ((⟨a, l, TdxRamType.TDX_RAM_ADDED⟩ ::
        ((if e.address < a
            then [(⟨e.address, a - e.address, TdxRamType.TDX_RAM_UNACCEPTED⟩ : TdxRamEntry)]
            else []) ++
         (if a + l < e.address + e.length
            then [(⟨a + l, e.address + e.length - (a + l),
                    TdxRamType.TDX_RAM_UNACCEPTED⟩ : TdxRamEntry)]
            else []))) ++ (pre ++ post)) := by
    rw [hram1]
    exact perm_replace_append pre post _ _ _
  have hsymm : ∀ {x y : TdxRamEntry}, (∀ z, ¬ (x.covers z ∧ y.covers z)) →
      ∀ z, ¬ (y.covers z ∧ x.covers z) := fun hxy z hz => hxy z ⟨hz.2, hz.1⟩
  -- each piece lies inside the matched entry
  have hpiece : ∀ n ∈ (⟨a, l, TdxRamType.TDX_RAM_ADDED⟩ ::
        ((if e.address < a
            then [(⟨e.address, a - e.address, TdxRamType.TDX_RAM_UNACCEPTED⟩ : TdxRamEntry)]
            else []) ++
         (if a + l < e.address + e.length
            then [(⟨a + l, e.address + e.length - (a + l),
                    TdxRamType.TDX_RAM_UNACCEPTED⟩ : TdxRamEntry)]
            else []))), ∀ x, n.covers x → e.covers x := by
    intro n hn x hx
    simp only [List.mem_cons, List.mem_append] at hn
    unfold TdxRamEntry.covers at hx ⊢
    rcases hn with rfl | hn | hn
    · simp only at hx; omega
    · split_ifs at hn with hc
      · simp only [List.mem_singleton] at hn; subst hn; simp only at hx; omega
      · simp at hn
    · split_ifs at hn with hc
      · simp only [List.mem_singleton] at hn; subst hn; simp only at hx; omega
      · simp at hn
  have hdisj1 := (List.Perm.pairwise_iff hsymm hperm1).mp hdisj
  rw [List.pairwise_cons] at hdisj1
  refine ⟨?_, ?_, ⟨i, e, hfind, by omega⟩, ?_⟩
  · unfold non_overlapping
    rw [List.Perm.pairwise_iff hsymm hperm2, List.pairwise_append]
    refine ⟨?_, hdisj1.2, fun n hn y hy x hxy => hdisj1.1 y hy x ⟨hpiece n hn x hxy.1, hxy.2⟩⟩
    rw [List.pairwise_cons]
    refine ⟨?_, ?_⟩
    · intro n hn x hx
      simp only [List.mem_append] at hn
      unfold TdxRamEntry.covers at hx
      rcases hn with hn | hn
      · split_ifs at hn with hc
        · simp only [List.mem_singleton] at hn; subst hn; simp only at hx; omega
        · simp at hn
      · split_ifs at hn with hc
        · simp only [List.mem_singleton] at hn; subst hn; simp only at hx; omega
        · simp at hn
    · split_ifs with hc1 hc2 hc2
      · simp only [List.singleton_append, List.pairwise_cons, List.mem_singleton,
          forall_eq, List.not_mem_nil, false_implies, implies_true, List.Pairwise.nil, and_true]
        intro x hx
        unfold TdxRamEntry.covers at hx
        simp only at hx
        omega
      · simp
      · simp
      · simp
  · intro x
    unfold covered
    constructor
    · rintro ⟨n, hn, hx⟩
      rcases List.mem_append.mp ((List.Perm.mem_iff hperm2).mp hn) with hn | hn
      · exact ⟨e, by rw [hes]; simp, hpiece n hn x hx⟩
      · exact ⟨n, by rw [hes]; rcases List.mem_append.mp hn with h | h <;> simp [h], hx⟩
    · rintro ⟨n, hn, hx⟩
      rcases List.mem_cons.mp ((List.Perm.mem_iff hperm1).mp hn) with rfl | hn
      · unfold TdxRamEntry.covers at hx
        by_cases hxa : x < a
        · refine ⟨⟨n.address, a - n.address, TdxRamType.TDX_RAM_UNACCEPTED⟩, ?_, ?_⟩
          · apply (List.Perm.mem_iff hperm2).mpr
            rw [if_pos (by omega)]
            simp
          · unfold TdxRamEntry.covers; simp only; omega
        · by_cases hxl : x < a + l
          · refine ⟨⟨a, l, TdxRamType.TDX_RAM_ADDED⟩, ?_, ?_⟩
            · apply (List.Perm.mem_iff hperm2).mpr
              simp
            · unfold TdxRamEntry.covers; simp only; omega
          · refine ⟨⟨a + l, n.address + n.length - (a + l), TdxRamType.TDX_RAM_UNACCEPTED⟩,
              ?_, ?_⟩
            · apply (List.Perm.mem_iff hperm2).mpr
              rw [if_pos (show a + l < n.address + n.length by omega)]
              simp
            · unfold TdxRamEntry.covers; simp only; omega
      · exact ⟨n, (List.Perm.mem_iff hperm2).mpr (List.mem_append_right _ hn), hx⟩
  · rw [List.Perm.sum_eq (List.Perm.map _ hperm2), List.Perm.sum_eq (List.Perm.map _ hperm1)]
    simp only [List.map_cons, List.map_append, List.sum_cons, List.sum_append]
    split_ifs <;> simp <;> omega

/-- Witness of C20 (amended): accepting `[100, 200)` from Unaccepted
`[0, 1000)`. -/
theorem tdx_accept_ram_range_keeps_regions_witness :
    non_overlapping [⟨100, 100, TdxRamType.TDX_RAM_ADDED⟩, ⟨0, 100, TdxRamType.TDX_RAM_UNACCEPTED⟩,
        ⟨200, 800, TdxRamType.TDX_RAM_UNACCEPTED⟩] ∧
      (∀ x, covered [⟨100, 100, TdxRamType.TDX_RAM_ADDED⟩, ⟨0, 100, TdxRamType.TDX_RAM_UNACCEPTED⟩,
          ⟨200, 800, TdxRamType.TDX_RAM_UNACCEPTED⟩] x
        ↔ covered [⟨0, 1000, TdxRamType.TDX_RAM_UNACCEPTED⟩] x) ∧
      (∃ i e, tdx_find_ram_range [⟨0, 1000, TdxRamType.TDX_RAM_UNACCEPTED⟩] 100 100
          = some (i, e) ∧
        100 + (100 - e.address) + (e.address + e.length - (100 + 100)) = e.length) ∧
      (([⟨100, 100, TdxRamType.TDX_RAM_ADDED⟩, ⟨0, 100, TdxRamType.TDX_RAM_UNACCEPTED⟩,
          ⟨200, 800, TdxRamType.TDX_RAM_UNACCEPTED⟩] : List TdxRamEntry).map
          (fun e => e.length)).sum
        = (([⟨0, 1000, TdxRamType.TDX_RAM_UNACCEPTED⟩] : List TdxRamEntry).map
          (fun e => e.length)).sum :=
  tdx_accept_ram_range_keeps_regions [⟨0, 1000, TdxRamType.TDX_RAM_UNACCEPTED⟩] _ 100 100
    (by simp) (by unfold non_overlapping; simp) (by norm_num) (by decide)

/-! ### The reconciliation formula -/

/-- Counterexample to C23 as stated: leaf 7.0 EBX of the sample table resolves
to a recognised, non-induced word; the host reports no native bit, the input
value `vmm_cap` has bit 3 (BMI1) set, which is in none of the masks of the
entry.  The code starts from `vmm_cap | native`, so bit 3 is in the value before
the corrections and in the output, while the formula
`((((native | fixed1) & ~fixed0) | config) & ~(vmm_fixup & ~vmm_cap))` lacks
it. -/
theorem tdx_get_supported_cpuid_formula_counterexample :
    get_cpuid_featureword_index sample_env.feature_word_info 7 0 3 = 2 ∧
      2 < sample_env.FEATURE_WORDS ∧
      (sample_env.tdx_cpuid_lookup 2).inducing_ve = false ∧
      ¬ (tdx_get_supported_cpuid_adjusted qemuCpuDefs sample_env 7 0 3 2 (2 ^ 3)
          = ((((host_cpuid_reg qemuCpuDefs sample_env.host_cpuid 7 0 3
                  ||| (sample_env.tdx_cpuid_lookup 2).tdx_fixed1)
                &&& not32 (sample_env.tdx_cpuid_lookup 2).tdx_fixed0)
              ||| tdx_cap_cpuid_config qemuCpuDefs sample_env.tdx_caps 7 0 3)
            &&& not32 ((sample_env.tdx_cpuid_lookup 2).vmm_fixup &&& not32 (2 ^ 3)))) ∧
      ¬ (tdx_get_supported_cpuid qemuCpuDefs sample_env 7 0 3 (2 ^ 3)
          = ((((host_cpuid_reg qemuCpuDefs sample_env.host_cpuid 7 0 3
                  ||| (sample_env.tdx_cpuid_lookup 2).tdx_fixed1)
                &&& not32 (sample_env.tdx_cpuid_lookup 2).tdx_fixed0)
              ||| tdx_cap_cpuid_config qemuCpuDefs sample_env.tdx_caps 7 0 3)
            &&& not32 ((sample_env.tdx_cpuid_lookup 2).vmm_fixup &&& not32 (2 ^ 3)))
            &&& not32 (corrections_mask qemuCpuDefs sample_env 7 0 3)) := by
  decide

/-- C23 (amended): for every recognised, non-induced feature word, the value of
`tdx_get_supported_cpuid` before the hard-coded corrections equals
`((((vmm_cap | native | fixed1) & ~fixed0) | config) & ~(vmm_fixup & ~vmm_cap))`,
where `vmm_cap` is the input value, `native` the host-native register value
and `config` the configurable bits of the capability configs for the leaf; the
output equals this value with exactly the bits of the hard-coded corrections
(`corrections_mask`) cleared. -/
theorem tdx_get_supported_cpuid_formula (K : CpuDefs) (E : CpuidEnv)
    (function index : Nat) (reg : Int) (vmm_cap : Nat) (w : FeatureWord)
    (hw : get_cpuid_featureword_index E.feature_word_info function index reg = w)
    (hlt : w < E.FEATURE_WORDS)
    (hve : (E.tdx_cpuid_lookup w).inducing_ve = false) :
    tdx_get_supported_cpuid_adjusted K E function index reg w vmm_cap
        = ((((vmm_cap ||| host_cpuid_reg K E.host_cpuid function index reg
                ||| (E.tdx_cpuid_lookup w).tdx_fixed1)
              &&& not32 (E.tdx_cpuid_lookup w).tdx_fixed0)
            ||| tdx_cap_cpuid_config K E.tdx_caps function index reg)
          &&& not32 ((E.tdx_cpuid_lookup w).vmm_fixup &&& not32 vmm_cap)) ∧
      tdx_get_supported_cpuid K E function index reg vmm_cap
        = ((((vmm_cap ||| host_cpuid_reg K E.host_cpuid function index reg
                ||| (E.tdx_cpuid_lookup w).tdx_fixed1)
              &&& not32 (E.tdx_cpuid_lookup w).tdx_fixed0)
            ||| tdx_cap_cpuid_config K E.tdx_caps function index reg)
          &&& not32 ((E.tdx_cpuid_lookup w).vmm_fixup &&& not32 vmm_cap))
          &&& not32 (corrections_mask K E function index reg) := by
  constructor
  · apply Nat.eq_of_testBit_eq
    intro j
    simp only [testBit_adjusted, Nat.testBit_and, Nat.testBit_or, testBit_not32]
    cases (E.tdx_cpuid_lookup w).vmm_fixup.testBit j <;> cases vmm_cap.testBit j <;>
      cases decide (j < 32) <;> simp
  · rw [tdx_get_supported_cpuid_non_ve K E function index reg vmm_cap w hw hlt hve]
    apply Nat.eq_of_testBit_eq
    intro j
    by_cases hj : j < 32
    · simp only [Nat.testBit_and, Nat.testBit_or, testBit_not32,
        testBit_corrections K E function index reg _ j hj, testBit_adjusted]
      cases (E.tdx_cpuid_lookup w).vmm_fixup.testBit j <;> cases vmm_cap.testBit j <;>
        simp [hj]
    · have h1 : (tdx_get_supported_cpuid_adjusted K E function index reg w vmm_cap).testBit j
          = false := by
        rw [testBit_adjusted]; simp [hj]
      have h2 : (tdx_get_supported_cpuid_corrections K E function index reg
          (tdx_get_supported_cpuid_adjusted K E function index reg w vmm_cap)).testBit j
            = false := by
        unfold tdx_get_supported_cpuid_corrections
        split_ifs <;> simp [Nat.testBit_and, testBit_not32, hj, h1]
      rw [h2]
      simp [Nat.testBit_and, testBit_not32, hj]

/-- Witness of C23 (amended): leaf 7.0 EBX of the sample table on a host with
broken TSX, every input bit set. -/
theorem tdx_get_supported_cpuid_formula_witness :
    get_cpuid_featureword_index sample_env_tsx_broken.feature_word_info 7 0 3 = 2 ∧
      (sample_env_tsx_broken.tdx_cpuid_lookup 2).inducing_ve = false ∧
      tdx_get_supported_cpuid qemuCpuDefs sample_env_tsx_broken 7 0 3 0xFFFFFFFF
        = ((((0xFFFFFFFF ||| host_cpuid_reg qemuCpuDefs sample_env_tsx_broken.host_cpuid 7 0 3
                ||| (sample_env_tsx_broken.tdx_cpuid_lookup 2).tdx_fixed1)
              &&& not32 (sample_env_tsx_broken.tdx_cpuid_lookup 2).tdx_fixed0)
            ||| tdx_cap_cpuid_config qemuCpuDefs sample_env_tsx_broken.tdx_caps 7 0 3)
          &&& not32 ((sample_env_tsx_broken.tdx_cpuid_lookup 2).vmm_fixup &&& not32 0xFFFFFFFF))
          &&& not32 (corrections_mask qemuCpuDefs sample_env_tsx_broken 7 0 3) :=
  ⟨by decide, by decide,
    (tdx_get_supported_cpuid_formula qemuCpuDefs sample_env_tsx_broken 7 0 3 0xFFFFFFFF 2
      (by decide) (by decide) (by decide)).2⟩

/-! ### Saving the quote tasks in flight -/

/-- Writing entry `i` of an array and keeping its first `i + 1` entries. -/
theorem take_succ_set {α : Type} (x : α) :
    ∀ (l : List α) (i : Nat), i < l.length → (l.set i x).take (i + 1) = l.take i ++ [x] := by
  intro l
  induction l with
  | nil => intro i h; simp at h
  | cons a l ih =>
    intro i h
    cases i with
    | zero => simp
    | succ i =>
      simp only [List.length_cons, Nat.add_lt_add_iff_right] at h
      simp only [List.set_cons_succ, List.take_succ_cons, List.cons_append, ih i h]

/-- The loop of `tdx_guest_pre_save` from index `i` on, when the counter is the
number of tasks and the array has that many entries: the assertion holds at
every task, and the entries from `i` on are the tuples of the remaining tasks
in list order. -/
theorem tdx_guest_pre_save_loop_eq (n : Int) :
    ∀ (tasks : List tdx_get_quote_task) (i : Nat) (state : List TdxGetQuoteState),
      n = ((i + tasks.length : Nat) : Int) → state.length = i + tasks.length →
      tdx_guest_pre_save_loop n tasks i state
        = some (state.take i ++ tasks.map (fun task =>
            { gpa := task.gpa, buf_len := task.buf_len, apic_id := task.apic_id,
              event_notify_interrupt := task.event_notify_interrupt })) := by
  intro tasks
  induction tasks with
  | nil =>
    intro i state _ hlen
    simp only [List.length_nil, Nat.add_zero] at hlen
    simp [tdx_guest_pre_save_loop, ← hlen]
  | cons task tasks ih =>
    intro i state hn hlen
    simp only [List.length_cons] at hn hlen
    have hi : (i : Int) < n := by rw [hn]; push_cast; omega
    simp only [tdx_guest_pre_save_loop]
    rw [if_neg (by simpa using hi)]
    rw [ih (i + 1) _ (by rw [hn]; congr 1; omega) (by rw [List.length_set]; omega)]
    rw [take_succ_set _ state i (by omega)]
    simp

/-- C21: when `quote_generation_num` equals the number of tasks in flight,
`tdx_guest_pre_save` returns (neither the allocation nor the assertion aborts)
with an array of exactly that many entries, the `i`-th being the tuple
`(gpa, buf_len, apic_id, event_notify_interrupt)` of the `i`-th task in list
order, and with the task list and every other field as before;
`tdx_guest_post_save` then resets the array to empty, so that after both the
TrustDomain is as it was before the save (the array being empty then). -/
theorem tdx_guest_pre_save_post_save (tdx : TdxGuest)
    (hnum : tdx.quote_generation_num = tdx.get_quote_task_list.length) :
    ∃ saved, tdx_guest_pre_save tdx = some saved ∧
      saved.get_quote_state = tdx.get_quote_task_list.map (fun task =>
        { gpa := task.gpa, buf_len := task.buf_len, apic_id := task.apic_id,
          event_notify_interrupt := task.event_notify_interrupt }) ∧
      (saved.get_quote_state.length : Int) = tdx.quote_generation_num ∧
      saved.get_quote_task_list = tdx.get_quote_task_list ∧
      saved = { tdx with get_quote_state := saved.get_quote_state } ∧
      tdx_guest_post_save saved = { tdx with get_quote_state := [] } ∧
      (tdx.get_quote_state = [] → tdx_guest_post_save saved = tdx) := by
  have hloop := tdx_guest_pre_save_loop_eq tdx.quote_generation_num tdx.get_quote_task_list 0
    (List.replicate tdx.quote_generation_num.toNat ({} : TdxGetQuoteState))
    (by rw [hnum]; simp) (by rw [hnum]; simp)
  have hpre : tdx_guest_pre_save tdx = some { tdx with
      get_quote_state := tdx.get_quote_task_list.map (fun task =>
        { gpa := task.gpa, buf_len := task.buf_len, apic_id := task.apic_id,
          event_notify_interrupt := task.event_notify_interrupt }) } := by
    unfold tdx_guest_pre_save
    rw [if_neg (by rw [hnum]; omega)]
    simp only [hloop, Option.map_some', List.take_zero, List.nil_append]
  refine ⟨_, hpre, rfl, ?_, rfl, rfl, rfl, ?_⟩
  · simp [hnum]
  · intro h
    simp only [tdx_guest_post_save]
    rw [← h]

/-- Witness of C21: a TrustDomain with two tasks in flight and the counter at
2. -/
theorem tdx_guest_pre_save_post_save_witness :
    sample_tdx_two_tasks.quote_generation_num = sample_tdx_two_tasks.get_quote_task_list.length ∧
      ∃ saved, tdx_guest_pre_save sample_tdx_two_tasks = some saved ∧
        saved.get_quote_state = sample_tdx_two_tasks.get_quote_task_list.map (fun task =>
          { gpa := task.gpa, buf_len := task.buf_len, apic_id := task.apic_id,
            event_notify_interrupt := task.event_notify_interrupt }) ∧
        (saved.get_quote_state.length : Int) = sample_tdx_two_tasks.quote_generation_num ∧
        saved.get_quote_task_list = sample_tdx_two_tasks.get_quote_task_list ∧
        saved = { sample_tdx_two_tasks with get_quote_state := saved.get_quote_state } ∧
        tdx_guest_post_save saved = { sample_tdx_two_tasks with get_quote_state := [] } ∧
        (sample_tdx_two_tasks.get_quote_state = [] →
          tdx_guest_post_save saved = sample_tdx_two_tasks) :=
  ⟨by decide, tdx_guest_pre_save_post_save sample_tdx_two_tasks (by decide)⟩

/-- The array that `tdx_guest_pre_save` builds for the sample TrustDomain: the
tuples of its two tasks, in list order. -/
theorem tdx_guest_pre_save_sample :
    (tdx_guest_pre_save sample_tdx_two_tasks).map (fun t => t.get_quote_state)
      = some [⟨0x5000, 256, 3, 40⟩, ⟨0x1000, 256, 0, 33⟩] := by
  decide

/-! ### The notification vector -/

/-- C28, the code at the failing input: for `r12 = 2^32 + 40`, which is not in
`[32, 255]`, the setup-event-notification subfunction reached through
`tdx_handle_vmcall` returns `TDG_VP_VMCALL_SUCCESS` and stores the vector 40
with the APIC id of the calling vCPU: the 64-bit register is narrowed to `int`
before the range test.  The other handlers and the TrustDomain are arbitrary. -/
theorem tdx_handle_setup_event_notify_interrupt_narrows
    (map_gpa get_quote service : TdxGuest → kvm_tdx_vmcall → TdxGuest × kvm_tdx_vmcall)
    (apic_id : Nat) (tdx : TdxGuest) :
    ¬ (32 ≤ 2 ^ 32 + 40 ∧ 2 ^ 32 + 40 ≤ 255) ∧
      (tdx_handle_vmcall map_gpa get_quote (tdx_handle_setup_event_notify_interrupt apic_id)
          service tdx
          { subfunction := TDG_VP_VMCALL_SETUP_EVENT_NOTIFY_INTERRUPT,
            in_r12 := 2 ^ 32 + 40 }).2.status_code = TDG_VP_VMCALL_SUCCESS ∧
      (tdx_handle_vmcall map_gpa get_quote (tdx_handle_setup_event_notify_interrupt apic_id)
          service tdx
          { subfunction := TDG_VP_VMCALL_SETUP_EVENT_NOTIFY_INTERRUPT,
            in_r12 := 2 ^ 32 + 40 }).1.event_notify_interrupt = 40 ∧
      (tdx_handle_vmcall map_gpa get_quote (tdx_handle_setup_event_notify_interrupt apic_id)
          service tdx
          { subfunction := TDG_VP_VMCALL_SETUP_EVENT_NOTIFY_INTERRUPT,
            in_r12 := 2 ^ 32 + 40 }).1.apic_id = apic_id := by
  refine ⟨by decide, ?_, ?_, ?_⟩ <;>
  · simp only [tdx_handle_vmcall, tdx_handle_setup_event_notify_interrupt]
    rw [if_neg (by decide), if_neg (by decide), if_neg (by decide), if_pos (by decide)]
    rw [if_pos (by decide)]
    try (show (int_of_u64 (2 ^ 32 + 40) % 256).toNat = 40; decide)

/-- The setup-event-notification subfunction looks only at the low 32 bits of
`r12`: it returns `TDG_VP_VMCALL_SUCCESS` and stores them as the vector exactly
when they are in `[32, 255]`, and otherwise leaves the status
`TDG_VP_VMCALL_INVALID_OPERAND` and the TrustDomain as it was. -/
theorem tdx_handle_setup_event_notify_interrupt_low_bits
    (map_gpa get_quote service : TdxGuest → kvm_tdx_vmcall → TdxGuest × kvm_tdx_vmcall)
    (apic_id : Nat) (tdx : TdxGuest) (r12 : Nat) :
    tdx_handle_vmcall map_gpa get_quote (tdx_handle_setup_event_notify_interrupt apic_id)
        service tdx
        { subfunction := TDG_VP_VMCALL_SETUP_EVENT_NOTIFY_INTERRUPT, in_r12 := r12 }
      = if 32 ≤ r12 % 2 ^ 32 ∧ r12 % 2 ^ 32 ≤ 255 then
          ({ tdx with event_notify_interrupt := r12 % 2 ^ 32, apic_id := apic_id },
           { subfunction := TDG_VP_VMCALL_SETUP_EVENT_NOTIFY_INTERRUPT, in_r12 := r12,
             status_code := TDG_VP_VMCALL_SUCCESS })
        else
          (tdx, { subfunction := TDG_VP_VMCALL_SETUP_EVENT_NOTIFY_INTERRUPT, in_r12 := r12,
                  status_code := TDG_VP_VMCALL_INVALID_OPERAND }) := by
  simp only [tdx_handle_vmcall, tdx_handle_setup_event_notify_interrupt]
  rw [if_neg (by decide), if_neg (by decide), if_neg (by decide), if_pos (by decide)]
  simp only [int_of_u64]
  by_cases hlt : r12 % 2 ^ 32 < 2 ^ 31
  · rw [if_pos hlt]
    by_cases h : 32 ≤ r12 % 2 ^ 32 ∧ r12 % 2 ^ 32 ≤ 255
    · rw [if_pos h, if_pos (by omega)]
      have : ((r12 % 2 ^ 32 : Nat) : Int) % 256 = ((r12 % 2 ^ 32 : Nat) : Int) := by omega
      rw [this, Int.toNat_ofNat]
    · rw [if_neg h, if_neg (by omega)]
  · rw [if_neg hlt, if_neg (by omega), if_neg (by omega)]

/-! ### Guest memory after a rejected quote request -/

/-- Counterexample to C30 as stated: with 16 requests in flight, a valid request
for the buffer at 0x1000 is rejected with `TDG_VP_VMCALL_RETRY`, and the header
at `gpa`, which held `error_code = 0` before the call, holds the in-flight mark
after it. -/
theorem __tdx_handle_get_quote_retry_memory_counterexample :
    (__tdx_handle_get_quote 0xFFFFFFFF 17 sample_world_full 0x1000 0x2000 0xFFFFFFFF 0
        (some TDG_VP_VMCALL_INVALID_OPERAND)).status_code = some TDG_VP_VMCALL_RETRY ∧
      read_quote_header sample_world_full.mem 0x1000 = some ⟨1, 0, 0, 0⟩ ∧
      read_quote_header (__tdx_handle_get_quote 0xFFFFFFFF 17 sample_world_full 0x1000 0x2000
        0xFFFFFFFF 0 (some TDG_VP_VMCALL_INVALID_OPERAND)).world.mem 0x1000
          = some ⟨1, TDX_VP_GET_QUOTE_IN_FLIGHT, 0, 0⟩ ∧
      ¬ (read_quote_header (__tdx_handle_get_quote 0xFFFFFFFF 17 sample_world_full 0x1000 0x2000
          0xFFFFFFFF 0 (some TDG_VP_VMCALL_INVALID_OPERAND)).world.mem 0x1000
            = read_quote_header sample_world_full.mem 0x1000) := by
  decide

/-- C30 (amended): a get-quote request that `__tdx_handle_get_quote` rejects
with `TDG_VP_VMCALL_RETRY` (the status on entry being another one) leaves guest
memory unchanged outside the 24-byte quote header at `gpa`; the header has been
rewritten with the in-flight mark, `error_code = TDX_VP_GET_QUOTE_IN_FLIGHT`
and `out_len = 0`, its other fields as they were read.  The TrustDomain (the
in-flight list and the counter among its fields) and the injected interrupts
are unchanged and no connection is started. -/
theorem __tdx_handle_get_quote_retry_memory (UNASSIGNED_APIC_ID ioc : Nat) (w : TdxWorld)
    (gpa buf_len apic_id event_notify_interrupt status : Nat)
    (hstatus : status ≠ TDG_VP_VMCALL_RETRY)
    (hretry : (__tdx_handle_get_quote UNASSIGNED_APIC_ID ioc w gpa buf_len apic_id
        event_notify_interrupt (some status)).status_code = some TDG_VP_VMCALL_RETRY) :
    ∃ hdr, read_quote_header w.mem gpa = some hdr ∧
      (__tdx_handle_get_quote UNASSIGNED_APIC_ID ioc w gpa buf_len apic_id
          event_notify_interrupt (some status)).world.mem
        = (address_space_write w.mem gpa
            ({ hdr with error_code := TDX_VP_GET_QUOTE_IN_FLIGHT, out_len := 0 }).bytes).2 ∧
      (∀ a, a < gpa ∨ gpa + sizeof_tdx_get_quote_header ≤ a →
        (__tdx_handle_get_quote UNASSIGNED_APIC_ID ioc w gpa buf_len apic_id
            event_notify_interrupt (some status)).world.mem.byte a = w.mem.byte a) ∧
      (__tdx_handle_get_quote UNASSIGNED_APIC_ID ioc w gpa buf_len apic_id
          event_notify_interrupt (some status)).world.tdx = w.tdx ∧
      (__tdx_handle_get_quote UNASSIGNED_APIC_ID ioc w gpa buf_len apic_id
          event_notify_interrupt (some status)).world.msi = w.msi ∧
      (__tdx_handle_get_quote UNASSIGNED_APIC_ID ioc w gpa buf_len apic_id
          event_notify_interrupt (some status)).connect_async = none := by
  have hne : some status ≠ some TDG_VP_VMCALL_RETRY := by
    intro h; exact hstatus (Option.some.inj h)
  have hne2 : some TDG_VP_VMCALL_SUCCESS ≠ some TDG_VP_VMCALL_RETRY := by decide
  have hout : ∀ (m : AddressSpace) (bs : List Nat) (a : Nat),
      bs.length = sizeof_tdx_get_quote_header →
      a < gpa ∨ gpa + sizeof_tdx_get_quote_header ≤ a →
      (address_space_write m gpa bs).2.byte a = m.byte a := by
    intro m bs a hlen ha
    simp only [address_space_write, hlen]
    rw [if_neg (by omega)]
  unfold __tdx_handle_get_quote at hretry ⊢
  unfold read_quote_header
  cases hbs : address_space_read w.mem gpa sizeof_tdx_get_quote_header with
  | none => rw [hbs] at hretry; exact absurd hretry hne
  | some bs =>
    rw [hbs] at hretry
    simp only at hretry ⊢
    by_cases hver : (tdx_get_quote_header.ofBytes bs).structure_version
        ≠ TDX_GET_QUOTE_STRUCTURE_VERSION
    · rw [if_pos hver] at hretry; exact absurd hretry hne
    rw [if_neg hver] at hretry ⊢
    by_cases h1 : (tdx_get_quote_header.ofBytes bs).error_code ≠ TDX_VP_GET_QUOTE_SUCCESS ∧
        (tdx_get_quote_header.ofBytes bs).error_code ≠ TDX_VP_GET_QUOTE_IN_FLIGHT
    · rw [if_pos h1] at hretry; exact absurd hretry hne
    rw [if_neg h1] at hretry ⊢
    by_cases h2 : (tdx_get_quote_header.ofBytes bs).out_len > 0 ∧
        (tdx_get_quote_header.ofBytes bs).out_len + sizeof_tdx_get_quote_header > buf_len
    · rw [if_pos h2] at hretry; exact absurd hretry hne
    rw [if_neg h2] at hretry ⊢
    have hhdr : ({ (if (tdx_get_quote_header.ofBytes bs).out_len > 0
          then { tdx_get_quote_header.ofBytes bs with out_len := 0 }
          else tdx_get_quote_header.ofBytes bs) with
          error_code := TDX_VP_GET_QUOTE_IN_FLIGHT } : tdx_get_quote_header)
        = { tdx_get_quote_header.ofBytes bs with
            error_code := TDX_VP_GET_QUOTE_IN_FLIGHT, out_len := 0 } := by
      by_cases ho : (tdx_get_quote_header.ofBytes bs).out_len > 0
      · rw [if_pos ho]
      · rw [if_neg ho]
        have : (tdx_get_quote_header.ofBytes bs).out_len = 0 := by omega
        simp only [← this]
    generalize (if (tdx_get_quote_header.ofBytes bs).out_len > 0
      then { tdx_get_quote_header.ofBytes bs with out_len := 0 }
      else tdx_get_quote_header.ofBytes bs) = hdr at hretry hhdr ⊢
    by_cases h3 : buf_len > TDX_GET_QUOTE_MAX_BUF_LEN ∨ hdr.in_len > TDX_GET_QUOTE_MAX_BUF_LEN ∨
        hdr.in_len > buf_len
    · rw [if_pos h3] at hretry; exact absurd hretry hne
    rw [if_neg h3] at hretry ⊢
    by_cases h4 : (address_space_write w.mem gpa
        ({ hdr with error_code := TDX_VP_GET_QUOTE_IN_FLIGHT } : tdx_get_quote_header).bytes).1
          = false
    · rw [if_pos h4] at hretry; exact absurd hretry hne
    rw [if_neg h4] at hretry ⊢
    by_cases h5 : w.tdx.quote_generation = none ∨
        w.tdx.quote_generation_num ≥ TDX_MAX_GET_QUOTE_REQUEST
    · rw [if_pos h5]
      refine ⟨_, rfl, ?_, ?_, rfl, rfl, rfl⟩
      · simp only [hhdr, Option.map_some']
      · intro a ha
        exact hout _ _ a (length_header_bytes _) ha
    · rw [if_neg h5] at hretry
      exact absurd hretry hne2

/-- Witness of C30 (amended): the valid request for the buffer at 0x1000 while 16
requests are in flight. -/
theorem __tdx_handle_get_quote_retry_memory_witness :
    TDG_VP_VMCALL_INVALID_OPERAND ≠ TDG_VP_VMCALL_RETRY ∧
      ∃ hdr, read_quote_header sample_world_full.mem 0x1000 = some hdr ∧
        (__tdx_handle_get_quote 0xFFFFFFFF 17 sample_world_full 0x1000 0x2000 0xFFFFFFFF 0
            (some TDG_VP_VMCALL_INVALID_OPERAND)).world.mem
          = (address_space_write sample_world_full.mem 0x1000
              ({ hdr with error_code := TDX_VP_GET_QUOTE_IN_FLIGHT, out_len := 0 }).bytes).2 ∧
        (∀ a, a < 0x1000 ∨ 0x1000 + sizeof_tdx_get_quote_header ≤ a →
          (__tdx_handle_get_quote 0xFFFFFFFF 17 sample_world_full 0x1000 0x2000 0xFFFFFFFF 0
              (some TDG_VP_VMCALL_INVALID_OPERAND)).world.mem.byte a
            = sample_world_full.mem.byte a) ∧
        (__tdx_handle_get_quote 0xFFFFFFFF 17 sample_world_full 0x1000 0x2000 0xFFFFFFFF 0
            (some TDG_VP_VMCALL_INVALID_OPERAND)).world.tdx = sample_world_full.tdx ∧
        (__tdx_handle_get_quote 0xFFFFFFFF 17 sample_world_full 0x1000 0x2000 0xFFFFFFFF 0
            (some TDG_VP_VMCALL_INVALID_OPERAND)).world.msi = sample_world_full.msi ∧
        (__tdx_handle_get_quote 0xFFFFFFFF 17 sample_world_full 0x1000 0x2000 0xFFFFFFFF 0
            (some TDG_VP_VMCALL_INVALID_OPERAND)).connect_async = none :=
  ⟨by decide,
    __tdx_handle_get_quote_retry_memory 0xFFFFFFFF 17 sample_world_full 0x1000 0x2000 0xFFFFFFFF 0
      TDG_VP_VMCALL_INVALID_OPERAND (by decide) (by decide)⟩

/-! ### The payload of a quote request and the guest buffer -/

/-- A read of guest memory fails when a byte of the range is not mapped. -/
theorem address_space_read_unmapped (as : AddressSpace) :
    ∀ (len addr k : Nat), k < len → as.byte (addr + k) = none →
      address_space_read as addr len = none := by
  intro len
  induction len with
  | zero => intro addr k hk; omega
  | succ len ih =>
    intro addr k hk hb
    cases k with
    | zero =>
      simp only [Nat.add_zero] at hb
      simp only [address_space_read, hb]
    | succ k =>
      have := ih (addr + 1) k (by omega) (by rw [← hb]; congr 1; omega)
      simp only [address_space_read, this]
      cases as.byte addr <;> rfl

/-- A write to guest memory unmaps nothing. -/
theorem address_space_write_mapped (as : AddressSpace) (addr : Nat) (buf : List Nat) (a : Nat)
    (h : (as.byte a).isSome = true) : ((address_space_write as addr buf).2.byte a).isSome = true := by
  simp only [address_space_write]
  split_ifs
  · rfl
  · exact h

/-- A get-quote request unmaps nothing of guest memory. -/
theorem __tdx_handle_get_quote_mapped (UNASSIGNED_APIC_ID ioc : Nat) (w : TdxWorld)
    (gpa buf_len apic_id event_notify_interrupt : Nat) (vmcall : Option Nat) (a : Nat)
    (h : (w.mem.byte a).isSome = true) :
    ((__tdx_handle_get_quote UNASSIGNED_APIC_ID ioc w gpa buf_len apic_id
        event_notify_interrupt vmcall).world.mem.byte a).isSome = true := by
  unfold __tdx_handle_get_quote
  cases address_space_read w.mem gpa sizeof_tdx_get_quote_header with
  | none => exact h
  | some bs =>
    simp only
    split_ifs <;> first | exact h | exact address_space_write_mapped _ _ _ _ h

/-- The byte that a successful `tdx_get_quote_read` leaves at an address of the
response payload range `[gpa + 24, gpa + 24 + out_len)`. -/
theorem tdx_get_quote_read_finish_payload_byte (w : TdxWorld) (t : tdx_get_quote_task) (a : Nat)
    (hfit : ¬ (t.out_len > 0 ∧ t.out_len > t.buf_len))
    (ha1 : t.gpa + sizeof_tdx_get_quote_header ≤ a)
    (ha2 : a < t.gpa + sizeof_tdx_get_quote_header + (t.out_data.take t.out_len).length)
    (hwr : w.mem.writable a = true) :
    (tdx_get_quote_read_finish w t false).mem.byte a
      = some ((t.out_data.take t.out_len).getD (a - (t.gpa + sizeof_tdx_get_quote_header)) 0) := by
  have hout : ∀ (m : AddressSpace) (bs : List Nat),
      bs.length = sizeof_tdx_get_quote_header →
      (address_space_write m t.gpa bs).2.byte a = m.byte a := by
    intro m bs hlen
    simp only [address_space_write, hlen]
    rw [if_neg (by omega)]
  have hpay : (address_space_write w.mem (t.gpa + sizeof_tdx_get_quote_header)
      (t.out_data.take t.out_len)).2.byte a
        = some ((t.out_data.take t.out_len).getD (a - (t.gpa + sizeof_tdx_get_quote_header)) 0) := by
    simp only [address_space_write]
    rw [if_pos ⟨ha1, ha2, hwr⟩]
  unfold tdx_get_quote_read_finish
  rw [if_neg (by simp), if_neg hfit]
  simp only
  split_ifs <;>
  · simp only [tdx_getquote_task_cleanup]
    rw [hout _ _ (length_header_bytes _)]
    exact hpay

/-- C27, the code at a failing input, the command payload: a guest asks for a
quote with the 4096-byte buffer `[0x1000, 0x2000)`, all of it mapped, and a
header that declares `in_len = 4096`.  The request is admitted
(`in_len <= buf_len`), and `tdx_handle_get_quote_connected` then reads the
4096 bytes of the payload at `gpa + 24`, up to `gpa + buf_len + 24`: the read
fails on the unmapped byte at `gpa + buf_len`, outside the buffer, and the task
is completed with an error. -/
theorem quote_payload_read_outside_buffer :
    sample_page_request.status_code = some TDG_VP_VMCALL_SUCCESS ∧
      ∃ t, sample_page_request.connect_async = some t ∧
        t.gpa = 0x1000 ∧ t.buf_len = 4096 ∧ t.hdr.in_len = 4096 ∧
        (∀ a, t.gpa ≤ a → a < t.gpa + t.buf_len →
          (sample_page_request.world.mem.byte a).isSome = true) ∧
        sample_page_request.world.mem.byte (t.gpa + t.buf_len) = none ∧
        address_space_read sample_page_request.world.mem
          (t.gpa + sizeof_tdx_get_quote_header) t.hdr.in_len = none ∧
        ∃ w, tdx_handle_get_quote_connected sample_page_request.world t false true true
          = QuoteReadExit.completed w := by
  have hadm : sample_page_request.connect_async.map (fun t => (t.gpa, t.buf_len, t.hdr.in_len))
      = some (0x1000, 4096, 4096) := by decide
  obtain ⟨t, ht, hf⟩ := Option.map_eq_some'.mp hadm
  simp only [Prod.mk.injEq] at hf
  obtain ⟨h1, h2, h3⟩ := hf
  have hb : sample_page_request.world.mem.byte 0x2000 = none := by decide
  have hread : address_space_read sample_page_request.world.mem
      (t.gpa + sizeof_tdx_get_quote_header) t.hdr.in_len = none := by
    rw [h1, h3]
    exact address_space_read_unmapped _ _ _ 4072 (by norm_num) hb
  refine ⟨by decide, t, ht, h1, h2, h3, ?_, by rw [h1, h2]; exact hb, hread, ?_⟩
  · intro a ha1 ha2
    rw [h1] at ha1 ha2
    rw [h2] at ha2
    unfold sample_page_request tdx_handle_get_quote
    simp only
    rw [if_neg (by decide), if_neg (by decide)]
    apply __tdx_handle_get_quote_mapped
    simp only [sample_world_one_page, sample_mem_one_page]
    rw [if_pos ⟨ha1, by omega⟩]
    rfl
  · unfold tdx_handle_get_quote_connected
    simp only
    rw [if_neg (by simp), if_neg (by simp)]
    have hread' : address_space_read sample_page_request.world.mem
        (t.gpa + sizeof_tdx_get_quote_header)
        ({ t.hdr with error_code := TDX_VP_GET_QUOTE_ERROR } : tdx_get_quote_header).in_len
          = none := hread
    rw [hread']
    exact ⟨_, rfl⟩

/-- A chunk that fills an empty buffer from its start replaces its contents. -/
theorem store_at_replicate (n x y : Nat) :
    store_at (List.replicate n x) 0 (List.replicate n y) = List.replicate n y := by
  simp [store_at]

/-- An entry of the first `n` bytes of a buffer of `n` equal bytes. -/
theorem getD_take_replicate (n k y : Nat) (h : k < n) :
    ((List.replicate n y).take n).getD k 0 = y := by
  simp [List.getD_eq_getElem?_getD, List.getElem?_replicate, h]

/-- C27, the code at a failing input, the response payload: the quote service
answers the task with the 4096-byte buffer `[0x1000, 0x2000)` with 4096 bytes
of value 7 and closes.  The response fits the test `out_len <= buf_len`, and
`tdx_get_quote_read` writes it at `gpa + 24`: the byte at `gpa + buf_len`,
outside the buffer, was 0 and is 7 afterwards. -/
theorem quote_payload_write_outside_buffer :
    sample_task_page.gpa + sample_task_page.buf_len = 0x2000 ∧
      sample_world_page.mem.byte 0x2000 = some 0 ∧
      (tdx_get_quote_read sample_world_page sample_task_page
          [ChannelRead.data (List.replicate 4096 7), ChannelRead.data []]).world?.bind
          (fun w => w.mem.byte 0x2000) = some 7 := by
  refine ⟨by decide, by decide, ?_⟩
  have hc := tdx_get_quote_read_chunks sample_world_page [] [List.replicate 4096 7]
    sample_task_page (fun c hc => by
      rw [List.mem_singleton.mp hc]
      exact List.ne_nil_of_length_pos (by rw [List.length_replicate]; norm_num))
  simp only [List.map_cons, List.map_nil, List.cons_append, List.nil_append, List.foldl_cons,
    List.foldl_nil] at hc
  rw [hc]
  simp only [QuoteReadExit.world?, Option.some_bind]
  have hlen : (sample_task_page.receive (List.replicate 4096 7)).out_len = 4096 := by
    simp only [tdx_get_quote_task.receive, sample_task_page, List.length_replicate]
    decide
  have hdata : (sample_task_page.receive (List.replicate 4096 7)).out_data
      = List.replicate 4096 7 := by
    simp only [tdx_get_quote_task.receive, sample_task_page]
    rw [if_pos (by decide)]
    exact store_at_replicate 4096 0 7
  have hgpa : (sample_task_page.receive (List.replicate 4096 7)).gpa = 0x1000 := rfl
  have hbuf : (sample_task_page.receive (List.replicate 4096 7)).buf_len = 4096 := rfl
  rw [tdx_get_quote_read_finish_payload_byte sample_world_page _ 0x2000
    (by rw [hlen, hbuf]; decide) (by rw [hgpa]; decide)
    (by rw [hlen, hdata, hgpa, List.length_take, List.length_replicate]; decide)
    (by decide)]
  rw [hlen, hdata, hgpa]
  rw [getD_take_replicate 4096 _ 7 (by decide)]

/-! ### Capability discovery -/

/-- C26, the code at the failing input: with `KVM_MAX_CPUID_ENTRIES = 256`, a
platform-level query that is not supported (`-EINVAL`) and VM-level queries
that all report the buffer too small (`-E2BIG`), `get_tdx_capabilities` issues
VM-level queries with 6, 12, 24, 48, 96, 192 and then 384 entries before it
terminates the process: the VM-level loop tests the bound before it doubles the
count, so the query with 384 entries exceeds the bound of 256. -/
theorem get_tdx_capabilities_vm_exceeds_bound :
    get_tdx_capabilities 256 (fun _ => -EINVAL) (fun _ => -E2BIG) 16
        = some ⟨true, none, [6], [6, 12, 24, 48, 96, 192, 384]⟩ ∧
      (384 : Int) > 256 := by
  decide

/-- On the platform level the bound is tested after the doubling: when every
platform-level query reports the buffer too small, the queries have 6, 12, 24,
48, 96 and 192 entries, and the process terminates without a query of 384. -/
theorem get_tdx_capabilities_platform_within_bound :
    get_tdx_capabilities 256 (fun _ => -E2BIG) (fun _ => -E2BIG) 16
        = some ⟨true, none, [6, 12, 24, 48, 96, 192], []⟩ := by
  decide

/-- The platform-level loop ends within `KVM_MAX_CPUID_ENTRIES + 1 - nr` turns
after the next one, whatever the queries return: a turn that goes on has
doubled the entry count within the bound. -/
theorem get_tdx_capabilities_platform_loop_terminates (M : Int) (results : Nat → Int) :
    ∀ (fuel : Nat) (nr : Int) (k : Nat) (queries : List Int),
      1 ≤ nr → (M + 1 - nr).toNat + 1 ≤ fuel →
      (get_tdx_capabilities_platform_loop M results fuel nr k queries).isSome = true := by
  intro fuel
  induction fuel with
  | zero => intro nr k queries _ h; omega
  | succ fuel ih =>
    intro nr k queries hnr hfuel
    simp only [get_tdx_capabilities_platform_loop]
    split_ifs with h1 h2 h3 h4
    · rfl
    · rfl
    · exact ih (nr * 2) (k + 1) _ (by omega) (by omega)
    · rfl
    · rfl

/-- The VM-level loop ends within `KVM_MAX_CPUID_ENTRIES + 1 - nr` turns after
the next one, whatever the queries return. -/
theorem get_tdx_capabilities_vm_loop_terminates (M : Int) (results : Nat → Int) :
    ∀ (fuel : Nat) (nr : Int) (k : Nat) (queries : List Int),
      1 ≤ nr → (M + 1 - nr).toNat + 1 ≤ fuel →
      (get_tdx_capabilities_vm_loop M results fuel nr k queries).isSome = true := by
  intro fuel
  induction fuel with
  | zero => intro nr k queries _ h; omega
  | succ fuel ih =>
    intro nr k queries hnr hfuel
    simp only [get_tdx_capabilities_vm_loop]
    split_ifs with h1 h2 h3
    · rfl
    · exact ih (nr * 2) (k + 1) _ (by omega) (by omega)
    · rfl
    · rfl

/-- The procedure always terminates: for every bound and every sequence of
results, `KVM_MAX_CPUID_ENTRIES + 1` turns of each loop are enough for
`get_tdx_capabilities` to return or to end the process. -/
theorem get_tdx_capabilities_terminates (M : Int) (platform vm : Nat → Int) (fuel : Nat)
    (hfuel : M.toNat + 1 ≤ fuel) :
    (get_tdx_capabilities M platform vm fuel).isSome = true := by
  have h1 := get_tdx_capabilities_platform_loop_terminates M platform fuel 6 0 []
    (by norm_num) (by omega)
  have h2 := get_tdx_capabilities_vm_loop_terminates M vm fuel 6 0 [] (by norm_num) (by omega)
  unfold get_tdx_capabilities
  cases hp : get_tdx_capabilities_platform_loop M platform fuel 6 0 [] with
  | none => rw [hp] at h1; simp at h1
  | some p =>
    obtain ⟨e, queries⟩ := p
    cases e with
    | done nr => rfl
    | exit => rfl
    | einval =>
      simp only
      cases hv : get_tdx_capabilities_vm_loop M vm fuel 6 0 [] with
      | none => rw [hv] at h2; simp at h2
      | some v =>
        obtain ⟨e', vm_queries⟩ := v
        cases e' <;> rfl

/-- The platform-level loop keeps to the bound: for every sequence of results,
the first query has the entry count it starts with and every later query has
an entry count within `KVM_MAX_CPUID_ENTRIES`. -/
theorem get_tdx_capabilities_platform_loop_bound (M : Int) (results : Nat → Int) :
    ∀ (fuel : Nat) (nr : Int) (k : Nat) (queries : List Int) (e : CapsLoopExit)
      (out : List Int),
      get_tdx_capabilities_platform_loop M results fuel nr k queries = some (e, out) →
      ∃ later, out = queries ++ nr :: later ∧ ∀ q ∈ later, q ≤ M := by
  intro fuel
  induction fuel with
  | zero => intro nr k queries e out h; simp [get_tdx_capabilities_platform_loop] at h
  | succ fuel ih =>
    intro nr k queries e out h
    simp only [get_tdx_capabilities_platform_loop] at h
    split_ifs at h with h1 h2 h3 h4
    · simp only [Option.some.injEq, Prod.mk.injEq] at h
      exact ⟨[], by rw [← h.2], by simp⟩
    · simp only [Option.some.injEq, Prod.mk.injEq] at h
      exact ⟨[], by rw [← h.2], by simp⟩
    · obtain ⟨later, hout, hle⟩ := ih _ _ _ _ _ h
      refine ⟨nr * 2 :: later, by rw [hout]; simp, ?_⟩
      intro q hq
      rcases List.mem_cons.mp hq with rfl | hq
      · omega
      · exact hle q hq
    · simp only [Option.some.injEq, Prod.mk.injEq] at h
      exact ⟨[], by rw [← h.2], by simp⟩
    · simp only [Option.some.injEq, Prod.mk.injEq] at h
      exact ⟨[], by rw [← h.2], by simp⟩

/-! ### Finalisation of the TrustDomain -/

theorem testBit_not64 (x i : Nat) :
    (not64 x).testBit i = (decide (i < 64) && !x.testBit i) := by
  unfold not64
  rw [Nat.testBit_xor, Nat.testBit_two_pow_sub_one, Nat.testBit_mod_two_pow]
  cases x.testBit i <;> cases decide (i < 64) <;> rfl

/-- The first loop of `tdx_disallow_minus_bits` adds to `ret` the dependent bits
of the entries whose target is the word `w`. -/
theorem testBit_disallow_minus_bits_deps (w : FeatureWord) (j : Nat) :
    ∀ (ds : List FeatureDep) (ret : Nat),
      (tdx_disallow_minus_bits_deps w ds ret).testBit j
        = (ret.testBit j || ds.any (fun d => decide (d.to_.index = w) && d.to_.mask.testBit j)) := by
  intro ds
  induction ds with
  | nil => intro ret; simp [tdx_disallow_minus_bits_deps]
  | cons d ds ih =>
    intro ret
    simp only [tdx_disallow_minus_bits_deps, List.any_cons]
    by_cases h : w = d.to_.index
    · rw [if_pos h, ih, Nat.testBit_or]
      simp [h, Bool.or_assoc]
    · rw [if_neg h, ih]
      have : ¬ d.to_.index = w := fun e => h e.symm
      simp [this]

/-- The second loop of `tdx_disallow_minus_bits` removes from `ret` the bits of
the representatives that belong to the word `w`. -/
theorem testBit_disallow_minus_bits_repr (w : FeatureWord) (j : Nat) :
    ∀ (fms : List FeatureMask) (ret : Nat),
      (tdx_disallow_minus_bits_repr w fms ret).testBit j
        = (ret.testBit j &&
            fms.all (fun fm => !decide (fm.index = w) || (decide (j < 64) && !fm.mask.testBit j))) := by
  intro fms
  induction fms with
  | nil => intro ret; simp [tdx_disallow_minus_bits_repr]
  | cons fm fms ih =>
    intro ret
    simp only [tdx_disallow_minus_bits_repr, List.all_cons]
    by_cases h : w = fm.index
    · rw [if_pos h, ih, Nat.testBit_and, testBit_not64]
      simp [h, Bool.and_assoc]
    · rw [if_neg h, ih]
      have : ¬ fm.index = w := fun e => h e.symm
      simp [this]

/-- C24: for every feature word `w` of `feature_word_info[]` that is not an MSR
word: if `tdx_cpuid_lookup` marks `w` as induced, `tdx_disallow_minus_bits(w)`
is 0; otherwise the result contains every `tdx_fixed1` bit of `w` and every bit
of `w` that is the target of an XFAM dependency, unless the bit is an XFAM
representative bit of `w`, and it contains no XFAM representative bit of `w`.
When no `tdx_fixed1` bit of `w` is a representative bit, as in the initialiser
of the table and in what `update_tdx_cpuid_lookup_by_tdx_caps` makes of it, the
result so contains every `tdx_fixed1` bit of `w`. -/
theorem tdx_disallow_minus_bits_spec (X : XfamDefs) (E : CpuidEnv) (w : FeatureWord)
    (wi : FeatureWordInfo)
    (hw : E.feature_word_info[w]? = some wi)
    (htype : wi.type ≠ FeatureWordType.MSR_FEATURE_WORD) :
    ((E.tdx_cpuid_lookup w).inducing_ve = true → tdx_disallow_minus_bits X E w = 0) ∧
    ((E.tdx_cpuid_lookup w).inducing_ve = false →
      (∀ j, j < 64 → (E.tdx_cpuid_lookup w).tdx_fixed1.testBit j = true →
        ¬ xfam_representative_bit X w j → (tdx_disallow_minus_bits X E w).testBit j = true) ∧
      (∀ j, j < 64 → xfam_dependency_target X w j →
        ¬ xfam_representative_bit X w j → (tdx_disallow_minus_bits X E w).testBit j = true) ∧
      (∀ j, xfam_representative_bit X w j → (tdx_disallow_minus_bits X E w).testBit j = false) ∧
      ((∀ j, (E.tdx_cpuid_lookup w).tdx_fixed1.testBit j = true →
          ¬ xfam_representative_bit X w j) →
        ∀ j, j < 64 → (E.tdx_cpuid_lookup w).tdx_fixed1.testBit j = true →
          (tdx_disallow_minus_bits X E w).testBit j = true)) := by
  have hmsr : ¬ ((E.feature_word_info[w]?).map (fun wi => wi.type)
      = some FeatureWordType.MSR_FEATURE_WORD) := by
    rw [hw]
    simpa using htype
  have hrepr : ∀ j, ¬ xfam_representative_bit X w j → j < 64 →
      (tdx_xfam_representative X).all
        (fun fm => !decide (fm.index = w) || (decide (j < 64) && !fm.mask.testBit j)) = true := by
    intro j hn hj
    rw [List.all_eq_true]
    intro fm hfm
    by_cases hi : fm.index = w
    · have : fm.mask.testBit j = false := by
        by_contra hb
        exact hn ⟨fm, hfm, hi, by simpa using hb⟩
      simp [hi, hj, this]
    · simp [hi]
  have hbit : ∀ j, (E.tdx_cpuid_lookup w).inducing_ve = false →
      (tdx_disallow_minus_bits X E w).testBit j
        = (((E.tdx_cpuid_lookup w).tdx_fixed1.testBit j ||
            (xfam_dependencies X).any
              (fun d => decide (d.to_.index = w) && d.to_.mask.testBit j)) &&
          (tdx_xfam_representative X).all
            (fun fm => !decide (fm.index = w) || (decide (j < 64) && !fm.mask.testBit j))) := by
    intro j hve
    unfold tdx_disallow_minus_bits
    rw [if_neg hmsr, if_neg (by simp [hve])]
    simp only [testBit_disallow_minus_bits_repr, testBit_disallow_minus_bits_deps]
  have hfix : (E.tdx_cpuid_lookup w).inducing_ve = false →
      ∀ j, j < 64 → (E.tdx_cpuid_lookup w).tdx_fixed1.testBit j = true →
        ¬ xfam_representative_bit X w j → (tdx_disallow_minus_bits X E w).testBit j = true := by
    intro hve j hj hf hn
    rw [hbit j hve, hf, hrepr j hn hj]
    rfl
  refine ⟨?_, fun hve => ⟨hfix hve, ?_, ?_, ?_⟩⟩
  · intro hve
    unfold tdx_disallow_minus_bits
    rw [if_neg hmsr, if_pos hve]
  · intro j hj ⟨d, hd, hdi, hdm⟩ hn
    rw [hbit j hve, hrepr j hn hj]
    have : (xfam_dependencies X).any
        (fun d => decide (d.to_.index = w) && d.to_.mask.testBit j) = true := by
      rw [List.any_eq_true]
      exact ⟨d, hd, by simp [hdi, hdm]⟩
    rw [this]
    simp
  · intro j ⟨fm, hfm, hi, hm⟩
    rw [hbit j hve]
    have : (tdx_xfam_representative X).all
        (fun fm => !decide (fm.index = w) || (decide (j < 64) && !fm.mask.testBit j)) = false := by
      rw [List.all_eq_false]
      exact ⟨fm, hfm, by simp [hi, hm]⟩
    rw [this]
    simp
  · intro hdisj j hj hf
    exact hfix hve j hj hf (hdisj j hf)

/-- Witness of C24: the word `FEAT_7_0_ECX` of the sample tables, a CPUID word
that is not induced. -/
theorem tdx_disallow_minus_bits_spec_witness :
    sample_xfam_env.feature_word_info[3]?
        = some ⟨FeatureWordType.CPUID_FEATURE_WORD, ⟨7, true, 0, 1⟩⟩ ∧
    ((sample_xfam_env.tdx_cpuid_lookup 3).inducing_ve = true →
      tdx_disallow_minus_bits sample_xfam_defs sample_xfam_env 3 = 0) ∧
    ((sample_xfam_env.tdx_cpuid_lookup 3).inducing_ve = false →
      (∀ j, j < 64 → (sample_xfam_env.tdx_cpuid_lookup 3).tdx_fixed1.testBit j = true →
        ¬ xfam_representative_bit sample_xfam_defs 3 j →
        (tdx_disallow_minus_bits sample_xfam_defs sample_xfam_env 3).testBit j = true) ∧
      (∀ j, j < 64 → xfam_dependency_target sample_xfam_defs 3 j →
        ¬ xfam_representative_bit sample_xfam_defs 3 j →
        (tdx_disallow_minus_bits sample_xfam_defs sample_xfam_env 3).testBit j = true) ∧
      (∀ j, xfam_representative_bit sample_xfam_defs 3 j →
        (tdx_disallow_minus_bits sample_xfam_defs sample_xfam_env 3).testBit j = false) ∧
      ((∀ j, (sample_xfam_env.tdx_cpuid_lookup 3).tdx_fixed1.testBit j = true →
          ¬ xfam_representative_bit sample_xfam_defs 3 j) →
        ∀ j, j < 64 → (sample_xfam_env.tdx_cpuid_lookup 3).tdx_fixed1.testBit j = true →
          (tdx_disallow_minus_bits sample_xfam_defs sample_xfam_env 3).testBit j = true)) :=
  ⟨by decide,
    tdx_disallow_minus_bits_spec sample_xfam_defs sample_xfam_env 3
      ⟨FeatureWordType.CPUID_FEATURE_WORD, ⟨7, true, 0, 1⟩⟩ (by decide) (by decide)⟩

/-- The values of `tdx_disallow_minus_bits` on the sample tables.  For
`FEAT_7_0_ECX` they are the fixed1 bits MOVDIR64B and BUS_LOCK_DETECT and the
dependent bits AVX512_VBMI, AVX512_VBMI2, VAES, VPCLMULQDQ, AVX512VNNI,
AVX512BITALG and AVX512_VPOPCNTDQ, without the representatives PKU and
CET_SHSTK; for `FEAT_1_ECX` the fixed1 bits with FMA and F16C, without the
representative AVX. -/
theorem tdx_disallow_minus_bits_sample :
    tdx_disallow_minus_bits sample_xfam_defs sample_xfam_env 3
        = 2 ^ 28 ||| 2 ^ 24 ||| 2 ^ 1 ||| 2 ^ 6 ||| 2 ^ 9 ||| 2 ^ 10 ||| 2 ^ 11 ||| 2 ^ 12
          ||| 2 ^ 14 ∧
      tdx_disallow_minus_bits sample_xfam_defs sample_xfam_env 1
        = (sample_xfam_env.tdx_cpuid_lookup 1).tdx_fixed1 ||| 2 ^ 12 ||| 2 ^ 29 := by
  decide

/-- In the initialiser of `tdx_cpuid_lookup`, no `tdx_fixed1` bit of the four
words that have XFAM representatives is a representative bit. -/
theorem sample_fixed1_not_representative :
    ∀ w ∈ [1, 2, 3, 4], ∀ fm ∈ tdx_xfam_representative sample_xfam_defs,
      fm.index = w → (sample_xfam_env.tdx_cpuid_lookup w).tdx_fixed1 &&& fm.mask = 0 := by
  decide

/-! ### The XFAM dependencies -/

/-- Two words have no common bit exactly when their conjunction is zero. -/
theorem and_eq_zero_iff_testBit (x m : Nat) :
    x &&& m = 0 ↔ ∀ j, ¬ (x.testBit j = true ∧ m.testBit j = true) := by
  constructor
  · intro h j ⟨hx, hm⟩
    have := congrArg (fun v => v.testBit j) h
    simp [Nat.testBit_and, hx, hm] at this
  · intro h
    apply Nat.eq_of_testBit_eq
    intro j
    rw [Nat.testBit_and, Nat.zero_testBit]
    have := h j
    cases hx : x.testBit j <;> cases hm : m.testBit j <;> simp_all

theorem set_word_same (a : FeatureWord → Nat) (w : FeatureWord) (v : Nat) :
    set_word a w v w = v := by
  simp [set_word]

theorem set_word_other (a : FeatureWord → Nat) (w x : FeatureWord) (v : Nat) (h : x ≠ w) :
    set_word a w v x = a x := by
  simp [set_word, h]

/-- The bits of the feature words after one turn of the loop of
`tdx_apply_xfam_dependencies`: when the entry applies, its dependent bits are
cleared from its target word, and nothing else changes. -/
theorem testBit_tdx_apply_xfam_dependency (d : FeatureDep) (cpu : CpuFeatures)
    (hfeat : ∀ w j, 64 ≤ j → (cpu.features w).testBit j = false) (w : FeatureWord) (j : Nat) :
    ((tdx_apply_xfam_dependency d cpu).features w).testBit j
      = if cpu.features d.from_.index &&& d.from_.mask = 0 ∧ w = d.to_.index
        then ((cpu.features w).testBit j && !d.to_.mask.testBit j)
        else (cpu.features w).testBit j := by
  unfold tdx_apply_xfam_dependency
  by_cases ht : cpu.features d.from_.index &&& d.from_.mask = 0
  · rw [if_pos ht]
    by_cases hw : w = d.to_.index
    · rw [if_pos ⟨ht, hw⟩]
      subst hw
      have h64 : decide (j < 64) = false → (cpu.features d.to_.index).testBit j = false := by
        intro h
        exact hfeat _ j (by simpa using h)
      simp only [set_word_same]
      by_cases hf : cpu.force_features = false
      · simp only [mark_unavailable_features, hf, if_true, set_word_same, Nat.testBit_and,
          testBit_not64]
        cases hb : (cpu.features d.to_.index).testBit j <;>
          cases hm : d.to_.mask.testBit j <;>
          cases hu : (cpu.user_plus_features d.to_.index).testBit j <;>
          cases hd : decide (j < 64) <;> simp_all
      · simp only [mark_unavailable_features, hf, if_false, Nat.testBit_and, testBit_not64]
        cases hb : (cpu.features d.to_.index).testBit j <;>
          cases hm : d.to_.mask.testBit j <;>
          cases hd : decide (j < 64) <;> simp_all
    · rw [if_neg (fun h => hw h.2)]
      simp only [set_word_other _ _ _ _ hw]
      by_cases hf : cpu.force_features = false
      · simp only [mark_unavailable_features, hf, if_true, set_word_other _ _ _ _ hw]
      · have hf' : cpu.force_features = true := by simpa using hf
        simp [mark_unavailable_features, hf']
  · rw [if_neg ht, if_neg (fun h => ht h.1)]

/-- What the loop of `tdx_apply_xfam_dependencies` does over a list of entries
in which no entry clears a controlling bit of an earlier one: it only clears
bits, it leaves the bits alone that no entry has as dependent bits, and in the
result every entry without a controlling bit has no dependent bit. -/
theorem tdx_apply_xfam_dependencies_loop_spec :
    ∀ (ds : List FeatureDep) (cpu : CpuFeatures),
      (∀ w j, 64 ≤ j → (cpu.features w).testBit j = false) →
      ds.Pairwise (fun d1 d2 => ¬ d2.clears_control d1) →
      (∀ w j, ((tdx_apply_xfam_dependencies_loop ds cpu).features w).testBit j = true →
        (cpu.features w).testBit j = true) ∧
      (∀ w j, (∀ d ∈ ds, ¬ (d.to_.index = w ∧ d.to_.mask.testBit j = true)) →
        ((tdx_apply_xfam_dependencies_loop ds cpu).features w).testBit j
          = (cpu.features w).testBit j) ∧
      (∀ d ∈ ds,
        (tdx_apply_xfam_dependencies_loop ds cpu).features d.from_.index &&& d.from_.mask = 0 →
        (tdx_apply_xfam_dependencies_loop ds cpu).features d.to_.index &&& d.to_.mask = 0) := by
  intro ds
  induction ds with
  | nil =>
    intro cpu _ _
    refine ⟨fun w j h => h, fun w j _ => rfl, ?_⟩
    intro d hd
    simp at hd
  | cons d ds ih =>
    intro cpu hfeat hpw
    rw [List.pairwise_cons] at hpw
    obtain ⟨hd, hpw⟩ := hpw
    have hstep := testBit_tdx_apply_xfam_dependency d cpu hfeat
    have hmono1 : ∀ w j, ((tdx_apply_xfam_dependency d cpu).features w).testBit j = true →
        (cpu.features w).testBit j = true := by
      intro w j h
      rw [hstep] at h
      split_ifs at h
      · simp only [Bool.and_eq_true] at h
        exact h.1
      · exact h
    have hfeat1 : ∀ w j, 64 ≤ j →
        ((tdx_apply_xfam_dependency d cpu).features w).testBit j = false := by
      intro w j hj
      by_contra h
      have := hmono1 w j (by simpa using h)
      rw [hfeat w j hj] at this
      exact absurd this (by simp)
    obtain ⟨ih1, ih2, ih3⟩ := ih (tdx_apply_xfam_dependency d cpu) hfeat1 hpw
    simp only [tdx_apply_xfam_dependencies_loop]
    refine ⟨fun w j h => hmono1 w j (ih1 w j h), ?_, ?_⟩
    · intro w j hn
      rw [ih2 w j (fun d' hd' => hn d' (List.mem_cons_of_mem _ hd')), hstep]
      split_ifs with h
      · have := hn d (List.mem_cons_self _ _)
        have hm : d.to_.mask.testBit j = false := by
          by_contra hb
          exact this ⟨h.2.symm, by simpa using hb⟩
        simp [hm]
      · rfl
    · intro d' hd'
      rcases List.mem_cons.mp hd' with rfl | hmem
      · intro hout
        rw [and_eq_zero_iff_testBit] at hout
        have hfrom1 : (tdx_apply_xfam_dependency d' cpu).features d'.from_.index
            &&& d'.from_.mask = 0 := by
          rw [and_eq_zero_iff_testBit]
          intro j ⟨hx, hm⟩
          apply hout j
          refine ⟨?_, hm⟩
          rw [ih2 d'.from_.index j ?_]
          · exact hx
          · intro e he ⟨hi, hb⟩
            apply hd e he
            refine ⟨hi, ?_⟩
            intro hz
            rw [and_eq_zero_iff_testBit] at hz
            exact hz j ⟨hb, hm⟩
        by_cases ht : cpu.features d'.from_.index &&& d'.from_.mask = 0
        · rw [and_eq_zero_iff_testBit]
          intro j ⟨hx, hm⟩
          have := ih1 _ j hx
          rw [hstep, if_pos ⟨ht, rfl⟩, hm] at this
          simp at this
        · have hsame : tdx_apply_xfam_dependency d' cpu = cpu := by
            unfold tdx_apply_xfam_dependency
            rw [if_neg ht]
          rw [hsame] at hfrom1
          exact absurd hfrom1 ht
      · exact ih3 d' hmem

/-- In `xfam_dependencies` no entry clears a controlling bit of an earlier one,
the feature words being different from each other: only the first entry has a
controlling word as its target. -/
theorem xfam_dependencies_ordered (X : XfamDefs) (hX : X.words_distinct) :
    (xfam_dependencies X).Pairwise (fun d1 d2 => ¬ d2.clears_control d1) := by
  simp only [XfamDefs.words_distinct, List.nodup_cons, List.mem_cons, List.mem_singleton,
    List.not_mem_nil, not_or, not_false_eq_true, and_true, List.nodup_nil] at hX
  obtain ⟨⟨h1, h2, h3, h4, h5, h6, h7⟩, ⟨g2, g3, g4, g5, g6, g7⟩, -⟩ := hX
  have e2 : ¬ X.FEAT_1_ECX = X.FEAT_XSAVE_XCR0_LO := fun e => h2 e.symm
  have e3 : ¬ X.FEAT_7_0_EBX = X.FEAT_XSAVE_XCR0_LO := fun e => h3 e.symm
  have e4 : ¬ X.FEAT_7_0_ECX = X.FEAT_XSAVE_XCR0_LO := fun e => h4 e.symm
  have e5 : ¬ X.FEAT_7_0_EDX = X.FEAT_XSAVE_XCR0_LO := fun e => h5 e.symm
  have e6 : ¬ X.FEAT_7_1_EAX = X.FEAT_XSAVE_XCR0_LO := fun e => h6 e.symm
  have e7 : ¬ X.FEAT_14_0_ECX = X.FEAT_XSAVE_XCR0_LO := fun e => h7 e.symm
  have f2 : ¬ X.FEAT_1_ECX = X.FEAT_XSAVE_XSS_LO := fun e => g2 e.symm
  have f3 : ¬ X.FEAT_7_0_EBX = X.FEAT_XSAVE_XSS_LO := fun e => g3 e.symm
  have f4 : ¬ X.FEAT_7_0_ECX = X.FEAT_XSAVE_XSS_LO := fun e => g4 e.symm
  have f5 : ¬ X.FEAT_7_0_EDX = X.FEAT_XSAVE_XSS_LO := fun e => g5 e.symm
  have f6 : ¬ X.FEAT_7_1_EAX = X.FEAT_XSAVE_XSS_LO := fun e => g6 e.symm
  have f7 : ¬ X.FEAT_14_0_ECX = X.FEAT_XSAVE_XSS_LO := fun e => g7 e.symm
  simp only [xfam_dependencies, FeatureDep.clears_control, List.pairwise_cons, List.mem_cons,
    List.mem_singleton, List.not_mem_nil, forall_eq_or_imp, e2, e3, e4, e5, e6, e7, f2, f3, f4,
    f5, f6, f7, false_and, not_false_eq_true, and_true, and_self, IsEmpty.forall_iff,
    implies_true, List.Pairwise.nil]

/-- C25: for every array of 64-bit feature words, after
`tdx_apply_xfam_dependencies` every entry of `xfam_dependencies` whose
controlling bits are all absent in the result has none of its dependent bits
set in the result; the pass only clears bits (every word of the result is
bitwise a subset of the word before); and the bits that are the target of no
dependency, so also the words that are the target of none, are unchanged.  The
enumerators of `FeatureWord` that the table names are taken to be different
from each other. -/
theorem tdx_apply_xfam_dependencies_spec (X : XfamDefs) (cpu : CpuFeatures)
    (hX : X.words_distinct) (hfeat : ∀ w, cpu.features w < 2 ^ 64) :
    (∀ d ∈ xfam_dependencies X,
      (tdx_apply_xfam_dependencies X cpu).features d.from_.index &&& d.from_.mask = 0 →
      (tdx_apply_xfam_dependencies X cpu).features d.to_.index &&& d.to_.mask = 0) ∧
    (∀ w j, ((tdx_apply_xfam_dependencies X cpu).features w).testBit j = true →
      (cpu.features w).testBit j = true) ∧
    (∀ w j, ¬ xfam_dependency_target X w j →
      ((tdx_apply_xfam_dependencies X cpu).features w).testBit j = (cpu.features w).testBit j) ∧
    (∀ w, (∀ d ∈ xfam_dependencies X, d.to_.index ≠ w) →
      (tdx_apply_xfam_dependencies X cpu).features w = cpu.features w) := by
  have hbits : ∀ w j, 64 ≤ j → (cpu.features w).testBit j = false := by
    intro w j hj
    apply Nat.testBit_eq_false_of_lt
    calc cpu.features w < 2 ^ 64 := hfeat w
      _ ≤ 2 ^ j := Nat.pow_le_pow_right (by norm_num) hj
  obtain ⟨h1, h2, h3⟩ := tdx_apply_xfam_dependencies_loop_spec (xfam_dependencies X) cpu hbits
    (xfam_dependencies_ordered X hX)
  refine ⟨h3, h1, ?_, ?_⟩
  · intro w j hn
    exact h2 w j (fun d hd hdj => hn ⟨d, hd, hdj.1, hdj.2⟩)
  · intro w hn
    apply Nat.eq_of_testBit_eq
    intro j
    exact h2 w j (fun d hd hdj => hn d hd hdj.1)

/-- Witness of C25: the sample vCPU model, whose XCR0 has AVX-512 state without
YMM state. -/
theorem tdx_apply_xfam_dependencies_spec_witness :
    sample_xfam_defs.words_distinct ∧ (∀ w, sample_cpu_features.features w < 2 ^ 64) ∧
    ((∀ d ∈ xfam_dependencies sample_xfam_defs,
      (tdx_apply_xfam_dependencies sample_xfam_defs sample_cpu_features).features d.from_.index
          &&& d.from_.mask = 0 →
      (tdx_apply_xfam_dependencies sample_xfam_defs sample_cpu_features).features d.to_.index
          &&& d.to_.mask = 0) ∧
    (∀ w j,
      ((tdx_apply_xfam_dependencies sample_xfam_defs sample_cpu_features).features w).testBit j
        = true →
      (sample_cpu_features.features w).testBit j = true) ∧
    (∀ w j, ¬ xfam_dependency_target sample_xfam_defs w j →
      ((tdx_apply_xfam_dependencies sample_xfam_defs sample_cpu_features).features w).testBit j
        = (sample_cpu_features.features w).testBit j) ∧
    (∀ w, (∀ d ∈ xfam_dependencies sample_xfam_defs, d.to_.index ≠ w) →
      (tdx_apply_xfam_dependencies sample_xfam_defs sample_cpu_features).features w
        = sample_cpu_features.features w)) :=
  have hfeat : ∀ w, sample_cpu_features.features w < 2 ^ 64 := by
    intro w
    simp only [sample_cpu_features]
    split_ifs <;> decide
  ⟨by decide, hfeat,
    tdx_apply_xfam_dependencies_spec sample_xfam_defs sample_cpu_features (by decide) hfeat⟩

/-- The pass on the sample vCPU model: without YMM state the AVX-512 state
leaves XCR0, FMA and AVX leave leaf 1 ECX, and AVX512F, whose controlling bits
the first entry has cleared, leaves leaf 7.0 EBX; the other bits stay. -/
theorem tdx_apply_xfam_dependencies_sample :
    (tdx_apply_xfam_dependencies sample_xfam_defs sample_cpu_features).features 6
        = 2 ^ 0 ||| 2 ^ 1 ∧
      (tdx_apply_xfam_dependencies sample_xfam_defs sample_cpu_features).features 1 = 2 ^ 0 ∧
      (tdx_apply_xfam_dependencies sample_xfam_defs sample_cpu_features).features 2 = 2 ^ 3 := by
  decide

/-! ### The attribute bits in the lookup table -/

/-- C29, the code at the failing input: the capabilities permit the attribute
PKS (bit 30 of `attrs_fixed0` is set) and do not force it (bit 30 of
`attrs_fixed1` is clear), and `tdx_validate_attributes` accepts attributes with
bit 30 set.  `update_tdx_cpuid_lookup_by_tdx_caps` nevertheless puts the CPUID
bit PKS of leaf 7.0 ECX, which the initialiser leaves configurable, into
`tdx_fixed0` of its word, and `tdx_get_supported_cpuid` with the updated table
then removes PKS from a leaf in which the host and the hypervisor report it. -/
theorem update_tdx_cpuid_lookup_by_tdx_caps_pks :
    sample_attr_caps.attrs_fixed0.testBit 30 = true ∧
      sample_attr_caps.attrs_fixed1.testBit 30 = false ∧
      tdx_validate_attributes sample_attr_caps { attributes := 2 ^ 28 ||| 2 ^ 30 } = 0 ∧
      (sample_xfam_lookup sample_xfam_defs.FEAT_7_0_ECX).tdx_fixed0
          &&& qemuCpuDefs.CPUID_7_0_ECX_PKS = 0 ∧
      (update_tdx_cpuid_lookup_by_tdx_caps qemuCpuDefs sample_xfam_defs
          sample_xfam_feature_word_info sample_attr_caps sample_xfam_lookup
          sample_xfam_defs.FEAT_7_0_ECX).tdx_fixed0 &&& qemuCpuDefs.CPUID_7_0_ECX_PKS
        = qemuCpuDefs.CPUID_7_0_ECX_PKS ∧
      get_cpuid_featureword_index sample_xfam_feature_word_info 7 0 qemuCpuDefs.R_ECX
        = sample_xfam_defs.FEAT_7_0_ECX ∧
      tdx_get_supported_cpuid qemuCpuDefs
          { sample_xfam_env with
            tdx_caps := sample_attr_caps
            tdx_cpuid_lookup := update_tdx_cpuid_lookup_by_tdx_caps qemuCpuDefs sample_xfam_defs
              sample_xfam_feature_word_info sample_attr_caps sample_xfam_lookup }
          7 0 qemuCpuDefs.R_ECX qemuCpuDefs.CPUID_7_0_ECX_PKS
        &&& qemuCpuDefs.CPUID_7_0_ECX_PKS = 0 := by
  decide!

/-- The XFAM masks are mapped the other way round: a state component that the
capabilities permit (bit 9, PKRU, set in `xfam_fixed0`) is not put into
`tdx_fixed0` of the XCR0 word, and one that they do not permit (bit 17) is. -/
theorem update_tdx_cpuid_lookup_by_tdx_caps_xfam :
    (update_tdx_cpuid_lookup_by_tdx_caps qemuCpuDefs sample_xfam_defs
        sample_xfam_feature_word_info ⟨0, 0, 2 ^ 9, 0, []⟩ sample_xfam_lookup
        sample_xfam_defs.FEAT_XSAVE_XCR0_LO).tdx_fixed0 &&& (2 ^ 9 ||| 2 ^ 17) = 2 ^ 17 := by
  decide!

/-! ### The fixed bits of the lookup table after the update -/

/-- The first loop of `update_tdx_cpuid_lookup_by_tdx_caps` only removes bits
from `tdx_fixed1`. -/
theorem update_tdx_cpuid_lookup_configs_fixed1 (K : CpuDefs) (tdx_caps : KvmTdxCapabilities)
    (w j : Nat) :
    ∀ (fis : List FeatureWordInfo) (w0 : FeatureWord) (lookup : FeatureWord → KvmTdxCpuidLookup),
      (update_tdx_cpuid_lookup_configs K tdx_caps fis w0 lookup w).tdx_fixed1.testBit j = true →
      (lookup w).tdx_fixed1.testBit j = true := by
  intro fis
  induction fis with
  | nil => intro w0 lookup h; exact h
  | cons fi fis ih =>
    intro w0 lookup h
    simp only [update_tdx_cpuid_lookup_configs] at h
    by_cases ht : fi.type ≠ FeatureWordType.CPUID_FEATURE_WORD
    · rw [if_pos ht] at h
      exact ih _ _ h
    · rw [if_neg ht] at h
      have := ih _ _ h
      simp only [set_lookup] at this
      by_cases hw : w = w0
      · rw [if_pos hw] at this
        simp only [Nat.testBit_and, Bool.and_eq_true] at this
        rw [hw]
        exact this.1
      · rw [if_neg hw] at this
        exact this

/-- The second loop of `update_tdx_cpuid_lookup_by_tdx_caps` adds to
`tdx_fixed1` of a word only CPUID bits that the attribute fields of that word
control. -/
theorem update_tdx_cpuid_lookup_attrs_fixed1 (tdx_caps : KvmTdxCapabilities) (w j : Nat) :
    ∀ (fms : List FeatureMask) (i : Nat) (lookup : FeatureWord → KvmTdxCpuidLookup),
      (update_tdx_cpuid_lookup_attrs tdx_caps fms i lookup w).tdx_fixed1.testBit j = true →
      ((lookup w).tdx_fixed1 ||| attrs_ctrl_mask w fms).testBit j = true := by
  intro fms
  induction fms with
  | nil =>
    intro i lookup h
    simp only [update_tdx_cpuid_lookup_attrs] at h
    simp [attrs_ctrl_mask, h]
  | cons fm fms ih =>
    intro i lookup h
    simp only [update_tdx_cpuid_lookup_attrs] at h
    have h1 := ih _ _ h
    simp only [Nat.testBit_or, Bool.or_eq_true] at h1 ⊢
    have hmask : (attrs_ctrl_mask w fms).testBit j = true →
        (attrs_ctrl_mask w (fm :: fms)).testBit j = true := by
      intro hm
      simp only [attrs_ctrl_mask, List.filter_cons]
      split_ifs
      · simp only [List.foldr_cons, Nat.testBit_or, Bool.or_eq_true]
        exact Or.inr hm
      · exact hm
    rcases h1 with h1 | h1
    · have hL1 : ∀ x, ((if tdx_caps.attrs_fixed0 &&& 2 ^ i ≠ 0 then
            set_lookup lookup fm.index
              { lookup fm.index with
                tdx_fixed0 := ((lookup fm.index).tdx_fixed0 ||| fm.mask) % 2 ^ 32 }
          else lookup) x).tdx_fixed1 = (lookup x).tdx_fixed1 := by
        intro x
        split_ifs
        · simp only [set_lookup]
          split_ifs with hx
          · rw [hx]
          · rfl
        · rfl
      generalize (if tdx_caps.attrs_fixed0 &&& 2 ^ i ≠ 0 then
            set_lookup lookup fm.index
              { lookup fm.index with
                tdx_fixed0 := ((lookup fm.index).tdx_fixed0 ||| fm.mask) % 2 ^ 32 }
          else lookup) = L1 at h1 hL1
      have hstep : (lookup w).tdx_fixed1.testBit j = true ∨
          (w = fm.index ∧ fm.mask.testBit j = true) := by
        by_cases hw : w = fm.index
        · subst hw
          split_ifs at h1
          · simp only [set_lookup, ↓reduceIte, Nat.testBit_mod_two_pow, Nat.testBit_or,
              Bool.and_eq_true, Bool.or_eq_true] at h1
            rcases h1.2 with h | h
            · exact Or.inl (by rw [← hL1]; exact h)
            · exact Or.inr ⟨rfl, h⟩
          · exact Or.inl (by rw [← hL1]; exact h1)
        · split_ifs at h1
          · simp only [set_lookup, if_neg hw] at h1
            exact Or.inl (by rw [← hL1]; exact h1)
          · exact Or.inl (by rw [← hL1]; exact h1)
      rcases hstep with h | ⟨hw, hm⟩
      · exact Or.inl h
      · right
        simp only [attrs_ctrl_mask, List.filter_cons]
        rw [if_pos (by simp [hw])]
        simp only [List.foldr_cons, Nat.testBit_or, Bool.or_eq_true]
        exact Or.inl hm
    · exact Or.inr (hmask h1)

/-- The end of `update_tdx_cpuid_lookup_by_tdx_caps` leaves the entries of the
words other than the four XSAVE words as they are. -/
theorem update_tdx_cpuid_lookup_xfam_other (X : XfamDefs) (tdx_caps : KvmTdxCapabilities)
    (lookup : FeatureWord → KvmTdxCpuidLookup) (w : FeatureWord)
    (h1 : w ≠ X.FEAT_XSAVE_XCR0_LO) (h2 : w ≠ X.FEAT_XSAVE_XCR0_HI)
    (h3 : w ≠ X.FEAT_XSAVE_XSS_LO) (h4 : w ≠ X.FEAT_XSAVE_XSS_HI) :
    update_tdx_cpuid_lookup_xfam X tdx_caps lookup w = lookup w := by
  simp only [update_tdx_cpuid_lookup_xfam, set_lookup, if_neg h1, if_neg h2, if_neg h3, if_neg h4]

/-- For every capability descriptor, in the table that
`update_tdx_cpuid_lookup_by_tdx_caps` makes of the initialiser no `tdx_fixed1`
bit of the four words that have XFAM representatives is a representative bit:
the update only removes bits from `tdx_fixed1` of these words or adds the bits
PKS and KeyLocker. -/
theorem update_tdx_cpuid_lookup_fixed1_not_representative (tdx_caps : KvmTdxCapabilities) :
    ∀ w ∈ [1, 2, 3, 4], ∀ fm ∈ tdx_xfam_representative sample_xfam_defs, fm.index = w →
      (update_tdx_cpuid_lookup_by_tdx_caps qemuCpuDefs sample_xfam_defs
        sample_xfam_feature_word_info tdx_caps sample_xfam_lookup w).tdx_fixed1 &&& fm.mask = 0 := by
  have hstatic : ∀ w ∈ [1, 2, 3, 4], ∀ fm ∈ tdx_xfam_representative sample_xfam_defs,
      fm.index = w →
      ((sample_xfam_lookup w).tdx_fixed1
        ||| attrs_ctrl_mask w (tdx_attrs_ctrl_fields qemuCpuDefs sample_xfam_defs))
          &&& fm.mask = 0 := by
    decide
  intro w hw fm hfm hi
  have hs := hstatic w hw fm hfm hi
  rw [and_eq_zero_iff_testBit] at hs ⊢
  intro j ⟨hx, hm⟩
  apply hs j
  refine ⟨?_, hm⟩
  unfold update_tdx_cpuid_lookup_by_tdx_caps at hx
  rw [update_tdx_cpuid_lookup_xfam_other] at hx
  · have h2 := update_tdx_cpuid_lookup_attrs_fixed1 tdx_caps w j _ _ _ hx
    simp only [Nat.testBit_or, Bool.or_eq_true] at h2 ⊢
    rcases h2 with h2 | h2
    · exact Or.inl (update_tdx_cpuid_lookup_configs_fixed1 qemuCpuDefs tdx_caps w j _ _ _ h2)
    · exact Or.inr h2
  all_goals
    simp only [List.mem_cons, List.mem_singleton, List.not_mem_nil, or_false] at hw
    rcases hw with rfl | rfl | rfl | rfl <;> decide

end Tdx
